import Mathlib

/-!
# Azure Kinect samples: frame-resource lifecycle, tick order and visualisation

A shallow embedding of the sample programs under `sample/c` and `sample/cpp`.

Every sample is a class `kinect` whose member functions call the Azure Kinect
SDK, the body-tracking SDK and OpenCV.  Those libraries are external to the
repository.  Each call to them is recorded as an `Event` in a trace, and each
value they return is read from a scripted reply (`Env` for start-up, `Tick` for
one iteration of the main loop).  The member functions themselves are
translated statement by statement as functions on the sample's `State`, which
has one field per data member of the class.

Handles are reference tokens: every SDK call that hands out a reference
(a capture, an image, a body frame) yields a token that was never used before,
and a null handle is `none`.  Releasing a handle does not change the variable
that holds it, exactly as in C.

What is taken from the libraries and the language, not from the repository:

* an SDK call that does not succeed leaves the variable it would have written
  as it was;
* the explicit destructor call `this->~kinect()` runs the destructor (its body,
  then the destruction of the members) and execution goes on with the next
  statement;
* `std::exit` ends the process without destroying the objects of `main`;
* an exception leaves every function up to the handler in `main`, and the
  object constructed in the `try` block is destroyed on the way unless its
  constructor threw;
* an exception that leaves a destructor ends the process through
  `std::terminate`;
* the member functions of the SDK wrapper classes of the C++ samples
  (`k4a::device`, `k4a::capture`, `k4a::image`, `k4a::record`, ...) call nothing
  on an empty wrapper and throw when the SDK call inside them failed;
* `cv::Mat::convertTo` and `cv::addWeighted` with an 8-bit result compute
  `saturate_cast<uchar>( cvRound( v ) )` for every element, `v` being the
  weighted sum evaluated in floating point.

The values of picture elements are embedded separately from the traces (section
"Pixel values"): there a `cv::Mat` is looked at one element at a time.

The function `main` is that of the `main.cpp` files of the repository, which
differ only in the type named in the handler and, for playback, in the
argument of the constructor.
-/

namespace AzureKinect

/-! ## Values shared by all samples -/

/-- A reference token handed out by the SDK. -/
abbrev Handle := Nat

/-- The SDK enumeration `k4a_wait_result_t`. -/
inductive k4a_wait_result_t where
  | K4A_WAIT_RESULT_SUCCEEDED
  | K4A_WAIT_RESULT_FAILED
  | K4A_WAIT_RESULT_TIMEOUT
  deriving DecidableEq, Repr

/-- The SDK enumeration `k4a_result_t`. -/
inductive k4a_result_t where
  | K4A_RESULT_SUCCEEDED
  | K4A_RESULT_FAILED
  deriving DecidableEq, Repr

open k4a_wait_result_t k4a_result_t

/-- The SDK enumeration `k4a_stream_result_t`. -/
inductive k4a_stream_result_t where
  | K4A_STREAM_RESULT_SUCCEEDED
  | K4A_STREAM_RESULT_FAILED
  | K4A_STREAM_RESULT_EOF
  deriving DecidableEq, Repr

open k4a_stream_result_t

/-- The SDK test `K4A_FAILED( result )`. -/
def K4A_FAILED (r : k4a_result_t) : Bool :=
  r != K4A_RESULT_SUCCEEDED

/-- The text that `std::hex << ret` writes for a `k4a_result_t`. -/
def hex_result : k4a_result_t → String
  | K4A_RESULT_SUCCEEDED => "0"
  | K4A_RESULT_FAILED => "1"

/-- The text that `%d` writes for a `uint32_t` argument. -/
def format_d (v : Nat) : String :=
  if v % 2 ^ 32 < 2 ^ 31 then toString (v % 2 ^ 32)
  else "-" ++ toString (2 ^ 32 - v % 2 ^ 32)

/-- A non-empty `cv::Mat`: the image reference it was copied from by
`k4a_get_mat`, and how many times `convertTo( CV_8U )` was applied to it in
place.  An empty `cv::Mat` is `none`. -/
structure Mat where
  source : Handle
  conversions : Nat
  deriving DecidableEq, Repr

/-- The key code of the quit key, the character literal `'q'`. -/
def key_q : Int := 113

/-- One call that leaves the sample code (SDK, OpenCV, the C++ runtime), with
the handles passed and returned, or a marker for the entry of a member
function. -/
inductive Event where
  /-- Entry of `kinect::finalize()`. -/
  | finalize
  /-- Entry of `kinect::run()`. -/
  | run
  | device_get_installed_count (count : Nat)
  | device_open (index : Nat) (r : k4a_result_t) (device : Option Handle)
  | device_start_cameras (device : Option Handle) (r : k4a_result_t)
  | device_get_calibration (device : Option Handle) (r : k4a_result_t)
  | device_stop_cameras (device : Option Handle)
  | device_close (device : Option Handle)
  | device_get_capture (device : Option Handle) (r : k4a_wait_result_t) (capture : Option Handle)
  | transformation_create
  | transformation_destroy
  | tracker_create (r : k4a_result_t) (tracker : Option Handle)
  | tracker_set_temporal_smoothing (tracker : Option Handle)
  | tracker_destroy (tracker : Option Handle)
  | tracker_enqueue_capture (tracker capture : Option Handle) (r : k4a_wait_result_t)
  | tracker_pop_result (tracker : Option Handle) (r : k4a_wait_result_t) (frame : Option Handle)
  | frame_get_body_index_map (frame : Option Handle) (image : Option Handle)
  | frame_get_capture (frame : Option Handle) (capture : Option Handle)
  | frame_get_num_bodies (frame : Option Handle) (n : Nat)
  | frame_get_body_id (frame : Option Handle) (i : Nat)
  | frame_get_body_skeleton (frame : Option Handle) (i : Nat) (r : k4a_result_t)
  | frame_release (frame : Option Handle)
  | capture_get_color_image (capture : Option Handle) (image : Option Handle)
  | capture_get_depth_image (capture : Option Handle) (image : Option Handle)
  | capture_release (capture : Option Handle)
  | image_get_width_pixels (image : Option Handle)
  | image_get_height_pixels (image : Option Handle)
  | image_create (r : k4a_result_t) (image : Option Handle)
  | image_create_from_buffer (r : k4a_result_t) (image : Option Handle)
  | image_release (image : Option Handle)
  | transformation_color_image_to_depth_camera
      (depth color transformed_color : Option Handle) (r : k4a_result_t)
  | transformation_depth_image_to_color_camera
      (depth transformed_depth : Option Handle) (r : k4a_result_t)
  | transformation_depth_image_to_color_camera_custom
      (depth custom transformed_depth transformed_custom : Option Handle) (r : k4a_result_t)
  | get_mat (image : Option Handle)
  | calibration_3d_to_2d (r : k4a_result_t) (valid : Bool)
  | circle (image : Option Mat) (x y : Int) (radius : Nat) (color : Nat × Nat × Nat)
      (thickness : Int)
  | playback_open (path : String) (r : k4a_result_t) (playback : Option Handle)
  | playback_get_calibration (playback : Option Handle) (r : k4a_result_t)
  | playback_get_next_capture (playback : Option Handle) (r : k4a_stream_result_t)
      (capture : Option Handle)
  | playback_close (playback : Option Handle)
  | is_regular_file (path : String) (answer : Bool)
  | file_exists (path : String) (answer : Bool)
  | imshow (window : String) (image : Option Mat)
  | waitKey (delay : Nat) (key : Int)
  | destroyAllWindows
  | cout (text : String)
  | exit (status : Int)
  | terminate
  | localtime
  | record_create (path : String) (device : Option Handle) (r : k4a_result_t)
      (record : Option Handle)
  | record_write_header (record : Option Handle) (r : k4a_result_t)
  | record_write_capture (record capture : Option Handle) (r : k4a_result_t)
  | record_flush (record : Option Handle) (r : k4a_result_t)
  | record_close (record : Option Handle)
  | capture_get_ir_image (capture : Option Handle) (image : Option Handle)
  | transformation_depth_image_to_point_cloud (depth xyz : Option Handle) (r : k4a_result_t)
  | viewer_create (window : String)
  | viewer_show_widget (name : String)
  | viewer_spin_once
  | viewer_was_stopped (answer : Bool)
  | viewer_close
  deriving Repr

/-- One argument of a call, for the comparison of two calls. -/
inductive EventArg where
  | nat (n : Nat)
  | int (i : Int)
  | handle (h : Option Handle)
  | mat (m : Option Mat)
  | text (s : String)
  | flag (b : Bool)
  | result (r : k4a_result_t)
  | wait (r : k4a_wait_result_t)
  | stream (r : k4a_stream_result_t)
  | color (c : Nat × Nat × Nat)
  deriving DecidableEq, Repr

/-- The number of the kind of a call together with its arguments: two calls
are the same exactly when these agree. -/
def Event.encode : Event → Nat × List EventArg
  | .finalize => (0, [])
  | .run => (1, [])
  | .device_get_installed_count count => (2, [.nat count])
  | .device_open index r device => (3, [.nat index, .result r, .handle device])
  | .device_start_cameras device r => (4, [.handle device, .result r])
  | .device_get_calibration device r => (5, [.handle device, .result r])
  | .device_stop_cameras device => (6, [.handle device])
  | .device_close device => (7, [.handle device])
  | .device_get_capture device r capture => (8, [.handle device, .wait r, .handle capture])
  | .transformation_create => (9, [])
  | .transformation_destroy => (10, [])
  | .tracker_create r tracker => (11, [.result r, .handle tracker])
  | .tracker_set_temporal_smoothing tracker => (12, [.handle tracker])
  | .tracker_destroy tracker => (13, [.handle tracker])
  | .tracker_enqueue_capture tracker capture r => (14, [.handle tracker, .handle capture, .wait r])
  | .tracker_pop_result tracker r frame => (15, [.handle tracker, .wait r, .handle frame])
  | .frame_get_body_index_map frame image => (16, [.handle frame, .handle image])
  | .frame_get_capture frame capture => (17, [.handle frame, .handle capture])
  | .frame_get_num_bodies frame n => (18, [.handle frame, .nat n])
  | .frame_get_body_id frame i => (19, [.handle frame, .nat i])
  | .frame_get_body_skeleton frame i r => (20, [.handle frame, .nat i, .result r])
  | .frame_release frame => (21, [.handle frame])
  | .capture_get_color_image capture image => (22, [.handle capture, .handle image])
  | .capture_get_depth_image capture image => (23, [.handle capture, .handle image])
  | .capture_release capture => (24, [.handle capture])
  | .image_get_width_pixels image => (25, [.handle image])
  | .image_get_height_pixels image => (26, [.handle image])
  | .image_create r image => (27, [.result r, .handle image])
  | .image_create_from_buffer r image => (28, [.result r, .handle image])
  | .image_release image => (29, [.handle image])
  | .transformation_color_image_to_depth_camera depth color transformed_color r =>
      (30, [.handle depth, .handle color, .handle transformed_color, .result r])
  | .transformation_depth_image_to_color_camera depth transformed_depth r =>
      (31, [.handle depth, .handle transformed_depth, .result r])
  | .transformation_depth_image_to_color_camera_custom depth custom transformed_depth transformed_custom r =>
      (32, [.handle depth, .handle custom, .handle transformed_depth, .handle transformed_custom,
        .result r])
  | .get_mat image => (33, [.handle image])
  | .calibration_3d_to_2d r valid => (34, [.result r, .flag valid])
  | .circle image x y radius color thickness =>
      (35, [.mat image, .int x, .int y, .nat radius, .color color, .int thickness])
  | .playback_open path r playback => (36, [.text path, .result r, .handle playback])
  | .playback_get_calibration playback r => (37, [.handle playback, .result r])
  | .playback_get_next_capture playback r capture =>
      (38, [.handle playback, .stream r, .handle capture])
  | .playback_close playback => (39, [.handle playback])
  | .is_regular_file path answer => (40, [.text path, .flag answer])
  | .file_exists path answer => (41, [.text path, .flag answer])
  | .imshow window image => (42, [.text window, .mat image])
  | .waitKey delay key => (43, [.nat delay, .int key])
  | .destroyAllWindows => (44, [])
  | .cout text => (45, [.text text])
  | .exit status => (46, [.int status])
  | .terminate => (47, [])
  | .localtime => (48, [])
  | .record_create path device r record =>
      (49, [.text path, .handle device, .result r, .handle record])
  | .record_write_header record r => (50, [.handle record, .result r])
  | .record_write_capture record capture r => (51, [.handle record, .handle capture, .result r])
  | .record_flush record r => (52, [.handle record, .result r])
  | .record_close record => (53, [.handle record])
  | .capture_get_ir_image capture image => (54, [.handle capture, .handle image])
  | .transformation_depth_image_to_point_cloud depth xyz r =>
      (55, [.handle depth, .handle xyz, .result r])
  | .viewer_create window => (56, [.text window])
  | .viewer_show_widget name => (57, [.text name])
  | .viewer_spin_once => (58, [])
  | .viewer_was_stopped answer => (59, [.flag answer])
  | .viewer_close => (60, [])

set_option maxHeartbeats 4000000 in
/-- Two calls are compared by their kind and their arguments. -/
instance Event.decEq : DecidableEq Event := fun a b =>
  if h : a.encode = b.encode then
    isTrue (by
      have ht : a.encode.1 = b.encode.1 := congrArg Prod.fst h
      cases a <;> cases b <;>
        first
          | exact absurd ht (Nat.ne_of_beq_eq_false rfl)
          | simp_all [Event.encode])
  else
    isFalse (fun hab => h (congrArg Event.encode hab))

/-- What is outside the object: the calls made so far, oldest first, and the
next unused reference token. -/
structure World where
  trace : List Event
  next : Nat
  deriving DecidableEq, Repr

/-- Record one call. -/
def World.emit (w : World) (e : Event) : World :=
  { w with trace := w.trace ++ [e] }

/-- Take a reference token that was never handed out. -/
def World.fresh (w : World) : Handle × World :=
  (w.next, { w with next := w.next + 1 })

/-- How a member function is left. -/
inductive Outcome (σ : Type) where
  /-- It returned. -/
  | ok (s : σ)
  /-- It threw an exception whose `what()` is the text. -/
  | thrown (what : String) (s : σ)
  /-- The function `std::exit` was called with the status. -/
  | exited (status : Int) (s : σ)
  /-- The scripted replies ran out while the main loop was still iterating. -/
  | running (s : σ)
  /-- The function `std::terminate` was called: an exception left a destructor. -/
  | terminated (s : σ)
  deriving DecidableEq, Repr

/-- Sequencing of statements: the next statement runs only after a return. -/
def Outcome.andThen {σ : Type} (o : Outcome σ) (f : σ → Outcome σ) : Outcome σ :=
  match o with
  | .ok s => f s
  | .thrown what s => .thrown what s
  | .exited status s => .exited status s
  | .running s => .running s
  | .terminated s => .terminated s

/-- The state in which a member function was left. -/
def Outcome.state {σ : Type} : Outcome σ → σ
  | .ok s => s
  | .thrown _ s => s
  | .exited _ s => s
  | .running s => s
  | .terminated s => s

/-- The two replies one `K4A_RESULT_CHECK( ret )` may consume: the macro
expands `ret` in the test and a second time in the message, so a failed call
is made again while the message is built. -/
structure Checked where
  first : k4a_result_t
  again : k4a_result_t
  deriving DecidableEq, Repr

/-- The error check macro `K4A_RESULT_CHECK( ret )`; `text` is `#ret` and
`call` makes the call with a given reply. -/
def K4A_RESULT_CHECK {σ : Type} (text : String) (c : Checked)
    (call : k4a_result_t → σ → σ) (s : σ) : Outcome σ :=
  let s1 := call c.first s
  if K4A_FAILED c.first then
    .thrown ("Failed to " ++ text ++ " " ++ hex_result c.again ++ "!\n") (call c.again s1)
  else
    .ok s1

/-- A check whose call succeeds. -/
def Checked.good : Checked :=
  { first := K4A_RESULT_SUCCEEDED, again := K4A_RESULT_SUCCEEDED }

/-- What the operating system sees of one execution of `main`: the calls made,
and the exit status once the process has ended through `main` or `std::exit`.
The status stays `none` while the scripted replies last and when
`std::terminate` aborted the process, which the trace then shows as its last
event. -/
structure Process where
  trace : List Event
  status : Option Int
  deriving DecidableEq, Repr

/-- The conversion of a `uint32_t` to `int32_t`. -/
def to_int32 (n : Nat) : Int :=
  if n % 2 ^ 32 < 2 ^ 31 then (n % 2 ^ 32 : Nat) else ((n % 2 ^ 32 : Nat) : Int) - 2 ^ 32

/-- The function `main` of the samples (`sample/c/point_cloud/main.cpp`,
`sample/cpp/index_map/main.cpp`, `sample/c/playback/main.cpp`): inside `try`
the object is constructed and `run()` is called; the object is destroyed when
the block is left by a return or by an exception, and it is not destroyed when
its constructor threw or when `std::exit` ended the process; the handler
writes `error.what()` and a line end; `main` returns 0. -/
def run_main {σ : Type} (world : σ → World) (construct : Outcome σ)
    (run : σ → Outcome σ) (destroy : σ → σ) : Process :=
  match construct with
  | .ok s =>
    match run s with
    | .ok s => { trace := (world (destroy s)).trace, status := some 0 }
    | .thrown what s =>
        { trace := (world (destroy s)).trace ++ [Event.cout (what ++ "\n")], status := some 0 }
    | .exited status s => { trace := (world s).trace, status := some status }
    | .running s => { trace := (world s).trace, status := none }
    | .terminated s => { trace := (world s).trace, status := none }
  | .thrown what s => { trace := (world s).trace ++ [Event.cout (what ++ "\n")], status := some 0 }
  | .exited status s => { trace := (world s).trace, status := some status }
  | .running s => { trace := (world s).trace, status := none }
  | .terminated s => { trace := (world s).trace, status := none }


/-! ## Reading a trace -/

/-- The number of executions of `kinect::finalize()`. -/
def finalize_count (tr : List Event) : Nat :=
  tr.count Event.finalize

/-- The capture references handed out to the sample code. -/
def captures_acquired : List Event → List Handle
  | [] => []
  | .device_get_capture _ _ (some h) :: tr => h :: captures_acquired tr
  | .frame_get_capture _ (some h) :: tr => h :: captures_acquired tr
  | .playback_get_next_capture _ _ (some h) :: tr => h :: captures_acquired tr
  | _ :: tr => captures_acquired tr

/-- The body frames handed out to the sample code. -/
def frames_acquired : List Event → List Handle
  | [] => []
  | .tracker_pop_result _ _ (some h) :: tr => h :: frames_acquired tr
  | _ :: tr => frames_acquired tr

/-- The image references handed out to the sample code. -/
def images_acquired : List Event → List Handle
  | [] => []
  | .capture_get_color_image _ (some h) :: tr => h :: images_acquired tr
  | .capture_get_depth_image _ (some h) :: tr => h :: images_acquired tr
  | .frame_get_body_index_map _ (some h) :: tr => h :: images_acquired tr
  | .image_create _ (some h) :: tr => h :: images_acquired tr
  | .image_create_from_buffer _ (some h) :: tr => h :: images_acquired tr
  | .transformation_color_image_to_depth_camera _ _ (some h) _ :: tr => h :: images_acquired tr
  | .transformation_depth_image_to_color_camera _ (some h) _ :: tr => h :: images_acquired tr
  | _ :: tr => images_acquired tr

/-- How often a capture reference was released. -/
def capture_releases (h : Handle) (tr : List Event) : Nat :=
  tr.count (Event.capture_release (some h))

/-- How often a body frame was released. -/
def frame_releases (h : Handle) (tr : List Event) : Nat :=
  tr.count (Event.frame_release (some h))

/-- How often an image reference was released. -/
def image_releases (h : Handle) (tr : List Event) : Nat :=
  tr.count (Event.image_release (some h))

/-- The capture references that were handed out and not yet released. -/
def outstanding_captures (tr : List Event) : List Handle :=
  (captures_acquired tr).filter fun h => capture_releases h tr = 0

/-- The body frames that were handed out and not yet released. -/
def outstanding_frames (tr : List Event) : List Handle :=
  (frames_acquired tr).filter fun h => frame_releases h tr = 0

/-- The image references that were handed out and not yet released. -/
def outstanding_images (tr : List Event) : List Handle :=
  (images_acquired tr).filter fun h => image_releases h tr = 0

/-- Whether an event reads or releases the image reference `h`. -/
def Event.uses_image (h : Handle) : Event → Bool
  | .get_mat i => i == some h
  | .image_release i => i == some h
  | .image_get_width_pixels i => i == some h
  | .image_get_height_pixels i => i == some h
  | .transformation_color_image_to_depth_camera d c t _ =>
      d == some h || c == some h || t == some h
  | .transformation_depth_image_to_color_camera d t _ => d == some h || t == some h
  | .transformation_depth_image_to_color_camera_custom d c t u _ =>
      d == some h || c == some h || t == some h || u == some h
  | _ => false

/-- Whether some image reference is read or released after it was released:
the events after the first release of `h` are searched for a use of `h`. -/
def image_used_after_release : List Event → Bool
  | [] => false
  | .image_release (some h) :: tr =>
      tr.any (Event.uses_image h) || image_used_after_release tr
  | _ :: tr => image_used_after_release tr

/-! ## sample/c/depth -/

namespace CDepth

/-- The data members of `kinect`. -/
structure State where
  w : World
  device : Option Handle
  capture : Option Handle
  device_index : Nat
  depth_image : Option Handle
  depth : Option Mat
  deriving DecidableEq, Repr

/-- The replies read while the object is constructed. -/
structure Env where
  installed_count : Nat
  device_open : Checked
  device_start_cameras : Checked
  deriving DecidableEq, Repr

/-- The replies read in one iteration of the main loop. -/
structure Tick where
  get_capture : k4a_wait_result_t
  depth_image : Bool
  key : Int
  deriving DecidableEq, Repr

/-- The call `k4a_device_open( device_index, &device )`. -/
def k4a_device_open (r : k4a_result_t) (s : State) : State :=
  match r with
  | K4A_RESULT_SUCCEEDED =>
      let (h, w) := s.w.fresh
      { s with device := some h, w := w.emit (.device_open s.device_index r (some h)) }
  | K4A_RESULT_FAILED => { s with w := s.w.emit (.device_open s.device_index r s.device) }

/-- The call `k4a_device_start_cameras( device, &device_configuration )`. -/
def k4a_device_start_cameras (r : k4a_result_t) (s : State) : State :=
  { s with w := s.w.emit (.device_start_cameras s.device r) }

/-- The member function `kinect::initialize_sensor()`. -/
def initialize_sensor (env : Env) (s : State) : Outcome State :=
  let s := { s with w := s.w.emit (.device_get_installed_count env.installed_count) }
  let device_count := to_int32 env.installed_count
  if device_count = 0 then
    .thrown "Failed to found device!" s
  else
    (K4A_RESULT_CHECK "k4a_device_open( device_index, &device )"
      env.device_open k4a_device_open s).andThen fun s =>
    K4A_RESULT_CHECK "k4a_device_start_cameras( device, &device_configuration )"
      env.device_start_cameras k4a_device_start_cameras s

/-- The member function `kinect::initialize()`. -/
def initialize_kinect (env : Env) (s : State) : Outcome State :=
  initialize_sensor env s

/-- The constructor `kinect::kinect( index )`. -/
def constructor (index : Nat) (env : Env) (w : World) : Outcome State :=
  initialize_kinect env
    { w := w, device_index := index, device := none, capture := none,
      depth_image := none, depth := none }

/-- The member function `kinect::finalize()`. -/
def finalize (s : State) : State :=
  let s := { s with w := s.w.emit .finalize }
  let s := { s with w := s.w.emit (.device_stop_cameras s.device) }
  let s := { s with w := s.w.emit (.device_close s.device) }
  { s with w := s.w.emit .destroyAllWindows }

/-- The destructor `kinect::~kinect()`: its body calls `finalize()`, then the
members are destroyed; the handles are plain pointers and stay as they are,
the `cv::Mat` gives up its buffer. -/
def destructor (s : State) : State :=
  let s := finalize s
  { s with depth := none }

/-- The call `k4a_device_get_capture( device, &capture, time_out )`: a capture
is written to `capture` only when the call succeeds. -/
def k4a_device_get_capture (r : k4a_wait_result_t) (s : State) : State :=
  match r with
  | K4A_WAIT_RESULT_SUCCEEDED =>
      let (h, w) := s.w.fresh
      { s with capture := some h, w := w.emit (.device_get_capture s.device r (some h)) }
  | _ => { s with w := s.w.emit (.device_get_capture s.device r s.capture) }

/-- The member function `kinect::update_frame()`. -/
def update_frame (t : Tick) (s : State) : Outcome State :=
  let result := t.get_capture
  let s := k4a_device_get_capture result s
  if result = K4A_WAIT_RESULT_FAILED then
    .thrown "Failed to get capture from device!" s
  else if result = K4A_WAIT_RESULT_TIMEOUT then
    .ok (destructor s)
  else
    .ok s

/-- The call `k4a_capture_get_depth_image( capture )`, assigned to
`depth_image`. -/
def k4a_capture_get_depth_image (present : Bool) (s : State) : State :=
  if present then
    let (h, w) := s.w.fresh
    { s with depth_image := some h, w := w.emit (.capture_get_depth_image s.capture (some h)) }
  else
    { s with depth_image := none, w := s.w.emit (.capture_get_depth_image s.capture none) }

/-- The member function `kinect::update_depth()`. -/
def update_depth (t : Tick) (s : State) : Outcome State :=
  if s.capture.isNone then
    .ok s
  else
    .ok (k4a_capture_get_depth_image t.depth_image s)

/-- The member function `kinect::update()`. -/
def update (t : Tick) (s : State) : Outcome State :=
  (update_frame t s).andThen fun s =>
  (update_depth t s).andThen fun s =>
  .ok { s with w := s.w.emit (.capture_release s.capture) }

/-- The member function `kinect::draw_depth()`. -/
def draw_depth (s : State) : Outcome State :=
  match s.depth_image with
  | none => .ok s
  | some h =>
      let s := { s with depth := some { source := h, conversions := 0 },
                        w := s.w.emit (.get_mat (some h)) }
      .ok { s with w := s.w.emit (.image_release s.depth_image) }

/-- The member function `kinect::draw()`. -/
def draw (s : State) : Outcome State :=
  draw_depth s

/-- The member function `kinect::show_depth()`. -/
def show_depth (s : State) : Outcome State :=
  match s.depth with
  | none => .ok s
  | some m =>
      let s := { s with depth := some { m with conversions := m.conversions + 1 } }
      let window_name := "depth (kinect " ++ format_d s.device_index ++ ")"
      .ok { s with w := s.w.emit (.imshow window_name s.depth) }

/-- The member function `kinect::show()`. -/
def show_ (s : State) : Outcome State :=
  show_depth s

/-- One pass through the body of the main loop up to the key poll. -/
def tick (t : Tick) (s : State) : Outcome State :=
  (update t s).andThen fun s => (draw s).andThen fun s => show_ s

/-- The main loop of `kinect::run()`, one scripted `Tick` per iteration. -/
def run_loop : List Tick → State → Outcome State
  | [], s => .running s
  | t :: ticks, s =>
    match tick t s with
    | .ok s =>
        let key := t.key
        let s := { s with w := s.w.emit (.waitKey 30 key) }
        if key = key_q then .ok s else run_loop ticks s
    | o => o

/-- The member function `kinect::run()`. -/
def run (ticks : List Tick) (s : State) : Outcome State :=
  run_loop ticks { s with w := s.w.emit .run }

/-- The program: `main` with the default device index. -/
def main (env : Env) (ticks : List Tick) : Process :=
  run_main State.w (constructor 0 env { trace := [], next := 0 }) (run ticks) destructor

end CDepth

/-! ## sample/c/index_map -/

namespace CIndexMap

/-- The data members of `kinect`. -/
structure State where
  w : World
  device : Option Handle
  capture : Option Handle
  device_index : Nat
  color_image : Option Handle
  color : Option Mat
  depth_image : Option Handle
  tracker : Option Handle
  frame : Option Handle
  body_index_map_image : Option Handle
  body_index_map : Option Mat
  transformed_depth_image : Option Handle
  transformed_body_index_map_image : Option Handle
  transformed_body_index_map : Option Mat
  colors : List (Nat × Nat × Nat)
  deriving DecidableEq, Repr

/-- The replies read while the object is constructed. -/
structure Env where
  installed_count : Nat
  device_open : Checked
  device_start_cameras : Checked
  device_get_calibration : Checked
  tracker_create : Checked
  deriving DecidableEq, Repr

/-- The replies read in one iteration of the main loop. -/
structure Tick where
  get_capture : k4a_wait_result_t
  color_image : Bool
  depth_image : Bool
  enqueue_capture : k4a_wait_result_t
  pop_result : k4a_wait_result_t
  body_index_map : Bool
  create_transformed_depth : Checked
  create_transformed_body_index_map : Checked
  depth_image_to_color_camera_custom : Checked
  key : Int
  deriving DecidableEq, Repr

/-- The call `k4a_device_open( device_index, &device )`. -/
def k4a_device_open (r : k4a_result_t) (s : State) : State :=
  match r with
  | K4A_RESULT_SUCCEEDED =>
      let (h, w) := s.w.fresh
      { s with device := some h, w := w.emit (.device_open s.device_index r (some h)) }
  | K4A_RESULT_FAILED => { s with w := s.w.emit (.device_open s.device_index r s.device) }

/-- The call `k4a_device_start_cameras( device, &device_configuration )`. -/
def k4a_device_start_cameras (r : k4a_result_t) (s : State) : State :=
  { s with w := s.w.emit (.device_start_cameras s.device r) }

/-- The call `k4a_device_get_calibration( device, ..., &calibration )`. -/
def k4a_device_get_calibration (r : k4a_result_t) (s : State) : State :=
  { s with w := s.w.emit (.device_get_calibration s.device r) }

/-- The member function `kinect::initialize_sensor()`. -/
def initialize_sensor (env : Env) (s : State) : Outcome State :=
  let s := { s with w := s.w.emit (.device_get_installed_count env.installed_count) }
  let device_count := to_int32 env.installed_count
  if device_count = 0 then
    .thrown "Failed to found device!" s
  else
    (K4A_RESULT_CHECK "k4a_device_open( device_index, &device )"
      env.device_open k4a_device_open s).andThen fun s =>
    (K4A_RESULT_CHECK "k4a_device_start_cameras( device, &device_configuration )"
      env.device_start_cameras k4a_device_start_cameras s).andThen fun s =>
    (K4A_RESULT_CHECK
      ("k4a_device_get_calibration( device, device_configuration.depth_mode, "
        ++ "device_configuration.color_resolution, &calibration )")
      env.device_get_calibration k4a_device_get_calibration s).andThen fun s =>
    .ok { s with w := s.w.emit .transformation_create }

/-- The call `k4abt_tracker_create( &calibration, tracker_configuration, &tracker )`. -/
def k4abt_tracker_create (r : k4a_result_t) (s : State) : State :=
  match r with
  | K4A_RESULT_SUCCEEDED =>
      let (h, w) := s.w.fresh
      { s with tracker := some h, w := w.emit (.tracker_create r (some h)) }
  | K4A_RESULT_FAILED => { s with w := s.w.emit (.tracker_create r s.tracker) }

/-- The colour table filled by `kinect::initialize_body_tracking()`. -/
def color_table : List (Nat × Nat × Nat) :=
  [(255, 0, 0), (0, 255, 0), (0, 0, 255), (255, 255, 0), (0, 255, 255), (255, 0, 255),
   (128, 0, 0), (0, 128, 0), (0, 0, 128), (128, 128, 0), (0, 128, 128), (128, 0, 128)]

/-- The member function `kinect::initialize_body_tracking()`. -/
def initialize_body_tracking (env : Env) (s : State) : Outcome State :=
  (K4A_RESULT_CHECK "k4abt_tracker_create( &calibration, tracker_configuration, &tracker )"
    env.tracker_create k4abt_tracker_create s).andThen fun s =>
  .ok { s with colors := s.colors ++ color_table }

/-- The member function `kinect::initialize()`. -/
def initialize_kinect (env : Env) (s : State) : Outcome State :=
  (initialize_sensor env s).andThen fun s =>
  initialize_body_tracking env s

/-- The constructor `kinect::kinect( index )`; `transformed_depth_image` has no
initialiser and is taken as null. -/
def constructor (index : Nat) (env : Env) (w : World) : Outcome State :=
  initialize_kinect env
    { w := w, device_index := index, device := none, capture := none, color_image := none,
      depth_image := none, tracker := none, frame := none, body_index_map_image := none,
      transformed_body_index_map_image := none, transformed_depth_image := none,
      color := none, body_index_map := none, transformed_body_index_map := none, colors := [] }

/-- The member function `kinect::finalize()`. -/
def finalize (s : State) : State :=
  let s := { s with w := s.w.emit .finalize }
  let s := { s with w := s.w.emit (.tracker_destroy s.tracker) }
  let s := { s with w := s.w.emit .transformation_destroy }
  let s := { s with w := s.w.emit (.device_stop_cameras s.device) }
  let s := { s with w := s.w.emit (.device_close s.device) }
  { s with w := s.w.emit .destroyAllWindows }

/-- The destructor `kinect::~kinect()`: its body calls `finalize()`, then the
members are destroyed; the handles are plain pointers and stay as they are,
each `cv::Mat` gives up its buffer and the colour table its elements. -/
def destructor (s : State) : State :=
  let s := finalize s
  { s with color := none, body_index_map := none, transformed_body_index_map := none,
           colors := [] }

/-- The call `k4a_device_get_capture( device, &capture, time_out )`: a capture
is written to `capture` only when the call succeeds. -/
def k4a_device_get_capture (r : k4a_wait_result_t) (s : State) : State :=
  match r with
  | K4A_WAIT_RESULT_SUCCEEDED =>
      let (h, w) := s.w.fresh
      { s with capture := some h, w := w.emit (.device_get_capture s.device r (some h)) }
  | _ => { s with w := s.w.emit (.device_get_capture s.device r s.capture) }

/-- The member function `kinect::update_frame()`. -/
def update_frame (t : Tick) (s : State) : Outcome State :=
  let result := t.get_capture
  let s := k4a_device_get_capture result s
  if result = K4A_WAIT_RESULT_FAILED then
    .thrown "Failed to get capture from device!" s
  else if result = K4A_WAIT_RESULT_TIMEOUT then
    .ok (destructor s)
  else
    .ok s

/-- The call `k4a_capture_get_color_image( capture )`, assigned to
`color_image`. -/
def k4a_capture_get_color_image (present : Bool) (s : State) : State :=
  if present then
    let (h, w) := s.w.fresh
    { s with color_image := some h, w := w.emit (.capture_get_color_image s.capture (some h)) }
  else
    { s with color_image := none, w := s.w.emit (.capture_get_color_image s.capture none) }

/-- The member function `kinect::update_color()`. -/
def update_color (t : Tick) (s : State) : Outcome State :=
  if s.capture.isNone then
    .ok s
  else
    .ok (k4a_capture_get_color_image t.color_image s)

/-- The call `k4a_capture_get_depth_image( capture )`, assigned to
`depth_image`. -/
def k4a_capture_get_depth_image (present : Bool) (s : State) : State :=
  if present then
    let (h, w) := s.w.fresh
    { s with depth_image := some h, w := w.emit (.capture_get_depth_image s.capture (some h)) }
  else
    { s with depth_image := none, w := s.w.emit (.capture_get_depth_image s.capture none) }

/-- The member function `kinect::update_depth()`. -/
def update_depth (t : Tick) (s : State) : Outcome State :=
  if s.capture.isNone then
    .ok s
  else
    .ok (k4a_capture_get_depth_image t.depth_image s)

/-- The call `k4abt_tracker_enqueue_capture( tracker, capture, time_out )`. -/
def k4abt_tracker_enqueue_capture (r : k4a_wait_result_t) (s : State) : State :=
  { s with w := s.w.emit (.tracker_enqueue_capture s.tracker s.capture r) }

/-- The call `k4abt_tracker_pop_result( tracker, &frame, time_out )`: a body
frame is written to `frame` only when the call succeeds. -/
def k4abt_tracker_pop_result (r : k4a_wait_result_t) (s : State) : State :=
  match r with
  | K4A_WAIT_RESULT_SUCCEEDED =>
      let (h, w) := s.w.fresh
      { s with frame := some h, w := w.emit (.tracker_pop_result s.tracker r (some h)) }
  | _ => { s with w := s.w.emit (.tracker_pop_result s.tracker r s.frame) }

/-- The member function `kinect::update_body_tracking()`. -/
def update_body_tracking (t : Tick) (s : State) : Outcome State :=
  let result := t.enqueue_capture
  let s := k4abt_tracker_enqueue_capture result s
  let enqueued : Outcome State :=
    if result = K4A_WAIT_RESULT_FAILED then
      .thrown "Failed to enqueue capture to tracker!" s
    else if result = K4A_WAIT_RESULT_TIMEOUT then
      .ok (destructor s)
    else
      .ok s
  enqueued.andThen fun s =>
  let result := t.pop_result
  let s := k4abt_tracker_pop_result result s
  if result = K4A_WAIT_RESULT_FAILED then
    .thrown "Failed to pop result from tracker!" s
  else if result = K4A_WAIT_RESULT_TIMEOUT then
    .ok (destructor s)
  else
    .ok s

/-- The member function `kinect::update_body_index_map()`: the call
`k4abt_frame_get_body_index_map( frame )`, assigned to `body_index_map_image`. -/
def update_body_index_map (t : Tick) (s : State) : Outcome State :=
  if t.body_index_map then
    let (h, w) := s.w.fresh
    .ok { s with body_index_map_image := some h,
                 w := w.emit (.frame_get_body_index_map s.frame (some h)) }
  else
    .ok { s with body_index_map_image := none,
                 w := s.w.emit (.frame_get_body_index_map s.frame none) }

/-- The call `k4a_image_create( ..., &transformed_depth_image )`. -/
def create_transformed_depth_image (r : k4a_result_t) (s : State) : State :=
  match r with
  | K4A_RESULT_SUCCEEDED =>
      let (h, w) := s.w.fresh
      { s with transformed_depth_image := some h, w := w.emit (.image_create r (some h)) }
  | K4A_RESULT_FAILED => { s with w := s.w.emit (.image_create r s.transformed_depth_image) }

/-- The call `k4a_image_create( ..., &transformed_body_index_map_image )`. -/
def create_transformed_body_index_map_image (r : k4a_result_t) (s : State) : State :=
  match r with
  | K4A_RESULT_SUCCEEDED =>
      let (h, w) := s.w.fresh
      { s with transformed_body_index_map_image := some h,
               w := w.emit (.image_create r (some h)) }
  | K4A_RESULT_FAILED =>
      { s with w := s.w.emit (.image_create r s.transformed_body_index_map_image) }

/-- The call `k4a_transformation_depth_image_to_color_camera_custom( ... )`. -/
def k4a_transformation_depth_image_to_color_camera_custom (r : k4a_result_t) (s : State) :
    State :=
  { s with w := s.w.emit (.transformation_depth_image_to_color_camera_custom
      s.depth_image s.body_index_map_image s.transformed_depth_image
      s.transformed_body_index_map_image r) }

/-- The member function `kinect::update_transformation()`. -/
def update_transformation (t : Tick) (s : State) : Outcome State :=
  if s.depth_image.isNone || s.body_index_map_image.isNone then
    .ok s
  else
    let s := { s with w := s.w.emit (.image_get_width_pixels s.color_image) }
    let s := { s with w := s.w.emit (.image_get_height_pixels s.color_image) }
    (K4A_RESULT_CHECK
      ("k4a_image_create( k4a_image_format_t::K4A_IMAGE_FORMAT_DEPTH16, color_width, "
        ++ "color_height, stride_bytes, &transformed_depth_image )")
      t.create_transformed_depth create_transformed_depth_image s).andThen fun s =>
    (K4A_RESULT_CHECK
      ("k4a_image_create( k4a_image_format_t::K4A_IMAGE_FORMAT_CUSTOM8, color_width, "
        ++ "color_height, stride_bytes, &transformed_body_index_map_image )")
      t.create_transformed_body_index_map create_transformed_body_index_map_image s).andThen
    fun s =>
    K4A_RESULT_CHECK
      ("k4a_transformation_depth_image_to_color_camera_custom( transformation, depth_image, "
        ++ "body_index_map_image, transformed_depth_image, transformed_body_index_map_image, "
        ++ "k4a_transformation_interpolation_type_t::K4A_TRANSFORMATION_INTERPOLATION_TYPE_NEAREST, "
        ++ "K4ABT_BODY_INDEX_MAP_BACKGROUND )")
      t.depth_image_to_color_camera_custom
      k4a_transformation_depth_image_to_color_camera_custom s

/-- The member function `kinect::update()`. -/
def update (t : Tick) (s : State) : Outcome State :=
  (update_frame t s).andThen fun s =>
  (update_color t s).andThen fun s =>
  (update_depth t s).andThen fun s =>
  (update_body_tracking t s).andThen fun s =>
  (update_body_index_map t s).andThen fun s =>
  (update_transformation t s).andThen fun s =>
  let s := { s with w := s.w.emit (.capture_release s.capture) }
  .ok { s with w := s.w.emit (.frame_release s.frame) }

/-- The member function `kinect::draw_color()`. -/
def draw_color (s : State) : Outcome State :=
  match s.color_image with
  | none => .ok s
  | some h =>
      let s := { s with color := some { source := h, conversions := 0 },
                        w := s.w.emit (.get_mat (some h)) }
      .ok { s with w := s.w.emit (.image_release s.color_image) }

/-- The member function `kinect::draw_body_index_map()`. -/
def draw_body_index_map (s : State) : Outcome State :=
  match s.body_index_map_image with
  | none => .ok s
  | some h =>
      let s := { s with body_index_map := some { source := h, conversions := 0 },
                        w := s.w.emit (.get_mat (some h)) }
      .ok { s with w := s.w.emit (.image_release s.body_index_map_image) }

/-- The member function `kinect::draw_transformation()`. -/
def draw_transformation (s : State) : Outcome State :=
  match s.transformed_body_index_map_image with
  | none => .ok s
  | some h =>
      let s := { s with transformed_body_index_map := some { source := h, conversions := 0 },
                        w := s.w.emit (.get_mat (some h)) }
      let s := { s with w := s.w.emit (.image_release s.transformed_depth_image) }
      .ok { s with w := s.w.emit (.image_release s.transformed_body_index_map_image) }

/-- The member function `kinect::draw()`. -/
def draw (s : State) : Outcome State :=
  (draw_color s).andThen fun s =>
  (draw_body_index_map s).andThen fun s =>
  draw_transformation s

/-- The member function `kinect::show_body_index_map()`, as far as its calls
to the window system go: the colourised copy is shown. -/
def show_body_index_map (s : State) : Outcome State :=
  match s.body_index_map with
  | none => .ok s
  | some m =>
      let window_name := "body index map (kinect " ++ format_d s.device_index ++ ")"
      .ok { s with w := s.w.emit (.imshow window_name (some m)) }

/-- The member function `kinect::show_transformation()`, as far as its calls
to the window system go: the colourised copy, blended with `color` when that
is not empty, is shown. -/
def show_transformation (s : State) : Outcome State :=
  match s.transformed_body_index_map with
  | none => .ok s
  | some m =>
      let window_name := "transofrmed body index map (kinect " ++ format_d s.device_index ++ ")"
      .ok { s with w := s.w.emit (.imshow window_name (some m)) }

/-- The member function `kinect::show()`. -/
def show_ (s : State) : Outcome State :=
  (show_body_index_map s).andThen fun s =>
  show_transformation s

/-- One pass through the body of the main loop up to the key poll. -/
def tick (t : Tick) (s : State) : Outcome State :=
  (update t s).andThen fun s => (draw s).andThen fun s => show_ s

/-- The main loop of `kinect::run()`, one scripted `Tick` per iteration. -/
def run_loop : List Tick → State → Outcome State
  | [], s => .running s
  | t :: ticks, s =>
    match tick t s with
    | .ok s =>
        let key := t.key
        let s := { s with w := s.w.emit (.waitKey 30 key) }
        if key = key_q then .ok s else run_loop ticks s
    | o => o

/-- The member function `kinect::run()`. -/
def run (ticks : List Tick) (s : State) : Outcome State :=
  run_loop ticks { s with w := s.w.emit .run }

/-- The program: `main` with the default device index. -/
def main (env : Env) (ticks : List Tick) : Process :=
  run_main State.w (constructor 0 env { trace := [], next := 0 }) (run ticks) destructor

end CIndexMap

/-! ## sample/c/skeleton -/

namespace CSkeleton

/-- The SDK record `k4abt_joint_t`, with what `k4a_calibration_3d_to_2d`
answers for the joint's position: the two replies of the checked call, the
`valid` flag it writes, and the pixel coordinates after the cast to
`int32_t`.  The confidence level is the value of the SDK enumeration
(0 none, 1 low, 2 medium, 3 high). -/
structure k4abt_joint_t where
  confidence_level : Nat
  projection : Checked
  valid : Bool
  x : Int
  y : Int
  deriving DecidableEq, Repr

/-- The SDK record `k4abt_body_t`. -/
structure k4abt_body_t where
  id : Nat
  joints : List k4abt_joint_t
  deriving DecidableEq, Repr

/-- What the body frame answers for one body index. -/
structure BodyReply where
  id : Nat
  skeleton : Checked
  joints : List k4abt_joint_t
  deriving DecidableEq, Repr

/-- The data members of `kinect`. -/
structure State where
  w : World
  device : Option Handle
  capture : Option Handle
  device_index : Nat
  color_image : Option Handle
  color : Option Mat
  tracker : Option Handle
  frame : Option Handle
  bodies : List k4abt_body_t
  colors : List (Nat × Nat × Nat)
  deriving DecidableEq, Repr

/-- The replies read while the object is constructed. -/
structure Env where
  installed_count : Nat
  device_open : Checked
  device_start_cameras : Checked
  device_get_calibration : Checked
  tracker_create : Checked
  deriving DecidableEq, Repr

/-- The replies read in one iteration of the main loop. -/
structure Tick where
  get_capture : k4a_wait_result_t
  enqueue_capture : k4a_wait_result_t
  pop_result : k4a_wait_result_t
  frame_capture : Bool
  color_image : Bool
  bodies : List BodyReply
  key : Int
  deriving DecidableEq, Repr

/-- The call `k4a_device_open( device_index, &device )`. -/
def k4a_device_open (r : k4a_result_t) (s : State) : State :=
  match r with
  | K4A_RESULT_SUCCEEDED =>
      let (h, w) := s.w.fresh
      { s with device := some h, w := w.emit (.device_open s.device_index r (some h)) }
  | K4A_RESULT_FAILED => { s with w := s.w.emit (.device_open s.device_index r s.device) }

/-- The call `k4a_device_start_cameras( device, &device_configuration )`. -/
def k4a_device_start_cameras (r : k4a_result_t) (s : State) : State :=
  { s with w := s.w.emit (.device_start_cameras s.device r) }

/-- The call `k4a_device_get_calibration( device, ..., &calibration )`. -/
def k4a_device_get_calibration (r : k4a_result_t) (s : State) : State :=
  { s with w := s.w.emit (.device_get_calibration s.device r) }

/-- The member function `kinect::initialize_sensor()`. -/
def initialize_sensor (env : Env) (s : State) : Outcome State :=
  let s := { s with w := s.w.emit (.device_get_installed_count env.installed_count) }
  let device_count := to_int32 env.installed_count
  if device_count = 0 then
    .thrown "Failed to found device!" s
  else
    (K4A_RESULT_CHECK "k4a_device_open( device_index, &device )"
      env.device_open k4a_device_open s).andThen fun s =>
    (K4A_RESULT_CHECK "k4a_device_start_cameras( device, &device_configuration )"
      env.device_start_cameras k4a_device_start_cameras s).andThen fun s =>
    K4A_RESULT_CHECK
      ("k4a_device_get_calibration( device, device_configuration.depth_mode, "
        ++ "device_configuration.color_resolution, &calibration )")
      env.device_get_calibration k4a_device_get_calibration s

/-- The call `k4abt_tracker_create( &calibration, tracker_configuration, &tracker )`. -/
def k4abt_tracker_create (r : k4a_result_t) (s : State) : State :=
  match r with
  | K4A_RESULT_SUCCEEDED =>
      let (h, w) := s.w.fresh
      { s with tracker := some h, w := w.emit (.tracker_create r (some h)) }
  | K4A_RESULT_FAILED => { s with w := s.w.emit (.tracker_create r s.tracker) }

/-- The colour table filled by `kinect::initialize_body_tracking()`. -/
def color_table : List (Nat × Nat × Nat) :=
  [(255, 0, 0), (0, 255, 0), (0, 0, 255), (255, 255, 0), (0, 255, 255), (255, 0, 255),
   (128, 0, 0), (0, 128, 0), (0, 0, 128), (128, 128, 0), (0, 128, 128), (128, 0, 128)]

/-- The member function `kinect::initialize_body_tracking()`. -/
def initialize_body_tracking (env : Env) (s : State) : Outcome State :=
  (K4A_RESULT_CHECK "k4abt_tracker_create( &calibration, tracker_configuration, &tracker )"
    env.tracker_create k4abt_tracker_create s).andThen fun s =>
  let s := { s with w := s.w.emit (.tracker_set_temporal_smoothing s.tracker) }
  .ok { s with colors := s.colors ++ color_table }

/-- The member function `kinect::initialize()`. -/
def initialize_kinect (env : Env) (s : State) : Outcome State :=
  (initialize_sensor env s).andThen fun s =>
  initialize_body_tracking env s

/-- The constructor `kinect::kinect( index )`. -/
def constructor (index : Nat) (env : Env) (w : World) : Outcome State :=
  initialize_kinect env
    { w := w, device_index := index, device := none, capture := none, color_image := none,
      tracker := none, frame := none, color := none, bodies := [], colors := [] }

/-- The member function `kinect::finalize()`. -/
def finalize (s : State) : State :=
  let s := { s with w := s.w.emit .finalize }
  let s := { s with w := s.w.emit (.tracker_destroy s.tracker) }
  let s := { s with w := s.w.emit (.device_stop_cameras s.device) }
  let s := { s with w := s.w.emit (.device_close s.device) }
  { s with w := s.w.emit .destroyAllWindows }

/-- The destructor `kinect::~kinect()`: its body calls `finalize()`, then the
members are destroyed; the handles are plain pointers and stay as they are,
the `cv::Mat` gives up its buffer and the two vectors their elements. -/
def destructor (s : State) : State :=
  let s := finalize s
  { s with color := none, bodies := [], colors := [] }

/-- The call `k4a_device_get_capture( device, &capture, time_out )`: a capture
is written to `capture` only when the call succeeds. -/
def k4a_device_get_capture (r : k4a_wait_result_t) (s : State) : State :=
  match r with
  | K4A_WAIT_RESULT_SUCCEEDED =>
      let (h, w) := s.w.fresh
      { s with capture := some h, w := w.emit (.device_get_capture s.device r (some h)) }
  | _ => { s with w := s.w.emit (.device_get_capture s.device r s.capture) }

/-- The member function `kinect::update_frame()`. -/
def update_frame (t : Tick) (s : State) : Outcome State :=
  let result := t.get_capture
  let s := k4a_device_get_capture result s
  if result = K4A_WAIT_RESULT_FAILED then
    .thrown "Failed to get capture from device!" s
  else if result = K4A_WAIT_RESULT_TIMEOUT then
    .ok (destructor s)
  else
    .ok s

/-- The call `k4abt_tracker_enqueue_capture( tracker, capture, time_out )`. -/
def k4abt_tracker_enqueue_capture (r : k4a_wait_result_t) (s : State) : State :=
  { s with w := s.w.emit (.tracker_enqueue_capture s.tracker s.capture r) }

/-- The call `k4abt_tracker_pop_result( tracker, &frame, time_out )`: a body
frame is written to `frame` only when the call succeeds. -/
def k4abt_tracker_pop_result (r : k4a_wait_result_t) (s : State) : State :=
  match r with
  | K4A_WAIT_RESULT_SUCCEEDED =>
      let (h, w) := s.w.fresh
      { s with frame := some h, w := w.emit (.tracker_pop_result s.tracker r (some h)) }
  | _ => { s with w := s.w.emit (.tracker_pop_result s.tracker r s.frame) }

/-- The member function `kinect::update_body_tracking()`. -/
def update_body_tracking (t : Tick) (s : State) : Outcome State :=
  let result := t.enqueue_capture
  let s := k4abt_tracker_enqueue_capture result s
  let enqueued : Outcome State :=
    if result = K4A_WAIT_RESULT_FAILED then
      .thrown "Failed to enqueue capture to tracker!" s
    else if result = K4A_WAIT_RESULT_TIMEOUT then
      .ok (destructor s)
    else
      .ok s
  enqueued.andThen fun s =>
  let result := t.pop_result
  let s := k4abt_tracker_pop_result result s
  if result = K4A_WAIT_RESULT_FAILED then
    .thrown "Failed to pop result from tracker!" s
  else if result = K4A_WAIT_RESULT_TIMEOUT then
    .ok (destructor s)
  else
    .ok s

/-- The member function `kinect::update_inference()`.  Its local variable
`capture` receives a new reference to the capture of the body frame (null when
the frame has none); the colour image is taken from that capture (null when
the capture is null or has no colour image); the local reference is
released. -/
def update_inference (t : Tick) (s : State) : Outcome State :=
  let (capture, s) : Option Handle × State :=
    if t.frame_capture then
      let (h, w) := s.w.fresh
      (some h, { s with w := w.emit (.frame_get_capture s.frame (some h)) })
    else
      (none, { s with w := s.w.emit (.frame_get_capture s.frame none) })
  let s : State :=
    if capture.isSome && t.color_image then
      let (h, w) := s.w.fresh
      { s with color_image := some h, w := w.emit (.capture_get_color_image capture (some h)) }
    else
      { s with color_image := none, w := s.w.emit (.capture_get_color_image capture none) }
  .ok { s with w := s.w.emit (.capture_release capture) }

/-- The call `k4abt_frame_get_body_skeleton( frame, i, &body.skeleton )`. -/
def k4abt_frame_get_body_skeleton (i : Nat) (r : k4a_result_t) (s : State) : State :=
  { s with w := s.w.emit (.frame_get_body_skeleton s.frame i r) }

/-- The loop of `kinect::update_skeleton()` from index `i` on. -/
def update_skeleton_loop : List BodyReply → Nat → State → Outcome State
  | [], _, s => .ok s
  | b :: rest, i, s =>
    let s := { s with w := s.w.emit (.frame_get_body_id s.frame i) }
    match K4A_RESULT_CHECK "k4abt_frame_get_body_skeleton( frame, i, &body.skeleton )"
        b.skeleton (k4abt_frame_get_body_skeleton i) s with
    | .ok s =>
        update_skeleton_loop rest (i + 1)
          { s with bodies := s.bodies.set i { id := b.id, joints := b.joints } }
    | o => o

/-- A value-initialised `k4abt_body_t`, as `bodies.resize` creates it: the
identifier is 0 and the skeleton has `K4ABT_JOINT_COUNT` (32) zeroed joints. -/
def empty_body : k4abt_body_t :=
  { id := 0,
    joints := List.replicate 32
      { confidence_level := 0, projection := Checked.good, valid := false, x := 0, y := 0 } }

/-- The member function `kinect::update_skeleton()`. -/
def update_skeleton (t : Tick) (s : State) : Outcome State :=
  let s := { s with bodies := [] }
  let num_bodies := t.bodies.length
  let s := { s with w := s.w.emit (.frame_get_num_bodies s.frame num_bodies) }
  let s := { s with bodies := List.replicate num_bodies empty_body }
  update_skeleton_loop t.bodies 0 s

/-- The member function `kinect::update()`. -/
def update (t : Tick) (s : State) : Outcome State :=
  (update_frame t s).andThen fun s =>
  (update_body_tracking t s).andThen fun s =>
  (update_inference t s).andThen fun s =>
  (update_skeleton t s).andThen fun s =>
  let s := { s with w := s.w.emit (.capture_release s.capture) }
  .ok { s with w := s.w.emit (.frame_release s.frame) }

/-- The member function `kinect::draw_color()`. -/
def draw_color (s : State) : Outcome State :=
  match s.color_image with
  | none => .ok s
  | some h =>
      let s := { s with color := some { source := h, conversions := 0 },
                        w := s.w.emit (.get_mat (some h)) }
      .ok { s with w := s.w.emit (.image_release s.color_image) }

/-- The member function `kinect::draw()`. -/
def draw (s : State) : Outcome State :=
  draw_color s

/-- The colour `colors[( body.id - 1 ) % colors.size()]`: the subtraction is
done in `uint32_t`; the lookup has a value only for an index inside the
table. -/
def marker_color (colors : List (Nat × Nat × Nat)) (id : Nat) : Option (Nat × Nat × Nat) :=
  if colors.length = 0 then none
  else colors[((id + 2 ^ 32 - 1) % 2 ^ 32) % colors.length]?

/-- The thickness chosen for a joint: `-1` (filled) from
`K4ABT_JOINT_CONFIDENCE_MEDIUM` (2) upwards, `1` below. -/
def marker_thickness (j : k4abt_joint_t) : Int :=
  if j.confidence_level ≥ 2 then -1 else 1

/-- The inner loop of `kinect::show_skeleton()` over the joints of one body. -/
def show_joints (id : Nat) : List k4abt_joint_t → State → Outcome State
  | [], s => .ok s
  | j :: rest, s =>
    match K4A_RESULT_CHECK
        ("k4a_calibration_3d_to_2d( &calibration, &joint.position, "
          ++ "k4a_calibration_type_t::K4A_CALIBRATION_TYPE_DEPTH, "
          ++ "k4a_calibration_type_t::K4A_CALIBRATION_TYPE_COLOR, &position, &result )")
        j.projection
        (fun r s => { s with w := s.w.emit (.calibration_3d_to_2d r j.valid) }) s with
    | .ok s =>
        if !j.valid then
          show_joints id rest s
        else
          let thickness := marker_thickness j
          let color := (marker_color s.colors id).getD (0, 0, 0)
          show_joints id rest
            { s with w := s.w.emit (.circle s.color j.x j.y 5 color thickness) }
    | o => o

/-- The outer loop of `kinect::show_skeleton()` over the bodies. -/
def show_bodies : List k4abt_body_t → State → Outcome State
  | [], s => .ok s
  | body :: rest, s =>
    match show_joints body.id body.joints s with
    | .ok s => show_bodies rest s
    | o => o

/-- The member function `kinect::show_skeleton()`; what OpenCV does with an
empty image is not part of the model. -/
def show_skeleton (s : State) : Outcome State :=
  (show_bodies s.bodies s).andThen fun s =>
  let window_name := "skeleton (kinect " ++ format_d s.device_index ++ ")"
  .ok { s with w := s.w.emit (.imshow window_name s.color) }

/-- The member function `kinect::show()`. -/
def show_ (s : State) : Outcome State :=
  show_skeleton s

/-- One pass through the body of the main loop up to the key poll. -/
def tick (t : Tick) (s : State) : Outcome State :=
  (update t s).andThen fun s => (draw s).andThen fun s => show_ s

/-- The main loop of `kinect::run()`, one scripted `Tick` per iteration. -/
def run_loop : List Tick → State → Outcome State
  | [], s => .running s
  | t :: ticks, s =>
    match tick t s with
    | .ok s =>
        let key := t.key
        let s := { s with w := s.w.emit (.waitKey 30 key) }
        if key = key_q then .ok s else run_loop ticks s
    | o => o

/-- The member function `kinect::run()`. -/
def run (ticks : List Tick) (s : State) : Outcome State :=
  run_loop ticks { s with w := s.w.emit .run }

/-- The program: `main` with the default device index. -/
def main (env : Env) (ticks : List Tick) : Process :=
  run_main State.w (constructor 0 env { trace := [], next := 0 }) (run ticks) destructor

end CSkeleton

/-! ## sample/c/transformation -/

namespace CTransformation

/-- The data members of `kinect`. -/
structure State where
  w : World
  device : Option Handle
  capture : Option Handle
  device_index : Nat
  color_image : Option Handle
  color : Option Mat
  depth_image : Option Handle
  depth : Option Mat
  transformed_color_image : Option Handle
  transformed_depth_image : Option Handle
  transformed_color : Option Mat
  transformed_depth : Option Mat
  deriving DecidableEq, Repr

/-- The replies read while the object is constructed. -/
structure Env where
  installed_count : Nat
  device_open : Checked
  device_start_cameras : Checked
  device_get_calibration : k4a_result_t
  deriving DecidableEq, Repr

/-- The replies read in one iteration of the main loop. -/
structure Tick where
  get_capture : k4a_wait_result_t
  color_image : Bool
  depth_image : Bool
  create_transformed_color : Checked
  color_image_to_depth_camera : Checked
  create_transformed_depth : Checked
  depth_image_to_color_camera : Checked
  key : Int
  deriving DecidableEq, Repr

/-- The call `k4a_device_open( device_index, &device )`. -/
def k4a_device_open (r : k4a_result_t) (s : State) : State :=
  match r with
  | K4A_RESULT_SUCCEEDED =>
      let (h, w) := s.w.fresh
      { s with device := some h, w := w.emit (.device_open s.device_index r (some h)) }
  | K4A_RESULT_FAILED => { s with w := s.w.emit (.device_open s.device_index r s.device) }

/-- The call `k4a_device_start_cameras( device, &device_configuration )`. -/
def k4a_device_start_cameras (r : k4a_result_t) (s : State) : State :=
  { s with w := s.w.emit (.device_start_cameras s.device r) }

/-- The member function `kinect::initialize_sensor()`; the result of
`k4a_device_get_calibration` is not checked here. -/
def initialize_sensor (env : Env) (s : State) : Outcome State :=
  let s := { s with w := s.w.emit (.device_get_installed_count env.installed_count) }
  let device_count := to_int32 env.installed_count
  if device_count = 0 then
    .thrown "Failed to found device!" s
  else
    (K4A_RESULT_CHECK "k4a_device_open( device_index, &device )"
      env.device_open k4a_device_open s).andThen fun s =>
    (K4A_RESULT_CHECK "k4a_device_start_cameras( device, &device_configuration )"
      env.device_start_cameras k4a_device_start_cameras s).andThen fun s =>
    let s := { s with w := s.w.emit (.device_get_calibration s.device env.device_get_calibration) }
    .ok { s with w := s.w.emit .transformation_create }

/-- The member function `kinect::initialize()`. -/
def initialize_kinect (env : Env) (s : State) : Outcome State :=
  initialize_sensor env s

/-- The constructor `kinect::kinect( index )`. -/
def constructor (index : Nat) (env : Env) (w : World) : Outcome State :=
  initialize_kinect env
    { w := w, device_index := index, device := none, capture := none, color_image := none,
      depth_image := none, transformed_color_image := none, transformed_depth_image := none,
      color := none, depth := none, transformed_color := none, transformed_depth := none }

/-- The member function `kinect::finalize()`. -/
def finalize (s : State) : State :=
  let s := { s with w := s.w.emit .finalize }
  let s := { s with w := s.w.emit .transformation_destroy }
  let s := { s with w := s.w.emit (.device_stop_cameras s.device) }
  let s := { s with w := s.w.emit (.device_close s.device) }
  { s with w := s.w.emit .destroyAllWindows }

/-- The destructor `kinect::~kinect()`: its body calls `finalize()`, then the
members are destroyed; the handles are plain pointers and stay as they are,
each `cv::Mat` gives up its buffer. -/
def destructor (s : State) : State :=
  let s := finalize s
  { s with color := none, depth := none, transformed_color := none, transformed_depth := none }

/-- The call `k4a_device_get_capture( device, &capture, time_out )`: a capture
is written to `capture` only when the call succeeds. -/
def k4a_device_get_capture (r : k4a_wait_result_t) (s : State) : State :=
  match r with
  | K4A_WAIT_RESULT_SUCCEEDED =>
      let (h, w) := s.w.fresh
      { s with capture := some h, w := w.emit (.device_get_capture s.device r (some h)) }
  | _ => { s with w := s.w.emit (.device_get_capture s.device r s.capture) }

/-- The member function `kinect::update_frame()`. -/
def update_frame (t : Tick) (s : State) : Outcome State :=
  let result := t.get_capture
  let s := k4a_device_get_capture result s
  if result = K4A_WAIT_RESULT_FAILED then
    .thrown "Failed to get capture from device!" s
  else if result = K4A_WAIT_RESULT_TIMEOUT then
    .ok (destructor s)
  else
    .ok s

/-- The call `k4a_capture_get_color_image( capture )`, assigned to
`color_image`. -/
def k4a_capture_get_color_image (present : Bool) (s : State) : State :=
  if present then
    let (h, w) := s.w.fresh
    { s with color_image := some h, w := w.emit (.capture_get_color_image s.capture (some h)) }
  else
    { s with color_image := none, w := s.w.emit (.capture_get_color_image s.capture none) }

/-- The member function `kinect::update_color()`. -/
def update_color (t : Tick) (s : State) : Outcome State :=
  if s.capture.isNone then
    .ok s
  else
    .ok (k4a_capture_get_color_image t.color_image s)

/-- The call `k4a_capture_get_depth_image( capture )`, assigned to
`depth_image`. -/
def k4a_capture_get_depth_image (present : Bool) (s : State) : State :=
  if present then
    let (h, w) := s.w.fresh
    { s with depth_image := some h, w := w.emit (.capture_get_depth_image s.capture (some h)) }
  else
    { s with depth_image := none, w := s.w.emit (.capture_get_depth_image s.capture none) }

/-- The member function `kinect::update_depth()`. -/
def update_depth (t : Tick) (s : State) : Outcome State :=
  if s.capture.isNone then
    .ok s
  else
    .ok (k4a_capture_get_depth_image t.depth_image s)

/-- The call `k4a_image_create( ..., &transformed_color_image )`. -/
def create_transformed_color_image (r : k4a_result_t) (s : State) : State :=
  match r with
  | K4A_RESULT_SUCCEEDED =>
      let (h, w) := s.w.fresh
      { s with transformed_color_image := some h, w := w.emit (.image_create r (some h)) }
  | K4A_RESULT_FAILED => { s with w := s.w.emit (.image_create r s.transformed_color_image) }

/-- The call `k4a_image_create( ..., &transformed_depth_image )`. -/
def create_transformed_depth_image (r : k4a_result_t) (s : State) : State :=
  match r with
  | K4A_RESULT_SUCCEEDED =>
      let (h, w) := s.w.fresh
      { s with transformed_depth_image := some h, w := w.emit (.image_create r (some h)) }
  | K4A_RESULT_FAILED => { s with w := s.w.emit (.image_create r s.transformed_depth_image) }

/-- The call `k4a_transformation_color_image_to_depth_camera( ... )`. -/
def k4a_transformation_color_image_to_depth_camera (r : k4a_result_t) (s : State) : State :=
  { s with w := s.w.emit (.transformation_color_image_to_depth_camera
      s.depth_image s.color_image s.transformed_color_image r) }

/-- The call `k4a_transformation_depth_image_to_color_camera( ... )`. -/
def k4a_transformation_depth_image_to_color_camera (r : k4a_result_t) (s : State) : State :=
  { s with w := s.w.emit (.transformation_depth_image_to_color_camera
      s.depth_image s.transformed_depth_image r) }

/-- The member function `kinect::update_transformation()`. -/
def update_transformation (t : Tick) (s : State) : Outcome State :=
  if s.color_image.isNone || s.depth_image.isNone then
    .ok s
  else
    let s := { s with w := s.w.emit (.image_get_width_pixels s.depth_image) }
    let s := { s with w := s.w.emit (.image_get_height_pixels s.depth_image) }
    (K4A_RESULT_CHECK
      ("k4a_image_create( k4a_image_format_t::K4A_IMAGE_FORMAT_COLOR_BGRA32, depth_width, "
        ++ "depth_height, stride_bytes, &transformed_color_image )")
      t.create_transformed_color create_transformed_color_image s).andThen fun s =>
    (K4A_RESULT_CHECK
      ("k4a_transformation_color_image_to_depth_camera( transformation, depth_image, "
        ++ "color_image, transformed_color_image )")
      t.color_image_to_depth_camera k4a_transformation_color_image_to_depth_camera s).andThen
    fun s =>
    let s := { s with w := s.w.emit (.image_get_width_pixels s.color_image) }
    let s := { s with w := s.w.emit (.image_get_height_pixels s.color_image) }
    (K4A_RESULT_CHECK
      ("k4a_image_create( k4a_image_format_t::K4A_IMAGE_FORMAT_DEPTH16, color_width, "
        ++ "color_height, stride_bytes, &transformed_depth_image )")
      t.create_transformed_depth create_transformed_depth_image s).andThen fun s =>
    K4A_RESULT_CHECK
      ("k4a_transformation_depth_image_to_color_camera( transformation, depth_image, "
        ++ "transformed_depth_image )")
      t.depth_image_to_color_camera k4a_transformation_depth_image_to_color_camera s

/-- The member function `kinect::update()`. -/
def update (t : Tick) (s : State) : Outcome State :=
  (update_frame t s).andThen fun s =>
  (update_color t s).andThen fun s =>
  (update_depth t s).andThen fun s =>
  (update_transformation t s).andThen fun s =>
  .ok { s with w := s.w.emit (.capture_release s.capture) }

/-- The member function `kinect::draw_color()`. -/
def draw_color (s : State) : Outcome State :=
  match s.color_image with
  | none => .ok s
  | some h =>
      let s := { s with color := some { source := h, conversions := 0 },
                        w := s.w.emit (.get_mat (some h)) }
      .ok { s with w := s.w.emit (.image_release s.color_image) }

/-- The member function `kinect::draw_depth()`. -/
def draw_depth (s : State) : Outcome State :=
  match s.depth_image with
  | none => .ok s
  | some h =>
      let s := { s with depth := some { source := h, conversions := 0 },
                        w := s.w.emit (.get_mat (some h)) }
      .ok { s with w := s.w.emit (.image_release s.depth_image) }

/-- The member function `kinect::draw_transformation()`. -/
def draw_transformation (s : State) : Outcome State :=
  match s.transformed_color_image, s.transformed_depth_image with
  | some c, some d =>
      let s := { s with transformed_color := some { source := c, conversions := 0 },
                        w := s.w.emit (.get_mat (some c)) }
      let s := { s with transformed_depth := some { source := d, conversions := 0 },
                        w := s.w.emit (.get_mat (some d)) }
      let s := { s with w := s.w.emit (.image_release s.transformed_color_image) }
      .ok { s with w := s.w.emit (.image_release s.transformed_depth_image) }
  | _, _ => .ok s

/-- The member function `kinect::draw()`. -/
def draw (s : State) : Outcome State :=
  (draw_color s).andThen fun s =>
  (draw_depth s).andThen fun s =>
  draw_transformation s

/-- The member function `kinect::show_color()`. -/
def show_color (s : State) : Outcome State :=
  match s.color with
  | none => .ok s
  | some m =>
      let window_name := "color (kinect " ++ format_d s.device_index ++ ")"
      .ok { s with w := s.w.emit (.imshow window_name (some m)) }

/-- The member function `kinect::show_depth()`. -/
def show_depth (s : State) : Outcome State :=
  match s.depth with
  | none => .ok s
  | some m =>
      let s := { s with depth := some { m with conversions := m.conversions + 1 } }
      let window_name := "depth (kinect " ++ format_d s.device_index ++ ")"
      .ok { s with w := s.w.emit (.imshow window_name s.depth) }

/-- The member function `kinect::show_transformation()`. -/
def show_transformation (s : State) : Outcome State :=
  match s.transformed_color, s.transformed_depth with
  | some c, some d =>
      let s := { s with transformed_depth := some { d with conversions := d.conversions + 1 } }
      let window_name := "transformed color (kinect " ++ format_d s.device_index ++ ")"
      let s := { s with w := s.w.emit (.imshow window_name (some c)) }
      let window_name := "transformed depth (kinect " ++ format_d s.device_index ++ ")"
      .ok { s with w := s.w.emit (.imshow window_name s.transformed_depth) }
  | _, _ => .ok s

/-- The member function `kinect::show()`. -/
def show_ (s : State) : Outcome State :=
  (show_color s).andThen fun s =>
  (show_depth s).andThen fun s =>
  show_transformation s

/-- One pass through the body of the main loop up to the key poll. -/
def tick (t : Tick) (s : State) : Outcome State :=
  (update t s).andThen fun s => (draw s).andThen fun s => show_ s

/-- The main loop of `kinect::run()`, one scripted `Tick` per iteration. -/
def run_loop : List Tick → State → Outcome State
  | [], s => .running s
  | t :: ticks, s =>
    match tick t s with
    | .ok s =>
        let key := t.key
        let s := { s with w := s.w.emit (.waitKey 30 key) }
        if key = key_q then .ok s else run_loop ticks s
    | o => o

/-- The member function `kinect::run()`. -/
def run (ticks : List Tick) (s : State) : Outcome State :=
  run_loop ticks { s with w := s.w.emit .run }

/-- The program: `main` with the default device index. -/
def main (env : Env) (ticks : List Tick) : Process :=
  run_main State.w (constructor 0 env { trace := [], next := 0 }) (run ticks) destructor

end CTransformation

/-! ## sample/cpp/depth

The C++ samples hold their handles in the SDK wrapper classes of `k4a.hpp`
(`k4a::device`, `k4a::capture`, `k4a::image`).  A wrapper releases its handle
and sets it to null in `reset()` (for a device, `close()`), in its destructor
and before it takes a new handle in an assignment; wrapper functions report a
failed SDK call by throwing `k4a::error`, and `get_capture` returns `false` on
a timeout. -/

namespace CppDepth

/-- The data members of `kinect`. -/
structure State where
  w : World
  device : Option Handle
  capture : Option Handle
  device_index : Nat
  depth_image : Option Handle
  depth : Option Mat
  deriving DecidableEq, Repr

/-- The replies read while the object is constructed. -/
structure Env where
  installed_count : Nat
  device_open : k4a_result_t
  device_start_cameras : k4a_result_t
  deriving DecidableEq, Repr

/-- The replies read in one iteration of the main loop. -/
structure Tick where
  get_capture : k4a_wait_result_t
  depth_image : Bool
  key : Int
  deriving DecidableEq, Repr

/-- The wrapper function `k4a::device::close()`. -/
def device_close (s : State) : State :=
  match s.device with
  | none => s
  | some h => { s with device := none, w := s.w.emit (.device_close (some h)) }

/-- The wrapper function `k4a::device::stop_cameras()`. -/
def device_stop_cameras (s : State) : State :=
  match s.device with
  | none => s
  | some h => { s with w := s.w.emit (.device_stop_cameras (some h)) }

/-- The wrapper function `k4a::capture::reset()` on the member `capture`. -/
def capture_reset (s : State) : State :=
  match s.capture with
  | none => s
  | some h => { s with capture := none, w := s.w.emit (.capture_release (some h)) }

/-- The wrapper function `k4a::image::reset()` on the member `depth_image`. -/
def depth_image_reset (s : State) : State :=
  match s.depth_image with
  | none => s
  | some h => { s with depth_image := none, w := s.w.emit (.image_release (some h)) }

/-- The destruction of the data members, last declared first. -/
def destroy_members (s : State) : State :=
  let s := { s with depth := none }
  let s := depth_image_reset s
  let s := capture_reset s
  device_close s

/-- The member function `kinect::initialize_sensor()`. -/
def initialize_sensor (env : Env) (s : State) : Outcome State :=
  let s := { s with w := s.w.emit (.device_get_installed_count env.installed_count) }
  let device_count := to_int32 env.installed_count
  if device_count = 0 then
    .thrown "Failed to found device!" s
  else
    match env.device_open with
    | K4A_RESULT_FAILED =>
        .thrown "Failed to open device!"
          { s with w := s.w.emit (.device_open s.device_index K4A_RESULT_FAILED none) }
    | K4A_RESULT_SUCCEEDED =>
        let (h, w) := s.w.fresh
        let s := { s with w := w.emit (.device_open s.device_index K4A_RESULT_SUCCEEDED (some h)) }
        let s := { device_close s with device := some h }
        let s := { s with w := s.w.emit (.device_start_cameras s.device env.device_start_cameras) }
        if K4A_FAILED env.device_start_cameras then
          .thrown "Failed to start cameras!" s
        else
          .ok s

/-- The member function `kinect::initialize()`. -/
def initialize_kinect (env : Env) (s : State) : Outcome State :=
  initialize_sensor env s

/-- The constructor `kinect::kinect( index )`; when its body throws, the
members, which were all constructed before, are destroyed. -/
def constructor (index : Nat) (env : Env) (w : World) : Outcome State :=
  match initialize_kinect env
      { w := w, device_index := index, device := none, capture := none,
        depth_image := none, depth := none } with
  | .thrown what s => .thrown what (destroy_members s)
  | o => o

/-- The member function `kinect::finalize()`. -/
def finalize (s : State) : State :=
  let s := { s with w := s.w.emit .finalize }
  let s := device_stop_cameras s
  let s := device_close s
  { s with w := s.w.emit .destroyAllWindows }

/-- The destructor `kinect::~kinect()`: its body calls `finalize()`, then the
members are destroyed. -/
def destructor (s : State) : State :=
  destroy_members (finalize s)

/-- The member function `kinect::update_frame()`; the wrapper
`device.get_capture( &capture, time_out )` throws when the SDK call failed,
returns `false` on a timeout, and otherwise assigns the new capture. -/
def update_frame (t : Tick) (s : State) : Outcome State :=
  match t.get_capture with
  | K4A_WAIT_RESULT_FAILED =>
      .thrown "Failed to get capture from device!"
        { s with w := s.w.emit (.device_get_capture s.device K4A_WAIT_RESULT_FAILED none) }
  | K4A_WAIT_RESULT_TIMEOUT =>
      let s := { s with w := s.w.emit (.device_get_capture s.device K4A_WAIT_RESULT_TIMEOUT none) }
      .ok (destructor s)
  | K4A_WAIT_RESULT_SUCCEEDED =>
      let (h, w) := s.w.fresh
      let s := { s with w := w.emit (.device_get_capture s.device K4A_WAIT_RESULT_SUCCEEDED (some h)) }
      .ok { capture_reset s with capture := some h }

/-- The member function `kinect::update_depth()`: a null capture has no depth
image. -/
def update_depth (t : Tick) (s : State) : Outcome State :=
  if s.capture.isSome && t.depth_image then
    let (h, w) := s.w.fresh
    let s := { s with w := w.emit (.capture_get_depth_image s.capture (some h)) }
    .ok { depth_image_reset s with depth_image := some h }
  else
    let s := { s with w := s.w.emit (.capture_get_depth_image s.capture none) }
    .ok (depth_image_reset s)

/-- The member function `kinect::update()`. -/
def update (t : Tick) (s : State) : Outcome State :=
  (update_frame t s).andThen fun s =>
  (update_depth t s).andThen fun s =>
  .ok (capture_reset s)

/-- The member function `kinect::draw_depth()`. -/
def draw_depth (s : State) : Outcome State :=
  match s.depth_image with
  | none => .ok s
  | some h =>
      let s := { s with depth := some { source := h, conversions := 0 },
                        w := s.w.emit (.get_mat (some h)) }
      .ok (depth_image_reset s)

/-- The member function `kinect::draw()`. -/
def draw (s : State) : Outcome State :=
  draw_depth s

/-- The member function `kinect::show_depth()`. -/
def show_depth (s : State) : Outcome State :=
  match s.depth with
  | none => .ok s
  | some m =>
      let s := { s with depth := some { m with conversions := m.conversions + 1 } }
      let window_name := "depth (kinect " ++ format_d s.device_index ++ ")"
      .ok { s with w := s.w.emit (.imshow window_name s.depth) }

/-- The member function `kinect::show()`. -/
def show_ (s : State) : Outcome State :=
  show_depth s

/-- One pass through the body of the main loop up to the key poll. -/
def tick (t : Tick) (s : State) : Outcome State :=
  (update t s).andThen fun s => (draw s).andThen fun s => show_ s

/-- The main loop of `kinect::run()`, one scripted `Tick` per iteration. -/
def run_loop : List Tick → State → Outcome State
  | [], s => .running s
  | t :: ticks, s =>
    match tick t s with
    | .ok s =>
        let key := t.key
        let s := { s with w := s.w.emit (.waitKey 30 key) }
        if key = key_q then .ok s else run_loop ticks s
    | o => o

/-- The member function `kinect::run()`. -/
def run (ticks : List Tick) (s : State) : Outcome State :=
  run_loop ticks { s with w := s.w.emit .run }

/-- The program: `main` with the default device index. -/
def main (env : Env) (ticks : List Tick) : Process :=
  run_main State.w (constructor 0 env { trace := [], next := 0 }) (run ticks) destructor

end CppDepth

/-! ## sample/cpp/playback -/

namespace CppPlayback

/-- The data members of `kinect`; `transformation` tells whether the wrapper
holds a transformation handle, `playback_file` is the text of the path. -/
structure State where
  w : World
  device : Option Handle
  playback : Option Handle
  capture : Option Handle
  transformation : Bool
  device_index : Nat
  playback_file : String
  color_image : Option Handle
  color : Option Mat
  depth_image : Option Handle
  depth : Option Mat
  transformed_color_image : Option Handle
  transformed_depth_image : Option Handle
  transformed_color : Option Mat
  transformed_depth : Option Mat
  deriving DecidableEq, Repr

/-- The replies read while the object is constructed: the SDK results and the
answers of the file system about the path. -/
structure Env where
  installed_count : Nat
  device_open : k4a_result_t
  device_start_cameras : k4a_result_t
  device_get_calibration : k4a_result_t
  is_regular_file : Bool
  file_exists : Bool
  playback_open : k4a_result_t
  playback_get_calibration : k4a_result_t
  deriving DecidableEq, Repr

/-- The replies read in one iteration of the main loop. -/
structure Tick where
  get_capture : k4a_wait_result_t
  get_next_capture : k4a_stream_result_t
  color_image : Bool
  depth_image : Bool
  create_from_buffer : k4a_result_t
  color_image_to_depth_camera : k4a_result_t
  depth_image_to_color_camera : k4a_result_t
  key : Int
  deriving DecidableEq, Repr

/-- The wrapper function `k4a::device::close()`. -/
def device_close (s : State) : State :=
  match s.device with
  | none => s
  | some h => { s with device := none, w := s.w.emit (.device_close (some h)) }

/-- The wrapper function `k4a::device::stop_cameras()`. -/
def device_stop_cameras (s : State) : State :=
  match s.device with
  | none => s
  | some h => { s with w := s.w.emit (.device_stop_cameras (some h)) }

/-- The wrapper function `k4a::playback::close()`. -/
def playback_close (s : State) : State :=
  match s.playback with
  | none => s
  | some h => { s with playback := none, w := s.w.emit (.playback_close (some h)) }

/-- The wrapper function `k4a::transformation::destroy()`. -/
def transformation_destroy (s : State) : State :=
  if s.transformation then
    { s with transformation := false, w := s.w.emit .transformation_destroy }
  else s

/-- The wrapper function `k4a::capture::reset()` on the member `capture`. -/
def capture_reset (s : State) : State :=
  match s.capture with
  | none => s
  | some h => { s with capture := none, w := s.w.emit (.capture_release (some h)) }

/-- The release of an image wrapper that holds `image`. -/
def image_reset (image : Option Handle) (w : World) : World :=
  match image with
  | none => w
  | some h => w.emit (.image_release (some h))

/-- The destruction of the data members, last declared first. -/
def destroy_members (s : State) : State :=
  let s := { s with transformed_depth := none, transformed_color := none }
  let s := { s with transformed_depth_image := none,
                    w := image_reset s.transformed_depth_image s.w }
  let s := { s with transformed_color_image := none,
                    w := image_reset s.transformed_color_image s.w }
  let s := { s with depth := none }
  let s := { s with depth_image := none, w := image_reset s.depth_image s.w }
  let s := { s with color := none }
  let s := { s with color_image := none, w := image_reset s.color_image s.w }
  let s := transformation_destroy s
  let s := capture_reset s
  let s := playback_close s
  device_close s

/-- The assignment `transformation = k4a::transformation( calibration )`. -/
def transformation_assign (s : State) : State :=
  let s := { s with w := s.w.emit .transformation_create }
  { transformation_destroy s with transformation := true }

/-- The member function `kinect::initialize_sensor()`. -/
def initialize_sensor (env : Env) (s : State) : Outcome State :=
  let s := { s with w := s.w.emit (.device_get_installed_count env.installed_count) }
  let device_count := to_int32 env.installed_count
  if device_count = 0 then
    .thrown "Failed to found device!" s
  else
    match env.device_open with
    | K4A_RESULT_FAILED =>
        .thrown "Failed to open device!"
          { s with w := s.w.emit (.device_open s.device_index K4A_RESULT_FAILED none) }
    | K4A_RESULT_SUCCEEDED =>
        let (h, w) := s.w.fresh
        let s := { s with w := w.emit (.device_open s.device_index K4A_RESULT_SUCCEEDED (some h)) }
        let s := { device_close s with device := some h }
        let s := { s with w := s.w.emit (.device_start_cameras s.device env.device_start_cameras) }
        if K4A_FAILED env.device_start_cameras then
          .thrown "Failed to start cameras!" s
        else
          let s := { s with w := s.w.emit
                                  (.device_get_calibration s.device env.device_get_calibration) }
          if K4A_FAILED env.device_get_calibration then
            .thrown "Failed to get calibration!" s
          else
            .ok (transformation_assign s)

/-- The member function `kinect::initialize_playback()`. -/
def initialize_playback (env : Env) (s : State) : Outcome State :=
  let s := { s with w := s.w.emit (.is_regular_file s.playback_file env.is_regular_file) }
  let (missing, s) : Bool × State :=
    if !env.is_regular_file then (true, s)
    else (!env.file_exists, { s with w := s.w.emit (.file_exists s.playback_file env.file_exists) })
  if missing then
    .thrown "Failed to found file path!" s
  else
    match env.playback_open with
    | K4A_RESULT_FAILED =>
        .thrown "Failed to open playback!"
          { s with w := s.w.emit (.playback_open s.playback_file K4A_RESULT_FAILED none) }
    | K4A_RESULT_SUCCEEDED =>
        let (h, w) := s.w.fresh
        let s := { s with w := w.emit (.playback_open s.playback_file K4A_RESULT_SUCCEEDED (some h)) }
        let s := { playback_close s with playback := some h }
        let s := { s with w := s.w.emit
                                (.playback_get_calibration s.playback env.playback_get_calibration) }
        if K4A_FAILED env.playback_get_calibration then
          .thrown "Failed to read calibration from playback!" s
        else
          .ok (transformation_assign s)

/-- The member function `kinect::initialize()`. -/
def initialize_kinect (env : Env) (s : State) : Outcome State :=
  if s.playback_file = "" then
    initialize_sensor env s
  else
    initialize_playback env s

/-- The state after the member initialisers: every wrapper is empty. -/
def members (index : Nat) (path : String) (w : World) : State :=
  { w := w, device := none, playback := none, capture := none, transformation := false,
    device_index := index, playback_file := path, color_image := none, color := none,
    depth_image := none, depth := none, transformed_color_image := none,
    transformed_depth_image := none, transformed_color := none, transformed_depth := none }

/-- The constructor `kinect::kinect( index )`; when its body throws, the
members, which were all constructed before, are destroyed. -/
def constructor (index : Nat) (env : Env) (w : World) : Outcome State :=
  match initialize_kinect env (members index "" w) with
  | .thrown what s => .thrown what (destroy_members s)
  | o => o

/-- The constructor `kinect::kinect( path )`; `device_index` has no
initialiser, `garbage` is the value it happens to hold. -/
def constructor_path (garbage : Nat) (path : String) (env : Env) (w : World) : Outcome State :=
  match initialize_kinect env (members garbage path w) with
  | .thrown what s => .thrown what (destroy_members s)
  | o => o

/-- The member function `kinect::finalize()`. -/
def finalize (s : State) : State :=
  let s := { s with w := s.w.emit .finalize }
  let s := transformation_destroy s
  let s :=
    if s.playback_file = "" then
      device_close (device_stop_cameras s)
    else
      playback_close s
  { s with w := s.w.emit .destroyAllWindows }

/-- The destructor `kinect::~kinect()`: its body calls `finalize()`, then the
members are destroyed. -/
def destructor (s : State) : State :=
  destroy_members (finalize s)

/-- The member function `kinect::update_frame()`.  The wrapper
`device.get_capture` throws when the SDK call failed and returns `false` on a
timeout; the wrapper `playback.get_next_capture` returns `false` at the end of
the stream and throws when the SDK call failed. -/
def update_frame (t : Tick) (s : State) : Outcome State :=
  if s.playback_file = "" then
    match t.get_capture with
    | K4A_WAIT_RESULT_FAILED =>
        .thrown "Failed to get capture from device!"
          { s with w := s.w.emit (.device_get_capture s.device K4A_WAIT_RESULT_FAILED none) }
    | K4A_WAIT_RESULT_TIMEOUT =>
        .thrown "Failed to capture!"
          { s with w := s.w.emit (.device_get_capture s.device K4A_WAIT_RESULT_TIMEOUT none) }
    | K4A_WAIT_RESULT_SUCCEEDED =>
        let (h, w) := s.w.fresh
        let s := { s with w := w.emit
                                (.device_get_capture s.device K4A_WAIT_RESULT_SUCCEEDED (some h)) }
        .ok { capture_reset s with capture := some h }
  else
    match t.get_next_capture with
    | K4A_STREAM_RESULT_SUCCEEDED =>
        let (h, w) := s.w.fresh
        let s := { s with w := w.emit
                                (.playback_get_next_capture s.playback K4A_STREAM_RESULT_SUCCEEDED
                                  (some h)) }
        .ok { capture_reset s with capture := some h }
    | K4A_STREAM_RESULT_EOF =>
        let s := { s with w := s.w.emit
                                (.playback_get_next_capture s.playback K4A_STREAM_RESULT_EOF none) }
        .exited 0 { s with w := s.w.emit (.exit 0) }
    | K4A_STREAM_RESULT_FAILED =>
        .thrown "Failed to get next capture!"
          { s with w := s.w.emit
                          (.playback_get_next_capture s.playback K4A_STREAM_RESULT_FAILED none) }

/-- The member function `kinect::update_color()`: a null capture has no colour
image. -/
def update_color (t : Tick) (s : State) : Outcome State :=
  if s.capture.isSome && t.color_image then
    let (h, w) := s.w.fresh
    let s := { s with w := w.emit (.capture_get_color_image s.capture (some h)) }
    .ok { s with color_image := some h, w := image_reset s.color_image s.w }
  else
    let s := { s with w := s.w.emit (.capture_get_color_image s.capture none) }
    .ok { s with color_image := none, w := image_reset s.color_image s.w }

/-- The member function `kinect::update_depth()`: a null capture has no depth
image. -/
def update_depth (t : Tick) (s : State) : Outcome State :=
  if s.capture.isSome && t.depth_image then
    let (h, w) := s.w.fresh
    let s := { s with w := w.emit (.capture_get_depth_image s.capture (some h)) }
    .ok { s with depth_image := some h, w := image_reset s.depth_image s.w }
  else
    let s := { s with w := s.w.emit (.capture_get_depth_image s.capture none) }
    .ok { s with depth_image := none, w := image_reset s.depth_image s.w }

/-- The wrapper call `transformation.color_image_to_depth_camera( depth_image,
color )`, assigned to `transformed_color_image`. -/
def color_image_to_depth_camera (r : k4a_result_t) (color : Option Handle) (s : State) :
    Outcome State :=
  match r with
  | K4A_RESULT_FAILED =>
      .thrown "Failed to convert color image to depth camera!"
        { s with w := s.w.emit
                        (.transformation_color_image_to_depth_camera s.depth_image color none r) }
  | K4A_RESULT_SUCCEEDED =>
      let (h, w) := s.w.fresh
      let s := { s with w := w.emit
                              (.transformation_color_image_to_depth_camera s.depth_image color
                                (some h) r) }
      .ok { s with transformed_color_image := some h,
                   w := image_reset s.transformed_color_image s.w }

/-- The wrapper call `transformation.depth_image_to_color_camera( depth_image )`,
assigned to `transformed_depth_image`. -/
def depth_image_to_color_camera (r : k4a_result_t) (s : State) : Outcome State :=
  match r with
  | K4A_RESULT_FAILED =>
      .thrown "Failed to convert depth image to color camera!"
        { s with w := s.w.emit (.transformation_depth_image_to_color_camera s.depth_image none r) }
  | K4A_RESULT_SUCCEEDED =>
      let (h, w) := s.w.fresh
      let s := { s with w := w.emit
                              (.transformation_depth_image_to_color_camera s.depth_image (some h) r) }
      .ok { s with transformed_depth_image := some h,
                   w := image_reset s.transformed_depth_image s.w }

/-- The member function `kinect::update_transformation()`.  In the playback
branch the local variable `color_image` hides the member; it is released when
its block is left, by the end of the block or by an exception. -/
def update_transformation (t : Tick) (s : State) : Outcome State :=
  if s.color_image.isNone || s.depth_image.isNone then
    .ok s
  else
    let transformed : Outcome State :=
      if s.playback_file = "" then
        color_image_to_depth_camera t.color_image_to_depth_camera s.color_image s
      else
        let s := { s with color := s.color_image.map fun h => { source := h, conversions := 0 },
                          w := s.w.emit (.get_mat s.color_image) }
        match t.create_from_buffer with
        | K4A_RESULT_FAILED =>
            .thrown "Failed to create image from buffer!"
              { s with w := s.w.emit (.image_create_from_buffer K4A_RESULT_FAILED none) }
        | K4A_RESULT_SUCCEEDED =>
            let (h, w) := s.w.fresh
            let s := { s with w := w.emit (.image_create_from_buffer K4A_RESULT_SUCCEEDED (some h)) }
            match color_image_to_depth_camera t.color_image_to_depth_camera (some h) s with
            | .ok s => .ok { s with w := s.w.emit (.image_release (some h)) }
            | .thrown what s => .thrown what { s with w := s.w.emit (.image_release (some h)) }
            | o => o
    transformed.andThen fun s =>
    depth_image_to_color_camera t.depth_image_to_color_camera s

/-- The member function `kinect::update()`. -/
def update (t : Tick) (s : State) : Outcome State :=
  (update_frame t s).andThen fun s =>
  (update_color t s).andThen fun s =>
  (update_depth t s).andThen fun s =>
  (update_transformation t s).andThen fun s =>
  .ok (capture_reset s)

/-- The member function `kinect::draw_color()`. -/
def draw_color (s : State) : Outcome State :=
  match s.color_image with
  | none => .ok s
  | some h =>
      let s := { s with color := some { source := h, conversions := 0 },
                        w := s.w.emit (.get_mat (some h)) }
      .ok { s with color_image := none, w := image_reset s.color_image s.w }

/-- The member function `kinect::draw_depth()`. -/
def draw_depth (s : State) : Outcome State :=
  match s.depth_image with
  | none => .ok s
  | some h =>
      let s := { s with depth := some { source := h, conversions := 0 },
                        w := s.w.emit (.get_mat (some h)) }
      .ok { s with depth_image := none, w := image_reset s.depth_image s.w }

/-- The member function `kinect::draw_transformation()`. -/
def draw_transformation (s : State) : Outcome State :=
  match s.transformed_color_image, s.transformed_depth_image with
  | some c, some d =>
      let s := { s with transformed_color := some { source := c, conversions := 0 },
                        w := s.w.emit (.get_mat (some c)) }
      let s := { s with transformed_depth := some { source := d, conversions := 0 },
                        w := s.w.emit (.get_mat (some d)) }
      let s := { s with transformed_color_image := none,
                        w := image_reset s.transformed_color_image s.w }
      .ok { s with transformed_depth_image := none,
                   w := image_reset s.transformed_depth_image s.w }
  | _, _ => .ok s

/-- The member function `kinect::draw()`. -/
def draw (s : State) : Outcome State :=
  (draw_color s).andThen fun s =>
  (draw_depth s).andThen fun s =>
  draw_transformation s

/-- The member function `kinect::show_color()`. -/
def show_color (s : State) : Outcome State :=
  match s.color with
  | none => .ok s
  | some m =>
      let window_name := "color (kinect " ++ format_d s.device_index ++ ")"
      .ok { s with w := s.w.emit (.imshow window_name (some m)) }

/-- The member function `kinect::show_depth()`. -/
def show_depth (s : State) : Outcome State :=
  match s.depth with
  | none => .ok s
  | some m =>
      let s := { s with depth := some { m with conversions := m.conversions + 1 } }
      let window_name := "depth (kinect " ++ format_d s.device_index ++ ")"
      .ok { s with w := s.w.emit (.imshow window_name s.depth) }

/-- The member function `kinect::show_transformation()`. -/
def show_transformation (s : State) : Outcome State :=
  match s.transformed_color, s.transformed_depth with
  | some c, some d =>
      let s := { s with transformed_depth := some { d with conversions := d.conversions + 1 } }
      let window_name := "transformed color (kinect " ++ format_d s.device_index ++ ")"
      let s := { s with w := s.w.emit (.imshow window_name (some c)) }
      let window_name := "transformed depth (kinect " ++ format_d s.device_index ++ ")"
      .ok { s with w := s.w.emit (.imshow window_name s.transformed_depth) }
  | _, _ => .ok s

/-- The member function `kinect::show()`. -/
def show_ (s : State) : Outcome State :=
  (show_color s).andThen fun s =>
  (show_depth s).andThen fun s =>
  show_transformation s

/-- One pass through the body of the main loop up to the key poll. -/
def tick (t : Tick) (s : State) : Outcome State :=
  (update t s).andThen fun s => (draw s).andThen fun s => show_ s

/-- The main loop of `kinect::run()`, one scripted `Tick` per iteration. -/
def run_loop : List Tick → State → Outcome State
  | [], s => .running s
  | t :: ticks, s =>
    match tick t s with
    | .ok s =>
        let key := t.key
        let s := { s with w := s.w.emit (.waitKey 1 key) }
        if key = key_q then .ok s else run_loop ticks s
    | o => o

/-- The member function `kinect::run()`. -/
def run (ticks : List Tick) (s : State) : Outcome State :=
  run_loop ticks { s with w := s.w.emit .run }

/-- The program with a live device: `main` with the block `Sensor`. -/
def main_sensor (env : Env) (ticks : List Tick) : Process :=
  run_main State.w (constructor 0 env { trace := [], next := 0 }) (run ticks) destructor

/-- The program with a recording: `main` with the block `File`, for the path
`file`; the source has `file = "../file.mkv"`. -/
def main_file (garbage : Nat) (file : String) (env : Env) (ticks : List Tick) : Process :=
  run_main State.w (constructor_path garbage file env { trace := [], next := 0 }) (run ticks)
    destructor

/-- The program as it is in `main.cpp`. -/
def main (garbage : Nat) (env : Env) (ticks : List Tick) : Process :=
  main_file garbage "../file.mkv" env ticks

end CppPlayback

/-! ## Scripted replies used in the concrete runs -/

/-- A start-up in which one device is installed and every call succeeds. -/
def CDepth.env_ok : CDepth.Env :=
  { installed_count := 1, device_open := Checked.good, device_start_cameras := Checked.good }

/-- A tick in which the capture arrives with a depth image; `key` is polled. -/
def CDepth.tick_ok (key : Int) : CDepth.Tick :=
  { get_capture := K4A_WAIT_RESULT_SUCCEEDED, depth_image := true, key := key }

/-- A tick in which `k4a_device_get_capture` reports a timeout. -/
def CDepth.tick_timeout (key : Int) : CDepth.Tick :=
  { get_capture := K4A_WAIT_RESULT_TIMEOUT, depth_image := false, key := key }

/-- A tick in which `k4a_device_get_capture` reports a failure. -/
def CDepth.tick_failed : CDepth.Tick :=
  { get_capture := K4A_WAIT_RESULT_FAILED, depth_image := false, key := 0 }

/-- A start-up in which one device is installed and every call succeeds. -/
def CppDepth.env_ok : CppDepth.Env :=
  { installed_count := 1, device_open := K4A_RESULT_SUCCEEDED,
    device_start_cameras := K4A_RESULT_SUCCEEDED }

/-- A tick in which `device.get_capture` reports a timeout. -/
def CppDepth.tick_timeout (key : Int) : CppDepth.Tick :=
  { get_capture := K4A_WAIT_RESULT_TIMEOUT, depth_image := false, key := key }

/-- A start-up in which one device is installed and every call succeeds. -/
def CIndexMap.env_ok : CIndexMap.Env :=
  { installed_count := 1, device_open := Checked.good, device_start_cameras := Checked.good,
    device_get_calibration := Checked.good, tracker_create := Checked.good }

/-- A tick in which every call succeeds and every image is present. -/
def CIndexMap.tick_ok (key : Int) : CIndexMap.Tick :=
  { get_capture := K4A_WAIT_RESULT_SUCCEEDED, color_image := true, depth_image := true,
    enqueue_capture := K4A_WAIT_RESULT_SUCCEEDED, pop_result := K4A_WAIT_RESULT_SUCCEEDED,
    body_index_map := true, create_transformed_depth := Checked.good,
    create_transformed_body_index_map := Checked.good,
    depth_image_to_color_camera_custom := Checked.good, key := key }

/-- A start-up in which one device is installed and every call succeeds. -/
def CSkeleton.env_ok : CSkeleton.Env :=
  { installed_count := 1, device_open := Checked.good, device_start_cameras := Checked.good,
    device_get_calibration := Checked.good, tracker_create := Checked.good }

/-- A tick in which every call succeeds and one body with one joint is seen. -/
def CSkeleton.tick_ok (key : Int) : CSkeleton.Tick :=
  { get_capture := K4A_WAIT_RESULT_SUCCEEDED, enqueue_capture := K4A_WAIT_RESULT_SUCCEEDED,
    pop_result := K4A_WAIT_RESULT_SUCCEEDED, frame_capture := true, color_image := true,
    bodies := [{ id := 1, skeleton := Checked.good,
                 joints := [{ confidence_level := 2, projection := Checked.good, valid := true,
                              x := 10, y := 20 }] }],
    key := key }

/-- A start-up in which one device is installed and every call succeeds. -/
def CTransformation.env_ok : CTransformation.Env :=
  { installed_count := 1, device_open := Checked.good, device_start_cameras := Checked.good,
    device_get_calibration := K4A_RESULT_SUCCEEDED }

/-- A tick in which every call succeeds; the capture has a colour image when
`color` is set and a depth image when `depth` is set. -/
def CTransformation.tick_ok (color depth : Bool) (key : Int) : CTransformation.Tick :=
  { get_capture := K4A_WAIT_RESULT_SUCCEEDED, color_image := color, depth_image := depth,
    create_transformed_color := Checked.good, color_image_to_depth_camera := Checked.good,
    create_transformed_depth := Checked.good, depth_image_to_color_camera := Checked.good,
    key := key }

/-- A start-up in which one device is installed, the file system knows no file
under the path, and every SDK call succeeds. -/
def CppPlayback.env_no_file : CppPlayback.Env :=
  { installed_count := 1, device_open := K4A_RESULT_SUCCEEDED,
    device_start_cameras := K4A_RESULT_SUCCEEDED, device_get_calibration := K4A_RESULT_SUCCEEDED,
    is_regular_file := false, file_exists := false, playback_open := K4A_RESULT_SUCCEEDED,
    playback_get_calibration := K4A_RESULT_SUCCEEDED }

/-- A start-up in which the recording exists and every SDK call succeeds. -/
def CppPlayback.env_file : CppPlayback.Env :=
  { CppPlayback.env_no_file with is_regular_file := true, file_exists := true }

/-- A tick in which every call succeeds and both images are present. -/
def CppPlayback.tick_ok (key : Int) : CppPlayback.Tick :=
  { get_capture := K4A_WAIT_RESULT_SUCCEEDED, get_next_capture := K4A_STREAM_RESULT_SUCCEEDED,
    color_image := true, depth_image := true, create_from_buffer := K4A_RESULT_SUCCEEDED,
    color_image_to_depth_camera := K4A_RESULT_SUCCEEDED,
    depth_image_to_color_camera := K4A_RESULT_SUCCEEDED, key := key }

/-- A tick in which the recording is at its end. -/
def CppPlayback.tick_eof : CppPlayback.Tick :=
  { CppPlayback.tick_ok 0 with get_next_capture := K4A_STREAM_RESULT_EOF }

/-- What the operating system sees of a sample that finds no device: the count
is read, the message is written, `main` returns 0. -/
def no_device_process : Process :=
  { trace := [.device_get_installed_count 0, .cout "Failed to found device!\n"],
    status := some 0 }

/-- An empty world: nothing was called and no token was handed out. -/
def World.start : World :=
  { trace := [], next := 0 }

/-- Whether an event asks the source for the next capture. -/
def Event.is_acquisition : Event → Bool
  | .device_get_capture _ _ _ => true
  | .playback_get_next_capture _ _ _ => true
  | _ => false

/-- A tick of the index-map sample in which the tracker reports `r` for the
enqueue call and everything else succeeds. -/
def CIndexMap.tick_enqueue (r : k4a_wait_result_t) (key : Int) : CIndexMap.Tick :=
  { CIndexMap.tick_ok key with enqueue_capture := r }

/-- Whether an event hands out or releases a capture reference or a body frame. -/
def Event.touches_capture_or_frame : Event → Bool
  | .device_get_capture _ _ (some _) => true
  | .frame_get_capture _ (some _) => true
  | .playback_get_next_capture _ _ (some _) => true
  | .tracker_pop_result _ _ (some _) => true
  | .capture_release (some _) => true
  | .frame_release (some _) => true
  | _ => false

/-- A stretch of events in which no capture reference and no body frame is
handed out or released. -/
def neutral (evs : List Event) : Prop :=
  ∀ e ∈ evs, e.touches_capture_or_frame = false

/-- The events of one tick release what the tick obtained: every capture
reference and every body frame handed out in `evs` is a token not below `next`
and is released exactly once in `evs`. -/
def released_exactly_once (next : Nat) (evs : List Event) : Prop :=
  (∀ h ∈ captures_acquired evs, next ≤ h ∧ capture_releases h evs = 1)
    ∧ (∀ h ∈ frames_acquired evs, next ≤ h ∧ frame_releases h evs = 1)

/-- The world `w'` continues `w` by events among which no capture reference
and no body frame is handed out or released. -/
def World.quietly_extends (w' w : World) : Prop :=
  w.next ≤ w'.next ∧ ∃ evs, w'.trace = w.trace ++ evs ∧ neutral evs

/-! ## Pixel values

The show functions of every sample contain the same OpenCV statements; the
definitions below give the value one picture element receives.  OpenCV computes
the working value of `convertTo` and `addWeighted` in floating point; the
parameter `err` stands for what that computation adds to the exact value. -/

/-- The OpenCV conversion `cv::saturate_cast<uchar>( int )`. -/
def saturate_cast_uchar (v : Int) : Nat :=
  if v < 0 then 0 else if v > 255 then 255 else v.toNat

/-- The OpenCV function `cvRound`: the nearest integer, a tie goes to the even
neighbour. -/
def cvRound (x : ℚ) : Int :=
  if x - ⌊x⌋ < 1 / 2 then ⌊x⌋
  else if 1 / 2 < x - ⌊x⌋ then ⌊x⌋ + 1
  else if ⌊x⌋ % 2 = 0 then ⌊x⌋ else ⌊x⌋ + 1

/-- One element of `src.convertTo( dst, CV_8U, alpha, beta )`: the working
value `src * alpha + beta` is rounded and saturated. -/
def convertTo_8U (alpha beta err : ℚ) (src : Nat) : Nat :=
  saturate_cast_uchar (cvRound (src * alpha + beta + err))

/-- The statement `depth.convertTo( depth, CV_8U, -255.0 / 5000.0, 255.0 )` of
`kinect::show_depth()` on one depth sample. -/
def show_depth_pixel (err : ℚ) (d : Nat) : Nat :=
  convertTo_8U (-255 / 5000) 255 err d

/-- The statement `infrared.convertTo( infrared, CV_8U, 0.5 )` of
`kinect::show_infrared()` on one infrared sample; `beta` has its default 0.
The product of a 16-bit sample with 0.5 is exact in floating point, so nothing
is added to the working value. -/
def show_infrared_pixel (raw : Nat) : Nat :=
  convertTo_8U (1 / 2) 0 0 raw

/-- The SDK constant `K4ABT_BODY_INDEX_MAP_BACKGROUND`. -/
def K4ABT_BODY_INDEX_MAP_BACKGROUND : Nat := 255

/-- The function passed to `colorized_body_index_map.forEach` in
`kinect::show_body_index_map()` and `kinect::show_transformation()`, on one
picture element: `pixel` enters as the zero of `cv::Mat::zeros`, `label` is the
element of the body index map at the same position.  There is no value when
`colors` is empty and the label is not the background: the remainder by
`colors.size()` is then a division by zero. -/
def colorize_pixel (colors : List (Nat × Nat × Nat)) (label : Nat) : Option (Nat × Nat × Nat) :=
  let pixel : Nat × Nat × Nat := (0, 0, 0)
  let body_index := label
  if body_index ≠ K4ABT_BODY_INDEX_MAP_BACKGROUND then
    if colors.length = 0 then none else colors[body_index % colors.length]?
  else
    some pixel

/-- The picture built by `colorized_body_index_map.forEach`. -/
def colorize (colors : List (Nat × Nat × Nat)) (body_index_map : List (List Nat)) :
    List (List (Option (Nat × Nat × Nat))) :=
  body_index_map.map fun row => row.map (colorize_pixel colors)

namespace CppSkeleton

/-- The data members of `kinect`; a joint carries what
`calibration.convert_3d_to_2d` answers for its position, as in
`CSkeleton.k4abt_joint_t`, the first reply of `projection` being the result of
the SDK call inside the wrapper. -/
structure State where
  w : World
  device : Option Handle
  capture : Option Handle
  device_index : Nat
  color_image : Option Handle
  color : Option Mat
  tracker : Option Handle
  frame : Option Handle
  bodies : List CSkeleton.k4abt_body_t
  colors : List (Nat × Nat × Nat)
  deriving DecidableEq, Repr

/-- The inner loop of `kinect::show_skeleton()` over the joints of one body;
the wrapper `convert_3d_to_2d` throws when the SDK call failed and returns the
`valid` flag otherwise. -/
def show_joints (id : Nat) : List CSkeleton.k4abt_joint_t → State → Outcome State
  | [], s => .ok s
  | joint :: rest, s =>
    let s := { s with w := s.w.emit (.calibration_3d_to_2d joint.projection.first joint.valid) }
    if K4A_FAILED joint.projection.first then
      .thrown "Calibration contained invalid transformation parameters!" s
    else
      let result := joint.valid
      if !result then
        show_joints id rest s
      else
        let thickness := CSkeleton.marker_thickness joint
        let color := (CSkeleton.marker_color s.colors id).getD (0, 0, 0)
        show_joints id rest
          { s with w := s.w.emit (.circle s.color joint.x joint.y 5 color thickness) }

/-- The outer loop of `kinect::show_skeleton()` over the bodies. -/
def show_bodies : List CSkeleton.k4abt_body_t → State → Outcome State
  | [], s => .ok s
  | body :: rest, s =>
    match show_joints body.id body.joints s with
    | .ok s => show_bodies rest s
    | o => o

/-- The member function `kinect::show_skeleton()`; what OpenCV does with an
empty image is not part of the model. -/
def show_skeleton (s : State) : Outcome State :=
  (show_bodies s.bodies s).andThen fun s =>
  let window_name := "skeleton (kinect " ++ format_d s.device_index ++ ")"
  .ok { s with w := s.w.emit (.imshow window_name s.color) }

end CppSkeleton

/-- What a marker event of the skeleton samples must be for the joint list
`joints` of a body: the circle of radius 5 drawn into `image` at the pixel of
a joint whose projection is valid, in the colour `color` and with the thickness
chosen for that joint. -/
def is_marker_of (image : Option Mat) (color : Nat × Nat × Nat)
    (joints : List CSkeleton.k4abt_joint_t) (e : Event) : Prop :=
  ∃ j ∈ joints, j.valid = true
    ∧ e = Event.circle image j.x j.y 5 color (CSkeleton.marker_thickness j)

/-- Whether an event is a call of `cv::circle`. -/
def Event.is_circle : Event → Bool
  | .circle _ _ _ _ _ _ => true
  | _ => false

/-- A state of the C++ skeleton sample after initialisation: a device and a
tracker are open, nothing was acquired yet; the colour table pushed by its
`initialize_body_tracking` is the same list as in the C sample. -/
def CppSkeleton.state_ok : CppSkeleton.State :=
  { w := World.start, device := some 0, capture := none, device_index := 0,
    color_image := none, color := none, tracker := some 1, frame := none, bodies := [],
    colors := CSkeleton.color_table }

/-- A joint seen with medium confidence at the pixel (10, 20). -/
def CSkeleton.joint_ok : CSkeleton.k4abt_joint_t :=
  { confidence_level := 2, projection := Checked.good, valid := true, x := 10, y := 20 }

/-! ## sample/c/record -/

/-- The fields of `struct tm` that the record samples read. -/
structure tm where
  tm_year : Int
  tm_mon : Int
  tm_mday : Int
  tm_hour : Int
  tm_min : Int
  tm_sec : Int
  deriving DecidableEq, Repr

/-- What `oss << std::setfill( '0' ) << std::setw( 2 ) << v` appends: the
decimal text of `v`, filled on the left with '0' up to two characters. -/
def put_setw2 (v : Int) : String :=
  let text := toString v
  if text.length < 2 then "0" ++ text else text

/-- The function `main` of the record samples: as `run_main`, but the
destructor may let an exception escape, and then `std::terminate` ends the
process before anything else is done. -/
def run_main_terminating {σ : Type} (world : σ → World) (construct : Outcome σ)
    (run : σ → Outcome σ) (destroy : σ → Outcome σ) : Process :=
  match construct with
  | .ok s =>
    match run s with
    | .ok s =>
      match destroy s with
      | .ok s => { trace := (world s).trace, status := some 0 }
      | o => { trace := (world o.state).trace, status := none }
    | .thrown what s =>
      match destroy s with
      | .ok s => { trace := (world s).trace ++ [Event.cout (what ++ "\n")], status := some 0 }
      | o => { trace := (world o.state).trace, status := none }
    | .exited status s => { trace := (world s).trace, status := some status }
    | .running s => { trace := (world s).trace, status := none }
    | .terminated s => { trace := (world s).trace, status := none }
  | .thrown what s => { trace := (world s).trace ++ [Event.cout (what ++ "\n")], status := some 0 }
  | .exited status s => { trace := (world s).trace, status := some status }
  | .running s => { trace := (world s).trace, status := none }
  | .terminated s => { trace := (world s).trace, status := none }

namespace CRecord

/-- The data members of `kinect`. -/
structure State where
  w : World
  device : Option Handle
  record : Option Handle
  capture : Option Handle
  device_index : Nat
  color_image : Option Handle
  color : Option Mat
  depth_image : Option Handle
  depth : Option Mat
  deriving DecidableEq, Repr

/-- The replies read while the object is constructed, and the reply to the
flush made when `main` destroys the object. -/
structure Env where
  installed_count : Nat
  device_open : Checked
  device_start_cameras : Checked
  local_time : tm
  record_create : Checked
  record_write_header : Checked
  record_flush : Checked
  deriving DecidableEq, Repr

/-- The replies read in one iteration of the main loop; `record_flush` is read
only when the iteration destroys the object. -/
structure Tick where
  get_capture : k4a_wait_result_t
  record_flush : Checked
  record_write_capture : Checked
  color_image : Bool
  depth_image : Bool
  key : Int
  deriving DecidableEq, Repr

/-- The error check macro `K4A_RESULT_CHECK( ret )` of this sample; `text` is
`#ret` and `call` makes the call with a given reply.  The macro expands `ret`
in the test and a second time in the message. -/
def K4A_RESULT_CHECK (text : String) (c : Checked)
    (call : k4a_result_t → State → State) (s : State) : Outcome State :=
  let s1 := call c.first s
  if K4A_FAILED c.first then
    .thrown ("failed " ++ text ++ " " ++ hex_result c.again ++ "\n") (call c.again s1)
  else
    .ok s1

/-- The call `k4a_device_open( device_index, &device )`. -/
def k4a_device_open (r : k4a_result_t) (s : State) : State :=
  match r with
  | K4A_RESULT_SUCCEEDED =>
      let (h, w) := s.w.fresh
      { s with device := some h, w := w.emit (.device_open s.device_index r (some h)) }
  | K4A_RESULT_FAILED => { s with w := s.w.emit (.device_open s.device_index r s.device) }

/-- The call `k4a_device_start_cameras( device, &device_configuration )`. -/
def k4a_device_start_cameras (r : k4a_result_t) (s : State) : State :=
  { s with w := s.w.emit (.device_start_cameras s.device r) }

/-- The member function `kinect::initialize_sensor()`. -/
def initialize_sensor (env : Env) (s : State) : Outcome State :=
  let s := { s with w := s.w.emit (.device_get_installed_count env.installed_count) }
  let device_count := to_int32 env.installed_count
  if device_count = 0 then
    .thrown "Failed to found device!" s
  else
    (K4A_RESULT_CHECK "k4a_device_open( device_index, &device )"
      env.device_open k4a_device_open s).andThen fun s =>
    K4A_RESULT_CHECK "k4a_device_start_cameras( device, &device_configuration )"
      env.device_start_cameras k4a_device_start_cameras s

/-- The call `k4a_record_create( path, device, device_configuration, &record )`. -/
def k4a_record_create (path : String) (r : k4a_result_t) (s : State) : State :=
  match r with
  | K4A_RESULT_SUCCEEDED =>
      let (h, w) := s.w.fresh
      { s with record := some h, w := w.emit (.record_create path s.device r (some h)) }
  | K4A_RESULT_FAILED => { s with w := s.w.emit (.record_create path s.device r s.record) }

/-- The call `k4a_record_write_header( record )`. -/
def k4a_record_write_header (r : k4a_result_t) (s : State) : State :=
  { s with w := s.w.emit (.record_write_header s.record r) }

/-- The text written to `oss` in `kinect::initialize_record()`. -/
def oss (tm : tm) : String :=
  toString (tm.tm_year + 1900) ++ "_"
    ++ put_setw2 (tm.tm_mon + 1) ++ "_"
    ++ put_setw2 tm.tm_mday ++ "_"
    ++ put_setw2 tm.tm_hour
    ++ put_setw2 tm.tm_min
    ++ put_setw2 tm.tm_sec

/-- The member function `kinect::initialize_record()`. -/
def initialize_record (env : Env) (s : State) : Outcome State :=
  let s := { s with w := s.w.emit .localtime }
  let tm := env.local_time
  let record_file := "./" ++ oss tm ++ ".mkv"
  (K4A_RESULT_CHECK
    "k4a_record_create( record_file.generic_string().c_str(), device, device_configuration, &record )"
    env.record_create (k4a_record_create record_file) s).andThen fun s =>
  K4A_RESULT_CHECK "k4a_record_write_header( record )"
    env.record_write_header k4a_record_write_header s

/-- The member function `kinect::initialize()`. -/
def initialize_kinect (env : Env) (s : State) : Outcome State :=
  (initialize_sensor env s).andThen fun s =>
  initialize_record env s

/-- The constructor `kinect::kinect( index )`. -/
def constructor (index : Nat) (env : Env) (w : World) : Outcome State :=
  initialize_kinect env
    { w := w, device_index := index, device := none, record := none, capture := none,
      color_image := none, color := none, depth_image := none, depth := none }

/-- The call `k4a_record_flush( record )`. -/
def k4a_record_flush (r : k4a_result_t) (s : State) : State :=
  { s with w := s.w.emit (.record_flush s.record r) }

/-- The member function `kinect::finalize()`. -/
def finalize (flush : Checked) (s : State) : Outcome State :=
  let s := { s with w := s.w.emit .finalize }
  (K4A_RESULT_CHECK "k4a_record_flush( record )" flush k4a_record_flush s).andThen fun s =>
  let s := { s with w := s.w.emit (.record_close s.record) }
  let s := { s with w := s.w.emit (.device_stop_cameras s.device) }
  let s := { s with w := s.w.emit (.device_close s.device) }
  .ok { s with w := s.w.emit .destroyAllWindows }

/-- The destructor `kinect::~kinect()`: its body calls `finalize()`, then the
members are destroyed; the handles are plain pointers and stay as they are,
the `cv::Mat`s give up their buffers.  A destructor does not let an exception
out: when `finalize()` throws, `std::terminate` is called. -/
def destructor (flush : Checked) (s : State) : Outcome State :=
  match finalize flush s with
  | .ok s => .ok { s with color := none, depth := none }
  | .thrown _ s => .terminated { s with w := s.w.emit .terminate }
  | o => o

/-- The call `k4a_device_get_capture( device, &capture, time_out )`: a capture
is written to `capture` only when the call succeeds. -/
def k4a_device_get_capture (r : k4a_wait_result_t) (s : State) : State :=
  match r with
  | K4A_WAIT_RESULT_SUCCEEDED =>
      let (h, w) := s.w.fresh
      { s with capture := some h, w := w.emit (.device_get_capture s.device r (some h)) }
  | _ => { s with w := s.w.emit (.device_get_capture s.device r s.capture) }

/-- The member function `kinect::update_frame()`. -/
def update_frame (t : Tick) (s : State) : Outcome State :=
  let result := t.get_capture
  let s := k4a_device_get_capture result s
  if result = K4A_WAIT_RESULT_FAILED then
    .thrown "Failed to get capture from device!" s
  else if result = K4A_WAIT_RESULT_TIMEOUT then
    destructor t.record_flush s
  else
    .ok s

/-- The call `k4a_record_write_capture( record, capture )`. -/
def k4a_record_write_capture (r : k4a_result_t) (s : State) : State :=
  { s with w := s.w.emit (.record_write_capture s.record s.capture r) }

/-- The member function `kinect::write_frame()`. -/
def write_frame (t : Tick) (s : State) : Outcome State :=
  if s.record.isNone || s.capture.isNone then
    .ok s
  else
    K4A_RESULT_CHECK "k4a_record_write_capture( record, capture )"
      t.record_write_capture k4a_record_write_capture s

/-- The call `k4a_capture_get_color_image( capture )`, assigned to
`color_image`. -/
def k4a_capture_get_color_image (present : Bool) (s : State) : State :=
  if present then
    let (h, w) := s.w.fresh
    { s with color_image := some h, w := w.emit (.capture_get_color_image s.capture (some h)) }
  else
    { s with color_image := none, w := s.w.emit (.capture_get_color_image s.capture none) }

/-- The member function `kinect::update_color()`. -/
def update_color (t : Tick) (s : State) : Outcome State :=
  if s.capture.isNone then
    .ok s
  else
    .ok (k4a_capture_get_color_image t.color_image s)

/-- The call `k4a_capture_get_depth_image( capture )`, assigned to
`depth_image`. -/
def k4a_capture_get_depth_image (present : Bool) (s : State) : State :=
  if present then
    let (h, w) := s.w.fresh
    { s with depth_image := some h, w := w.emit (.capture_get_depth_image s.capture (some h)) }
  else
    { s with depth_image := none, w := s.w.emit (.capture_get_depth_image s.capture none) }

/-- The member function `kinect::update_depth()`. -/
def update_depth (t : Tick) (s : State) : Outcome State :=
  if s.capture.isNone then
    .ok s
  else
    .ok (k4a_capture_get_depth_image t.depth_image s)

/-- The member function `kinect::update()`. -/
def update (t : Tick) (s : State) : Outcome State :=
  (update_frame t s).andThen fun s =>
  (write_frame t s).andThen fun s =>
  (update_color t s).andThen fun s =>
  (update_depth t s).andThen fun s =>
  .ok { s with w := s.w.emit (.capture_release s.capture) }

/-- The member function `kinect::draw_color()`. -/
def draw_color (s : State) : Outcome State :=
  match s.color_image with
  | none => .ok s
  | some h =>
      let s := { s with color := some { source := h, conversions := 0 },
                        w := s.w.emit (.get_mat (some h)) }
      .ok { s with w := s.w.emit (.image_release s.color_image) }

/-- The member function `kinect::draw_depth()`. -/
def draw_depth (s : State) : Outcome State :=
  match s.depth_image with
  | none => .ok s
  | some h =>
      let s := { s with depth := some { source := h, conversions := 0 },
                        w := s.w.emit (.get_mat (some h)) }
      .ok { s with w := s.w.emit (.image_release s.depth_image) }

/-- The member function `kinect::draw()`. -/
def draw (s : State) : Outcome State :=
  (draw_color s).andThen fun s =>
  draw_depth s

/-- The member function `kinect::show_color()`. -/
def show_color (s : State) : Outcome State :=
  match s.color with
  | none => .ok s
  | some m =>
      let window_name := "color (kinect " ++ format_d s.device_index ++ ")"
      .ok { s with w := s.w.emit (.imshow window_name (some m)) }

/-- The member function `kinect::show_depth()`. -/
def show_depth (s : State) : Outcome State :=
  match s.depth with
  | none => .ok s
  | some m =>
      let s := { s with depth := some { m with conversions := m.conversions + 1 } }
      let window_name := "depth (kinect " ++ format_d s.device_index ++ ")"
      .ok { s with w := s.w.emit (.imshow window_name s.depth) }

/-- The member function `kinect::show()`. -/
def show_ (s : State) : Outcome State :=
  (show_color s).andThen fun s =>
  show_depth s

/-- One pass through the body of the main loop up to the key poll. -/
def tick (t : Tick) (s : State) : Outcome State :=
  (update t s).andThen fun s => (draw s).andThen fun s => show_ s

/-- The main loop of `kinect::run()`, one scripted `Tick` per iteration. -/
def run_loop : List Tick → State → Outcome State
  | [], s => .running s
  | t :: ticks, s =>
    match tick t s with
    | .ok s =>
        let key := t.key
        let s := { s with w := s.w.emit (.waitKey 30 key) }
        if key = key_q then .ok s else run_loop ticks s
    | o => o

/-- The member function `kinect::run()`. -/
def run (ticks : List Tick) (s : State) : Outcome State :=
  run_loop ticks { s with w := s.w.emit .run }

/-- The program: `main` with the default device index. -/
def main (env : Env) (ticks : List Tick) : Process :=
  run_main_terminating State.w (constructor 0 env { trace := [], next := 0 }) (run ticks)
    (destructor env.record_flush)

end CRecord

/-! ## sample/cpp/record -/

namespace CppRecord

/-- The data members of `kinect`; `record_file` is the text of the path. -/
structure State where
  w : World
  device : Option Handle
  record : Option Handle
  capture : Option Handle
  device_index : Nat
  record_file : String
  color_image : Option Handle
  color : Option Mat
  depth_image : Option Handle
  depth : Option Mat
  deriving DecidableEq, Repr

/-- The replies read while the object is constructed, and the reply to the
flush made when `main` destroys the object. -/
structure Env where
  installed_count : Nat
  device_open : k4a_result_t
  device_start_cameras : k4a_result_t
  local_time : tm
  record_create : k4a_result_t
  record_write_header : k4a_result_t
  record_flush : k4a_result_t
  deriving DecidableEq, Repr

/-- The replies read in one iteration of the main loop. -/
structure Tick where
  get_capture : k4a_wait_result_t
  record_write_capture : k4a_result_t
  color_image : Bool
  depth_image : Bool
  key : Int
  deriving DecidableEq, Repr

/-- The wrapper function `k4a::device::close()`. -/
def device_close (s : State) : State :=
  match s.device with
  | none => s
  | some h => { s with device := none, w := s.w.emit (.device_close (some h)) }

/-- The wrapper function `k4a::device::stop_cameras()`. -/
def device_stop_cameras (s : State) : State :=
  match s.device with
  | none => s
  | some h => { s with w := s.w.emit (.device_stop_cameras (some h)) }

/-- The wrapper function `k4a::record::close()`. -/
def record_close (s : State) : State :=
  match s.record with
  | none => s
  | some h => { s with record := none, w := s.w.emit (.record_close (some h)) }

/-- The wrapper function `k4a::capture::reset()` on the member `capture`. -/
def capture_reset (s : State) : State :=
  match s.capture with
  | none => s
  | some h => { s with capture := none, w := s.w.emit (.capture_release (some h)) }

/-- The release of an image wrapper that holds `image`. -/
def image_reset (image : Option Handle) (w : World) : World :=
  match image with
  | none => w
  | some h => w.emit (.image_release (some h))

/-- The destruction of the data members, last declared first. -/
def destroy_members (s : State) : State :=
  let s := { s with depth := none }
  let s := { s with depth_image := none, w := image_reset s.depth_image s.w }
  let s := { s with color := none }
  let s := { s with color_image := none, w := image_reset s.color_image s.w }
  let s := capture_reset s
  let s := record_close s
  device_close s

/-- The member function `kinect::initialize_sensor()`. -/
def initialize_sensor (env : Env) (s : State) : Outcome State :=
  let s := { s with w := s.w.emit (.device_get_installed_count env.installed_count) }
  let device_count := to_int32 env.installed_count
  if device_count = 0 then
    .thrown "Failed to found device!" s
  else
    match env.device_open with
    | K4A_RESULT_FAILED =>
        .thrown "Failed to open device!"
          { s with w := s.w.emit (.device_open s.device_index K4A_RESULT_FAILED none) }
    | K4A_RESULT_SUCCEEDED =>
        let (h, w) := s.w.fresh
        let s := { s with w := w.emit (.device_open s.device_index K4A_RESULT_SUCCEEDED (some h)) }
        let s := { device_close s with device := some h }
        let s := { s with w := s.w.emit (.device_start_cameras s.device env.device_start_cameras) }
        if K4A_FAILED env.device_start_cameras then
          .thrown "Failed to start cameras!" s
        else
          .ok s

/-- The text written to `oss` in `kinect::initialize_record()`. -/
def oss (tm : tm) : String :=
  toString (tm.tm_year + 1900) ++ "_"
    ++ put_setw2 (tm.tm_mon + 1) ++ "_"
    ++ put_setw2 tm.tm_mday ++ "_"
    ++ put_setw2 tm.tm_hour
    ++ put_setw2 tm.tm_min
    ++ put_setw2 tm.tm_sec

/-- The wrapper function `k4a::record::write_header()`: nothing is called on
an empty wrapper, and a failed call is thrown. -/
def record_write_header (r : k4a_result_t) (s : State) : Outcome State :=
  match s.record with
  | none => .ok s
  | some h =>
      let s := { s with w := s.w.emit (.record_write_header (some h) r) }
      if K4A_FAILED r then .thrown "Failed to write header!" s else .ok s

/-- The member function `kinect::initialize_record()`; the wrapper function
`k4a::record::create` throws when the SDK call failed, and the assignment to
`record` closes what the member held before. -/
def initialize_record (env : Env) (s : State) : Outcome State :=
  let s := { s with w := s.w.emit .localtime }
  let tm := env.local_time
  let s := { s with record_file := "./" ++ oss tm ++ ".mkv" }
  match env.record_create with
  | K4A_RESULT_FAILED =>
      .thrown "Failed to create recorder!"
        { s with w := s.w.emit (.record_create s.record_file s.device K4A_RESULT_FAILED none) }
  | K4A_RESULT_SUCCEEDED =>
      let (h, w) := s.w.fresh
      let s := { s with w := w.emit
                              (.record_create s.record_file s.device K4A_RESULT_SUCCEEDED (some h)) }
      let s := { record_close s with record := some h }
      let s := { s with w := s.w.emit (.cout (s.record_file ++ "\n")) }
      record_write_header env.record_write_header s

/-- The member function `kinect::initialize()`. -/
def initialize_kinect (env : Env) (s : State) : Outcome State :=
  (initialize_sensor env s).andThen fun s =>
  initialize_record env s

/-- The constructor `kinect::kinect( index )`; when its body throws, the
members, which were all constructed before, are destroyed. -/
def constructor (index : Nat) (env : Env) (w : World) : Outcome State :=
  match initialize_kinect env
      { w := w, device_index := index, device := none, record := none, capture := none,
        record_file := "", color_image := none, color := none, depth_image := none,
        depth := none } with
  | .thrown what s => .thrown what (destroy_members s)
  | o => o

/-- The wrapper function `k4a::record::flush()`: nothing is called on an empty
wrapper, and a failed call is thrown. -/
def record_flush (r : k4a_result_t) (s : State) : Outcome State :=
  match s.record with
  | none => .ok s
  | some h =>
      let s := { s with w := s.w.emit (.record_flush (some h) r) }
      if K4A_FAILED r then .thrown "Failed to flush!" s else .ok s

/-- The member function `kinect::finalize()`. -/
def finalize (flush : k4a_result_t) (s : State) : Outcome State :=
  let s := { s with w := s.w.emit .finalize }
  (record_flush flush s).andThen fun s =>
  let s := record_close s
  let s := device_stop_cameras s
  let s := device_close s
  .ok { s with w := s.w.emit .destroyAllWindows }

/-- The destructor `kinect::~kinect()`: its body calls `finalize()`, then the
members are destroyed.  A destructor does not let an exception out: when
`finalize()` throws, `std::terminate` is called. -/
def destructor (flush : k4a_result_t) (s : State) : Outcome State :=
  match finalize flush s with
  | .ok s => .ok (destroy_members s)
  | .thrown _ s => .terminated { s with w := s.w.emit .terminate }
  | o => o

/-- The member function `kinect::update_frame()`; the wrapper
`device.get_capture( &capture, time_out )` throws when the SDK call failed,
returns `false` on a timeout, and otherwise assigns the new capture. -/
def update_frame (t : Tick) (s : State) : Outcome State :=
  match t.get_capture with
  | K4A_WAIT_RESULT_FAILED =>
      .thrown "Failed to get capture from device!"
        { s with w := s.w.emit (.device_get_capture s.device K4A_WAIT_RESULT_FAILED none) }
  | K4A_WAIT_RESULT_TIMEOUT =>
      .thrown "Failed to capture!"
        { s with w := s.w.emit (.device_get_capture s.device K4A_WAIT_RESULT_TIMEOUT none) }
  | K4A_WAIT_RESULT_SUCCEEDED =>
      let (h, w) := s.w.fresh
      let s := { s with w := w.emit (.device_get_capture s.device K4A_WAIT_RESULT_SUCCEEDED (some h)) }
      .ok { capture_reset s with capture := some h }

/-- The member function `kinect::write_frame()`; the wrapper function
`k4a::record::write_capture` calls nothing on an empty wrapper, and throws a
failed call. -/
def write_frame (t : Tick) (s : State) : Outcome State :=
  match s.record with
  | none => .ok s
  | some h =>
      let r := t.record_write_capture
      let s := { s with w := s.w.emit (.record_write_capture (some h) s.capture r) }
      if K4A_FAILED r then .thrown "Failed to write capture!" s else .ok s

/-- The member function `kinect::update_color()`: a null capture has no colour
image. -/
def update_color (t : Tick) (s : State) : Outcome State :=
  if s.capture.isSome && t.color_image then
    let (h, w) := s.w.fresh
    let s := { s with w := w.emit (.capture_get_color_image s.capture (some h)) }
    .ok { s with color_image := some h, w := image_reset s.color_image s.w }
  else
    let s := { s with w := s.w.emit (.capture_get_color_image s.capture none) }
    .ok { s with color_image := none, w := image_reset s.color_image s.w }

/-- The member function `kinect::update_depth()`: a null capture has no depth
image. -/
def update_depth (t : Tick) (s : State) : Outcome State :=
  if s.capture.isSome && t.depth_image then
    let (h, w) := s.w.fresh
    let s := { s with w := w.emit (.capture_get_depth_image s.capture (some h)) }
    .ok { s with depth_image := some h, w := image_reset s.depth_image s.w }
  else
    let s := { s with w := s.w.emit (.capture_get_depth_image s.capture none) }
    .ok { s with depth_image := none, w := image_reset s.depth_image s.w }

/-- The member function `kinect::update()`. -/
def update (t : Tick) (s : State) : Outcome State :=
  (update_frame t s).andThen fun s =>
  (write_frame t s).andThen fun s =>
  (update_color t s).andThen fun s =>
  (update_depth t s).andThen fun s =>
  .ok (capture_reset s)

/-- The member function `kinect::draw_color()`. -/
def draw_color (s : State) : Outcome State :=
  match s.color_image with
  | none => .ok s
  | some h =>
      let s := { s with color := some { source := h, conversions := 0 },
                        w := s.w.emit (.get_mat (some h)) }
      .ok { s with color_image := none, w := image_reset s.color_image s.w }

/-- The member function `kinect::draw_depth()`. -/
def draw_depth (s : State) : Outcome State :=
  match s.depth_image with
  | none => .ok s
  | some h =>
      let s := { s with depth := some { source := h, conversions := 0 },
                        w := s.w.emit (.get_mat (some h)) }
      .ok { s with depth_image := none, w := image_reset s.depth_image s.w }

/-- The member function `kinect::draw()`. -/
def draw (s : State) : Outcome State :=
  (draw_color s).andThen fun s =>
  draw_depth s

/-- The member function `kinect::show_color()`. -/
def show_color (s : State) : Outcome State :=
  match s.color with
  | none => .ok s
  | some m =>
      let window_name := "color (kinect " ++ format_d s.device_index ++ ")"
      .ok { s with w := s.w.emit (.imshow window_name (some m)) }

/-- The member function `kinect::show_depth()`. -/
def show_depth (s : State) : Outcome State :=
  match s.depth with
  | none => .ok s
  | some m =>
      let s := { s with depth := some { m with conversions := m.conversions + 1 } }
      let window_name := "depth (kinect " ++ format_d s.device_index ++ ")"
      .ok { s with w := s.w.emit (.imshow window_name s.depth) }

/-- The member function `kinect::show()`. -/
def show_ (s : State) : Outcome State :=
  (show_color s).andThen fun s =>
  show_depth s

/-- One pass through the body of the main loop up to the key poll. -/
def tick (t : Tick) (s : State) : Outcome State :=
  (update t s).andThen fun s => (draw s).andThen fun s => show_ s

/-- The main loop of `kinect::run()`, one scripted `Tick` per iteration. -/
def run_loop : List Tick → State → Outcome State
  | [], s => .running s
  | t :: ticks, s =>
    match tick t s with
    | .ok s =>
        let key := t.key
        let s := { s with w := s.w.emit (.waitKey 1 key) }
        if key = key_q then .ok s else run_loop ticks s
    | o => o

/-- The member function `kinect::run()`. -/
def run (ticks : List Tick) (s : State) : Outcome State :=
  run_loop ticks { s with w := s.w.emit .run }

/-- The program: `main` with the default device index. -/
def main (env : Env) (ticks : List Tick) : Process :=
  run_main_terminating State.w (constructor 0 env { trace := [], next := 0 }) (run ticks)
    (destructor env.record_flush)

end CppRecord

/-- A local time: 30 October 2026, 09:05:07. -/
def tm_ok : tm :=
  { tm_year := 126, tm_mon := 9, tm_mday := 30, tm_hour := 9, tm_min := 5, tm_sec := 7 }

/-- A start-up in which one device is installed and every call succeeds. -/
def CRecord.env_ok : CRecord.Env :=
  { installed_count := 1, device_open := Checked.good, device_start_cameras := Checked.good,
    local_time := tm_ok, record_create := Checked.good, record_write_header := Checked.good,
    record_flush := Checked.good }

/-- A tick in which the capture arrives with both images and is written;
`key` is polled. -/
def CRecord.tick_ok (key : Int) : CRecord.Tick :=
  { get_capture := K4A_WAIT_RESULT_SUCCEEDED, record_flush := Checked.good,
    record_write_capture := Checked.good, color_image := true, depth_image := true, key := key }

/-- A start-up in which one device is installed and every call succeeds. -/
def CppRecord.env_ok : CppRecord.Env :=
  { installed_count := 1, device_open := K4A_RESULT_SUCCEEDED,
    device_start_cameras := K4A_RESULT_SUCCEEDED, local_time := tm_ok,
    record_create := K4A_RESULT_SUCCEEDED, record_write_header := K4A_RESULT_SUCCEEDED,
    record_flush := K4A_RESULT_SUCCEEDED }

/-- A tick in which the capture arrives with both images and is written;
`key` is polled. -/
def CppRecord.tick_ok (key : Int) : CppRecord.Tick :=
  { get_capture := K4A_WAIT_RESULT_SUCCEEDED, record_write_capture := K4A_RESULT_SUCCEEDED,
    color_image := true, depth_image := true, key := key }

/-- Whether an event is a call of `k4a_record_write_header`. -/
def Event.is_write_header : Event → Bool
  | .record_write_header _ _ => true
  | _ => false

/-- Whether an event is a call of `k4a_record_write_capture`. -/
def Event.is_write_capture : Event → Bool
  | .record_write_capture _ _ _ => true
  | _ => false

/-- Whether an event reads an image out of a capture. -/
def Event.is_extraction : Event → Bool
  | .capture_get_color_image _ _ => true
  | .capture_get_depth_image _ _ => true
  | .capture_get_ir_image _ _ => true
  | _ => false

/-- The world `w'` continues `w`, and every event added satisfies `p`. -/
def World.extends_by (p : Event → Bool) (w' w : World) : Prop :=
  ∃ evs, w'.trace = w.trace ++ evs ∧ ∀ e ∈ evs, p e = true

/-- Whether an event belongs to `draw()` or `show()` of the record samples: a
`cv::Mat` is made of an image, an image is released, a window is shown. -/
def Event.is_presentation : Event → Bool
  | .get_mat _ => true
  | .image_release _ => true
  | .imshow _ _ => true
  | _ => false

/-- The events the record samples may make once the object is constructed. -/
def run_events_of_record : Event → Bool
  | .run => true
  | .cout _ => true
  | .device_get_capture _ _ _ => true
  | .record_write_capture _ _ _ => true
  | .capture_get_color_image _ _ => true
  | .capture_get_depth_image _ _ => true
  | .capture_release _ => true
  | .get_mat _ => true
  | .image_release _ => true
  | .imshow _ _ => true
  | .waitKey _ _ => true
  | .finalize => true
  | .record_flush _ _ => true
  | .record_close _ => true
  | .device_stop_cameras _ => true
  | .device_close _ => true
  | .destroyAllWindows => true
  | .terminate => true
  | _ => false

/-- The five calls `update()` of the record samples makes for the capture
`capture` when every call succeeds: the capture is acquired from `device`,
written to `record`, its colour and depth image are read, and it is released. -/
def update_calls (device record : Option Handle) (capture : Handle)
    (color_image depth_image : Option Handle) : List Event :=
  [.device_get_capture device K4A_WAIT_RESULT_SUCCEEDED (some capture),
   .record_write_capture record (some capture) K4A_RESULT_SUCCEEDED,
   .capture_get_color_image (some capture) color_image,
   .capture_get_depth_image (some capture) depth_image,
   .capture_release (some capture)]

/-- The state of the C++ record sample between two ticks: a recording is open
and the wrappers of the capture and of the images are empty. -/
def CppRecord.State.idle (s : CppRecord.State) : Prop :=
  s.record.isSome = true ∧ s.capture = none ∧ s.color_image = none ∧ s.depth_image = none

/-! ## sample/cpp/point_cloud -/

namespace CppPointCloud

/-- The data members of `kinect`; `transformation` tells whether the wrapper
holds a transformation handle.  The member `viewer` exists only when the
program is built with `HAVE_OPENCV_VIZ`; it holds nothing the model reads. -/
structure State where
  w : World
  device : Option Handle
  capture : Option Handle
  transformation : Bool
  device_index : Nat
  color_image : Option Handle
  color : Option Mat
  depth_image : Option Handle
  transformed_depth_image : Option Handle
  transformed_depth : Option Mat
  xyz_image : Option Handle
  xyz : Option Mat
  deriving DecidableEq, Repr

/-- The replies read while the object is constructed. -/
structure Env where
  installed_count : Nat
  device_open : k4a_result_t
  device_start_cameras : k4a_result_t
  device_get_calibration : k4a_result_t
  deriving DecidableEq, Repr

/-- The replies read in one iteration of the main loop; `viewer_was_stopped`
is read only by a program built with `HAVE_OPENCV_VIZ`. -/
structure Tick where
  get_capture : k4a_wait_result_t
  color_image : Bool
  depth_image : Bool
  depth_image_to_color_camera : k4a_result_t
  depth_image_to_point_cloud : k4a_result_t
  key : Int
  viewer_was_stopped : Bool
  deriving DecidableEq, Repr

/-- The wrapper function `k4a::device::close()`. -/
def device_close (s : State) : State :=
  match s.device with
  | none => s
  | some h => { s with device := none, w := s.w.emit (.device_close (some h)) }

/-- The wrapper function `k4a::device::stop_cameras()`. -/
def device_stop_cameras (s : State) : State :=
  match s.device with
  | none => s
  | some h => { s with w := s.w.emit (.device_stop_cameras (some h)) }

/-- The wrapper function `k4a::transformation::destroy()`. -/
def transformation_destroy (s : State) : State :=
  if s.transformation then
    { s with transformation := false, w := s.w.emit .transformation_destroy }
  else s

/-- The wrapper function `k4a::capture::reset()` on the member `capture`. -/
def capture_reset (s : State) : State :=
  match s.capture with
  | none => s
  | some h => { s with capture := none, w := s.w.emit (.capture_release (some h)) }

/-- The release of an image wrapper that holds `image`. -/
def image_reset (image : Option Handle) (w : World) : World :=
  match image with
  | none => w
  | some h => w.emit (.image_release (some h))

/-- The destruction of the data members, last declared first. -/
def destroy_members (s : State) : State :=
  let s := { s with xyz := none }
  let s := { s with xyz_image := none, w := image_reset s.xyz_image s.w }
  let s := { s with transformed_depth := none }
  let s := { s with transformed_depth_image := none,
                    w := image_reset s.transformed_depth_image s.w }
  let s := { s with depth_image := none, w := image_reset s.depth_image s.w }
  let s := { s with color := none }
  let s := { s with color_image := none, w := image_reset s.color_image s.w }
  let s := transformation_destroy s
  let s := capture_reset s
  device_close s

/-- The assignment `transformation = k4a::transformation( calibration )`. -/
def transformation_assign (s : State) : State :=
  let s := { s with w := s.w.emit .transformation_create }
  { transformation_destroy s with transformation := true }

/-- The member function `kinect::initialize_sensor()`. -/
def initialize_sensor (env : Env) (s : State) : Outcome State :=
  let s := { s with w := s.w.emit (.device_get_installed_count env.installed_count) }
  let device_count := to_int32 env.installed_count
  if device_count = 0 then
    .thrown "Failed to found device!" s
  else
    match env.device_open with
    | K4A_RESULT_FAILED =>
        .thrown "Failed to open device!"
          { s with w := s.w.emit (.device_open s.device_index K4A_RESULT_FAILED none) }
    | K4A_RESULT_SUCCEEDED =>
        let (h, w) := s.w.fresh
        let s := { s with w := w.emit (.device_open s.device_index K4A_RESULT_SUCCEEDED (some h)) }
        let s := { device_close s with device := some h }
        let s := { s with w := s.w.emit (.device_start_cameras s.device env.device_start_cameras) }
        if K4A_FAILED env.device_start_cameras then
          .thrown "Failed to start cameras!" s
        else
          let s := { s with w := s.w.emit
                                  (.device_get_calibration s.device env.device_get_calibration) }
          if K4A_FAILED env.device_get_calibration then
            .thrown "Failed to get calibration!" s
          else
            .ok (transformation_assign s)

/-- The member function `kinect::initialize_viewer()`; its body is compiled
only with `HAVE_OPENCV_VIZ`. -/
def initialize_viewer (HAVE_OPENCV_VIZ : Bool) (s : State) : Outcome State :=
  if HAVE_OPENCV_VIZ then
    let window_name := "point cloud (kinect " ++ format_d s.device_index ++ ")"
    let s := { s with w := s.w.emit (.viewer_create window_name) }
    .ok { s with w := s.w.emit (.viewer_show_widget "origin") }
  else
    .ok s

/-- The member function `kinect::initialize()`. -/
def initialize_kinect (HAVE_OPENCV_VIZ : Bool) (env : Env) (s : State) : Outcome State :=
  (initialize_sensor env s).andThen fun s =>
  initialize_viewer HAVE_OPENCV_VIZ s

/-- The constructor `kinect::kinect( index )`; when its body throws, the
members, which were all constructed before, are destroyed. -/
def constructor (HAVE_OPENCV_VIZ : Bool) (index : Nat) (env : Env) (w : World) :
    Outcome State :=
  match initialize_kinect HAVE_OPENCV_VIZ env
      { w := w, device_index := index, device := none, capture := none, transformation := false,
        color_image := none, color := none, depth_image := none,
        transformed_depth_image := none, transformed_depth := none, xyz_image := none,
        xyz := none } with
  | .thrown what s => .thrown what (destroy_members s)
  | o => o

/-- The member function `kinect::finalize()`. -/
def finalize (HAVE_OPENCV_VIZ : Bool) (s : State) : State :=
  let s := { s with w := s.w.emit .finalize }
  let s := transformation_destroy s
  let s := device_stop_cameras s
  let s := device_close s
  let s := { s with w := s.w.emit .destroyAllWindows }
  if HAVE_OPENCV_VIZ then
    { s with w := s.w.emit .viewer_close }
  else
    s

/-- The destructor `kinect::~kinect()`: its body calls `finalize()`, then the
members are destroyed. -/
def destructor (HAVE_OPENCV_VIZ : Bool) (s : State) : State :=
  destroy_members (finalize HAVE_OPENCV_VIZ s)

/-- The member function `kinect::update_frame()`; the wrapper
`device.get_capture( &capture, time_out )` throws when the SDK call failed,
returns `false` on a timeout, and otherwise assigns the new capture. -/
def update_frame (HAVE_OPENCV_VIZ : Bool) (t : Tick) (s : State) : Outcome State :=
  match t.get_capture with
  | K4A_WAIT_RESULT_FAILED =>
      .thrown "Failed to get capture from device!"
        { s with w := s.w.emit (.device_get_capture s.device K4A_WAIT_RESULT_FAILED none) }
  | K4A_WAIT_RESULT_TIMEOUT =>
      let s := { s with w := s.w.emit (.device_get_capture s.device K4A_WAIT_RESULT_TIMEOUT none) }
      .ok (destructor HAVE_OPENCV_VIZ s)
  | K4A_WAIT_RESULT_SUCCEEDED =>
      let (h, w) := s.w.fresh
      let s := { s with w := w.emit (.device_get_capture s.device K4A_WAIT_RESULT_SUCCEEDED (some h)) }
      .ok { capture_reset s with capture := some h }

/-- The member function `kinect::update_color()`: a null capture has no colour
image. -/
def update_color (t : Tick) (s : State) : Outcome State :=
  if s.capture.isSome && t.color_image then
    let (h, w) := s.w.fresh
    let s := { s with w := w.emit (.capture_get_color_image s.capture (some h)) }
    .ok { s with color_image := some h, w := image_reset s.color_image s.w }
  else
    let s := { s with w := s.w.emit (.capture_get_color_image s.capture none) }
    .ok { s with color_image := none, w := image_reset s.color_image s.w }

/-- The member function `kinect::update_depth()`: a null capture has no depth
image. -/
def update_depth (t : Tick) (s : State) : Outcome State :=
  if s.capture.isSome && t.depth_image then
    let (h, w) := s.w.fresh
    let s := { s with w := w.emit (.capture_get_depth_image s.capture (some h)) }
    .ok { s with depth_image := some h, w := image_reset s.depth_image s.w }
  else
    let s := { s with w := s.w.emit (.capture_get_depth_image s.capture none) }
    .ok { s with depth_image := none, w := image_reset s.depth_image s.w }

/-- The member function `kinect::update_transformation()`; the wrapper call
`transformation.depth_image_to_color_camera( depth_image )` throws when the
SDK call failed, and its result is assigned to `transformed_depth_image`. -/
def update_transformation (t : Tick) (s : State) : Outcome State :=
  if s.depth_image.isNone then
    .ok s
  else
    match t.depth_image_to_color_camera with
    | K4A_RESULT_FAILED =>
        .thrown "Failed to convert depth image to color camera!"
          { s with w := s.w.emit
                          (.transformation_depth_image_to_color_camera s.depth_image none
                            K4A_RESULT_FAILED) }
    | K4A_RESULT_SUCCEEDED =>
        let (h, w) := s.w.fresh
        let s := { s with w := w.emit
                                (.transformation_depth_image_to_color_camera s.depth_image (some h)
                                  K4A_RESULT_SUCCEEDED) }
        .ok { s with transformed_depth_image := some h,
                     w := image_reset s.transformed_depth_image s.w }

/-- The member function `kinect::update_point_cloud()`; the wrapper call
`transformation.depth_image_to_point_cloud( transformed_depth_image, camera )`
throws when the SDK call failed, and its result is assigned to `xyz_image`. -/
def update_point_cloud (t : Tick) (s : State) : Outcome State :=
  if s.transformed_depth_image.isNone then
    .ok s
  else
    match t.depth_image_to_point_cloud with
    | K4A_RESULT_FAILED =>
        .thrown "Failed to transform depth image to point cloud!"
          { s with w := s.w.emit
                          (.transformation_depth_image_to_point_cloud s.transformed_depth_image none
                            K4A_RESULT_FAILED) }
    | K4A_RESULT_SUCCEEDED =>
        let (h, w) := s.w.fresh
        let s := { s with w := w.emit
                                (.transformation_depth_image_to_point_cloud
                                  s.transformed_depth_image (some h) K4A_RESULT_SUCCEEDED) }
        .ok { s with xyz_image := some h, w := image_reset s.xyz_image s.w }

/-- The member function `kinect::update()`. -/
def update (HAVE_OPENCV_VIZ : Bool) (t : Tick) (s : State) : Outcome State :=
  (update_frame HAVE_OPENCV_VIZ t s).andThen fun s =>
  (update_color t s).andThen fun s =>
  (update_depth t s).andThen fun s =>
  (update_transformation t s).andThen fun s =>
  (update_point_cloud t s).andThen fun s =>
  .ok (capture_reset s)

/-- The member function `kinect::draw_color()`. -/
def draw_color (s : State) : Outcome State :=
  match s.color_image with
  | none => .ok s
  | some h =>
      let s := { s with color := some { source := h, conversions := 0 },
                        w := s.w.emit (.get_mat (some h)) }
      .ok { s with color_image := none, w := image_reset s.color_image s.w }

/-- The member function `kinect::draw_depth()`. -/
def draw_depth (s : State) : Outcome State :=
  match s.depth_image with
  | none => .ok s
  | some _ => .ok { s with depth_image := none, w := image_reset s.depth_image s.w }

/-- The member function `kinect::draw_transformation()`. -/
def draw_transformation (s : State) : Outcome State :=
  match s.transformed_depth_image with
  | none => .ok s
  | some h =>
      let s := { s with transformed_depth := some { source := h, conversions := 0 },
                        w := s.w.emit (.get_mat (some h)) }
      .ok { s with transformed_depth_image := none,
                   w := image_reset s.transformed_depth_image s.w }

/-- The member function `kinect::draw_point_cloud()`. -/
def draw_point_cloud (s : State) : Outcome State :=
  match s.xyz_image with
  | none => .ok s
  | some h =>
      let s := { s with xyz := some { source := h, conversions := 0 },
                        w := s.w.emit (.get_mat (some h)) }
      .ok { s with xyz_image := none, w := image_reset s.xyz_image s.w }

/-- The member function `kinect::draw()`. -/
def draw (s : State) : Outcome State :=
  (draw_color s).andThen fun s =>
  (draw_depth s).andThen fun s =>
  (draw_transformation s).andThen fun s =>
  draw_point_cloud s

/-- The member function `kinect::show_color()`. -/
def show_color (s : State) : Outcome State :=
  match s.color with
  | none => .ok s
  | some m =>
      let window_name := "color (kinect " ++ format_d s.device_index ++ ")"
      .ok { s with w := s.w.emit (.imshow window_name (some m)) }

/-- The member function `kinect::show_transformation()`. -/
def show_transformation (s : State) : Outcome State :=
  match s.transformed_depth with
  | none => .ok s
  | some m =>
      let s := { s with transformed_depth := some { m with conversions := m.conversions + 1 } }
      let window_name := "transformed depth (kinect " ++ format_d s.device_index ++ ")"
      .ok { s with w := s.w.emit (.imshow window_name s.transformed_depth) }

/-- The member function `kinect::show_point_cloud()`; what follows the test is
compiled only with `HAVE_OPENCV_VIZ`. -/
def show_point_cloud (HAVE_OPENCV_VIZ : Bool) (s : State) : Outcome State :=
  if s.xyz.isNone || s.color.isNone then
    .ok s
  else if HAVE_OPENCV_VIZ then
    let s := { s with w := s.w.emit (.viewer_show_widget "cloud") }
    .ok { s with w := s.w.emit .viewer_spin_once }
  else
    .ok s

/-- The member function `kinect::show()`. -/
def show_ (HAVE_OPENCV_VIZ : Bool) (s : State) : Outcome State :=
  (show_color s).andThen fun s =>
  (show_transformation s).andThen fun s =>
  show_point_cloud HAVE_OPENCV_VIZ s

/-- One pass through the body of the main loop up to the key poll. -/
def tick (HAVE_OPENCV_VIZ : Bool) (t : Tick) (s : State) : Outcome State :=
  (update HAVE_OPENCV_VIZ t s).andThen fun s =>
  (draw s).andThen fun s => show_ HAVE_OPENCV_VIZ s

/-- The main loop of `kinect::run()`, one scripted `Tick` per iteration; the
test of `viewer.wasStopped()` is compiled only with `HAVE_OPENCV_VIZ`. -/
def run_loop (HAVE_OPENCV_VIZ : Bool) : List Tick → State → Outcome State
  | [], s => .running s
  | t :: ticks, s =>
    match tick HAVE_OPENCV_VIZ t s with
    | .ok s =>
        let key := t.key
        let s := { s with w := s.w.emit (.waitKey 30 key) }
        if key = key_q then .ok s
        else if HAVE_OPENCV_VIZ then
          let s := { s with w := s.w.emit (.viewer_was_stopped t.viewer_was_stopped) }
          if t.viewer_was_stopped then .ok s else run_loop HAVE_OPENCV_VIZ ticks s
        else run_loop HAVE_OPENCV_VIZ ticks s
    | o => o

/-- The member function `kinect::run()`. -/
def run (HAVE_OPENCV_VIZ : Bool) (ticks : List Tick) (s : State) : Outcome State :=
  run_loop HAVE_OPENCV_VIZ ticks { s with w := s.w.emit .run }

/-- The program: `main` with the default device index. -/
def main (HAVE_OPENCV_VIZ : Bool) (env : Env) (ticks : List Tick) : Process :=
  run_main State.w (constructor HAVE_OPENCV_VIZ 0 env { trace := [], next := 0 })
    (run HAVE_OPENCV_VIZ ticks) (destructor HAVE_OPENCV_VIZ)

end CppPointCloud

/-- A start-up in which one device is installed and every call succeeds. -/
def CppPointCloud.env_ok : CppPointCloud.Env :=
  { installed_count := 1, device_open := K4A_RESULT_SUCCEEDED,
    device_start_cameras := K4A_RESULT_SUCCEEDED,
    device_get_calibration := K4A_RESULT_SUCCEEDED }

/-- A tick in which the capture arrives with both images and every
transformation succeeds; `key` is polled, and `stopped` is the answer of
`viewer.wasStopped()`. -/
def CppPointCloud.tick_ok (key : Int) (stopped : Bool) : CppPointCloud.Tick :=
  { get_capture := K4A_WAIT_RESULT_SUCCEEDED, color_image := true, depth_image := true,
    depth_image_to_color_camera := K4A_RESULT_SUCCEEDED,
    depth_image_to_point_cloud := K4A_RESULT_SUCCEEDED, key := key,
    viewer_was_stopped := stopped }

/-- Whether an event is a poll of the key, `cv::waitKey`. -/
def Event.is_waitKey : Event → Bool
  | .waitKey _ _ => true
  | _ => false

/-- Whether an event asks the device for a capture, the first call of
`update()`. -/
def Event.is_get_capture : Event → Bool
  | .device_get_capture _ _ _ => true
  | _ => false

/-! ## The stages of a tick -/

/-- The stages of a tick that a call may belong to. -/
inductive Stage where
  /-- A capture is requested from the device or from the recording. -/
  | acquire
  /-- An image is read out of a capture. -/
  | extract
  /-- A capture is handed to the body tracker, or a result is taken from it. -/
  | track
  /-- An image is transformed to the geometry of another camera or to a point cloud. -/
  | transform
  /-- An image is shown in a window. -/
  | present
  deriving DecidableEq, Repr

/-- The stage of a call; the other calls belong to no stage. -/
def Event.stage : Event → Option Stage
  | .device_get_capture _ _ _ => some .acquire
  | .playback_get_next_capture _ _ _ => some .acquire
  | .capture_get_color_image _ _ => some .extract
  | .capture_get_depth_image _ _ => some .extract
  | .capture_get_ir_image _ _ => some .extract
  | .tracker_enqueue_capture _ _ _ => some .track
  | .tracker_pop_result _ _ _ => some .track
  | .transformation_color_image_to_depth_camera _ _ _ _ => some .transform
  | .transformation_depth_image_to_color_camera _ _ _ => some .transform
  | .transformation_depth_image_to_color_camera_custom _ _ _ _ _ => some .transform
  | .transformation_depth_image_to_point_cloud _ _ _ => some .transform
  | .imshow _ _ => some .present
  | _ => none

/-- The order Acquire, Extract, Track, Transform, Present. -/
def Stage.rank : Stage → Nat
  | .acquire => 0
  | .extract => 1
  | .track => 2
  | .transform => 3
  | .present => 4

/-- The order Acquire, Track, Extract, Transform, Present. -/
def Stage.rank_in_skeleton : Stage → Nat
  | .acquire => 0
  | .track => 1
  | .extract => 2
  | .transform => 3
  | .present => 4

/-- Whether the calls of `evs` that belong to a stage are made in the order
of `rank`: no call of a later stage is followed by a call of an earlier one. -/
def stages_in_order (rank : Stage → Nat) (evs : List Event) : Bool :=
  decide ((evs.filterMap Event.stage).Pairwise fun a b => rank a ≤ rank b)

/-- Whether a call belongs to the stage of rank `k` or to no stage. -/
def Event.in_stage (rank : Stage → Nat) (k : Nat) (e : Event) : Bool :=
  match e.stage with
  | none => true
  | some stage => rank stage == k

/-- The world `w'` continues `w` by calls whose stages are in the order of
`rank` and have a rank of at most `k`. -/
def World.ordered_upto (rank : Stage → Nat) (k : Nat) (w' w : World) : Prop :=
  ∃ evs, w'.trace = w.trace ++ evs ∧ stages_in_order rank evs = true
    ∧ ∀ e ∈ evs, ∀ stage, e.stage = some stage → rank stage ≤ k

/-- The events added to the trace `old` in the trace `new`. -/
def events_since (old new : List Event) : List Event :=
  new.drop old.length

/-! ## The markers of one picture -/

/-- The markers `kinect::show_skeleton()` has to draw into `image` for one body:
for each joint whose projection is valid, in the order of the joints, the
circle of radius 5 at the pixel of the joint, in the colour of the body and
with the thickness chosen for the joint. -/
def markers_of_body (image : Option Mat) (colors : List (Nat × Nat × Nat))
    (body : CSkeleton.k4abt_body_t) : List Event :=
  (body.joints.filter fun joint => joint.valid).map fun joint =>
    Event.circle image joint.x joint.y 5
      ((CSkeleton.marker_color colors body.id).getD (0, 0, 0))
      (CSkeleton.marker_thickness joint)

/-- Every call of the 3D-to-2D projection made for the bodies succeeds. -/
def projections_succeed (bodies : List CSkeleton.k4abt_body_t) : Prop :=
  ∀ body ∈ bodies, ∀ joint ∈ body.joints, joint.projection.first = K4A_RESULT_SUCCEEDED

/-- The number of joints of the bodies whose projection is valid. -/
def valid_joints (bodies : List CSkeleton.k4abt_body_t) : Nat :=
  (bodies.map fun body => body.joints.countP fun joint => joint.valid).sum

/-- A tick of the index-map sample in which the capture has a depth image and
no colour image, the body frame has a body index map and every call succeeds;
`key` is polled. -/
def CIndexMap.tick_no_color (key : Int) : CIndexMap.Tick :=
  { CIndexMap.tick_ok key with color_image := false }

/-! ## The geometry of the images a sample creates -/

/-- The SDK enumeration `k4a_image_format_t`, as far as the samples name it. -/
inductive k4a_image_format_t where
  | K4A_IMAGE_FORMAT_COLOR_MJPG
  | K4A_IMAGE_FORMAT_COLOR_BGRA32
  | K4A_IMAGE_FORMAT_DEPTH16
  | K4A_IMAGE_FORMAT_CUSTOM8
  | K4A_IMAGE_FORMAT_CUSTOM
  deriving DecidableEq, Repr

/-- What `k4a_image_get_width_pixels` and `k4a_image_get_height_pixels` return
for an image. -/
structure image_size where
  width_pixels : Int
  height_pixels : Int
  deriving DecidableEq, Repr

/-- The arguments of one call
`k4a_image_create( format, width_pixels, height_pixels, stride_bytes, &image )`. -/
structure image_create_arguments where
  format : k4a_image_format_t
  width_pixels : Int
  height_pixels : Int
  stride_bytes : Int
  deriving DecidableEq, Repr

/-- The value an `int32_t` holds after a computation whose exact result is `v`. -/
def wrap_int32 (v : Int) : Int :=
  (v + 2 ^ 31) % 2 ^ 32 - 2 ^ 31

/-- The calls of `k4a_image_create` in `kinect::update_transformation()` of
`sample/c/transformation`, in the order in which they are made when the checked
calls succeed; `color_image` and `depth_image` are what the SDK reports about
the two member images, `none` for a null handle.  The factors 1 and 2 are
`sizeof( uint8_t )` and `sizeof( uint16_t )`. -/
def CTransformation.image_create_calls (color_image depth_image : Option image_size) :
    List image_create_arguments :=
  match color_image, depth_image with
  | some color_image, some depth_image =>
      let depth_width := depth_image.width_pixels
      let depth_height := depth_image.height_pixels
      let stride_bytes := wrap_int32 (wrap_int32 (depth_width * 4) * 1)
      let transformed_color_image : image_create_arguments :=
        { format := .K4A_IMAGE_FORMAT_COLOR_BGRA32, width_pixels := depth_width,
          height_pixels := depth_height, stride_bytes := stride_bytes }
      let color_width := color_image.width_pixels
      let color_height := color_image.height_pixels
      let stride_bytes := wrap_int32 (color_width * 2)
      let transformed_depth_image : image_create_arguments :=
        { format := .K4A_IMAGE_FORMAT_DEPTH16, width_pixels := color_width,
          height_pixels := color_height, stride_bytes := stride_bytes }
      [transformed_color_image, transformed_depth_image]
  | _, _ => []

/-- Whether an event is a call of `k4a_image_create`. -/
def Event.is_image_create : Event → Bool
  | .image_create _ _ => true
  | _ => false

/-! ## The name of the recording, digit by digit -/

/-- The text of `v` in two decimal digits. -/
def two_digits (v : Nat) : String :=
  String.mk [Nat.digitChar (v / 10 % 10), Nat.digitChar (v % 10)]

/-- The text of `v` in four decimal digits. -/
def four_digits (v : Nat) : String :=
  String.mk [Nat.digitChar (v / 1000 % 10), Nat.digitChar (v / 100 % 10),
    Nat.digitChar (v / 10 % 10), Nat.digitChar (v % 10)]

/-- The file name `./YYYY_MM_DD_hhmmss.mkv` for a date and a time of day: the
year in four digits, the month, the day, the hour, the minute and the second
in two digits each. -/
def dated_file_name (year month day hour minute second : Nat) : String :=
  "./" ++ four_digits year ++ "_" ++ two_digits month ++ "_" ++ two_digits day ++ "_"
    ++ two_digits hour ++ two_digits minute ++ two_digits second ++ ".mkv"

/-- A tick of the playback sample in which the capture has a colour image and
no depth image; `key` is polled. -/
def CppPlayback.tick_no_depth (key : Int) : CppPlayback.Tick :=
  { CppPlayback.tick_ok key with depth_image := false }

/-- The pictures shown in the window `window`, oldest first. -/
def shown_in (window : String) : List Event → List (Option Mat)
  | [] => []
  | .imshow name image :: tr => if name = window then image :: shown_in window tr
      else shown_in window tr
  | _ :: tr => shown_in window tr

/-! ## Start-ups and teardowns that fail -/

/-- A start-up of the C record sample in which everything succeeds, and a
destruction by `main` in which the flush of the recording fails, the repeated
call of the error check included. -/
def CRecord.env_no_flush : CRecord.Env :=
  { CRecord.env_ok with
    record_flush := { first := K4A_RESULT_FAILED, again := K4A_RESULT_FAILED } }

/-- A start-up of the index-map sample in which the device is opened and the
start of the cameras fails, the repeated call of the error check included. -/
def CIndexMap.env_no_cameras : CIndexMap.Env :=
  { CIndexMap.env_ok with
    device_start_cameras := { first := K4A_RESULT_FAILED, again := K4A_RESULT_FAILED } }

/-- A start-up of the index-map sample in which the device is opened and the
cameras are started, and the calibration cannot be read. -/
def CIndexMap.env_no_calibration : CIndexMap.Env :=
  { CIndexMap.env_ok with
    device_get_calibration := { first := K4A_RESULT_FAILED, again := K4A_RESULT_FAILED } }

/-- A start-up of the index-map sample in which the device is opened, the
cameras are started and the calibration is read, and the creation of the body
tracker fails. -/
def CIndexMap.env_no_tracker : CIndexMap.Env :=
  { CIndexMap.env_ok with
    tracker_create := { first := K4A_RESULT_FAILED, again := K4A_RESULT_FAILED } }

/-- A start-up of the C++ depth sample in which the device is opened and the
start of the cameras fails. -/
def CppDepth.env_no_cameras : CppDepth.Env :=
  { CppDepth.env_ok with device_start_cameras := K4A_RESULT_FAILED }

/-- Whether an event is a call of `k4a_device_close`. -/
def Event.is_device_close : Event → Bool
  | .device_close _ => true
  | _ => false

/-- The device handles that were opened and not closed. -/
def open_devices (tr : List Event) : List Handle :=
  (tr.filterMap fun e =>
    match e with
    | .device_open _ _ (some h) => some h
    | _ => none).filter fun h => tr.count (Event.device_close (some h)) = 0

/-- The recordings that were created and not closed. -/
def open_records (tr : List Event) : List Handle :=
  (tr.filterMap fun e =>
    match e with
    | .record_create _ _ _ (some h) => some h
    | _ => none).filter fun h => tr.count (Event.record_close (some h)) = 0

/-- The state of the C skeleton sample before `show()` in the first tick of a
run in which everything succeeds: `update()` and `draw()` have returned, the
picture is the colour image of the tick and one body with the identifier 1 and
one joint was seen. -/
def CSkeleton.state_drawn : CSkeleton.State :=
  (CSkeleton.draw (CSkeleton.update (CSkeleton.tick_ok 0)
    (CSkeleton.constructor 0 CSkeleton.env_ok World.start).state).state).state

/-- A tick of the C record sample in which `k4a_device_get_capture` reports a
failure. -/
def CRecord.tick_failed : CRecord.Tick :=
  { CRecord.tick_ok 0 with get_capture := K4A_WAIT_RESULT_FAILED }

/-! ## Theorems -/

/-- C9: in every live-device sample, when the installed-device count is zero
the constructor throws "Failed to found device!" after the count was read and
before anything else is called, and the whole program consists of reading the
count and writing the message: no device is opened, no camera started, no
tracker created, `run()` is not entered, no window call is made. -/
theorem C9_no_device_aborts_at_startup
    (e1 : CDepth.Env) (e2 : CIndexMap.Env) (e3 : CSkeleton.Env) (e4 : CTransformation.Env)
    (e5 : CppDepth.Env) (e6 : CppPlayback.Env) (index : Nat) (w : World)
    (h1 : e1.installed_count = 0) (h2 : e2.installed_count = 0) (h3 : e3.installed_count = 0)
    (h4 : e4.installed_count = 0) (h5 : e5.installed_count = 0) (h6 : e6.installed_count = 0) :
    ((∃ s, CDepth.constructor index e1 w = .thrown "Failed to found device!" s
        ∧ s.w.trace = w.trace ++ [.device_get_installed_count 0])
      ∧ ∀ ticks, CDepth.main e1 ticks = no_device_process)
    ∧ ((∃ s, CIndexMap.constructor index e2 w = .thrown "Failed to found device!" s
        ∧ s.w.trace = w.trace ++ [.device_get_installed_count 0])
      ∧ ∀ ticks, CIndexMap.main e2 ticks = no_device_process)
    ∧ ((∃ s, CSkeleton.constructor index e3 w = .thrown "Failed to found device!" s
        ∧ s.w.trace = w.trace ++ [.device_get_installed_count 0])
      ∧ ∀ ticks, CSkeleton.main e3 ticks = no_device_process)
    ∧ ((∃ s, CTransformation.constructor index e4 w = .thrown "Failed to found device!" s
        ∧ s.w.trace = w.trace ++ [.device_get_installed_count 0])
      ∧ ∀ ticks, CTransformation.main e4 ticks = no_device_process)
    ∧ ((∃ s, CppDepth.constructor index e5 w = .thrown "Failed to found device!" s
        ∧ s.w.trace = w.trace ++ [.device_get_installed_count 0])
      ∧ ∀ ticks, CppDepth.main e5 ticks = no_device_process)
    ∧ ((∃ s, CppPlayback.constructor index e6 w = .thrown "Failed to found device!" s
        ∧ s.w.trace = w.trace ++ [.device_get_installed_count 0])
      ∧ ∀ ticks, CppPlayback.main_sensor e6 ticks = no_device_process) := by
  refine ⟨⟨?_, ?_⟩, ⟨?_, ?_⟩, ⟨?_, ?_⟩, ⟨?_, ?_⟩, ⟨?_, ?_⟩, ⟨?_, ?_⟩⟩
  · simp [CDepth.constructor, CDepth.initialize_kinect, CDepth.initialize_sensor, h1, to_int32,
      World.emit]
  · intro ticks
    simp [CDepth.main, run_main, CDepth.constructor, CDepth.initialize_kinect,
      CDepth.initialize_sensor, h1, to_int32, World.emit, no_device_process]
  · simp [CIndexMap.constructor, CIndexMap.initialize_kinect, CIndexMap.initialize_sensor, h2,
      to_int32, World.emit, Outcome.andThen]
  · intro ticks
    simp [CIndexMap.main, run_main, CIndexMap.constructor, CIndexMap.initialize_kinect,
      CIndexMap.initialize_sensor, h2, to_int32, World.emit, no_device_process, Outcome.andThen]
  · simp [CSkeleton.constructor, CSkeleton.initialize_kinect, CSkeleton.initialize_sensor, h3,
      to_int32, World.emit, Outcome.andThen]
  · intro ticks
    simp [CSkeleton.main, run_main, CSkeleton.constructor, CSkeleton.initialize_kinect,
      CSkeleton.initialize_sensor, h3, to_int32, World.emit, no_device_process, Outcome.andThen]
  · simp [CTransformation.constructor, CTransformation.initialize_kinect,
      CTransformation.initialize_sensor, h4, to_int32, World.emit]
  · intro ticks
    simp [CTransformation.main, run_main, CTransformation.constructor,
      CTransformation.initialize_kinect, CTransformation.initialize_sensor, h4, to_int32,
      World.emit, no_device_process]
  · simp [CppDepth.constructor, CppDepth.initialize_kinect, CppDepth.initialize_sensor, h5,
      to_int32, World.emit, CppDepth.destroy_members, CppDepth.depth_image_reset,
      CppDepth.capture_reset, CppDepth.device_close]
  · intro ticks
    simp [CppDepth.main, run_main, CppDepth.constructor, CppDepth.initialize_kinect,
      CppDepth.initialize_sensor, h5, to_int32, World.emit, no_device_process,
      CppDepth.destroy_members, CppDepth.depth_image_reset, CppDepth.capture_reset,
      CppDepth.device_close]
  · simp [CppPlayback.constructor, CppPlayback.initialize_kinect, CppPlayback.initialize_sensor,
      CppPlayback.members, h6, to_int32, World.emit, CppPlayback.destroy_members,
      CppPlayback.image_reset, CppPlayback.transformation_destroy, CppPlayback.capture_reset,
      CppPlayback.playback_close, CppPlayback.device_close]
  · intro ticks
    simp [CppPlayback.main_sensor, run_main, CppPlayback.constructor,
      CppPlayback.initialize_kinect, CppPlayback.initialize_sensor, CppPlayback.members, h6,
      to_int32, World.emit, no_device_process, CppPlayback.destroy_members,
      CppPlayback.image_reset, CppPlayback.transformation_destroy, CppPlayback.capture_reset,
      CppPlayback.playback_close, CppPlayback.device_close]

/-- C9, at a concrete start-up: every sample with an installed-device count of
zero, here for the depth samples and the playback sample run with a device. -/
theorem C9_no_device_witness :
    CDepth.main { CDepth.env_ok with installed_count := 0 } [CDepth.tick_ok 113]
        = no_device_process
      ∧ CppPlayback.main_sensor { CppPlayback.env_file with installed_count := 0 }
          [CppPlayback.tick_ok 113] = no_device_process :=
  have h := C9_no_device_aborts_at_startup
    { CDepth.env_ok with installed_count := 0 }
    { CIndexMap.env_ok with installed_count := 0 }
    { CSkeleton.env_ok with installed_count := 0 }
    { CTransformation.env_ok with installed_count := 0 }
    { CppDepth.env_ok with installed_count := 0 }
    { CppPlayback.env_file with installed_count := 0 }
    0 World.start rfl rfl rfl rfl rfl rfl
  ⟨h.1.2 _, h.2.2.2.2.2.2 _⟩

/-- C2, at one successful tick followed by the quit key: the index-map sample
obtains five image references; the depth image (token 4, taken from capture 2
in `update_depth`) is released neither in the tick nor at teardown, the other
four are released once. -/
theorem C2_depth_image_never_released :
    (CIndexMap.main CIndexMap.env_ok [CIndexMap.tick_ok 113]).status = some 0
      ∧ images_acquired (CIndexMap.main CIndexMap.env_ok [CIndexMap.tick_ok 113]).trace
          = [3, 4, 6, 7, 8]
      ∧ Event.capture_get_depth_image (some 2) (some 4)
          ∈ (CIndexMap.main CIndexMap.env_ok [CIndexMap.tick_ok 113]).trace
      ∧ image_releases 4 (CIndexMap.main CIndexMap.env_ok [CIndexMap.tick_ok 113]).trace = 0
      ∧ outstanding_images (CIndexMap.main CIndexMap.env_ok [CIndexMap.tick_ok 113]).trace
          = [4] := by
  decide

/-- C3, at a tick with both images followed by a tick whose capture has no
colour image: in the second tick `update_transformation` returns early,
`draw_transformation` still finds the two handles of the first tick, reads
them and releases them a second time. -/
theorem C3_released_image_used_again :
    image_used_after_release
        (CTransformation.main CTransformation.env_ok
          [CTransformation.tick_ok true true 0, CTransformation.tick_ok false true 113]).trace
        = true
      ∧ image_releases 4
          (CTransformation.main CTransformation.env_ok
            [CTransformation.tick_ok true true 0, CTransformation.tick_ok false true 113]).trace
          = 2
      ∧ image_releases 5
          (CTransformation.main CTransformation.env_ok
            [CTransformation.tick_ok true true 0, CTransformation.tick_ok false true 113]).trace
          = 2 := by
  decide

/-- C4, at a timeout of the acquisition call followed by the quit key:
`finalize()` runs once from `update_frame` and once more when the object is
destroyed at the end of `main`, in the C and in the C++ depth sample. -/
theorem C4_timeout_finalizes_twice :
    finalize_count (CDepth.main CDepth.env_ok [CDepth.tick_timeout 113]).trace = 2
      ∧ finalize_count (CppDepth.main CppDepth.env_ok [CppDepth.tick_timeout 113]).trace = 2 := by
  decide

/-- C5, at a timeout in the first tick: the tick goes on (the capture is
released, the key is polled) and a second tick asks for a capture, whereas
after a failure nothing follows but teardown and the message; in the
index-map sample the pop call follows a timed-out enqueue call in the same
tick. -/
theorem C5_timeout_does_not_stop_the_tick :
    (CDepth.main CDepth.env_ok [CDepth.tick_timeout 0, CDepth.tick_ok 113]).trace =
        [.device_get_installed_count 1,
         .device_open 0 K4A_RESULT_SUCCEEDED (some 0),
         .device_start_cameras (some 0) K4A_RESULT_SUCCEEDED,
         .run,
         .device_get_capture (some 0) K4A_WAIT_RESULT_TIMEOUT none,
         .finalize, .device_stop_cameras (some 0), .device_close (some 0), .destroyAllWindows,
         .capture_release none,
         .waitKey 30 0,
         .device_get_capture (some 0) K4A_WAIT_RESULT_SUCCEEDED (some 1),
         .capture_get_depth_image (some 1) (some 2),
         .capture_release (some 1),
         .get_mat (some 2),
         .image_release (some 2),
         .imshow "depth (kinect 0)" (some { source := 2, conversions := 1 }),
         .waitKey 30 113,
         .finalize, .device_stop_cameras (some 0), .device_close (some 0), .destroyAllWindows]
      ∧ (CDepth.main CDepth.env_ok [CDepth.tick_failed, CDepth.tick_ok 113]).trace =
        [.device_get_installed_count 1,
         .device_open 0 K4A_RESULT_SUCCEEDED (some 0),
         .device_start_cameras (some 0) K4A_RESULT_SUCCEEDED,
         .run,
         .device_get_capture (some 0) K4A_WAIT_RESULT_FAILED none,
         .finalize, .device_stop_cameras (some 0), .device_close (some 0), .destroyAllWindows,
         .cout "Failed to get capture from device!\n"]
      ∧ ((CIndexMap.main CIndexMap.env_ok
            [CIndexMap.tick_enqueue K4A_WAIT_RESULT_TIMEOUT 113]).trace.drop 10).take 7 =
        [.tracker_enqueue_capture (some 1) (some 2) K4A_WAIT_RESULT_TIMEOUT,
         .finalize, .tracker_destroy (some 1), .transformation_destroy,
         .device_stop_cameras (some 0), .device_close (some 0),
         .destroyAllWindows]
      ∧ Event.tracker_pop_result (some 1) K4A_WAIT_RESULT_SUCCEEDED (some 5)
          ∈ (CIndexMap.main CIndexMap.env_ok
              [CIndexMap.tick_enqueue K4A_WAIT_RESULT_TIMEOUT 113]).trace := by
  decide

/-- C6, at a recording that ends in the second tick: the process ends with
status 0 and asks for no third capture, but `finalize()` does not run at all:
`std::exit` ends the process inside `update_frame` and the object in `main` is
not destroyed, so the playback is never closed. -/
theorem C6_end_of_stream_skips_finalize :
    (CppPlayback.main 0 CppPlayback.env_file
        [CppPlayback.tick_ok 0, CppPlayback.tick_eof, CppPlayback.tick_ok 0]).status = some 0
      ∧ ((CppPlayback.main 0 CppPlayback.env_file
          [CppPlayback.tick_ok 0, CppPlayback.tick_eof, CppPlayback.tick_ok 0]).trace.filter
            Event.is_acquisition).length = 2
      ∧ finalize_count (CppPlayback.main 0 CppPlayback.env_file
          [CppPlayback.tick_ok 0, CppPlayback.tick_eof, CppPlayback.tick_ok 0]).trace = 0
      ∧ Event.playback_close (some 0) ∉ (CppPlayback.main 0 CppPlayback.env_file
          [CppPlayback.tick_ok 0, CppPlayback.tick_eof, CppPlayback.tick_ok 0]).trace
      ∧ (CppPlayback.main 0 CppPlayback.env_file
          [CppPlayback.tick_ok 0, CppPlayback.tick_eof, CppPlayback.tick_ok 0]).trace.getLast?
          = some (Event.exit 0) := by
  decide

/-- C7, at a failure of the enqueue call in the first tick: the loop stops and
`finalize()` runs once, but the capture of that tick (token 2) is released
neither by `update()`, which the exception leaves, nor by `finalize()`. -/
theorem C7_capture_left_outstanding :
    (CIndexMap.main CIndexMap.env_ok [CIndexMap.tick_enqueue K4A_WAIT_RESULT_FAILED 0]).status
        = some 0
      ∧ finalize_count
          (CIndexMap.main CIndexMap.env_ok [CIndexMap.tick_enqueue K4A_WAIT_RESULT_FAILED 0]).trace
          = 1
      ∧ captures_acquired
          (CIndexMap.main CIndexMap.env_ok [CIndexMap.tick_enqueue K4A_WAIT_RESULT_FAILED 0]).trace
          = [2]
      ∧ capture_releases 2
          (CIndexMap.main CIndexMap.env_ok [CIndexMap.tick_enqueue K4A_WAIT_RESULT_FAILED 0]).trace
          = 0
      ∧ outstanding_captures
          (CIndexMap.main CIndexMap.env_ok [CIndexMap.tick_enqueue K4A_WAIT_RESULT_FAILED 0]).trace
          = [2] := by
  decide

theorem captures_acquired_append (a b : List Event) :
    captures_acquired (a ++ b) = captures_acquired a ++ captures_acquired b := by
  induction a with
  | nil => rfl
  | cons e a ih =>
    cases e with
    | device_get_capture d r o => cases o <;> simp [captures_acquired, ih]
    | frame_get_capture f o => cases o <;> simp [captures_acquired, ih]
    | playback_get_next_capture p r o => cases o <;> simp [captures_acquired, ih]
    | _ => simp [captures_acquired, ih]

theorem frames_acquired_append (a b : List Event) :
    frames_acquired (a ++ b) = frames_acquired a ++ frames_acquired b := by
  induction a with
  | nil => rfl
  | cons e a ih =>
    cases e with
    | tracker_pop_result t r o => cases o <;> simp [frames_acquired, ih]
    | _ => simp [frames_acquired, ih]

theorem neutral_tail {e : Event} {evs : List Event} (h : neutral (e :: evs)) : neutral evs :=
  fun e' he' => h e' (List.mem_cons_of_mem _ he')

theorem neutral_append {a b : List Event} (ha : neutral a) (hb : neutral b) :
    neutral (a ++ b) := by
  intro e he
  rcases List.mem_append.mp he with h | h
  · exact ha e h
  · exact hb e h

theorem captures_acquired_neutral (evs : List Event) (h : neutral evs) :
    captures_acquired evs = [] := by
  induction evs with
  | nil => rfl
  | cons e evs ih =>
    have he := h e (List.mem_cons_self _ _)
    have ht := ih (neutral_tail h)
    cases e with
    | device_get_capture d r o =>
      cases o <;> simp_all [captures_acquired, Event.touches_capture_or_frame]
    | frame_get_capture f o =>
      cases o <;> simp_all [captures_acquired, Event.touches_capture_or_frame]
    | playback_get_next_capture p r o =>
      cases o <;> simp_all [captures_acquired, Event.touches_capture_or_frame]
    | _ => simp [captures_acquired, ht]

theorem frames_acquired_neutral (evs : List Event) (h : neutral evs) :
    frames_acquired evs = [] := by
  induction evs with
  | nil => rfl
  | cons e evs ih =>
    have he := h e (List.mem_cons_self _ _)
    have ht := ih (neutral_tail h)
    cases e with
    | tracker_pop_result t r o =>
      cases o <;> simp_all [frames_acquired, Event.touches_capture_or_frame]
    | _ => simp [frames_acquired, ht]

theorem capture_releases_neutral (c : Handle) (evs : List Event) (h : neutral evs) :
    capture_releases c evs = 0 := by
  unfold capture_releases
  rw [List.count_eq_zero]
  intro hmem
  have := h _ hmem
  simp [Event.touches_capture_or_frame] at this

theorem frame_releases_neutral (f : Handle) (evs : List Event) (h : neutral evs) :
    frame_releases f evs = 0 := by
  unfold frame_releases
  rw [List.count_eq_zero]
  intro hmem
  have := h _ hmem
  simp [Event.touches_capture_or_frame] at this

theorem capture_releases_append (c : Handle) (a b : List Event) :
    capture_releases c (a ++ b) = capture_releases c a + capture_releases c b := by
  simp [capture_releases, List.count_append]

theorem frame_releases_append (f : Handle) (a b : List Event) :
    frame_releases f (a ++ b) = frame_releases f a + frame_releases f b := by
  simp [frame_releases, List.count_append]

theorem outstanding_captures_append (a b : List Event) (ha : outstanding_captures a = [])
    (hb : outstanding_captures b = []) : outstanding_captures (a ++ b) = [] := by
  unfold outstanding_captures at *
  rw [List.filter_eq_nil_iff] at *
  intro h hmem
  rw [captures_acquired_append] at hmem
  rw [capture_releases_append]
  rcases List.mem_append.mp hmem with hm | hm
  · have := ha h hm
    simp only [decide_eq_true_eq] at this ⊢
    omega
  · have := hb h hm
    simp only [decide_eq_true_eq] at this ⊢
    omega

theorem outstanding_frames_append (a b : List Event) (ha : outstanding_frames a = [])
    (hb : outstanding_frames b = []) : outstanding_frames (a ++ b) = [] := by
  unfold outstanding_frames at *
  rw [List.filter_eq_nil_iff] at *
  intro h hmem
  rw [frames_acquired_append] at hmem
  rw [frame_releases_append]
  rcases List.mem_append.mp hmem with hm | hm
  · have := ha h hm
    simp only [decide_eq_true_eq] at this ⊢
    omega
  · have := hb h hm
    simp only [decide_eq_true_eq] at this ⊢
    omega

/-- What is handed out and released exactly once is not outstanding. -/
theorem released_exactly_once_outstanding (next : Nat) (evs : List Event)
    (h : released_exactly_once next evs) :
    outstanding_captures evs = [] ∧ outstanding_frames evs = [] := by
  unfold outstanding_captures outstanding_frames
  constructor
  · rw [List.filter_eq_nil_iff]
    intro c hc
    simp [(h.1 c hc).2]
  · rw [List.filter_eq_nil_iff]
    intro f hf
    simp [(h.2 f hf).2]

theorem World.quietly_extends_refl (w : World) : w.quietly_extends w :=
  ⟨Nat.le_refl _, [], by simp, by simp [neutral]⟩

theorem Outcome.andThen_eq_ok {σ : Type} (o : Outcome σ) (f : σ → Outcome σ) (s' : σ) :
    o.andThen f = .ok s' ↔ ∃ s, o = .ok s ∧ f s = .ok s' := by
  cases o <;> simp [Outcome.andThen]

theorem CIndexMap.index_map_update_color_quiet (t : CIndexMap.Tick) (s s' : CIndexMap.State)
    (h : CIndexMap.update_color t s = .ok s') :
    s'.capture = s.capture ∧ s'.frame = s.frame ∧ s'.w.quietly_extends s.w := by
  unfold CIndexMap.update_color CIndexMap.k4a_capture_get_color_image at h
  split at h
  · cases h
    exact ⟨rfl, rfl, World.quietly_extends_refl _⟩
  · split at h <;> cases h
    · exact ⟨rfl, rfl, by simp [World.fresh, World.emit], _, rfl,
        by simp [neutral, Event.touches_capture_or_frame]⟩
    · exact ⟨rfl, rfl, by simp [World.emit], _, rfl,
        by simp [neutral, Event.touches_capture_or_frame]⟩

theorem CIndexMap.index_map_update_depth_quiet (t : CIndexMap.Tick) (s s' : CIndexMap.State)
    (h : CIndexMap.update_depth t s = .ok s') :
    s'.capture = s.capture ∧ s'.frame = s.frame ∧ s'.w.quietly_extends s.w := by
  unfold CIndexMap.update_depth CIndexMap.k4a_capture_get_depth_image at h
  split at h
  · cases h
    exact ⟨rfl, rfl, World.quietly_extends_refl _⟩
  · split at h <;> cases h
    · exact ⟨rfl, rfl, by simp [World.fresh, World.emit], _, rfl,
        by simp [neutral, Event.touches_capture_or_frame]⟩
    · exact ⟨rfl, rfl, by simp [World.emit], _, rfl,
        by simp [neutral, Event.touches_capture_or_frame]⟩

theorem CIndexMap.index_map_update_body_index_map_quiet (t : CIndexMap.Tick) (s s' : CIndexMap.State)
    (h : CIndexMap.update_body_index_map t s = .ok s') :
    s'.capture = s.capture ∧ s'.frame = s.frame ∧ s'.w.quietly_extends s.w := by
  unfold CIndexMap.update_body_index_map at h
  split at h <;> cases h
  · exact ⟨rfl, rfl, by simp [World.fresh, World.emit], _, rfl,
      by simp [neutral, Event.touches_capture_or_frame]⟩
  · exact ⟨rfl, rfl, by simp [World.emit], _, rfl,
      by simp [neutral, Event.touches_capture_or_frame]⟩

theorem CIndexMap.index_map_update_transformation_quiet (t : CIndexMap.Tick) (s s' : CIndexMap.State)
    (h : CIndexMap.update_transformation t s = .ok s') :
    s'.capture = s.capture ∧ s'.frame = s.frame ∧ s'.w.quietly_extends s.w := by
  unfold CIndexMap.update_transformation at h
  split at h
  · cases h
    exact ⟨rfl, rfl, World.quietly_extends_refl _⟩
  · rcases h1 : t.create_transformed_depth with ⟨f1, a1⟩
    rcases h2 : t.create_transformed_body_index_map with ⟨f2, a2⟩
    rcases h3 : t.depth_image_to_color_camera_custom with ⟨f3, a3⟩
    rw [h1, h2, h3] at h
    cases f1 <;> cases f2 <;> cases f3 <;>
      simp [K4A_RESULT_CHECK, K4A_FAILED, Outcome.andThen,
        CIndexMap.create_transformed_depth_image,
        CIndexMap.create_transformed_body_index_map_image,
        CIndexMap.k4a_transformation_depth_image_to_color_camera_custom,
        World.emit, World.fresh] at h
    subst h
    refine ⟨rfl, rfl, ?_, ?_⟩
    · exact Nat.le_trans (Nat.le_succ _) (Nat.le_succ _)
    simp only [List.append_assoc]
    refine ⟨_, rfl, ?_⟩
    simp [neutral, Event.touches_capture_or_frame]

/-- The index-map part of C1. -/
theorem CIndexMap.index_map_update_released_exactly_once (t : CIndexMap.Tick) (s s' : CIndexMap.State)
    (ha : t.get_capture = K4A_WAIT_RESULT_SUCCEEDED)
    (he : t.enqueue_capture = K4A_WAIT_RESULT_SUCCEEDED)
    (hp : t.pop_result = K4A_WAIT_RESULT_SUCCEEDED)
    (hr : CIndexMap.update t s = .ok s') :
    ∃ evs, s'.w.trace = s.w.trace ++ evs
      ∧ released_exactly_once s.w.next evs
      ∧ captures_acquired evs = [s.w.next]
      ∧ (frames_acquired evs).length = 1 := by
  unfold CIndexMap.update at hr
  rw [Outcome.andThen_eq_ok] at hr
  obtain ⟨sa, hfa, hr⟩ := hr
  rw [Outcome.andThen_eq_ok] at hr
  obtain ⟨sb, hfb, hr⟩ := hr
  rw [Outcome.andThen_eq_ok] at hr
  obtain ⟨sc, hfc, hr⟩ := hr
  rw [Outcome.andThen_eq_ok] at hr
  obtain ⟨sd, hfd, hr⟩ := hr
  rw [Outcome.andThen_eq_ok] at hr
  obtain ⟨se, hfe, hr⟩ := hr
  rw [Outcome.andThen_eq_ok] at hr
  obtain ⟨sf, hff, hr⟩ := hr
  -- the capture of this tick
  simp [CIndexMap.update_frame, ha, CIndexMap.k4a_device_get_capture, World.fresh,
    World.emit] at hfa
  obtain ⟨hbc, hbf, hbn, E1, hbt, hE1⟩ := CIndexMap.index_map_update_color_quiet t sa sb hfb
  obtain ⟨hcc, hcf, hcn, E2, hct, hE2⟩ := CIndexMap.index_map_update_depth_quiet t sb sc hfc
  -- the body frame of this tick
  simp [CIndexMap.update_body_tracking, he, hp, CIndexMap.k4abt_tracker_enqueue_capture,
    CIndexMap.k4abt_tracker_pop_result, World.fresh, World.emit, Outcome.andThen] at hfd
  obtain ⟨hec, hef, hen, E3, het, hE3⟩ := CIndexMap.index_map_update_body_index_map_quiet t sd se hfe
  obtain ⟨hfc', hff', hfn, E4, hft, hE4⟩ := CIndexMap.index_map_update_transformation_quiet t se sf hff
  simp only [Outcome.ok.injEq] at hr
  subst hr
  subst hfa
  subst hfd
  simp only [World.emit] at hbt hct het hft hbn hcn ⊢
  simp only at hbc hcc hec hfc' hef hff' hbt hbn
  refine ⟨[Event.device_get_capture s.device K4A_WAIT_RESULT_SUCCEEDED (some s.w.next)] ++ E1
      ++ E2 ++ [Event.tracker_enqueue_capture sc.tracker sc.capture K4A_WAIT_RESULT_SUCCEEDED,
        Event.tracker_pop_result sc.tracker K4A_WAIT_RESULT_SUCCEEDED (some sc.w.next)]
      ++ E3 ++ E4 ++ [Event.capture_release (some s.w.next), Event.frame_release (some sc.w.next)],
    ?_, ?_, ?_, ?_⟩
  · rw [hft, het]
    simp only [hct, hbt, hfc', hec, hcc, hbc, hff', hef, List.append_assoc, List.cons_append,
      List.nil_append, List.singleton_append]
  · have hn : s.w.next ≤ sc.w.next := Nat.le_trans (Nat.le_succ _) (Nat.le_trans hbn hcn)
    constructor
    · intro h hh
      simp [captures_acquired_append, captures_acquired_neutral _ hE1,
        captures_acquired_neutral _ hE2, captures_acquired_neutral _ hE3,
        captures_acquired_neutral _ hE4, captures_acquired] at hh
      subst hh
      simp only [capture_releases_append, capture_releases_neutral _ _ hE1,
        capture_releases_neutral _ _ hE2, capture_releases_neutral _ _ hE3,
        capture_releases_neutral _ _ hE4]
      simp [capture_releases]
    · intro h hh
      simp [frames_acquired_append, frames_acquired_neutral _ hE1,
        frames_acquired_neutral _ hE2, frames_acquired_neutral _ hE3,
        frames_acquired_neutral _ hE4, frames_acquired] at hh
      subst hh
      refine ⟨hn, ?_⟩
      simp only [frame_releases_append, frame_releases_neutral _ _ hE1,
        frame_releases_neutral _ _ hE2, frame_releases_neutral _ _ hE3,
        frame_releases_neutral _ _ hE4]
      simp [frame_releases]
  · simp [captures_acquired_append, captures_acquired_neutral _ hE1,
      captures_acquired_neutral _ hE2, captures_acquired_neutral _ hE3,
      captures_acquired_neutral _ hE4, captures_acquired]
  · simp [frames_acquired_append, frames_acquired_neutral _ hE1,
      frames_acquired_neutral _ hE2, frames_acquired_neutral _ hE3,
      frames_acquired_neutral _ hE4, frames_acquired]

theorem World.quietly_extends_trans {w1 w2 w3 : World} (h12 : w2.quietly_extends w1)
    (h23 : w3.quietly_extends w2) : w3.quietly_extends w1 := by
  obtain ⟨hn1, E1, ht1, hE1⟩ := h12
  obtain ⟨hn2, E2, ht2, hE2⟩ := h23
  refine ⟨Nat.le_trans hn1 hn2, E1 ++ E2, ?_, neutral_append hE1 hE2⟩
  rw [ht2, ht1, List.append_assoc]

theorem CSkeleton.skeleton_update_skeleton_loop_quiet (bodies : List CSkeleton.BodyReply) :
    ∀ (i : Nat) (s s' : CSkeleton.State),
      CSkeleton.update_skeleton_loop bodies i s = .ok s' →
      s'.capture = s.capture ∧ s'.frame = s.frame ∧ s'.w.quietly_extends s.w := by
  induction bodies with
  | nil =>
    intro i s s' h
    simp only [CSkeleton.update_skeleton_loop, Outcome.ok.injEq] at h
    subst h
    exact ⟨rfl, rfl, World.quietly_extends_refl _⟩
  | cons b rest ih =>
    intro i s s' h
    unfold CSkeleton.update_skeleton_loop at h
    rcases hb : b.skeleton with ⟨f, a⟩
    rw [hb] at h
    cases f
    · simp only [K4A_RESULT_CHECK, K4A_FAILED, CSkeleton.k4abt_frame_get_body_skeleton,
        World.emit, bne_self_eq_false, Bool.false_eq_true, if_false] at h
      obtain ⟨hc, hf, hq⟩ := ih _ _ _ h
      refine ⟨hc, hf, World.quietly_extends_trans ?_ hq⟩
      refine ⟨Nat.le_refl _,
        [Event.frame_get_body_id s.frame i,
         Event.frame_get_body_skeleton s.frame i K4A_RESULT_SUCCEEDED], ?_, ?_⟩
      · simp only [List.append_assoc, List.singleton_append]
      · simp [neutral, Event.touches_capture_or_frame]
    · simp [K4A_RESULT_CHECK, K4A_FAILED] at h

theorem CSkeleton.skeleton_update_skeleton_quiet (t : CSkeleton.Tick) (s s' : CSkeleton.State)
    (h : CSkeleton.update_skeleton t s = .ok s') :
    s'.capture = s.capture ∧ s'.frame = s.frame ∧ s'.w.quietly_extends s.w := by
  unfold CSkeleton.update_skeleton at h
  obtain ⟨hc, hf, hq⟩ := CSkeleton.skeleton_update_skeleton_loop_quiet _ _ _ _ h
  refine ⟨hc, hf, World.quietly_extends_trans ?_ hq⟩
  exact ⟨Nat.le_refl _, _, rfl, by simp [neutral, Event.touches_capture_or_frame]⟩

/-- The skeleton part of C1. -/
theorem CSkeleton.skeleton_update_released_exactly_once (t : CSkeleton.Tick) (s s' : CSkeleton.State)
    (ha : t.get_capture = K4A_WAIT_RESULT_SUCCEEDED)
    (he : t.enqueue_capture = K4A_WAIT_RESULT_SUCCEEDED)
    (hp : t.pop_result = K4A_WAIT_RESULT_SUCCEEDED)
    (hr : CSkeleton.update t s = .ok s') :
    ∃ evs, s'.w.trace = s.w.trace ++ evs
      ∧ released_exactly_once s.w.next evs
      ∧ captures_acquired evs
          = (if t.frame_capture then [s.w.next, s.w.next + 2] else [s.w.next])
      ∧ frames_acquired evs = [s.w.next + 1] := by
  unfold CSkeleton.update at hr
  rw [Outcome.andThen_eq_ok] at hr
  obtain ⟨sa, hfa, hr⟩ := hr
  rw [Outcome.andThen_eq_ok] at hr
  obtain ⟨sb, hfb, hr⟩ := hr
  rw [Outcome.andThen_eq_ok] at hr
  obtain ⟨sc, hfc, hr⟩ := hr
  rw [Outcome.andThen_eq_ok] at hr
  obtain ⟨sd, hfd, hr⟩ := hr
  simp [CSkeleton.update_frame, ha, CSkeleton.k4a_device_get_capture, World.fresh,
    World.emit] at hfa
  subst hfa
  simp [CSkeleton.update_body_tracking, he, hp, CSkeleton.k4abt_tracker_enqueue_capture,
    CSkeleton.k4abt_tracker_pop_result, World.fresh, World.emit, Outcome.andThen] at hfb
  subst hfb
  obtain ⟨hdc, hdf, hdn, E, hdt, hE⟩ := CSkeleton.skeleton_update_skeleton_quiet t sc sd hfd
  simp only [Outcome.ok.injEq] at hr
  subst hr
  cases hfr : t.frame_capture <;> cases hco : t.color_image <;>
    simp [CSkeleton.update_inference, hfr, hco, World.fresh, World.emit] at hfc <;>
    subst hfc <;>
    simp only [World.emit] at hdt hdc hdf ⊢ <;>
    refine ⟨_, by rw [hdt, hdc, hdf]; simp only [List.append_assoc, List.cons_append,
      List.nil_append, List.singleton_append]; rfl, ⟨?_, ?_⟩, ?_, ?_⟩
  all_goals
    have hcE : ∀ c, List.count (Event.capture_release (some c)) E = 0 :=
      fun c => capture_releases_neutral c E hE
    have hfE : ∀ f, List.count (Event.frame_release (some f)) E = 0 :=
      fun f => frame_releases_neutral f E hE
  all_goals first
    | (intro h hh
       simp [captures_acquired_append, captures_acquired_neutral _ hE, captures_acquired] at hh
       rcases hh with rfl | rfl <;>
         simp [capture_releases, hcE, List.count_cons, List.count_append] <;>
         simp only [Nat.add_assoc] <;>
         simp)
    | (intro h hh
       simp [frames_acquired_append, frames_acquired_neutral _ hE, frames_acquired] at hh
       subst hh
       simp [frame_releases, hfE, List.count_cons, List.count_append])
    | simp [captures_acquired_append, frames_acquired_append,
        captures_acquired_neutral _ hE, frames_acquired_neutral _ hE, captures_acquired,
        frames_acquired]

theorem CIndexMap.index_map_update_returns (t : CIndexMap.Tick) (s : CIndexMap.State)
    (ha : t.get_capture = K4A_WAIT_RESULT_SUCCEEDED)
    (he : t.enqueue_capture = K4A_WAIT_RESULT_SUCCEEDED)
    (hp : t.pop_result = K4A_WAIT_RESULT_SUCCEEDED)
    (h1 : t.create_transformed_depth.first = K4A_RESULT_SUCCEEDED)
    (h2 : t.create_transformed_body_index_map.first = K4A_RESULT_SUCCEEDED)
    (h3 : t.depth_image_to_color_camera_custom.first = K4A_RESULT_SUCCEEDED) :
    ∃ s', CIndexMap.update t s = .ok s' := by
  cases hc : t.color_image <;> cases hd : t.depth_image <;> cases hb : t.body_index_map <;>
    simp [CIndexMap.update, CIndexMap.update_frame, CIndexMap.update_color,
      CIndexMap.update_depth, CIndexMap.update_body_tracking, CIndexMap.update_body_index_map,
      CIndexMap.update_transformation, CIndexMap.k4a_device_get_capture,
      CIndexMap.k4a_capture_get_color_image, CIndexMap.k4a_capture_get_depth_image,
      CIndexMap.k4abt_tracker_enqueue_capture, CIndexMap.k4abt_tracker_pop_result,
      K4A_RESULT_CHECK, K4A_FAILED, Outcome.andThen, World.fresh, World.emit,
      ha, he, hp, h1, h2, h3, hc, hd, hb]

theorem CSkeleton.skeleton_update_skeleton_loop_returns (bodies : List CSkeleton.BodyReply) :
    ∀ (i : Nat) (s : CSkeleton.State),
      (∀ b ∈ bodies, b.skeleton.first = K4A_RESULT_SUCCEEDED) →
      ∃ s', CSkeleton.update_skeleton_loop bodies i s = .ok s' := by
  induction bodies with
  | nil => intro i s _; exact ⟨s, rfl⟩
  | cons b rest ih =>
    intro i s h
    have hb := h b (List.mem_cons_self _ _)
    unfold CSkeleton.update_skeleton_loop
    simp only [K4A_RESULT_CHECK, K4A_FAILED, hb, bne_self_eq_false, Bool.false_eq_true, if_false]
    exact ih _ _ (fun b' hb' => h b' (List.mem_cons_of_mem _ hb'))

theorem CSkeleton.skeleton_update_returns (t : CSkeleton.Tick) (s : CSkeleton.State)
    (ha : t.get_capture = K4A_WAIT_RESULT_SUCCEEDED)
    (he : t.enqueue_capture = K4A_WAIT_RESULT_SUCCEEDED)
    (hp : t.pop_result = K4A_WAIT_RESULT_SUCCEEDED)
    (hb : ∀ b ∈ t.bodies, b.skeleton.first = K4A_RESULT_SUCCEEDED) :
    ∃ s', CSkeleton.update t s = .ok s' := by
  unfold CSkeleton.update
  simp only [CSkeleton.update_frame, CSkeleton.update_body_tracking, CSkeleton.update_inference,
    ha, he, hp, Outcome.andThen, reduceCtorEq, if_false]
  unfold CSkeleton.update_skeleton
  obtain ⟨s', hs'⟩ := CSkeleton.skeleton_update_skeleton_loop_returns t.bodies 0
    _ hb
  rw [hs']
  exact ⟨_, rfl⟩

/-- C1: in the index-map sample and in the skeleton sample, for every state
and every tick in which the acquisition call, the enqueue call and the pop
call succeed, when `update()` returns the events of the tick hand out the
capture of the device (in the skeleton sample also the capture taken from the
body frame, when the frame has one) and one body frame, each of them a new
token released exactly once within the tick; no capture and no body frame of
the tick is outstanding, and none is outstanding overall if none was before
the tick.  And `update()` does return when the checked calls of the tick
succeed as well. -/
theorem C1_update_releases_what_it_obtained
    (t1 : CIndexMap.Tick) (s1 : CIndexMap.State) (t2 : CSkeleton.Tick) (s2 : CSkeleton.State)
    (ha1 : t1.get_capture = K4A_WAIT_RESULT_SUCCEEDED)
    (he1 : t1.enqueue_capture = K4A_WAIT_RESULT_SUCCEEDED)
    (hp1 : t1.pop_result = K4A_WAIT_RESULT_SUCCEEDED)
    (ha2 : t2.get_capture = K4A_WAIT_RESULT_SUCCEEDED)
    (he2 : t2.enqueue_capture = K4A_WAIT_RESULT_SUCCEEDED)
    (hp2 : t2.pop_result = K4A_WAIT_RESULT_SUCCEEDED) :
    (∀ s1', CIndexMap.update t1 s1 = .ok s1' →
        (∃ evs, s1'.w.trace = s1.w.trace ++ evs
          ∧ released_exactly_once s1.w.next evs
          ∧ captures_acquired evs = [s1.w.next]
          ∧ (frames_acquired evs).length = 1
          ∧ outstanding_captures evs = [] ∧ outstanding_frames evs = [])
        ∧ (outstanding_captures s1.w.trace = [] → outstanding_captures s1'.w.trace = [])
        ∧ (outstanding_frames s1.w.trace = [] → outstanding_frames s1'.w.trace = []))
      ∧ (t1.create_transformed_depth.first = K4A_RESULT_SUCCEEDED →
          t1.create_transformed_body_index_map.first = K4A_RESULT_SUCCEEDED →
          t1.depth_image_to_color_camera_custom.first = K4A_RESULT_SUCCEEDED →
          ∃ s1', CIndexMap.update t1 s1 = .ok s1')
      ∧ (∀ s2', CSkeleton.update t2 s2 = .ok s2' →
        (∃ evs, s2'.w.trace = s2.w.trace ++ evs
          ∧ released_exactly_once s2.w.next evs
          ∧ captures_acquired evs
              = (if t2.frame_capture then [s2.w.next, s2.w.next + 2] else [s2.w.next])
          ∧ frames_acquired evs = [s2.w.next + 1]
          ∧ outstanding_captures evs = [] ∧ outstanding_frames evs = [])
        ∧ (outstanding_captures s2.w.trace = [] → outstanding_captures s2'.w.trace = [])
        ∧ (outstanding_frames s2.w.trace = [] → outstanding_frames s2'.w.trace = []))
      ∧ ((∀ b ∈ t2.bodies, b.skeleton.first = K4A_RESULT_SUCCEEDED) →
          ∃ s2', CSkeleton.update t2 s2 = .ok s2') := by
  refine ⟨?_, CIndexMap.index_map_update_returns t1 s1 ha1 he1 hp1, ?_,
    CSkeleton.skeleton_update_returns t2 s2 ha2 he2 hp2⟩
  · intro s1' hr1
    obtain ⟨evs1, ht1, hx1, hc1, hf1⟩ :=
      CIndexMap.index_map_update_released_exactly_once t1 s1 s1' ha1 he1 hp1 hr1
    have ho1 := released_exactly_once_outstanding _ _ hx1
    refine ⟨⟨evs1, ht1, hx1, hc1, hf1, ho1.1, ho1.2⟩, ?_, ?_⟩
    · intro h
      rw [ht1]
      exact outstanding_captures_append _ _ h ho1.1
    · intro h
      rw [ht1]
      exact outstanding_frames_append _ _ h ho1.2
  · intro s2' hr2
    obtain ⟨evs2, ht2, hx2, hc2, hf2⟩ :=
      CSkeleton.skeleton_update_released_exactly_once t2 s2 s2' ha2 he2 hp2 hr2
    have ho2 := released_exactly_once_outstanding _ _ hx2
    refine ⟨⟨evs2, ht2, hx2, hc2, hf2, ho2.1, ho2.2⟩, ?_, ?_⟩
    · intro h
      rw [ht2]
      exact outstanding_captures_append _ _ h ho2.1
    · intro h
      rw [ht2]
      exact outstanding_frames_append _ _ h ho2.2

/-- C1, at the first tick after a start-up in which everything succeeds, with
every image present and, in the skeleton sample, one body. -/
theorem C1_update_witness :
    outstanding_captures
        (CIndexMap.update (CIndexMap.tick_ok 0)
          (CIndexMap.constructor 0 CIndexMap.env_ok World.start).state).state.w.trace = []
      ∧ outstanding_frames
        (CSkeleton.update (CSkeleton.tick_ok 0)
          (CSkeleton.constructor 0 CSkeleton.env_ok World.start).state).state.w.trace = [] :=
  have h := C1_update_releases_what_it_obtained
    (CIndexMap.tick_ok 0) (CIndexMap.constructor 0 CIndexMap.env_ok World.start).state
    (CSkeleton.tick_ok 0) (CSkeleton.constructor 0 CSkeleton.env_ok World.start).state
    rfl rfl rfl rfl rfl rfl
  ⟨(h.1 _ (by decide)).2.1 (by decide), (h.2.2.1 _ (by decide)).2.2 (by decide)⟩

/-! ### Rounding and saturation -/

theorem cvRound_le (x : ℚ) : (cvRound x : ℚ) ≤ x + 1 / 2 := by
  have h1 := Int.floor_le x
  have h2 := Int.lt_floor_add_one x
  unfold cvRound
  split_ifs with ha hb hc
  · linarith
  · push_cast; linarith
  · linarith
  · push_cast
    have : x - ⌊x⌋ = 1 / 2 := le_antisymm (not_lt.mp hb) (not_lt.mp ha)
    linarith

theorem le_cvRound (x : ℚ) : x - 1 / 2 ≤ (cvRound x : ℚ) := by
  have h1 := Int.floor_le x
  have h2 := Int.lt_floor_add_one x
  unfold cvRound
  split_ifs with ha hb hc
  · linarith
  · push_cast; linarith
  · have : x - ⌊x⌋ = 1 / 2 := le_antisymm (not_lt.mp hb) (not_lt.mp ha)
    linarith
  · push_cast; linarith

theorem cvRound_intCast (n : ℤ) : cvRound (n : ℚ) = n := by
  unfold cvRound
  simp

theorem saturate_cast_uchar_le (v : Int) : saturate_cast_uchar v ≤ 255 := by
  unfold saturate_cast_uchar
  split_ifs <;> omega

theorem saturate_cast_uchar_of_le_zero (v : Int) (h : v ≤ 0) : saturate_cast_uchar v = 0 := by
  unfold saturate_cast_uchar
  split_ifs <;> omega

theorem saturate_cast_uchar_of_ge (v : Int) (h : 255 ≤ v) : saturate_cast_uchar v = 255 := by
  unfold saturate_cast_uchar
  split_ifs <;> omega

theorem saturate_cast_uchar_of_mem (v : Int) (h0 : 0 ≤ v) (h1 : v ≤ 255) :
    (saturate_cast_uchar v : Int) = v := by
  unfold saturate_cast_uchar
  split_ifs <;> omega

/-- C14: for every 16-bit depth sample the value shown by `show_depth` lies in
[0, 255], the sample 0 is shown as 255 and every sample from 5000 on is shown
as 0; this holds for the exact working value and for every floating-point
deviation of at most 1/4. -/
theorem C14_depth_map_range (err : ℚ) (d : Nat) (hd : d ≤ 65535) (herr : |err| ≤ 1 / 4) :
    show_depth_pixel err d ≤ 255
      ∧ (d = 0 → show_depth_pixel err d = 255)
      ∧ (5000 ≤ d → show_depth_pixel err d = 0) := by
  have he := abs_le.mp herr
  refine ⟨saturate_cast_uchar_le _, ?_, ?_⟩
  · intro h0
    subst h0
    unfold show_depth_pixel convertTo_8U
    have hl := le_cvRound ((0 : ℕ) * (-255 / 5000) + 255 + err)
    have hu := cvRound_le ((0 : ℕ) * (-255 / 5000) + 255 + err)
    have h1 : (254 : ℚ) < cvRound ((0 : ℕ) * (-255 / 5000) + 255 + err) := by
      push_cast at hl ⊢; linarith [he.1]
    have h2 : (cvRound ((0 : ℕ) * (-255 / 5000) + 255 + err) : ℚ) < 256 := by
      push_cast at hu ⊢; linarith [he.2]
    have h1' : 254 < cvRound ((0 : ℕ) * (-255 / 5000) + 255 + err) := by exact_mod_cast h1
    have h2' : cvRound ((0 : ℕ) * (-255 / 5000) + 255 + err) < 256 := by exact_mod_cast h2
    have : cvRound ((0 : ℕ) * (-255 / 5000) + 255 + err) = 255 := by omega
    rw [this]
    rfl
  · intro h5
    unfold show_depth_pixel convertTo_8U
    apply saturate_cast_uchar_of_le_zero
    have hu := cvRound_le ((d : ℚ) * (-255 / 5000) + 255 + err)
    have hd5 : (5000 : ℚ) ≤ d := by exact_mod_cast h5
    have h1 : (cvRound ((d : ℚ) * (-255 / 5000) + 255 + err) : ℚ) < 1 := by
      linarith [he.2]
    have h1' : cvRound ((d : ℚ) * (-255 / 5000) + 255 + err) < 1 := by exact_mod_cast h1
    omega

/-- C14, at the exact working value of the sample 0. -/
theorem C14_depth_map_witness : show_depth_pixel 0 0 = 255 :=
  (C14_depth_map_range 0 0 (by decide) (by norm_num)).2.1 rfl

/-- C18: for every infrared sample (16 bits wide in the source) the value shown by `show_infrared`
lies in [0, 255], it is 255 from the sample 510 on, and up to the sample 510
it differs from half the sample by at most 1/2. -/
theorem C18_infrared_map (raw : Nat) :
    show_infrared_pixel raw ≤ 255
      ∧ (510 ≤ raw → show_infrared_pixel raw = 255)
      ∧ (raw ≤ 510 → |(show_infrared_pixel raw : ℚ) - raw / 2| ≤ 1 / 2) := by
  have hl := le_cvRound ((raw : ℚ) * (1 / 2) + 0 + 0)
  have hu := cvRound_le ((raw : ℚ) * (1 / 2) + 0 + 0)
  refine ⟨saturate_cast_uchar_le _, ?_, ?_⟩
  · intro h
    unfold show_infrared_pixel convertTo_8U
    apply saturate_cast_uchar_of_ge
    have hr : (510 : ℚ) ≤ raw := by exact_mod_cast h
    have h1 : (254 : ℚ) < cvRound ((raw : ℚ) * (1 / 2) + 0 + 0) := by linarith
    have h1' : 254 < cvRound ((raw : ℚ) * (1 / 2) + 0 + 0) := by exact_mod_cast h1
    omega
  · intro h
    unfold show_infrared_pixel convertTo_8U
    have hr : (raw : ℚ) ≤ 510 := by exact_mod_cast h
    have hr0 : (0 : ℚ) ≤ raw := by exact_mod_cast Nat.zero_le raw
    have h0 : (-1 : ℚ) < cvRound ((raw : ℚ) * (1 / 2) + 0 + 0) := by linarith
    have h0' : -1 < cvRound ((raw : ℚ) * (1 / 2) + 0 + 0) := by exact_mod_cast h0
    have h1 : (cvRound ((raw : ℚ) * (1 / 2) + 0 + 0) : ℚ) < 256 := by linarith
    have h1' : cvRound ((raw : ℚ) * (1 / 2) + 0 + 0) < 256 := by exact_mod_cast h1
    have hs := saturate_cast_uchar_of_mem (cvRound ((raw : ℚ) * (1 / 2) + 0 + 0))
      (by omega) (by omega)
    have hs' : ((saturate_cast_uchar (cvRound ((raw : ℚ) * (1 / 2) + 0 + 0)) : ℕ) : ℚ)
        = (cvRound ((raw : ℚ) * (1 / 2) + 0 + 0) : ℚ) := by exact_mod_cast hs
    rw [hs', abs_le]
    constructor <;> linarith

/-- C18, at the samples 509 (a tie, rounded to the even 254) and 510. -/
theorem C18_infrared_witness :
    show_infrared_pixel 510 = 255 ∧ |(show_infrared_pixel 509 : ℚ) - 509 / 2| ≤ 1 / 2 :=
  ⟨(C18_infrared_map 510).2.1 (by decide),
   (C18_infrared_map 509).2.2 (by decide)⟩

/-- C15: in the colourised body index map an element whose label is not the
background value 255 has the colour `colors[label % colors.size()]` (the table
must have an entry for the expression to have a value), and an element whose
label is the background value is black whatever the table is, the empty table
included; the whole picture is made element by element in this way. -/
theorem C15_colorize_pixel (colors : List (Nat × Nat × Nat)) (label : Nat) :
    (label ≠ 255 → ∀ h : colors ≠ [],
        colorize_pixel colors label
          = some (colors.get ⟨label % colors.length,
              Nat.mod_lt _ (List.length_pos.mpr h)⟩))
      ∧ colorize_pixel colors 255 = some (0, 0, 0)
      ∧ ∀ body_index_map : List (List Nat),
          colorize colors body_index_map
            = body_index_map.map fun row => row.map (colorize_pixel colors) := by
  refine ⟨?_, ?_, fun _ => rfl⟩
  · intro hne h
    have hlen : colors.length ≠ 0 := fun h0 => h (List.length_eq_zero.mp h0)
    simp [colorize_pixel, K4ABT_BODY_INDEX_MAP_BACKGROUND, hne, hlen, List.getElem?_eq_getElem,
      Nat.mod_lt _ (Nat.pos_of_ne_zero hlen)]
  · simp [colorize_pixel, K4ABT_BODY_INDEX_MAP_BACKGROUND]

/-- C15, at the label 13 with the table of the index-map sample. -/
theorem C15_colorize_witness :
    colorize_pixel CIndexMap.color_table 13 = some (0, 255, 0) :=
  (C15_colorize_pixel CIndexMap.color_table 13).1 (by decide) (by decide)

theorem skeleton_show_joints_markers (id : Nat) (joints : List CSkeleton.k4abt_joint_t) :
    ∀ s : CSkeleton.State,
      (CSkeleton.show_joints id joints s).state.colors = s.colors
        ∧ (CSkeleton.show_joints id joints s).state.color = s.color
        ∧ ∃ evs, (CSkeleton.show_joints id joints s).state.w.trace = s.w.trace ++ evs
          ∧ ∀ e ∈ evs, e.is_circle = true →
              is_marker_of s.color ((CSkeleton.marker_color s.colors id).getD (0, 0, 0))
                joints e := by
  induction joints with
  | nil =>
    intro s
    exact ⟨rfl, rfl, [], by simp [CSkeleton.show_joints, Outcome.state], by simp⟩
  | cons j rest ih =>
    intro s
    unfold CSkeleton.show_joints
    rcases hp : j.projection with ⟨f, a⟩
    cases f
    · -- the projection call succeeded
      simp only [K4A_RESULT_CHECK, K4A_FAILED, bne_self_eq_false, Bool.false_eq_true, if_false]
      cases hv : j.valid
      · simp only [Bool.not_false, if_true]
        obtain ⟨hc, hm, evs, ht, hevs⟩ := ih
          { s with w := s.w.emit (.calibration_3d_to_2d K4A_RESULT_SUCCEEDED false) }
        refine ⟨hc, hm, Event.calibration_3d_to_2d K4A_RESULT_SUCCEEDED false :: evs, ?_, ?_⟩
        · rw [ht]
          simp [World.emit]
        · intro e he hcirc
          rcases List.mem_cons.mp he with rfl | he'
          · simp [Event.is_circle] at hcirc
          · obtain ⟨j', hj', hv', he''⟩ := hevs e he' hcirc
            exact ⟨j', List.mem_cons_of_mem _ hj', hv', he''⟩
      · simp only [Bool.not_true, Bool.false_eq_true, if_false]
        obtain ⟨hc, hm, evs, ht, hevs⟩ := ih
          { s with w := (s.w.emit (.calibration_3d_to_2d K4A_RESULT_SUCCEEDED true)).emit
                          (.circle s.color j.x j.y 5
                            ((CSkeleton.marker_color s.colors id).getD (0, 0, 0))
                            (CSkeleton.marker_thickness j)) }
        refine ⟨hc, hm, Event.calibration_3d_to_2d K4A_RESULT_SUCCEEDED true
          :: Event.circle s.color j.x j.y 5 ((CSkeleton.marker_color s.colors id).getD (0, 0, 0))
              (CSkeleton.marker_thickness j) :: evs, ?_, ?_⟩
        · rw [ht]
          simp [World.emit]
        · intro e he hcirc
          rcases List.mem_cons.mp he with rfl | he'
          · simp [Event.is_circle] at hcirc
          · rcases List.mem_cons.mp he' with rfl | he''
            · exact ⟨j, List.mem_cons_self _ _, hv, rfl⟩
            · obtain ⟨j', hj', hv', he3⟩ := hevs e he'' hcirc
              exact ⟨j', List.mem_cons_of_mem _ hj', hv', he3⟩
    · -- the projection call failed: the loop ends by an exception
      simp only [K4A_RESULT_CHECK, K4A_FAILED, Outcome.state, bne_iff_ne, ne_eq, reduceCtorEq,
        not_false_eq_true, if_true]
      refine ⟨trivial, trivial, [Event.calibration_3d_to_2d K4A_RESULT_FAILED j.valid,
        Event.calibration_3d_to_2d a j.valid], ?_, ?_⟩
      · simp [World.emit]
      · intro e he hcirc
        simp at he
        rcases he with rfl | rfl <;> simp [Event.is_circle] at hcirc

theorem cpp_skeleton_show_joints_markers (id : Nat) (joints : List CSkeleton.k4abt_joint_t) :
    ∀ s : CppSkeleton.State,
      (CppSkeleton.show_joints id joints s).state.colors = s.colors
        ∧ (CppSkeleton.show_joints id joints s).state.color = s.color
        ∧ ∃ evs, (CppSkeleton.show_joints id joints s).state.w.trace = s.w.trace ++ evs
          ∧ ∀ e ∈ evs, e.is_circle = true →
              is_marker_of s.color ((CSkeleton.marker_color s.colors id).getD (0, 0, 0))
                joints e := by
  induction joints with
  | nil =>
    intro s
    exact ⟨rfl, rfl, [], by simp [CppSkeleton.show_joints, Outcome.state], by simp⟩
  | cons j rest ih =>
    intro s
    unfold CppSkeleton.show_joints
    rcases hp : j.projection with ⟨f, a⟩
    cases f
    · -- the projection call succeeded
      simp only [K4A_FAILED, bne_self_eq_false, Bool.false_eq_true, if_false]
      cases hv : j.valid
      · simp only [Bool.not_false, if_true]
        obtain ⟨hc, hm, evs, ht, hevs⟩ := ih
          { s with w := s.w.emit (.calibration_3d_to_2d K4A_RESULT_SUCCEEDED false) }
        refine ⟨hc, hm, Event.calibration_3d_to_2d K4A_RESULT_SUCCEEDED false :: evs, ?_, ?_⟩
        · rw [ht]
          simp [World.emit]
        · intro e he hcirc
          rcases List.mem_cons.mp he with rfl | he'
          · simp [Event.is_circle] at hcirc
          · obtain ⟨j', hj', hv', he''⟩ := hevs e he' hcirc
            exact ⟨j', List.mem_cons_of_mem _ hj', hv', he''⟩
      · simp only [Bool.not_true, Bool.false_eq_true, if_false]
        obtain ⟨hc, hm, evs, ht, hevs⟩ := ih
          { s with w := (s.w.emit (.calibration_3d_to_2d K4A_RESULT_SUCCEEDED true)).emit
                          (.circle s.color j.x j.y 5
                            ((CSkeleton.marker_color s.colors id).getD (0, 0, 0))
                            (CSkeleton.marker_thickness j)) }
        refine ⟨hc, hm, Event.calibration_3d_to_2d K4A_RESULT_SUCCEEDED true
          :: Event.circle s.color j.x j.y 5 ((CSkeleton.marker_color s.colors id).getD (0, 0, 0))
              (CSkeleton.marker_thickness j) :: evs, ?_, ?_⟩
        · rw [ht]
          simp [World.emit]
        · intro e he hcirc
          rcases List.mem_cons.mp he with rfl | he'
          · simp [Event.is_circle] at hcirc
          · rcases List.mem_cons.mp he' with rfl | he''
            · exact ⟨j, List.mem_cons_self _ _, hv, rfl⟩
            · obtain ⟨j', hj', hv', he3⟩ := hevs e he'' hcirc
              exact ⟨j', List.mem_cons_of_mem _ hj', hv', he3⟩
    · -- the projection call failed: the loop ends by an exception
      simp only [K4A_FAILED, Outcome.state, bne_iff_ne, ne_eq, reduceCtorEq,
        not_false_eq_true, if_true]
      refine ⟨trivial, trivial, [Event.calibration_3d_to_2d K4A_RESULT_FAILED j.valid], ?_, ?_⟩
      · simp [World.emit]
      · intro e he hcirc
        simp at he
        subst he
        simp [Event.is_circle] at hcirc

/-- The table entry chosen for a body identifier from 1 on. -/
theorem marker_color_of_pos (colors : List (Nat × Nat × Nat)) (id : Nat) (hid : 1 ≤ id)
    (hid32 : id < 2 ^ 32) (h : colors ≠ []) :
    CSkeleton.marker_color colors id
      = some (colors.get ⟨(id - 1) % colors.length,
          Nat.mod_lt _ (List.length_pos.mpr h)⟩) := by
  have hlen : colors.length ≠ 0 := fun h0 => h (List.length_eq_zero.mp h0)
  have hwrap : (id + 2 ^ 32 - 1) % 2 ^ 32 = id - 1 := by
    have : id + 2 ^ 32 - 1 = (id - 1) + 2 ^ 32 := by omega
    rw [this, Nat.add_mod_right]
    exact Nat.mod_eq_of_lt (by omega)
  unfold CSkeleton.marker_color
  rw [if_neg hlen, hwrap]
  exact List.getElem?_eq_getElem (Nat.mod_lt _ (Nat.pos_of_ne_zero hlen))

/-! ### The colour table -/

theorem K4A_RESULT_CHECK_eq_ok {σ : Type} (text : String) (c : Checked)
    (call : k4a_result_t → σ → σ) (s s' : σ) (h : K4A_RESULT_CHECK text c call s = .ok s') :
    c.first = K4A_RESULT_SUCCEEDED ∧ s' = call c.first s := by
  unfold K4A_RESULT_CHECK at h
  cases hf : c.first
  · simp [hf, K4A_FAILED] at h
    exact ⟨rfl, h.symm⟩
  · simp [hf, K4A_FAILED] at h

theorem index_map_constructor_colors (index : Nat) (env : CIndexMap.Env) (w : World)
    (s : CIndexMap.State) (h : CIndexMap.constructor index env w = .ok s) :
    s.colors = CIndexMap.color_table := by
  unfold CIndexMap.constructor CIndexMap.initialize_kinect at h
  rw [Outcome.andThen_eq_ok] at h
  obtain ⟨s1, hs1, h⟩ := h
  have hc1 : s1.colors = [] := by
    unfold CIndexMap.initialize_sensor at hs1
    simp only at hs1
    split at hs1
    · cases hs1
    · rw [Outcome.andThen_eq_ok] at hs1
      obtain ⟨sa, ha, hs1⟩ := hs1
      rw [Outcome.andThen_eq_ok] at hs1
      obtain ⟨sb, hb, hs1⟩ := hs1
      rw [Outcome.andThen_eq_ok] at hs1
      obtain ⟨sc, hc, hs1⟩ := hs1
      obtain ⟨hfa, ha⟩ := K4A_RESULT_CHECK_eq_ok _ _ _ _ _ ha
      obtain ⟨hfb, hb⟩ := K4A_RESULT_CHECK_eq_ok _ _ _ _ _ hb
      obtain ⟨hfc, hc⟩ := K4A_RESULT_CHECK_eq_ok _ _ _ _ _ hc
      simp only [Outcome.ok.injEq] at hs1
      subst hs1 hc hb ha
      simp [hfa, hfb, hfc, CIndexMap.k4a_device_open, CIndexMap.k4a_device_start_cameras,
        CIndexMap.k4a_device_get_calibration, World.fresh]
  unfold CIndexMap.initialize_body_tracking at h
  rw [Outcome.andThen_eq_ok] at h
  obtain ⟨s2, hs2, h⟩ := h
  obtain ⟨hf2, hs2⟩ := K4A_RESULT_CHECK_eq_ok _ _ _ _ _ hs2
  simp only [Outcome.ok.injEq] at h
  subst h hs2
  simp [hf2, CIndexMap.k4abt_tracker_create, World.fresh, hc1]

theorem skeleton_constructor_colors (index : Nat) (env : CSkeleton.Env) (w : World)
    (s : CSkeleton.State) (h : CSkeleton.constructor index env w = .ok s) :
    s.colors = CSkeleton.color_table := by
  unfold CSkeleton.constructor CSkeleton.initialize_kinect at h
  rw [Outcome.andThen_eq_ok] at h
  obtain ⟨s1, hs1, h⟩ := h
  have hc1 : s1.colors = [] := by
    unfold CSkeleton.initialize_sensor at hs1
    simp only at hs1
    split at hs1
    · cases hs1
    · rw [Outcome.andThen_eq_ok] at hs1
      obtain ⟨sa, ha, hs1⟩ := hs1
      rw [Outcome.andThen_eq_ok] at hs1
      obtain ⟨sb, hb, hs1⟩ := hs1
      obtain ⟨hfa, ha⟩ := K4A_RESULT_CHECK_eq_ok _ _ _ _ _ ha
      obtain ⟨hfb, hb⟩ := K4A_RESULT_CHECK_eq_ok _ _ _ _ _ hb
      obtain ⟨hfc, hc⟩ := K4A_RESULT_CHECK_eq_ok _ _ _ _ _ hs1
      subst hc hb ha
      simp [hfa, hfb, hfc, CSkeleton.k4a_device_open, CSkeleton.k4a_device_start_cameras,
        CSkeleton.k4a_device_get_calibration, World.fresh]
  unfold CSkeleton.initialize_body_tracking at h
  rw [Outcome.andThen_eq_ok] at h
  obtain ⟨s2, hs2, h⟩ := h
  obtain ⟨hf2, hs2⟩ := K4A_RESULT_CHECK_eq_ok _ _ _ _ _ hs2
  simp only [Outcome.ok.injEq] at h
  subst h hs2
  simp [hf2, CSkeleton.k4abt_tracker_create, World.fresh, hc1]

theorem color_table_entries_distinct :
    ∀ i < 12, ∀ j < 12,
      (CIndexMap.color_table[i]? = CIndexMap.color_table[j]? ↔ i = j) := by
  decide

/-- C17: the colour table the index-map sample and the skeleton sample build at
initialisation has exactly 12 entries, no two of them equal; two labels other
than the background get the same colour exactly when they are congruent modulo
12, and two body identifiers from 1 on exactly when the identifiers less one
are; the labels 0 to 11 and the identifiers 1 to 12 get 12 different colours. -/
theorem C17_palette_distinct (index : Nat) (w : World)
    (env1 : CIndexMap.Env) (s1 : CIndexMap.State) (env2 : CSkeleton.Env) (s2 : CSkeleton.State)
    (h1 : CIndexMap.constructor index env1 w = .ok s1)
    (h2 : CSkeleton.constructor index env2 w = .ok s2) :
    s1.colors.length = 12 ∧ s1.colors.Nodup ∧ s2.colors.length = 12 ∧ s2.colors.Nodup
      ∧ (∀ l1 l2, l1 < 256 → l1 ≠ 255 → l2 < 256 → l2 ≠ 255 →
          (colorize_pixel s1.colors l1 = colorize_pixel s1.colors l2 ↔ l1 % 12 = l2 % 12))
      ∧ (∀ id1 id2, 1 ≤ id1 → id1 < 2 ^ 32 → 1 ≤ id2 → id2 < 2 ^ 32 →
          (CSkeleton.marker_color s2.colors id1 = CSkeleton.marker_color s2.colors id2
            ↔ (id1 - 1) % 12 = (id2 - 1) % 12))
      ∧ ((List.range 12).map (colorize_pixel s1.colors)).Nodup
      ∧ ((List.range' 1 12).map (CSkeleton.marker_color s2.colors)).Nodup := by
  have hc1 := index_map_constructor_colors index env1 w s1 h1
  have hc2 := skeleton_constructor_colors index env2 w s2 h2
  have htab : CSkeleton.color_table = CIndexMap.color_table := rfl
  rw [hc1, hc2, htab]
  refine ⟨rfl, by decide, rfl, by decide, ?_, ?_, by decide, by decide⟩
  · intro l1 l2 _ hn1 _ hn2
    have e1 : colorize_pixel CIndexMap.color_table l1 = CIndexMap.color_table[l1 % 12]? := by
      simp [colorize_pixel, K4ABT_BODY_INDEX_MAP_BACKGROUND, hn1, CIndexMap.color_table]
    have e2 : colorize_pixel CIndexMap.color_table l2 = CIndexMap.color_table[l2 % 12]? := by
      simp [colorize_pixel, K4ABT_BODY_INDEX_MAP_BACKGROUND, hn2, CIndexMap.color_table]
    rw [e1, e2]
    exact color_table_entries_distinct _ (Nat.mod_lt _ (by decide)) _ (Nat.mod_lt _ (by decide))
  · intro id1 id2 ha1 hb1 ha2 hb2
    rw [marker_color_of_pos _ id1 ha1 hb1 (by decide),
      marker_color_of_pos _ id2 ha2 hb2 (by decide)]
    have hlen : CIndexMap.color_table.length = 12 := rfl
    have := color_table_entries_distinct _ (Nat.mod_lt (id1 - 1) (by decide : 0 < 12))
      _ (Nat.mod_lt (id2 - 1) (by decide : 0 < 12))
    rw [List.getElem?_eq_getElem (by rw [hlen]; exact Nat.mod_lt _ (by decide)),
      List.getElem?_eq_getElem (by rw [hlen]; exact Nat.mod_lt _ (by decide))] at this
    simp only [List.get_eq_getElem, hlen]
    exact this

/-- C17, after a start-up in which everything succeeds: the labels 0 and 12
share a colour, the labels 0 and 1 do not. -/
theorem C17_palette_witness :
    colorize_pixel (CIndexMap.constructor 0 CIndexMap.env_ok World.start).state.colors 0
        = colorize_pixel (CIndexMap.constructor 0 CIndexMap.env_ok World.start).state.colors 12
      ∧ colorize_pixel (CIndexMap.constructor 0 CIndexMap.env_ok World.start).state.colors 0
        ≠ colorize_pixel (CIndexMap.constructor 0 CIndexMap.env_ok World.start).state.colors 1 :=
  have h := (C17_palette_distinct 0 World.start CIndexMap.env_ok
    (CIndexMap.constructor 0 CIndexMap.env_ok World.start).state CSkeleton.env_ok
    (CSkeleton.constructor 0 CSkeleton.env_ok World.start).state (by decide) (by decide)).2.2.2.2.1
  ⟨(h 0 12 (by decide) (by decide) (by decide) (by decide)).mpr (by decide),
   fun he => absurd ((h 0 1 (by decide) (by decide) (by decide) (by decide)).mp he) (by decide)⟩

theorem World.extends_by_refl (p : Event → Bool) (w : World) : w.extends_by p w :=
  ⟨[], by simp, by simp⟩

theorem World.extends_by_trans (p : Event → Bool) (w1 w2 w3 : World)
    (h12 : w2.extends_by p w1) (h23 : w3.extends_by p w2) : w3.extends_by p w1 := by
  obtain ⟨e1, h1, p1⟩ := h12
  obtain ⟨e2, h2, p2⟩ := h23
  refine ⟨e1 ++ e2, by rw [h2, h1, List.append_assoc], ?_⟩
  intro e he
  rcases List.mem_append.mp he with h | h
  · exact p1 e h
  · exact p2 e h

theorem World.extends_by_mono (p q : Event → Bool) (w' w : World)
    (hpq : ∀ e, p e = true → q e = true) (h : w'.extends_by p w) : w'.extends_by q w := by
  obtain ⟨evs, ht, hp⟩ := h
  exact ⟨evs, ht, fun e he => hpq e (hp e he)⟩

theorem Outcome.andThen_extends_by {σ : Type} (world : σ → World) (p : Event → Bool)
    (o : Outcome σ) (f : σ → Outcome σ) (w : World)
    (ho : (world o.state).extends_by p w)
    (hf : ∀ s, (world (f s).state).extends_by p (world s)) :
    (world (o.andThen f).state).extends_by p w := by
  cases o with
  | ok s => exact World.extends_by_trans p _ _ _ ho (hf s)
  | thrown what s => exact ho
  | exited status s => exact ho
  | running s => exact ho
  | terminated s => exact ho

theorem CRecord.check_extends_by (p : Event → Bool) (text : String) (c : Checked)
    (call : k4a_result_t → CRecord.State → CRecord.State) (s : CRecord.State)
    (hcall : ∀ r s, (call r s).w.extends_by p s.w) :
    (CRecord.K4A_RESULT_CHECK text c call s).state.w.extends_by p s.w := by
  unfold CRecord.K4A_RESULT_CHECK
  simp only
  split
  · exact World.extends_by_trans p _ _ _ (hcall _ _) (hcall _ _)
  · exact hcall _ _

theorem CRecord.record_finalize_events (flush : Checked) (s : CRecord.State) :
    (CRecord.finalize flush s).state.w.extends_by run_events_of_record s.w := by
  unfold CRecord.finalize
  simp only
  refine World.extends_by_trans _ _ { s with w := s.w.emit .finalize }.w _ ?_ ?_
  · simp [World.extends_by, World.emit, run_events_of_record]
  · refine Outcome.andThen_extends_by CRecord.State.w _ _ _ _ ?_ ?_
    · apply CRecord.check_extends_by
      intro r s
      simp [World.extends_by, World.emit, run_events_of_record, CRecord.k4a_record_flush]
    · intro s
      simp [World.extends_by, World.emit, run_events_of_record, Outcome.state]

theorem CRecord.record_destructor_events (flush : Checked) (s : CRecord.State) :
    (CRecord.destructor flush s).state.w.extends_by run_events_of_record s.w := by
  have h := CRecord.record_finalize_events flush s
  unfold CRecord.destructor
  split
  · rename_i s1 heq
    rw [heq] at h
    exact h
  · rename_i what s1 heq
    rw [heq] at h
    refine World.extends_by_trans _ _ _ _ h ?_
    simp [World.extends_by, World.emit, run_events_of_record, Outcome.state]
  · exact h

theorem CRecord.record_update_events (t : CRecord.Tick) (s : CRecord.State) :
    (CRecord.update t s).state.w.extends_by run_events_of_record s.w := by
  unfold CRecord.update
  refine Outcome.andThen_extends_by CRecord.State.w _ _ _ _ ?_ ?_
  · unfold CRecord.update_frame
    simp only
    have hg : (CRecord.k4a_device_get_capture t.get_capture s).w.extends_by
        run_events_of_record s.w := by
      unfold CRecord.k4a_device_get_capture
      split <;> simp [World.extends_by, World.emit, World.fresh, run_events_of_record]
    split
    · exact hg
    · split
      · exact World.extends_by_trans _ _ _ _ hg (CRecord.record_destructor_events _ _)
      · exact hg
  · intro s
    refine Outcome.andThen_extends_by CRecord.State.w _ _ _ _ ?_ ?_
    · unfold CRecord.write_frame
      split
      · exact World.extends_by_refl _ _
      · apply CRecord.check_extends_by
        intro r s
        simp [World.extends_by, World.emit, run_events_of_record, CRecord.k4a_record_write_capture]
    · intro s
      refine Outcome.andThen_extends_by CRecord.State.w _ _ _ _ ?_ ?_
      · unfold CRecord.update_color CRecord.k4a_capture_get_color_image
        split
        · exact World.extends_by_refl _ _
        · split <;> simp [World.extends_by, World.emit, World.fresh, run_events_of_record,
            Outcome.state]
      · intro s
        refine Outcome.andThen_extends_by CRecord.State.w _ _ _ _ ?_ ?_
        · unfold CRecord.update_depth CRecord.k4a_capture_get_depth_image
          split
          · exact World.extends_by_refl _ _
          · split <;> simp [World.extends_by, World.emit, World.fresh, run_events_of_record,
              Outcome.state]
        · intro s
          simp [World.extends_by, World.emit, run_events_of_record, Outcome.state]

theorem CRecord.record_tick_events (t : CRecord.Tick) (s : CRecord.State) :
    (CRecord.tick t s).state.w.extends_by run_events_of_record s.w := by
  unfold CRecord.tick
  refine Outcome.andThen_extends_by CRecord.State.w _ _ _ _
    (CRecord.record_update_events t s) ?_
  intro s
  refine Outcome.andThen_extends_by CRecord.State.w _ _ _ _ ?_ ?_
  · unfold CRecord.draw
    refine Outcome.andThen_extends_by CRecord.State.w _ _ _ _ ?_ ?_
    · unfold CRecord.draw_color
      split <;> simp [World.extends_by, World.emit, run_events_of_record, Outcome.state]
    · intro s
      unfold CRecord.draw_depth
      split <;> simp [World.extends_by, World.emit, run_events_of_record, Outcome.state]
  · intro s
    unfold CRecord.show_
    refine Outcome.andThen_extends_by CRecord.State.w _ _ _ _ ?_ ?_
    · unfold CRecord.show_color
      split <;> simp [World.extends_by, World.emit, run_events_of_record, Outcome.state]
    · intro s
      unfold CRecord.show_depth
      split <;> simp [World.extends_by, World.emit, run_events_of_record, Outcome.state]

theorem CRecord.record_run_loop_events (ticks : List CRecord.Tick) :
    ∀ s : CRecord.State,
      (CRecord.run_loop ticks s).state.w.extends_by run_events_of_record s.w := by
  induction ticks with
  | nil => intro s; exact World.extends_by_refl _ _
  | cons t ticks ih =>
    intro s
    have ht := CRecord.record_tick_events t s
    unfold CRecord.run_loop
    split
    · rename_i s1 heq
      rw [heq] at ht
      have hk : ({ s1 with w := s1.w.emit (.waitKey 30 t.key) } : CRecord.State).w.extends_by
          run_events_of_record s.w := by
        refine World.extends_by_trans _ _ _ _ ht ?_
        simp [World.extends_by, World.emit, run_events_of_record, Outcome.state]
      simp only
      split
      · exact hk
      · exact World.extends_by_trans _ _ _ _ hk (ih _)
    · exact ht

theorem run_main_terminating_events {σ : Type} (world : σ → World) (p : Event → Bool)
    (construct : Outcome σ) (run : σ → Outcome σ) (destroy : σ → Outcome σ) (s0 : σ)
    (hc : construct = .ok s0)
    (hrun : ∀ s, (world (run s).state).extends_by p (world s))
    (hdestroy : ∀ s, (world (destroy s).state).extends_by p (world s))
    (hcout : ∀ text, p (.cout text) = true) :
    ∃ post, (run_main_terminating world construct run destroy).trace = (world s0).trace ++ post
      ∧ ∀ e ∈ post, p e = true := by
  subst hc
  have hr := hrun s0
  cases hro : run s0 with
  | ok s =>
    rw [hro] at hr
    have hd := World.extends_by_trans p _ _ _ hr (hdestroy s)
    cases hdo : destroy s <;> rw [hdo] at hd <;>
      simp only [run_main_terminating, hro, hdo] <;> exact hd
  | thrown what s =>
    rw [hro] at hr
    have hd := World.extends_by_trans p _ _ _ hr (hdestroy s)
    cases hdo : destroy s with
    | ok s2 =>
      rw [hdo] at hd
      obtain ⟨evs, ht, hp⟩ := hd
      simp only [run_main_terminating, hro, hdo]
      refine ⟨evs ++ [Event.cout (what ++ "\n")], ?_, ?_⟩
      · simp only [Outcome.state] at ht
        simp [ht]
      · intro e he
        rcases List.mem_append.mp he with h | h
        · exact hp e h
        · rw [List.mem_singleton.mp h]
          exact hcout _
    | thrown _ _ => rw [hdo] at hd; simp only [run_main_terminating, hro, hdo]; exact hd
    | exited _ _ => rw [hdo] at hd; simp only [run_main_terminating, hro, hdo]; exact hd
    | running _ => rw [hdo] at hd; simp only [run_main_terminating, hro, hdo]; exact hd
    | terminated _ => rw [hdo] at hd; simp only [run_main_terminating, hro, hdo]; exact hd
  | exited status s => rw [hro] at hr; simp only [run_main_terminating, hro]; exact hr
  | running s => rw [hro] at hr; simp only [run_main_terminating, hro]; exact hr
  | terminated s => rw [hro] at hr; simp only [run_main_terminating, hro]; exact hr

theorem CRecord.check_eq_ok (text : String) (c : Checked)
    (call : k4a_result_t → CRecord.State → CRecord.State) (s s' : CRecord.State)
    (h : CRecord.K4A_RESULT_CHECK text c call s = .ok s') :
    c.first = K4A_RESULT_SUCCEEDED ∧ s' = call K4A_RESULT_SUCCEEDED s := by
  unfold CRecord.K4A_RESULT_CHECK at h
  cases hf : c.first
  · simp [hf, K4A_FAILED] at h
    exact ⟨rfl, h.symm⟩
  · simp [hf, K4A_FAILED] at h

theorem CRecord.record_update_calls (t : CRecord.Tick) (s s' : CRecord.State)
    (hrec : s.record.isSome = true) (hcap : t.get_capture = K4A_WAIT_RESULT_SUCCEEDED)
    (h : CRecord.update t s = .ok s') :
    s'.record = s.record
      ∧ s'.w.trace = s.w.trace
          ++ update_calls s.device s.record s.w.next s'.color_image s'.depth_image := by
  unfold CRecord.update at h
  rw [Outcome.andThen_eq_ok] at h
  obtain ⟨sa, ha, h⟩ := h
  rw [Outcome.andThen_eq_ok] at h
  obtain ⟨sb, hb, h⟩ := h
  rw [Outcome.andThen_eq_ok] at h
  obtain ⟨sc, hc, h⟩ := h
  rw [Outcome.andThen_eq_ok] at h
  obtain ⟨sd, hd, h⟩ := h
  simp only [CRecord.update_frame, hcap, reduceCtorEq, if_false, CRecord.k4a_device_get_capture,
    World.fresh, Outcome.ok.injEq] at ha
  subst ha
  simp only [CRecord.write_frame, Option.isNone_some, Bool.or_false, Option.isNone_iff_eq_none]
    at hb
  have hrn : ¬ s.record = none := by
    intro hn
    rw [hn] at hrec
    cases hrec
  rw [if_neg (by simpa using hrn)] at hb
  obtain ⟨_, hb⟩ := CRecord.check_eq_ok _ _ _ _ _ hb
  subst hb
  simp only [CRecord.update_color, CRecord.k4a_record_write_capture, Option.isNone_some,
    Bool.false_eq_true, if_false, Outcome.ok.injEq] at hc
  subst hc
  simp only [CRecord.update_depth, CRecord.k4a_capture_get_color_image] at hd
  cases hci : t.color_image <;> cases hdi : t.depth_image <;>
    simp only [hci, hdi, Bool.false_eq_true, if_false, if_true, Option.isNone_some, World.fresh,
      Outcome.ok.injEq, CRecord.k4a_capture_get_depth_image] at hd <;>
    subst hd <;> simp only [Outcome.ok.injEq] at h <;> subst h <;>
    refine ⟨rfl, ?_⟩ <;>
    simp only [World.emit, update_calls, List.append_assoc, List.singleton_append,
      List.cons_append, List.nil_append]

theorem CRecord.record_present (s : CRecord.State) :
    ∃ s', (CRecord.draw s).andThen CRecord.show_ = .ok s' ∧ s'.record = s.record
      ∧ s'.w.extends_by Event.is_presentation s.w := by
  rcases s with ⟨w, device, record, capture, device_index, color_image, color, depth_image, depth⟩
  cases color_image <;> cases depth_image <;> cases color <;> cases depth <;>
    simp [CRecord.draw, CRecord.draw_color, CRecord.draw_depth, CRecord.show_,
      CRecord.show_color, CRecord.show_depth, Outcome.andThen, World.extends_by, World.emit,
      Event.is_presentation]

theorem CRecord.record_constructor_calls (index : Nat) (env : CRecord.Env) (w : World)
    (s : CRecord.State) (h : CRecord.constructor index env w = .ok s) :
    s.record = some (w.next + 1)
      ∧ s.w.trace = w.trace ++
        [.device_get_installed_count env.installed_count,
         .device_open index K4A_RESULT_SUCCEEDED (some w.next),
         .device_start_cameras (some w.next) K4A_RESULT_SUCCEEDED,
         .localtime,
         .record_create ("./" ++ CRecord.oss env.local_time ++ ".mkv") (some w.next)
           K4A_RESULT_SUCCEEDED (some (w.next + 1)),
         .record_write_header (some (w.next + 1)) K4A_RESULT_SUCCEEDED] := by
  unfold CRecord.constructor CRecord.initialize_kinect at h
  rw [Outcome.andThen_eq_ok] at h
  obtain ⟨s1, hs1, h⟩ := h
  unfold CRecord.initialize_sensor at hs1
  simp only at hs1
  split at hs1
  · cases hs1
  · rw [Outcome.andThen_eq_ok] at hs1
    obtain ⟨sa, ha, hs1⟩ := hs1
    obtain ⟨_, ha⟩ := CRecord.check_eq_ok _ _ _ _ _ ha
    obtain ⟨_, hs1⟩ := CRecord.check_eq_ok _ _ _ _ _ hs1
    unfold CRecord.initialize_record at h
    simp only at h
    rw [Outcome.andThen_eq_ok] at h
    obtain ⟨sb, hb, h⟩ := h
    obtain ⟨_, hb⟩ := CRecord.check_eq_ok _ _ _ _ _ hb
    obtain ⟨_, h⟩ := CRecord.check_eq_ok _ _ _ _ _ h
    subst h hb hs1 ha
    simp [CRecord.k4a_record_write_header, CRecord.k4a_record_create,
      CRecord.k4a_device_start_cameras, CRecord.k4a_device_open, World.fresh, World.emit]

theorem CppRecord.cpp_record_present (s : CppRecord.State) :
    ∃ s', (CppRecord.draw s).andThen CppRecord.show_ = .ok s' ∧ s'.record = s.record
      ∧ s'.capture = s.capture ∧ s'.color_image = none ∧ s'.depth_image = none
      ∧ s'.w.extends_by Event.is_presentation s.w := by
  rcases s with ⟨w, device, record, capture, device_index, record_file, color_image, color,
    depth_image, depth⟩
  cases color_image <;> cases depth_image <;> cases color <;> cases depth <;>
    simp [CppRecord.draw, CppRecord.draw_color, CppRecord.draw_depth, CppRecord.show_,
      CppRecord.show_color, CppRecord.show_depth, Outcome.andThen, World.extends_by, World.emit,
      Event.is_presentation, CppRecord.image_reset]

theorem CppRecord.cpp_record_update_calls (t : CppRecord.Tick) (s s' : CppRecord.State)
    (hidle : s.idle) (h : CppRecord.update t s = .ok s') :
    s'.record = s.record ∧ s'.capture = none
      ∧ s'.w.trace = s.w.trace
          ++ update_calls s.device s.record s.w.next s'.color_image s'.depth_image := by
  obtain ⟨hrec, hcap, hcol, hdep⟩ := hidle
  rcases s with ⟨w, device, record, capture, device_index, record_file, color_image, color,
    depth_image, depth⟩
  simp only at hrec hcap hcol hdep
  subst hcap hcol hdep
  cases record with
  | none => cases hrec
  | some r =>
    cases hg : t.get_capture <;> cases hw : t.record_write_capture <;>
      cases hci : t.color_image <;> cases hdi : t.depth_image <;>
      simp [CppRecord.update, CppRecord.update_frame, CppRecord.write_frame,
        CppRecord.update_color, CppRecord.update_depth, CppRecord.capture_reset,
        CppRecord.image_reset, Outcome.andThen, World.fresh, World.emit, K4A_FAILED,
        hg, hw, hci, hdi] at h <;>
      subst h <;>
      simp [update_calls, World.emit]

theorem CppRecord.cpp_record_constructor_calls (index : Nat) (env : CppRecord.Env) (w : World)
    (s : CppRecord.State) (h : CppRecord.constructor index env w = .ok s) :
    s.idle ∧ s.record = some (w.next + 1)
      ∧ s.w.trace = w.trace ++
        [.device_get_installed_count env.installed_count,
         .device_open index K4A_RESULT_SUCCEEDED (some w.next),
         .device_start_cameras (some w.next) K4A_RESULT_SUCCEEDED,
         .localtime,
         .record_create ("./" ++ CppRecord.oss env.local_time ++ ".mkv") (some w.next)
           K4A_RESULT_SUCCEEDED (some (w.next + 1)),
         .cout ("./" ++ CppRecord.oss env.local_time ++ ".mkv" ++ "\n"),
         .record_write_header (some (w.next + 1)) K4A_RESULT_SUCCEEDED] := by
  unfold CppRecord.constructor at h
  split at h
  · cases h
  · rename_i o hne
    unfold CppRecord.initialize_kinect at h
    rw [Outcome.andThen_eq_ok] at h
    obtain ⟨s1, hs1, h⟩ := h
    by_cases hcount : to_int32 env.installed_count = 0
    · simp [CppRecord.initialize_sensor, hcount] at hs1
    · cases ho : env.device_open <;> cases hsc : env.device_start_cameras <;>
        simp [CppRecord.initialize_sensor, hcount, ho, hsc, K4A_FAILED, World.fresh,
          CppRecord.device_close] at hs1
      subst hs1
      cases hrc : env.record_create <;> cases hwh : env.record_write_header <;>
        simp [CppRecord.initialize_record, hrc, hwh, K4A_FAILED, World.fresh,
          CppRecord.record_close, CppRecord.record_write_header] at h
      subst h
      simp [CppRecord.State.idle, World.emit]

theorem CppRecord.cpp_record_capture_reset_events (s : CppRecord.State) :
    (CppRecord.capture_reset s).w.extends_by run_events_of_record s.w := by
  unfold CppRecord.capture_reset
  split <;> simp [World.extends_by, World.emit, run_events_of_record]

theorem CppRecord.cpp_record_image_reset_events (image : Option Handle) (w : World) :
    (CppRecord.image_reset image w).extends_by run_events_of_record w := by
  unfold CppRecord.image_reset
  split <;> simp [World.extends_by, World.emit, run_events_of_record]

theorem CppRecord.cpp_record_close_events (s : CppRecord.State) :
    (CppRecord.device_close (CppRecord.device_stop_cameras (CppRecord.record_close s))).w.extends_by
      run_events_of_record s.w := by
  rcases s with ⟨w, device, record, capture, device_index, record_file, color_image, color,
    depth_image, depth⟩
  cases device <;> cases record <;>
    simp [CppRecord.device_close, CppRecord.device_stop_cameras, CppRecord.record_close,
      World.extends_by, World.emit, run_events_of_record]

theorem CppRecord.cpp_record_destroy_members_events (s : CppRecord.State) :
    (CppRecord.destroy_members s).w.extends_by run_events_of_record s.w := by
  rcases s with ⟨w, device, record, capture, device_index, record_file, color_image, color,
    depth_image, depth⟩
  cases device <;> cases record <;> cases capture <;> cases color_image <;> cases depth_image <;>
    simp [CppRecord.destroy_members, CppRecord.device_close, CppRecord.record_close,
      CppRecord.capture_reset, CppRecord.image_reset,
      World.extends_by, World.emit, run_events_of_record]

theorem CppRecord.cpp_record_finalize_events (flush : k4a_result_t) (s : CppRecord.State) :
    (CppRecord.finalize flush s).state.w.extends_by run_events_of_record s.w := by
  rcases s with ⟨w, device, record, capture, device_index, record_file, color_image, color,
    depth_image, depth⟩
  cases device <;> cases record <;> cases flush <;>
    simp [CppRecord.finalize, CppRecord.record_flush, CppRecord.device_close,
      CppRecord.device_stop_cameras, CppRecord.record_close, Outcome.andThen, Outcome.state,
      K4A_FAILED, World.extends_by, World.emit, run_events_of_record]

theorem CppRecord.cpp_record_destructor_events (flush : k4a_result_t) (s : CppRecord.State) :
    (CppRecord.destructor flush s).state.w.extends_by run_events_of_record s.w := by
  have h := CppRecord.cpp_record_finalize_events flush s
  unfold CppRecord.destructor
  split
  · rename_i s1 heq
    rw [heq] at h
    exact World.extends_by_trans _ _ _ _ h (CppRecord.cpp_record_destroy_members_events _)
  · rename_i what s1 heq
    rw [heq] at h
    refine World.extends_by_trans _ _ _ _ h ?_
    simp [World.extends_by, World.emit, run_events_of_record, Outcome.state]
  · exact h

theorem CppRecord.cpp_record_update_events (t : CppRecord.Tick) (s : CppRecord.State) :
    (CppRecord.update t s).state.w.extends_by run_events_of_record s.w := by
  unfold CppRecord.update
  refine Outcome.andThen_extends_by CppRecord.State.w _ _ _ _ ?_ ?_
  · unfold CppRecord.update_frame
    split
    · simp [World.extends_by, World.emit, run_events_of_record, Outcome.state]
    · simp [World.extends_by, World.emit, run_events_of_record, Outcome.state]
    · simp only [Outcome.state, World.fresh]
      refine World.extends_by_trans _ _ _ _ ?_ (CppRecord.cpp_record_capture_reset_events _)
      simp [World.extends_by, World.emit, run_events_of_record]
  · intro s
    refine Outcome.andThen_extends_by CppRecord.State.w _ _ _ _ ?_ ?_
    · unfold CppRecord.write_frame
      split
      · exact World.extends_by_refl _ _
      · simp only
        split <;> simp [World.extends_by, World.emit, run_events_of_record, Outcome.state]
    · intro s
      refine Outcome.andThen_extends_by CppRecord.State.w _ _ _ _ ?_ ?_
      · unfold CppRecord.update_color
        split
        · simp only [Outcome.state, World.fresh]
          refine World.extends_by_trans _ _ _ _ ?_ (CppRecord.cpp_record_image_reset_events _ _)
          simp [World.extends_by, World.emit, run_events_of_record]
        · simp only [Outcome.state]
          refine World.extends_by_trans _ _ _ _ ?_ (CppRecord.cpp_record_image_reset_events _ _)
          simp [World.extends_by, World.emit, run_events_of_record]
      · intro s
        refine Outcome.andThen_extends_by CppRecord.State.w _ _ _ _ ?_ ?_
        · unfold CppRecord.update_depth
          split
          · simp only [Outcome.state, World.fresh]
            refine World.extends_by_trans _ _ _ _ ?_ (CppRecord.cpp_record_image_reset_events _ _)
            simp [World.extends_by, World.emit, run_events_of_record]
          · simp only [Outcome.state]
            refine World.extends_by_trans _ _ _ _ ?_ (CppRecord.cpp_record_image_reset_events _ _)
            simp [World.extends_by, World.emit, run_events_of_record]
        · intro s
          exact CppRecord.cpp_record_capture_reset_events _

theorem is_presentation_run_events (e : Event) (h : e.is_presentation = true) :
    run_events_of_record e = true := by
  cases e <;> simp_all [Event.is_presentation, run_events_of_record]

theorem CppRecord.cpp_record_tick_events (t : CppRecord.Tick) (s : CppRecord.State) :
    (CppRecord.tick t s).state.w.extends_by run_events_of_record s.w := by
  unfold CppRecord.tick
  refine Outcome.andThen_extends_by CppRecord.State.w _ _ _ _
    (CppRecord.cpp_record_update_events t s) ?_
  intro s
  obtain ⟨s', hs', _, _, _, _, hext⟩ := CppRecord.cpp_record_present s
  rw [show ((CppRecord.draw s).andThen fun s => CppRecord.show_ s)
    = (CppRecord.draw s).andThen CppRecord.show_ from rfl, hs']
  exact World.extends_by_mono _ _ _ _ is_presentation_run_events hext

theorem CppRecord.cpp_record_run_loop_events (ticks : List CppRecord.Tick) :
    ∀ s : CppRecord.State,
      (CppRecord.run_loop ticks s).state.w.extends_by run_events_of_record s.w := by
  induction ticks with
  | nil => intro s; exact World.extends_by_refl _ _
  | cons t ticks ih =>
    intro s
    have ht := CppRecord.cpp_record_tick_events t s
    unfold CppRecord.run_loop
    split
    · rename_i s1 heq
      rw [heq] at ht
      have hk : ({ s1 with w := s1.w.emit (.waitKey 1 t.key) } : CppRecord.State).w.extends_by
          run_events_of_record s.w := by
        refine World.extends_by_trans _ _ _ _ ht ?_
        simp [World.extends_by, World.emit, run_events_of_record, Outcome.state]
      simp only
      split
      · exact hk
      · exact World.extends_by_trans _ _ _ _ hk (ih _)
    · exact ht

theorem CRecord.record_run_events (ticks : List CRecord.Tick) (s : CRecord.State) :
    (CRecord.run ticks s).state.w.extends_by run_events_of_record s.w := by
  unfold CRecord.run
  refine World.extends_by_trans _ _ _ _ ?_ (CRecord.record_run_loop_events ticks _)
  simp [World.extends_by, World.emit, run_events_of_record]

theorem CppRecord.cpp_record_run_events (ticks : List CppRecord.Tick) (s : CppRecord.State) :
    (CppRecord.run ticks s).state.w.extends_by run_events_of_record s.w := by
  unfold CppRecord.run
  refine World.extends_by_trans _ _ _ _ ?_ (CppRecord.cpp_record_run_loop_events ticks _)
  simp [World.extends_by, World.emit, run_events_of_record]

theorem run_events_not_write_header (e : Event) (h : run_events_of_record e = true) :
    e.is_write_header = false := by
  cases e <;> simp_all [Event.is_write_header, run_events_of_record]

/-- C13: in the C and in the C++ record sample a tick that obtains a capture
and returns makes exactly these calls about the capture, in this order: the
capture is acquired, written to the recording once, its colour image and its
depth image are read, it is released; what follows in the tick makes `cv::Mat`s,
releases images and shows windows.  And when the constructor returns, the
header write is in the trace of the program exactly once: it was made by the
constructor, after the recording was created and with no capture write before
it, and nothing after it in the program writes a header again. -/
theorem C13_write_capture_once_per_tick :
    (∀ (t : CRecord.Tick) (s s' : CRecord.State), s.record.isSome = true →
        t.get_capture = K4A_WAIT_RESULT_SUCCEEDED → CRecord.tick t s = .ok s' →
        s'.record = s.record ∧ ∃ color_image depth_image rest,
          s'.w.trace = s.w.trace
              ++ update_calls s.device s.record s.w.next color_image depth_image ++ rest
            ∧ ∀ e ∈ rest, e.is_presentation = true)
      ∧ (∀ (t : CppRecord.Tick) (s s' : CppRecord.State), s.idle →
        CppRecord.tick t s = .ok s' →
        s'.idle ∧ s'.record = s.record ∧ ∃ color_image depth_image rest,
          s'.w.trace = s.w.trace
              ++ update_calls s.device s.record s.w.next color_image depth_image ++ rest
            ∧ ∀ e ∈ rest, e.is_presentation = true)
      ∧ (∀ (env : CRecord.Env) (ticks : List CRecord.Tick) (s0 : CRecord.State),
        CRecord.constructor 0 env World.start = .ok s0 →
        s0.record.isSome = true ∧ ∃ pre post,
          (CRecord.main env ticks).trace
              = pre ++ [.record_write_header s0.record K4A_RESULT_SUCCEEDED] ++ post
            ∧ (∀ e ∈ pre, e.is_write_header = false ∧ e.is_write_capture = false)
            ∧ ∀ e ∈ post, e.is_write_header = false)
      ∧ (∀ (env : CppRecord.Env) (ticks : List CppRecord.Tick) (s0 : CppRecord.State),
        CppRecord.constructor 0 env World.start = .ok s0 →
        s0.idle ∧ ∃ pre post,
          (CppRecord.main env ticks).trace
              = pre ++ [.record_write_header s0.record K4A_RESULT_SUCCEEDED] ++ post
            ∧ (∀ e ∈ pre, e.is_write_header = false ∧ e.is_write_capture = false)
            ∧ ∀ e ∈ post, e.is_write_header = false) := by
  refine ⟨?_, ?_, ?_, ?_⟩
  · intro t s s' hrec hcap h
    unfold CRecord.tick at h
    rw [Outcome.andThen_eq_ok] at h
    obtain ⟨s1, h1, h⟩ := h
    obtain ⟨hr1, ht1⟩ := CRecord.record_update_calls t s s1 hrec hcap h1
    obtain ⟨s2, h2, hr2, rest, ht2, hp⟩ := CRecord.record_present s1
    rw [show ((CRecord.draw s1).andThen fun s => CRecord.show_ s)
      = (CRecord.draw s1).andThen CRecord.show_ from rfl, h2] at h
    cases h
    exact ⟨hr2.trans hr1, _, _, rest, by rw [ht2, ht1], hp⟩
  · intro t s s' hidle h
    unfold CppRecord.tick at h
    rw [Outcome.andThen_eq_ok] at h
    obtain ⟨s1, h1, h⟩ := h
    obtain ⟨hr1, hc1, ht1⟩ := CppRecord.cpp_record_update_calls t s s1 hidle h1
    obtain ⟨s2, h2, hr2, hc2, hci2, hdi2, rest, ht2, hp⟩ := CppRecord.cpp_record_present s1
    rw [show ((CppRecord.draw s1).andThen fun s => CppRecord.show_ s)
      = (CppRecord.draw s1).andThen CppRecord.show_ from rfl, h2] at h
    cases h
    refine ⟨⟨?_, hc2.trans hc1, hci2, hdi2⟩, hr2.trans hr1, _, _, rest, by rw [ht2, ht1], hp⟩
    rw [hr2, hr1]
    exact hidle.1
  · intro env ticks s0 h
    obtain ⟨hrec, htr⟩ := CRecord.record_constructor_calls 0 env World.start s0 h
    obtain ⟨post, hpost, hp⟩ := run_main_terminating_events CRecord.State.w run_events_of_record
      _ (CRecord.run ticks) (CRecord.destructor env.record_flush) s0 h
      (CRecord.record_run_events ticks) (CRecord.record_destructor_events _)
      (fun _ => rfl)
    refine ⟨by rw [hrec]; rfl,
      [.device_get_installed_count env.installed_count,
       .device_open 0 K4A_RESULT_SUCCEEDED (some 0),
       .device_start_cameras (some 0) K4A_RESULT_SUCCEEDED,
       .localtime,
       .record_create ("./" ++ CRecord.oss env.local_time ++ ".mkv") (some 0)
         K4A_RESULT_SUCCEEDED (some 1)],
      post, ?_, ?_, fun e he => run_events_not_write_header e (hp e he)⟩
    · show (run_main_terminating CRecord.State.w (CRecord.constructor 0 env World.start) _ _).trace
        = _
      rw [hpost, htr, hrec]
      simp only [World.start, List.nil_append, List.cons_append, List.append_assoc]
    · intro e he
      simp only [List.mem_cons, List.mem_singleton, List.not_mem_nil, or_false] at he
      rcases he with rfl | rfl | rfl | rfl | rfl <;> exact ⟨rfl, rfl⟩
  · intro env ticks s0 h
    obtain ⟨hidle, hrec, htr⟩ := CppRecord.cpp_record_constructor_calls 0 env World.start s0 h
    obtain ⟨post, hpost, hp⟩ := run_main_terminating_events CppRecord.State.w
      run_events_of_record _ (CppRecord.run ticks) (CppRecord.destructor env.record_flush) s0 h
      (CppRecord.cpp_record_run_events ticks) (CppRecord.cpp_record_destructor_events _)
      (fun _ => rfl)
    refine ⟨hidle,
      [.device_get_installed_count env.installed_count,
       .device_open 0 K4A_RESULT_SUCCEEDED (some 0),
       .device_start_cameras (some 0) K4A_RESULT_SUCCEEDED,
       .localtime,
       .record_create ("./" ++ CppRecord.oss env.local_time ++ ".mkv") (some 0)
         K4A_RESULT_SUCCEEDED (some 1),
       .cout ("./" ++ CppRecord.oss env.local_time ++ ".mkv" ++ "\n")],
      post, ?_, ?_, fun e he => run_events_not_write_header e (hp e he)⟩
    · show (run_main_terminating CppRecord.State.w (CppRecord.constructor 0 env World.start)
        _ _).trace = _
      rw [hpost, htr, hrec]
      simp only [World.start, List.nil_append, List.cons_append, List.append_assoc]
    · intro e he
      simp only [List.mem_cons, List.mem_singleton, List.not_mem_nil, or_false] at he
      rcases he with rfl | rfl | rfl | rfl | rfl | rfl <;> exact ⟨rfl, rfl⟩

/-- C13, at the first tick after a start-up in which everything succeeds. -/
theorem C13_write_capture_witness :
    ∃ color_image depth_image rest,
      (CRecord.tick (CRecord.tick_ok 0)
          (CRecord.constructor 0 CRecord.env_ok World.start).state).state.w.trace
        = (CRecord.constructor 0 CRecord.env_ok World.start).state.w.trace
            ++ update_calls (some 0) (some 1) 2 color_image depth_image ++ rest
        ∧ ∀ e ∈ rest, e.is_presentation = true :=
  (C13_write_capture_once_per_tick.1 (CRecord.tick_ok 0)
    (CRecord.constructor 0 CRecord.env_ok World.start).state
    (CRecord.tick (CRecord.tick_ok 0)
      (CRecord.constructor 0 CRecord.env_ok World.start).state).state
    (by decide) rfl (by decide)).2

theorem CDepth.depth_tick_polls_no_key (t : CDepth.Tick) (s : CDepth.State) :
    (CDepth.tick t s).state.w.extends_by (fun e => !e.is_waitKey)
      (s.w.emit (.device_get_capture s.device t.get_capture
        (CDepth.k4a_device_get_capture t.get_capture s).capture)) := by
  rcases s with ⟨w, device, capture, device_index, depth_image, depth⟩
  rcases t with ⟨get_capture, depth_image', key⟩
  cases get_capture <;> cases depth_image' <;> cases capture <;> cases depth_image <;>
    cases depth <;>
    simp [CDepth.tick, CDepth.update, CDepth.update_frame, CDepth.update_depth, CDepth.draw,
      CDepth.draw_depth, CDepth.show_, CDepth.show_depth, CDepth.destructor, CDepth.finalize,
      CDepth.k4a_device_get_capture, CDepth.k4a_capture_get_depth_image, World.extends_by,
      Outcome.andThen, Outcome.state, World.emit, World.fresh, Event.is_waitKey]

theorem CppPointCloud.point_cloud_image_reset_polls_no_key (image : Option Handle) (w : World) :
    (CppPointCloud.image_reset image w).extends_by (fun e => !e.is_waitKey) w := by
  cases image <;> simp [CppPointCloud.image_reset, World.extends_by, World.emit, Event.is_waitKey]

theorem CppPointCloud.point_cloud_close_polls_no_key (s : CppPointCloud.State) :
    (CppPointCloud.device_close (CppPointCloud.capture_reset
      (CppPointCloud.transformation_destroy s))).w.extends_by (fun e => !e.is_waitKey) s.w := by
  rcases s with ⟨w, device, capture, transformation, device_index, color_image, color,
    depth_image, transformed_depth_image, transformed_depth, xyz_image, xyz⟩
  cases device <;> cases capture <;> cases transformation <;>
    simp [CppPointCloud.transformation_destroy, CppPointCloud.device_close,
      CppPointCloud.capture_reset, World.extends_by, World.emit, Event.is_waitKey]

theorem CppPointCloud.point_cloud_destroy_members_polls_no_key (s : CppPointCloud.State) :
    (CppPointCloud.destroy_members s).w.extends_by (fun e => !e.is_waitKey) s.w := by
  unfold CppPointCloud.destroy_members
  simp only
  refine World.extends_by_trans _ _ _ _ ?_ (CppPointCloud.point_cloud_close_polls_no_key _)
  simp only
  refine World.extends_by_trans _ _ _ _ ?_
    (CppPointCloud.point_cloud_image_reset_polls_no_key _ _)
  refine World.extends_by_trans _ _ _ _ ?_
    (CppPointCloud.point_cloud_image_reset_polls_no_key _ _)
  refine World.extends_by_trans _ _ _ _ ?_
    (CppPointCloud.point_cloud_image_reset_polls_no_key _ _)
  exact CppPointCloud.point_cloud_image_reset_polls_no_key _ _

theorem CppPointCloud.point_cloud_finalize_polls_no_key (viz : Bool)
    (s : CppPointCloud.State) :
    (CppPointCloud.finalize viz s).w.extends_by (fun e => !e.is_waitKey) s.w := by
  rcases s with ⟨w, device, capture, transformation, device_index, color_image, color,
    depth_image, transformed_depth_image, transformed_depth, xyz_image, xyz⟩
  cases viz <;> cases device <;> cases transformation <;>
    simp [CppPointCloud.finalize, CppPointCloud.transformation_destroy,
      CppPointCloud.device_stop_cameras, CppPointCloud.device_close,
      World.extends_by, World.emit, Event.is_waitKey]

theorem CppPointCloud.point_cloud_destructor_polls_no_key (viz : Bool)
    (s : CppPointCloud.State) :
    (CppPointCloud.destructor viz s).w.extends_by (fun e => !e.is_waitKey) s.w :=
  World.extends_by_trans _ _ _ _ (CppPointCloud.point_cloud_finalize_polls_no_key viz s)
    (CppPointCloud.point_cloud_destroy_members_polls_no_key _)

theorem CppPointCloud.point_cloud_update_frame_polls_no_key (viz : Bool)
    (t : CppPointCloud.Tick) (s : CppPointCloud.State) :
    (CppPointCloud.update_frame viz t s).state.w.extends_by (fun e => !e.is_waitKey)
      (s.w.emit (.device_get_capture s.device t.get_capture
        (match t.get_capture with
          | K4A_WAIT_RESULT_SUCCEEDED => some s.w.next
          | _ => none))) := by
  unfold CppPointCloud.update_frame
  split
  · rename_i h
    simp [h, World.extends_by, Outcome.state]
  · rename_i h
    simp only [h, Outcome.state]
    exact CppPointCloud.point_cloud_destructor_polls_no_key viz _
  · rename_i h
    rcases s with ⟨w, device, capture, transformation, device_index, color_image, color,
      depth_image, transformed_depth_image, transformed_depth, xyz_image, xyz⟩
    cases capture <;>
      simp [h, World.extends_by, Outcome.state, World.fresh, World.emit,
        CppPointCloud.capture_reset, Event.is_waitKey]

theorem CppPointCloud.point_cloud_update_rest_polls_no_key (t : CppPointCloud.Tick)
    (s : CppPointCloud.State) :
    ((CppPointCloud.update_color t s).andThen fun s =>
      (CppPointCloud.update_depth t s).andThen fun s =>
      (CppPointCloud.update_transformation t s).andThen fun s =>
      (CppPointCloud.update_point_cloud t s).andThen fun s =>
      .ok (CppPointCloud.capture_reset s)).state.w.extends_by (fun e => !e.is_waitKey) s.w := by
  refine Outcome.andThen_extends_by CppPointCloud.State.w _ _ _ _ ?_ ?_
  · rcases s with ⟨w, device, capture, transformation, device_index, color_image, color,
      depth_image, transformed_depth_image, transformed_depth, xyz_image, xyz⟩
    cases capture <;> cases color_image <;> cases hc : t.color_image <;>
      simp [hc, CppPointCloud.update_color, CppPointCloud.image_reset, World.extends_by,
        Outcome.state, World.fresh, World.emit, Event.is_waitKey]
  · intro s
    refine Outcome.andThen_extends_by CppPointCloud.State.w _ _ _ _ ?_ ?_
    · rcases s with ⟨w, device, capture, transformation, device_index, color_image, color,
        depth_image, transformed_depth_image, transformed_depth, xyz_image, xyz⟩
      cases capture <;> cases depth_image <;> cases hc : t.depth_image <;>
        simp [hc, CppPointCloud.update_depth, CppPointCloud.image_reset, World.extends_by,
          Outcome.state, World.fresh, World.emit, Event.is_waitKey]
    · intro s
      refine Outcome.andThen_extends_by CppPointCloud.State.w _ _ _ _ ?_ ?_
      · rcases s with ⟨w, device, capture, transformation, device_index, color_image, color,
          depth_image, transformed_depth_image, transformed_depth, xyz_image, xyz⟩
        cases depth_image <;> cases transformed_depth_image <;>
          cases hc : t.depth_image_to_color_camera <;>
          simp [hc, CppPointCloud.update_transformation, CppPointCloud.image_reset,
            World.extends_by, Outcome.state, World.fresh, World.emit, Event.is_waitKey]
      · intro s
        refine Outcome.andThen_extends_by CppPointCloud.State.w _ _ _ _ ?_ ?_
        · rcases s with ⟨w, device, capture, transformation, device_index, color_image, color,
            depth_image, transformed_depth_image, transformed_depth, xyz_image, xyz⟩
          cases xyz_image <;> cases transformed_depth_image <;>
            cases hc : t.depth_image_to_point_cloud <;>
            simp [hc, CppPointCloud.update_point_cloud, CppPointCloud.image_reset,
              World.extends_by, Outcome.state, World.fresh, World.emit, Event.is_waitKey]
        · intro s
          rcases s with ⟨w, device, capture, transformation, device_index, color_image, color,
            depth_image, transformed_depth_image, transformed_depth, xyz_image, xyz⟩
          cases capture <;>
            simp [CppPointCloud.capture_reset, World.extends_by, Outcome.state, World.emit,
              Event.is_waitKey]

theorem CppPointCloud.point_cloud_draw_polls_no_key (s : CppPointCloud.State) :
    (CppPointCloud.draw s).state.w.extends_by (fun e => !e.is_waitKey) s.w := by
  rcases s with ⟨w, device, capture, transformation, device_index, color_image, color,
    depth_image, transformed_depth_image, transformed_depth, xyz_image, xyz⟩
  cases color_image <;> cases depth_image <;> cases transformed_depth_image <;>
    cases xyz_image <;>
    simp [CppPointCloud.draw, CppPointCloud.draw_color, CppPointCloud.draw_depth,
      CppPointCloud.draw_transformation, CppPointCloud.draw_point_cloud,
      CppPointCloud.image_reset, Outcome.andThen, World.extends_by, Outcome.state, World.emit,
      Event.is_waitKey]

theorem CppPointCloud.point_cloud_show_polls_no_key (viz : Bool) (s : CppPointCloud.State) :
    (CppPointCloud.show_ viz s).state.w.extends_by (fun e => !e.is_waitKey) s.w := by
  rcases s with ⟨w, device, capture, transformation, device_index, color_image, color,
    depth_image, transformed_depth_image, transformed_depth, xyz_image, xyz⟩
  cases viz <;> cases color <;> cases transformed_depth <;> cases xyz <;>
    simp [CppPointCloud.show_, CppPointCloud.show_color, CppPointCloud.show_transformation,
      CppPointCloud.show_point_cloud, Outcome.andThen, World.extends_by, Outcome.state,
      World.emit, Event.is_waitKey]

theorem CppPointCloud.point_cloud_tick_polls_no_key (viz : Bool) (t : CppPointCloud.Tick)
    (s : CppPointCloud.State) :
    (CppPointCloud.tick viz t s).state.w.extends_by (fun e => !e.is_waitKey)
      (s.w.emit (.device_get_capture s.device t.get_capture
        (match t.get_capture with
          | K4A_WAIT_RESULT_SUCCEEDED => some s.w.next
          | _ => none))) := by
  unfold CppPointCloud.tick
  refine Outcome.andThen_extends_by CppPointCloud.State.w _ _ _ _ ?_ ?_
  · unfold CppPointCloud.update
    refine Outcome.andThen_extends_by CppPointCloud.State.w _ _ _ _
      (CppPointCloud.point_cloud_update_frame_polls_no_key viz t s) ?_
    intro s
    exact CppPointCloud.point_cloud_update_rest_polls_no_key t s
  · intro s
    refine Outcome.andThen_extends_by CppPointCloud.State.w _ _ _ _
      (CppPointCloud.point_cloud_draw_polls_no_key s) ?_
    intro s
    exact CppPointCloud.point_cloud_show_polls_no_key viz s

theorem CDepth.depth_run_loop_grows (ticks : List CDepth.Tick) :
    ∀ s : CDepth.State, (CDepth.run_loop ticks s).state.w.extends_by (fun _ => true) s.w := by
  induction ticks with
  | nil => intro s; exact World.extends_by_refl _ _
  | cons t ticks ih =>
    intro s
    have ht := World.extends_by_trans _ _ _ _
      (show (s.w.emit (.device_get_capture s.device t.get_capture
          (CDepth.k4a_device_get_capture t.get_capture s).capture)).extends_by (fun _ => true) s.w
        by simp [World.extends_by, World.emit])
      (World.extends_by_mono _ (fun _ => true) _ _ (fun _ _ => rfl)
        (CDepth.depth_tick_polls_no_key t s))
    unfold CDepth.run_loop
    split
    · rename_i s1 heq
      rw [heq] at ht
      have hk : ({ s1 with w := s1.w.emit (.waitKey 30 t.key) } : CDepth.State).w.extends_by
          (fun _ => true) s.w := by
        refine World.extends_by_trans _ _ _ _ ht ?_
        simp [World.extends_by, World.emit, Outcome.state]
      simp only
      split
      · exact hk
      · exact World.extends_by_trans _ _ _ _ hk (ih _)
    · exact ht

theorem CppPointCloud.point_cloud_run_loop_grows (viz : Bool)
    (ticks : List CppPointCloud.Tick) :
    ∀ s : CppPointCloud.State,
      (CppPointCloud.run_loop viz ticks s).state.w.extends_by (fun _ => true) s.w := by
  induction ticks with
  | nil => intro s; exact World.extends_by_refl _ _
  | cons t ticks ih =>
    intro s
    have ht := World.extends_by_trans _ _ _ _
      (show (s.w.emit (.device_get_capture s.device t.get_capture
          (match t.get_capture with
            | K4A_WAIT_RESULT_SUCCEEDED => some s.w.next
            | _ => none))).extends_by (fun _ => true) s.w
        by simp [World.extends_by, World.emit])
      (World.extends_by_mono _ (fun _ => true) _ _ (fun _ _ => rfl)
        (CppPointCloud.point_cloud_tick_polls_no_key viz t s))
    unfold CppPointCloud.run_loop
    split
    · rename_i s1 heq
      rw [heq] at ht
      have hk : ({ s1 with w := s1.w.emit (.waitKey 30 t.key) } :
          CppPointCloud.State).w.extends_by (fun _ => true) s.w := by
        refine World.extends_by_trans _ _ _ _ ht ?_
        simp [World.extends_by, World.emit, Outcome.state]
      simp only
      split
      · exact hk
      · split
        · have hv : ((s1.w.emit (.waitKey 30 t.key)).emit
              (.viewer_was_stopped t.viewer_was_stopped)).extends_by (fun _ => true) s.w := by
            refine World.extends_by_trans _ _ _ _ hk ?_
            simp [World.extends_by, World.emit]
          split
          · exact hv
          · exact World.extends_by_trans _ _ _ _ hv (ih _)
        · exact World.extends_by_trans _ _ _ _ hk (ih _)
    · exact ht

theorem CDepth.depth_run_loop_starts_with_get_capture (t : CDepth.Tick)
    (ticks : List CDepth.Tick) (s : CDepth.State) :
    ∃ capture evs, (CDepth.run_loop (t :: ticks) s).state.w.trace
      = s.w.trace ++ Event.device_get_capture s.device t.get_capture capture :: evs := by
  have hl : (CDepth.run_loop (t :: ticks) s).state.w.extends_by (fun _ => true)
      (CDepth.tick t s).state.w := by
    rw [CDepth.run_loop]
    split
    · rename_i s1 heq
      rw [heq]
      have hk : ({ s1 with w := s1.w.emit (.waitKey 30 t.key) } : CDepth.State).w.extends_by
          (fun _ => true) s1.w := by
        simp [World.extends_by, World.emit]
      simp only
      split
      · exact hk
      · exact World.extends_by_trans _ _ _ _ hk (CDepth.depth_run_loop_grows ticks _)
    · exact World.extends_by_refl _ _
  obtain ⟨e1, h1, _⟩ := CDepth.depth_tick_polls_no_key t s
  obtain ⟨e2, h2, _⟩ := hl
  exact ⟨(CDepth.k4a_device_get_capture t.get_capture s).capture, e1 ++ e2,
    by rw [h2, h1]; simp [World.emit]⟩

theorem CppPointCloud.point_cloud_run_loop_starts_with_get_capture (viz : Bool)
    (t : CppPointCloud.Tick) (ticks : List CppPointCloud.Tick) (s : CppPointCloud.State) :
    ∃ capture evs, (CppPointCloud.run_loop viz (t :: ticks) s).state.w.trace
      = s.w.trace ++ Event.device_get_capture s.device t.get_capture capture :: evs := by
  have hl : (CppPointCloud.run_loop viz (t :: ticks) s).state.w.extends_by (fun _ => true)
      (CppPointCloud.tick viz t s).state.w := by
    rw [CppPointCloud.run_loop]
    split
    · rename_i s1 heq
      rw [heq]
      have hk : ({ s1 with w := s1.w.emit (.waitKey 30 t.key) } :
          CppPointCloud.State).w.extends_by (fun _ => true) s1.w := by
        simp [World.extends_by, World.emit]
      simp only
      split
      · exact hk
      · split
        · have hv : ((s1.w.emit (.waitKey 30 t.key)).emit
              (.viewer_was_stopped t.viewer_was_stopped)).extends_by (fun _ => true) s1.w := by
            simp [World.extends_by, World.emit]
          split
          · exact hv
          · exact World.extends_by_trans _ _ _ _ hv
              (CppPointCloud.point_cloud_run_loop_grows viz ticks _)
        · exact World.extends_by_trans _ _ _ _ hk
            (CppPointCloud.point_cloud_run_loop_grows viz ticks _)
    · exact World.extends_by_refl _ _
  obtain ⟨capture, e1, h1, _⟩ : ∃ capture, (CppPointCloud.tick viz t s).state.w.extends_by
      (fun e => !e.is_waitKey)
      (s.w.emit (.device_get_capture s.device t.get_capture capture)) :=
    ⟨_, CppPointCloud.point_cloud_tick_polls_no_key viz t s⟩
  obtain ⟨e2, h2, _⟩ := hl
  exact ⟨capture, e1 ++ e2, by rw [h2, h1]; simp [World.emit]⟩

/-- C12 fails for the point cloud sample built with `HAVE_OPENCV_VIZ`: the
first tick completes and the key polled after it is 0, not 'q', and yet no
second `update()` is started although a second tick is scripted, because the
viewer window reports that it was stopped; `run()` returns and `main` ends
with status 0 after one capture request. -/
theorem C12_closed_viewer_ends_the_loop :
    (CppPointCloud.main true CppPointCloud.env_ok
        [CppPointCloud.tick_ok 0 true, CppPointCloud.tick_ok 0 false]).status = some 0
      ∧ Event.waitKey 30 0 ∈ (CppPointCloud.main true CppPointCloud.env_ok
        [CppPointCloud.tick_ok 0 true, CppPointCloud.tick_ok 0 false]).trace
      ∧ (0 : Int) ≠ key_q
      ∧ (CppPointCloud.main true CppPointCloud.env_ok
        [CppPointCloud.tick_ok 0 true, CppPointCloud.tick_ok 0 false]).trace.countP
          Event.is_get_capture = 1
      ∧ (CppPointCloud.main false CppPointCloud.env_ok
        [CppPointCloud.tick_ok 0 true, CppPointCloud.tick_ok 0 false]).trace.countP
          Event.is_get_capture = 2 := by
  decide

/-- C12, as the code has it: in the depth sample and in the point cloud sample
a tick begins with the capture request and makes no key poll, whatever its
outcome; when the tick does not return, the loop is left without a poll; when
it returns, the key is polled once, right after it; if the key is 'q' the loop
ends there, and if it is any other key the next tick begins, its capture
request being the next call, except in the point cloud sample built with
`HAVE_OPENCV_VIZ`, where `viewer.wasStopped()` is asked after the poll and the
loop ends as well when the answer is yes. -/
theorem C12_key_polled_at_tick_boundary :
    (∀ (t : CDepth.Tick) (ticks : List CDepth.Tick) (s : CDepth.State),
      (∃ capture evs, (CDepth.tick t s).state.w.trace
          = s.w.trace ++ Event.device_get_capture s.device t.get_capture capture :: evs
        ∧ ∀ e ∈ evs, e.is_waitKey = false)
      ∧ ((∀ s1, CDepth.tick t s ≠ .ok s1) → CDepth.run_loop (t :: ticks) s = CDepth.tick t s)
      ∧ ∀ s1, CDepth.tick t s = .ok s1 →
        (t.key = key_q → CDepth.run_loop (t :: ticks) s
          = .ok { s1 with w := s1.w.emit (.waitKey 30 t.key) })
        ∧ (t.key ≠ key_q → CDepth.run_loop (t :: ticks) s
          = CDepth.run_loop ticks { s1 with w := s1.w.emit (.waitKey 30 t.key) })
        ∧ (t.key ≠ key_q → ∀ t2 ticks2, ticks = t2 :: ticks2 →
          ∃ capture evs, (CDepth.run_loop (t :: ticks) s).state.w.trace
            = s1.w.trace ++ Event.waitKey 30 t.key
                :: Event.device_get_capture s1.device t2.get_capture capture :: evs))
      ∧ (∀ (viz : Bool) (t : CppPointCloud.Tick) (ticks : List CppPointCloud.Tick)
        (s : CppPointCloud.State),
      (∃ capture evs, (CppPointCloud.tick viz t s).state.w.trace
          = s.w.trace ++ Event.device_get_capture s.device t.get_capture capture :: evs
        ∧ ∀ e ∈ evs, e.is_waitKey = false)
      ∧ ((∀ s1, CppPointCloud.tick viz t s ≠ .ok s1) →
          CppPointCloud.run_loop viz (t :: ticks) s = CppPointCloud.tick viz t s)
      ∧ ∀ s1, CppPointCloud.tick viz t s = .ok s1 →
        (t.key = key_q → CppPointCloud.run_loop viz (t :: ticks) s
          = .ok { s1 with w := s1.w.emit (.waitKey 30 t.key) })
        ∧ (t.key ≠ key_q → viz = false → CppPointCloud.run_loop viz (t :: ticks) s
          = CppPointCloud.run_loop viz ticks { s1 with w := s1.w.emit (.waitKey 30 t.key) })
        ∧ (t.key ≠ key_q → viz = true → t.viewer_was_stopped = false →
          CppPointCloud.run_loop viz (t :: ticks) s
            = CppPointCloud.run_loop viz ticks
                { s1 with w := (s1.w.emit (.waitKey 30 t.key)).emit (.viewer_was_stopped false) })
        ∧ (t.key ≠ key_q → viz = true → t.viewer_was_stopped = true →
          CppPointCloud.run_loop viz (t :: ticks) s
            = .ok { s1 with w := (s1.w.emit (.waitKey 30 t.key)).emit (.viewer_was_stopped true) })
        ∧ (t.key ≠ key_q → (viz = false ∨ t.viewer_was_stopped = false) →
          ∀ t2 ticks2, ticks = t2 :: ticks2 →
          ∃ capture evs, (CppPointCloud.run_loop viz (t :: ticks) s).state.w.trace
            = s1.w.trace ++ Event.waitKey 30 t.key
                :: ((if viz = true then [Event.viewer_was_stopped false] else [])
                  ++ Event.device_get_capture s1.device t2.get_capture capture :: evs))) := by
  constructor
  · intro t ticks s
    refine ⟨?_, ?_, ?_⟩
    · obtain ⟨evs, ht, hp⟩ := CDepth.depth_tick_polls_no_key t s
      exact ⟨(CDepth.k4a_device_get_capture t.get_capture s).capture, evs,
        by rw [ht]; simp [World.emit], fun e he => by simpa using hp e he⟩
    · intro h
      rw [CDepth.run_loop]
      split
      · rename_i s1 heq
        exact absurd heq (h s1)
      · rfl
    · intro s1 h1
      have hq : t.key = key_q → CDepth.run_loop (t :: ticks) s
          = .ok { s1 with w := s1.w.emit (.waitKey 30 t.key) } := by
        intro hk
        rw [CDepth.run_loop, h1]
        simp [hk]
      have hn : t.key ≠ key_q → CDepth.run_loop (t :: ticks) s
          = CDepth.run_loop ticks { s1 with w := s1.w.emit (.waitKey 30 t.key) } := by
        intro hk
        rw [CDepth.run_loop, h1]
        simp [hk]
      refine ⟨hq, hn, ?_⟩
      intro hk t2 ticks2 hticks
      rw [hn hk, hticks]
      obtain ⟨capture, evs, ht⟩ := CDepth.depth_run_loop_starts_with_get_capture t2 ticks2
        { s1 with w := s1.w.emit (.waitKey 30 t.key) }
      exact ⟨capture, evs, by rw [ht]; simp [World.emit]⟩
  · intro viz t ticks s
    refine ⟨?_, ?_, ?_⟩
    · obtain ⟨capture, evs, ht, hp⟩ : ∃ capture, (CppPointCloud.tick viz t s).state.w.extends_by
          (fun e => !e.is_waitKey)
          (s.w.emit (.device_get_capture s.device t.get_capture capture)) :=
        ⟨_, CppPointCloud.point_cloud_tick_polls_no_key viz t s⟩
      exact ⟨capture, evs, by rw [ht]; simp [World.emit], fun e he => by simpa using hp e he⟩
    · intro h
      rw [CppPointCloud.run_loop]
      split
      · rename_i s1 heq
        exact absurd heq (h s1)
      · rfl
    · intro s1 h1
      have hq : t.key = key_q → CppPointCloud.run_loop viz (t :: ticks) s
          = .ok { s1 with w := s1.w.emit (.waitKey 30 t.key) } := by
        intro hk
        rw [CppPointCloud.run_loop, h1]
        simp [hk]
      have hn : t.key ≠ key_q → viz = false → CppPointCloud.run_loop viz (t :: ticks) s
          = CppPointCloud.run_loop viz ticks { s1 with w := s1.w.emit (.waitKey 30 t.key) } := by
        intro hk hv
        rw [CppPointCloud.run_loop, h1]
        simp [hk, hv]
      have hc : t.key ≠ key_q → viz = true → t.viewer_was_stopped = false →
          CppPointCloud.run_loop viz (t :: ticks) s
            = CppPointCloud.run_loop viz ticks
                { s1 with w := (s1.w.emit (.waitKey 30 t.key)).emit (.viewer_was_stopped false) } := by
        intro hk hv hs
        rw [CppPointCloud.run_loop, h1]
        simp [hk, hv, hs]
      have hs : t.key ≠ key_q → viz = true → t.viewer_was_stopped = true →
          CppPointCloud.run_loop viz (t :: ticks) s
            = .ok { s1 with w := (s1.w.emit (.waitKey 30 t.key)).emit (.viewer_was_stopped true) } := by
        intro hk hv hs
        rw [CppPointCloud.run_loop, h1]
        simp [hk, hv, hs]
      refine ⟨hq, hn, hc, hs, ?_⟩
      intro hk hor t2 ticks2 hticks
      cases hviz : viz with
      | false =>
        rw [← hviz, hn hk hviz, hticks]
        obtain ⟨capture, evs, ht⟩ :=
          CppPointCloud.point_cloud_run_loop_starts_with_get_capture viz t2 ticks2
            { s1 with w := s1.w.emit (.waitKey 30 t.key) }
        exact ⟨capture, evs, by rw [ht]; simp [World.emit, hviz]⟩
      | true =>
        have hst : t.viewer_was_stopped = false := by
          rcases hor with h | h
          · rw [hviz] at h
            cases h
          · exact h
        rw [← hviz, hc hk hviz hst, hticks]
        obtain ⟨capture, evs, ht⟩ :=
          CppPointCloud.point_cloud_run_loop_starts_with_get_capture viz t2 ticks2
            { s1 with w := (s1.w.emit (.waitKey 30 t.key)).emit (.viewer_was_stopped false) }
        exact ⟨capture, evs, by rw [ht]; simp [World.emit, hviz]⟩

/-- C12, in the depth sample at a tick after which 'q' is polled, following a
start-up in which everything succeeds: the loop ends with the poll. -/
theorem C12_key_polled_witness :
    CDepth.run_loop [CDepth.tick_ok key_q, CDepth.tick_ok 0]
        (CDepth.constructor 0 CDepth.env_ok World.start).state
      = .ok { (CDepth.tick (CDepth.tick_ok key_q)
                (CDepth.constructor 0 CDepth.env_ok World.start).state).state with
              w := (CDepth.tick (CDepth.tick_ok key_q)
                (CDepth.constructor 0 CDepth.env_ok World.start).state).state.w.emit
                  (.waitKey 30 key_q) } :=
  ((C12_key_polled_at_tick_boundary.1 (CDepth.tick_ok key_q) [CDepth.tick_ok 0]
    (CDepth.constructor 0 CDepth.env_ok World.start).state).2.2
      (CDepth.tick (CDepth.tick_ok key_q)
        (CDepth.constructor 0 CDepth.env_ok World.start).state).state (by decide)).1 rfl

theorem World.ordered_upto_refl (rank : Stage → Nat) (k : Nat) (w : World) :
    w.ordered_upto rank k w :=
  ⟨[], by simp, by simp [stages_in_order], by simp⟩

theorem World.ordered_upto_mono (rank : Stage → Nat) (k K : Nat) (w' w : World) (hk : k ≤ K)
    (h : w'.ordered_upto rank k w) : w'.ordered_upto rank K w := by
  obtain ⟨evs, ht, ho, hr⟩ := h
  exact ⟨evs, ht, ho, fun e he stage hs => Nat.le_trans (hr e he stage hs) hk⟩

theorem World.ordered_upto_step (rank : Stage → Nat) (k K : Nat) (w0 w1 w2 : World)
    (hk : k ≤ K) (h1 : w1.ordered_upto rank k w0)
    (h2 : w2.extends_by (Event.in_stage rank K) w1) : w2.ordered_upto rank K w0 := by
  obtain ⟨e1, ht1, ho1, hr1⟩ := h1
  obtain ⟨e2, ht2, hp2⟩ := h2
  have hs2 : ∀ stage ∈ e2.filterMap Event.stage, rank stage = K := by
    intro stage hs
    obtain ⟨e, he, hes⟩ := List.mem_filterMap.mp hs
    have := hp2 e he
    simp only [Event.in_stage, hes, beq_iff_eq] at this
    exact this
  have hs1 : ∀ stage ∈ e1.filterMap Event.stage, rank stage ≤ k := by
    intro stage hs
    obtain ⟨e, he, hes⟩ := List.mem_filterMap.mp hs
    exact hr1 e he stage hes
  refine ⟨e1 ++ e2, by rw [ht2, ht1, List.append_assoc], ?_, ?_⟩
  · simp only [stages_in_order, decide_eq_true_eq] at ho1 ⊢
    rw [List.filterMap_append, List.pairwise_append]
    refine ⟨ho1, ?_, ?_⟩
    · rw [List.pairwise_iff_forall_sublist]
      intro a b hab
      have ha := hs2 a (hab.subset (List.mem_cons_self _ _))
      have hb := hs2 b (hab.subset (List.mem_cons_of_mem _ (List.mem_singleton_self _)))
      omega
    · intro a ha b hb
      have := hs1 a ha
      have := hs2 b hb
      omega
  · intro e he stage hes
    rcases List.mem_append.mp he with h | h
    · exact Nat.le_trans (hr1 e h stage hes) hk
    · have := hs2 stage (List.mem_filterMap.mpr ⟨e, h, hes⟩)
      omega

theorem Outcome.andThen_ordered_upto {σ : Type} (world : σ → World) (rank : Stage → Nat)
    (k K : Nat) (o : Outcome σ) (f : σ → Outcome σ) (w0 : World) (hk : k ≤ K)
    (ho : (world o.state).ordered_upto rank k w0)
    (hf : ∀ s, (world s).ordered_upto rank k w0 → (world (f s).state).ordered_upto rank K w0) :
    (world (o.andThen f).state).ordered_upto rank K w0 := by
  cases o with
  | ok s => exact hf s ho
  | thrown what s => exact World.ordered_upto_mono _ _ _ _ _ hk ho
  | exited status s => exact World.ordered_upto_mono _ _ _ _ _ hk ho
  | running s => exact World.ordered_upto_mono _ _ _ _ _ hk ho
  | terminated s => exact World.ordered_upto_mono _ _ _ _ _ hk ho

theorem K4A_RESULT_CHECK_extends_by {σ : Type} (world : σ → World) (p : Event → Bool)
    (text : String) (c : Checked) (call : k4a_result_t → σ → σ) (s : σ)
    (hcall : ∀ r s, (world (call r s)).extends_by p (world s)) :
    (world (K4A_RESULT_CHECK text c call s).state).extends_by p (world s) := by
  unfold K4A_RESULT_CHECK
  simp only
  split
  · exact World.extends_by_trans p _ _ _ (hcall _ _) (hcall _ _)
  · exact hcall _ _

theorem CIndexMap.index_map_destructor_in_stage (rank : Stage → Nat) (k : Nat)
    (s : CIndexMap.State) :
    (CIndexMap.destructor s).w.extends_by (Event.in_stage rank k) s.w := by
  simp [CIndexMap.destructor, CIndexMap.finalize, World.extends_by, World.emit,
    Event.in_stage, Event.stage]

theorem CIndexMap.index_map_update_frame_in_stage (t : CIndexMap.Tick) (s : CIndexMap.State) :
    (CIndexMap.update_frame t s).state.w.extends_by (Event.in_stage Stage.rank 0) s.w := by
  have hg : (CIndexMap.k4a_device_get_capture t.get_capture s).w.extends_by
      (Event.in_stage Stage.rank 0) s.w := by
    unfold CIndexMap.k4a_device_get_capture
    split <;> simp [World.extends_by, World.emit, World.fresh, Event.in_stage, Event.stage,
      Stage.rank]
  unfold CIndexMap.update_frame
  simp only
  split
  · exact hg
  · split
    · exact World.extends_by_trans _ _ _ _ hg (CIndexMap.index_map_destructor_in_stage _ _ _)
    · exact hg

theorem CIndexMap.index_map_update_color_in_stage (t : CIndexMap.Tick) (s : CIndexMap.State) :
    (CIndexMap.update_color t s).state.w.extends_by (Event.in_stage Stage.rank 1) s.w := by
  unfold CIndexMap.update_color CIndexMap.k4a_capture_get_color_image
  split
  · exact World.extends_by_refl _ _
  · split <;> simp [World.extends_by, World.emit, World.fresh, Outcome.state, Event.in_stage,
      Event.stage, Stage.rank]

theorem CIndexMap.index_map_update_depth_in_stage (t : CIndexMap.Tick) (s : CIndexMap.State) :
    (CIndexMap.update_depth t s).state.w.extends_by (Event.in_stage Stage.rank 1) s.w := by
  unfold CIndexMap.update_depth CIndexMap.k4a_capture_get_depth_image
  split
  · exact World.extends_by_refl _ _
  · split <;> simp [World.extends_by, World.emit, World.fresh, Outcome.state, Event.in_stage,
      Event.stage, Stage.rank]

theorem CIndexMap.index_map_update_body_tracking_in_stage (t : CIndexMap.Tick)
    (s : CIndexMap.State) :
    (CIndexMap.update_body_tracking t s).state.w.extends_by (Event.in_stage Stage.rank 2)
      s.w := by
  unfold CIndexMap.update_body_tracking
  simp only
  refine Outcome.andThen_extends_by CIndexMap.State.w _ _ _ _ ?_ ?_
  · have he : (CIndexMap.k4abt_tracker_enqueue_capture t.enqueue_capture s).w.extends_by
        (Event.in_stage Stage.rank 2) s.w := by
      simp [CIndexMap.k4abt_tracker_enqueue_capture, World.extends_by, World.emit,
        Event.in_stage, Event.stage, Stage.rank]
    split
    · exact he
    · split
      · exact World.extends_by_trans _ _ _ _ he (CIndexMap.index_map_destructor_in_stage _ _ _)
      · exact he
  · intro s
    have hp : (CIndexMap.k4abt_tracker_pop_result t.pop_result s).w.extends_by
        (Event.in_stage Stage.rank 2) s.w := by
      unfold CIndexMap.k4abt_tracker_pop_result
      split <;> simp [World.extends_by, World.emit, World.fresh, Event.in_stage, Event.stage,
        Stage.rank]
    split
    · exact hp
    · split
      · exact World.extends_by_trans _ _ _ _ hp (CIndexMap.index_map_destructor_in_stage _ _ _)
      · exact hp

theorem CIndexMap.index_map_update_body_index_map_in_stage (t : CIndexMap.Tick)
    (s : CIndexMap.State) :
    (CIndexMap.update_body_index_map t s).state.w.extends_by (Event.in_stage Stage.rank 2)
      s.w := by
  unfold CIndexMap.update_body_index_map
  split <;> simp [World.extends_by, World.emit, World.fresh, Outcome.state, Event.in_stage,
    Event.stage]

theorem CIndexMap.index_map_update_transformation_in_stage (t : CIndexMap.Tick)
    (s : CIndexMap.State) :
    (CIndexMap.update_transformation t s).state.w.extends_by (Event.in_stage Stage.rank 3)
      s.w := by
  unfold CIndexMap.update_transformation
  split
  · exact World.extends_by_refl _ _
  · simp only
    refine World.extends_by_trans _ _
      ((s.w.emit (.image_get_width_pixels s.color_image)).emit
        (.image_get_height_pixels s.color_image)) _ ?_ ?_
    · simp [World.extends_by, World.emit, Event.in_stage, Event.stage]
    · refine Outcome.andThen_extends_by CIndexMap.State.w _ _ _ _ ?_ ?_
      · apply K4A_RESULT_CHECK_extends_by CIndexMap.State.w
        intro r s
        unfold CIndexMap.create_transformed_depth_image
        split <;> simp [World.extends_by, World.emit, World.fresh, Event.in_stage, Event.stage]
      · intro s
        refine Outcome.andThen_extends_by CIndexMap.State.w _ _ _ _ ?_ ?_
        · apply K4A_RESULT_CHECK_extends_by CIndexMap.State.w
          intro r s
          unfold CIndexMap.create_transformed_body_index_map_image
          split <;> simp [World.extends_by, World.emit, World.fresh, Event.in_stage,
            Event.stage]
        · intro s
          apply K4A_RESULT_CHECK_extends_by CIndexMap.State.w
          intro r s
          simp [CIndexMap.k4a_transformation_depth_image_to_color_camera_custom,
            World.extends_by, World.emit, Event.in_stage, Event.stage, Stage.rank]

theorem CIndexMap.index_map_draw_in_stage (s : CIndexMap.State) :
    (CIndexMap.draw s).state.w.extends_by (Event.in_stage Stage.rank 3) s.w := by
  rcases s with ⟨w, device, capture, device_index, color_image, color, depth_image, tracker,
    frame, body_index_map_image, body_index_map, transformed_depth_image,
    transformed_body_index_map_image, transformed_body_index_map, colors⟩
  cases color_image <;> cases body_index_map_image <;> cases transformed_body_index_map_image <;>
    simp [CIndexMap.draw, CIndexMap.draw_color, CIndexMap.draw_body_index_map,
      CIndexMap.draw_transformation, Outcome.andThen, Outcome.state, World.extends_by,
      World.emit, Event.in_stage, Event.stage]

theorem CIndexMap.index_map_show_in_stage (s : CIndexMap.State) :
    (CIndexMap.show_ s).state.w.extends_by (Event.in_stage Stage.rank 4) s.w := by
  rcases s with ⟨w, device, capture, device_index, color_image, color, depth_image, tracker,
    frame, body_index_map_image, body_index_map, transformed_depth_image,
    transformed_body_index_map_image, transformed_body_index_map, colors⟩
  cases body_index_map <;> cases transformed_body_index_map <;>
    simp [CIndexMap.show_, CIndexMap.show_body_index_map, CIndexMap.show_transformation,
      Outcome.andThen, Outcome.state, World.extends_by, World.emit, Event.in_stage,
      Event.stage, Stage.rank]

theorem CIndexMap.index_map_tick_in_order (t : CIndexMap.Tick) (s : CIndexMap.State) :
    (CIndexMap.tick t s).state.w.ordered_upto Stage.rank 4 s.w := by
  unfold CIndexMap.tick
  refine Outcome.andThen_ordered_upto CIndexMap.State.w _ 3 4 _ _ _ (by decide) ?_ ?_
  · unfold CIndexMap.update
    refine Outcome.andThen_ordered_upto CIndexMap.State.w _ 0 3 _ _ _ (by decide)
      (World.ordered_upto_step _ 0 0 _ _ _ (by decide) (World.ordered_upto_refl _ _ _)
        (CIndexMap.index_map_update_frame_in_stage t s)) ?_
    intro s1 h1
    refine Outcome.andThen_ordered_upto CIndexMap.State.w _ 1 3 _ _ _ (by decide)
      (World.ordered_upto_step _ 0 1 _ _ _ (by decide) h1
        (CIndexMap.index_map_update_color_in_stage t s1)) ?_
    intro s2 h2
    refine Outcome.andThen_ordered_upto CIndexMap.State.w _ 1 3 _ _ _ (by decide)
      (World.ordered_upto_step _ 1 1 _ _ _ (by decide) h2
        (CIndexMap.index_map_update_depth_in_stage t s2)) ?_
    intro s3 h3
    refine Outcome.andThen_ordered_upto CIndexMap.State.w _ 2 3 _ _ _ (by decide)
      (World.ordered_upto_step _ 1 2 _ _ _ (by decide) h3
        (CIndexMap.index_map_update_body_tracking_in_stage t s3)) ?_
    intro s4 h4
    refine Outcome.andThen_ordered_upto CIndexMap.State.w _ 2 3 _ _ _ (by decide)
      (World.ordered_upto_step _ 2 2 _ _ _ (by decide) h4
        (CIndexMap.index_map_update_body_index_map_in_stage t s4)) ?_
    intro s5 h5
    refine Outcome.andThen_ordered_upto CIndexMap.State.w _ 3 3 _ _ _ (by decide)
      (World.ordered_upto_step _ 2 3 _ _ _ (by decide) h5
        (CIndexMap.index_map_update_transformation_in_stage t s5)) ?_
    intro s6 h6
    refine World.ordered_upto_step _ 3 3 _ _ _ (by decide) h6 ?_
    simp [World.extends_by, World.emit, Outcome.state, Event.in_stage, Event.stage]
  · intro s1 h1
    refine Outcome.andThen_ordered_upto CIndexMap.State.w _ 3 4 _ _ _ (by decide)
      (World.ordered_upto_step _ 3 3 _ _ _ (by decide) h1
        (CIndexMap.index_map_draw_in_stage s1)) ?_
    intro s2 h2
    exact World.ordered_upto_step _ 3 4 _ _ _ (by decide) h2
      (CIndexMap.index_map_show_in_stage s2)

theorem CSkeleton.skeleton_destructor_in_stage (rank : Stage → Nat) (k : Nat)
    (s : CSkeleton.State) :
    (CSkeleton.destructor s).w.extends_by (Event.in_stage rank k) s.w := by
  simp [CSkeleton.destructor, CSkeleton.finalize, World.extends_by, World.emit,
    Event.in_stage, Event.stage]

theorem CSkeleton.skeleton_update_frame_in_stage (t : CSkeleton.Tick) (s : CSkeleton.State) :
    (CSkeleton.update_frame t s).state.w.extends_by (Event.in_stage Stage.rank_in_skeleton 0)
      s.w := by
  have hg : (CSkeleton.k4a_device_get_capture t.get_capture s).w.extends_by
      (Event.in_stage Stage.rank_in_skeleton 0) s.w := by
    unfold CSkeleton.k4a_device_get_capture
    split <;> simp [World.extends_by, World.emit, World.fresh, Event.in_stage, Event.stage,
      Stage.rank_in_skeleton]
  unfold CSkeleton.update_frame
  simp only
  split
  · exact hg
  · split
    · exact World.extends_by_trans _ _ _ _ hg (CSkeleton.skeleton_destructor_in_stage _ _ _)
    · exact hg

theorem CSkeleton.skeleton_update_body_tracking_in_stage (t : CSkeleton.Tick)
    (s : CSkeleton.State) :
    (CSkeleton.update_body_tracking t s).state.w.extends_by
      (Event.in_stage Stage.rank_in_skeleton 1) s.w := by
  unfold CSkeleton.update_body_tracking
  simp only
  refine Outcome.andThen_extends_by CSkeleton.State.w _ _ _ _ ?_ ?_
  · have he : (CSkeleton.k4abt_tracker_enqueue_capture t.enqueue_capture s).w.extends_by
        (Event.in_stage Stage.rank_in_skeleton 1) s.w := by
      simp [CSkeleton.k4abt_tracker_enqueue_capture, World.extends_by, World.emit,
        Event.in_stage, Event.stage, Stage.rank_in_skeleton]
    split
    · exact he
    · split
      · exact World.extends_by_trans _ _ _ _ he (CSkeleton.skeleton_destructor_in_stage _ _ _)
      · exact he
  · intro s
    have hp : (CSkeleton.k4abt_tracker_pop_result t.pop_result s).w.extends_by
        (Event.in_stage Stage.rank_in_skeleton 1) s.w := by
      unfold CSkeleton.k4abt_tracker_pop_result
      split <;> simp [World.extends_by, World.emit, World.fresh, Event.in_stage, Event.stage,
        Stage.rank_in_skeleton]
    split
    · exact hp
    · split
      · exact World.extends_by_trans _ _ _ _ hp (CSkeleton.skeleton_destructor_in_stage _ _ _)
      · exact hp

theorem CSkeleton.skeleton_update_inference_in_stage (t : CSkeleton.Tick)
    (s : CSkeleton.State) :
    (CSkeleton.update_inference t s).state.w.extends_by
      (Event.in_stage Stage.rank_in_skeleton 2) s.w := by
  unfold CSkeleton.update_inference
  cases hf : t.frame_capture <;> cases hc : t.color_image <;>
    simp [World.extends_by, World.emit, World.fresh, Outcome.state, Event.in_stage,
      Event.stage, Stage.rank_in_skeleton]

theorem CSkeleton.skeleton_update_skeleton_loop_in_stage (rank : Stage → Nat) (k : Nat)
    (bodies : List CSkeleton.BodyReply) :
    ∀ (i : Nat) (s : CSkeleton.State),
      (CSkeleton.update_skeleton_loop bodies i s).state.w.extends_by (Event.in_stage rank k)
        s.w := by
  induction bodies with
  | nil => intro i s; exact World.extends_by_refl _ _
  | cons b rest ih =>
    intro i s
    unfold CSkeleton.update_skeleton_loop
    simp only
    have hid : (s.w.emit (.frame_get_body_id s.frame i)).extends_by (Event.in_stage rank k)
        s.w := by
      simp [World.extends_by, World.emit, Event.in_stage, Event.stage]
    have hc := K4A_RESULT_CHECK_extends_by CSkeleton.State.w (Event.in_stage rank k)
      "k4abt_frame_get_body_skeleton( frame, i, &body.skeleton )" b.skeleton
      (CSkeleton.k4abt_frame_get_body_skeleton i)
      { s with w := s.w.emit (.frame_get_body_id s.frame i) }
      (by
        intro r s
        simp [CSkeleton.k4abt_frame_get_body_skeleton, World.extends_by, World.emit,
          Event.in_stage, Event.stage])
    have hc' := World.extends_by_trans _ _ _ _ hid hc
    split
    · rename_i s1 heq
      rw [heq] at hc'
      exact World.extends_by_trans _ _ _ _ hc' (ih _ _)
    · rename_i o hne
      exact hc'

theorem CSkeleton.skeleton_update_skeleton_in_stage (rank : Stage → Nat) (k : Nat)
    (t : CSkeleton.Tick) (s : CSkeleton.State) :
    (CSkeleton.update_skeleton t s).state.w.extends_by (Event.in_stage rank k) s.w := by
  unfold CSkeleton.update_skeleton
  simp only
  refine World.extends_by_trans _ _ (s.w.emit (.frame_get_num_bodies s.frame t.bodies.length))
    _ ?_ (CSkeleton.skeleton_update_skeleton_loop_in_stage rank k _ _ _)
  simp [World.extends_by, World.emit, Event.in_stage, Event.stage]

theorem CSkeleton.skeleton_draw_in_stage (rank : Stage → Nat) (k : Nat) (s : CSkeleton.State) :
    (CSkeleton.draw s).state.w.extends_by (Event.in_stage rank k) s.w := by
  unfold CSkeleton.draw CSkeleton.draw_color
  split <;> simp [Outcome.state, World.extends_by, World.emit, Event.in_stage, Event.stage]

theorem CSkeleton.skeleton_show_joints_in_stage (rank : Stage → Nat) (k : Nat) (id : Nat)
    (joints : List CSkeleton.k4abt_joint_t) :
    ∀ s : CSkeleton.State,
      (CSkeleton.show_joints id joints s).state.w.extends_by (Event.in_stage rank k) s.w := by
  induction joints with
  | nil => intro s; exact World.extends_by_refl _ _
  | cons j rest ih =>
    intro s
    unfold CSkeleton.show_joints
    have hc := K4A_RESULT_CHECK_extends_by CSkeleton.State.w (Event.in_stage rank k)
      ("k4a_calibration_3d_to_2d( &calibration, &joint.position, "
          ++ "k4a_calibration_type_t::K4A_CALIBRATION_TYPE_DEPTH, "
          ++ "k4a_calibration_type_t::K4A_CALIBRATION_TYPE_COLOR, &position, &result )")
      j.projection
      (fun r s => { s with w := s.w.emit (.calibration_3d_to_2d r j.valid) }) s
      (by
        intro r s
        simp [World.extends_by, World.emit, Event.in_stage, Event.stage])
    split
    · rename_i s1 heq
      rw [heq] at hc
      split
      · exact World.extends_by_trans _ _ _ _ hc (ih _)
      · refine World.extends_by_trans _ _ _ _ hc (World.extends_by_trans _ _ _ _ ?_ (ih _))
        simp [World.extends_by, World.emit, Outcome.state, Event.in_stage, Event.stage]
    · exact hc

theorem CSkeleton.skeleton_show_bodies_in_stage (rank : Stage → Nat) (k : Nat)
    (bodies : List CSkeleton.k4abt_body_t) :
    ∀ s : CSkeleton.State,
      (CSkeleton.show_bodies bodies s).state.w.extends_by (Event.in_stage rank k) s.w := by
  induction bodies with
  | nil => intro s; exact World.extends_by_refl _ _
  | cons body rest ih =>
    intro s
    unfold CSkeleton.show_bodies
    have hj := CSkeleton.skeleton_show_joints_in_stage rank k body.id body.joints s
    split
    · rename_i s1 heq
      rw [heq] at hj
      exact World.extends_by_trans _ _ _ _ hj (ih _)
    · exact hj

theorem CSkeleton.skeleton_show_in_stage (s : CSkeleton.State) :
    (CSkeleton.show_ s).state.w.extends_by (Event.in_stage Stage.rank_in_skeleton 4) s.w := by
  unfold CSkeleton.show_ CSkeleton.show_skeleton
  refine Outcome.andThen_extends_by CSkeleton.State.w _ _ _ _
    (CSkeleton.skeleton_show_bodies_in_stage _ _ _ _) ?_
  intro s
  simp [Outcome.state, World.extends_by, World.emit, Event.in_stage, Event.stage,
    Stage.rank_in_skeleton]

theorem CSkeleton.skeleton_tick_in_order (t : CSkeleton.Tick) (s : CSkeleton.State) :
    (CSkeleton.tick t s).state.w.ordered_upto Stage.rank_in_skeleton 4 s.w := by
  unfold CSkeleton.tick
  refine Outcome.andThen_ordered_upto CSkeleton.State.w _ 2 4 _ _ _ (by decide) ?_ ?_
  · unfold CSkeleton.update
    refine Outcome.andThen_ordered_upto CSkeleton.State.w _ 0 2 _ _ _ (by decide)
      (World.ordered_upto_step _ 0 0 _ _ _ (by decide) (World.ordered_upto_refl _ _ _)
        (CSkeleton.skeleton_update_frame_in_stage t s)) ?_
    intro s1 h1
    refine Outcome.andThen_ordered_upto CSkeleton.State.w _ 1 2 _ _ _ (by decide)
      (World.ordered_upto_step _ 0 1 _ _ _ (by decide) h1
        (CSkeleton.skeleton_update_body_tracking_in_stage t s1)) ?_
    intro s2 h2
    refine Outcome.andThen_ordered_upto CSkeleton.State.w _ 2 2 _ _ _ (by decide)
      (World.ordered_upto_step _ 1 2 _ _ _ (by decide) h2
        (CSkeleton.skeleton_update_inference_in_stage t s2)) ?_
    intro s3 h3
    refine Outcome.andThen_ordered_upto CSkeleton.State.w _ 2 2 _ _ _ (by decide)
      (World.ordered_upto_step _ 2 2 _ _ _ (by decide) h3
        (CSkeleton.skeleton_update_skeleton_in_stage _ _ t s3)) ?_
    intro s4 h4
    refine World.ordered_upto_step _ 2 2 _ _ _ (by decide) h4 ?_
    simp [World.extends_by, World.emit, Outcome.state, Event.in_stage, Event.stage]
  · intro s1 h1
    refine Outcome.andThen_ordered_upto CSkeleton.State.w _ 2 4 _ _ _ (by decide)
      (World.ordered_upto_step _ 2 2 _ _ _ (by decide) h1
        (CSkeleton.skeleton_draw_in_stage _ _ s1)) ?_
    intro s2 h2
    exact World.ordered_upto_step _ 2 4 _ _ _ (by decide) h2
      (CSkeleton.skeleton_show_in_stage s2)

/-- C11 fails in the skeleton sample: in a tick in which every call succeeds
the colour image is read, from the capture that the body frame refers to,
after the capture was handed to the tracker and the result was taken from it. -/
theorem C11_skeleton_extracts_after_tracking :
    (events_since (CSkeleton.constructor 0 CSkeleton.env_ok World.start).state.w.trace
        (CSkeleton.tick (CSkeleton.tick_ok 0)
          (CSkeleton.constructor 0 CSkeleton.env_ok World.start).state).state.w.trace).filterMap
        Event.stage
      = [Stage.acquire, Stage.track, Stage.track, Stage.extract, Stage.present]
    ∧ stages_in_order Stage.rank
        (events_since (CSkeleton.constructor 0 CSkeleton.env_ok World.start).state.w.trace
          (CSkeleton.tick (CSkeleton.tick_ok 0)
            (CSkeleton.constructor 0 CSkeleton.env_ok World.start).state).state.w.trace)
      = false := by
  decide

theorem Event.in_stage_not_extraction (k : Nat) (hk : k ≠ 2) (e : Event)
    (h : Event.in_stage Stage.rank_in_skeleton k e = true) : (!e.is_extraction) = true := by
  cases e <;>
    first
    | rfl
    | (simp only [Event.in_stage, Event.stage, Stage.rank_in_skeleton, beq_iff_eq] at h
       exact absurd h.symm hk)

theorem CSkeleton.skeleton_update_frame_outcome (t : CSkeleton.Tick) (s : CSkeleton.State) :
    (t.get_capture = K4A_WAIT_RESULT_FAILED
        ∧ ∃ what s1, CSkeleton.update_frame t s = .thrown what s1)
      ∨ (t.get_capture ≠ K4A_WAIT_RESULT_FAILED ∧ ∃ s1, CSkeleton.update_frame t s = .ok s1) := by
  unfold CSkeleton.update_frame
  cases hg : t.get_capture <;> simp

theorem CSkeleton.skeleton_update_body_tracking_outcome (t : CSkeleton.Tick)
    (s : CSkeleton.State) :
    ((t.enqueue_capture = K4A_WAIT_RESULT_FAILED ∨ t.pop_result = K4A_WAIT_RESULT_FAILED)
        ∧ ∃ what s1, CSkeleton.update_body_tracking t s = .thrown what s1)
      ∨ (t.enqueue_capture ≠ K4A_WAIT_RESULT_FAILED ∧ t.pop_result ≠ K4A_WAIT_RESULT_FAILED
        ∧ ∃ s1, CSkeleton.update_body_tracking t s = .ok s1) := by
  unfold CSkeleton.update_body_tracking
  cases hg : t.enqueue_capture <;> cases hp : t.pop_result <;> simp [Outcome.andThen]

theorem CSkeleton.skeleton_update_inference_calls (t : CSkeleton.Tick) (s : CSkeleton.State) :
    ∃ s1 capture image, CSkeleton.update_inference t s = .ok s1
      ∧ s1.w.trace = s.w.trace ++ [Event.frame_get_capture s.frame capture,
          Event.capture_get_color_image capture image, Event.capture_release capture]
      ∧ (capture = none → image = none) := by
  unfold CSkeleton.update_inference
  cases hf : t.frame_capture <;> cases hc : t.color_image
  · exact ⟨_, none, none, rfl, by simp [World.emit], fun _ => rfl⟩
  · exact ⟨_, none, none, rfl, by simp [World.emit], fun _ => rfl⟩
  · exact ⟨_, some s.w.next, none, rfl, by simp [World.emit, World.fresh], by simp⟩
  · exact ⟨_, some s.w.next, some (s.w.next + 1), rfl, by simp [World.emit, World.fresh],
      by simp⟩

theorem CSkeleton.skeleton_after_inference_no_extraction (t : CSkeleton.Tick)
    (s : CSkeleton.State) :
    (((((CSkeleton.update_skeleton t s).andThen fun s =>
        let s := { s with w := s.w.emit (.capture_release s.capture) }
        .ok { s with w := s.w.emit (.frame_release s.frame) }).andThen fun s =>
      (CSkeleton.draw s).andThen fun s => CSkeleton.show_ s).state.w).extends_by
        (fun e => !e.is_extraction) s.w) := by
  refine Outcome.andThen_extends_by CSkeleton.State.w _ _ _ _ ?_ ?_
  · refine Outcome.andThen_extends_by CSkeleton.State.w _ _ _ _ ?_ ?_
    · exact World.extends_by_mono _ _ _ _ (Event.in_stage_not_extraction 4 (by decide))
        (CSkeleton.skeleton_update_skeleton_in_stage Stage.rank_in_skeleton 4 t s)
    · intro s1
      simp [World.extends_by, World.emit, Outcome.state, Event.is_extraction, Event.stage]
  · intro s1
    refine Outcome.andThen_extends_by CSkeleton.State.w _ _ _ _ ?_ ?_
    · exact World.extends_by_mono _ _ _ _ (Event.in_stage_not_extraction 4 (by decide))
        (CSkeleton.skeleton_draw_in_stage Stage.rank_in_skeleton 4 s1)
    · intro s2
      exact World.extends_by_mono _ _ _ _ (Event.in_stage_not_extraction 4 (by decide))
        (CSkeleton.skeleton_show_in_stage s2)

theorem CSkeleton.skeleton_tick_extraction (t : CSkeleton.Tick) (s : CSkeleton.State) :
    ∃ evs, (CSkeleton.tick t s).state.w.trace = s.w.trace ++ evs
      ∧ ((t.get_capture = K4A_WAIT_RESULT_FAILED ∨ t.enqueue_capture = K4A_WAIT_RESULT_FAILED
            ∨ t.pop_result = K4A_WAIT_RESULT_FAILED) →
          ∀ e ∈ evs, e.is_extraction = false)
      ∧ (t.get_capture ≠ K4A_WAIT_RESULT_FAILED → t.enqueue_capture ≠ K4A_WAIT_RESULT_FAILED →
          t.pop_result ≠ K4A_WAIT_RESULT_FAILED →
          ∃ pre post frame capture image,
            evs = pre ++ [Event.frame_get_capture frame capture,
                Event.capture_get_color_image capture image, Event.capture_release capture]
              ++ post
            ∧ (∀ e ∈ pre, e.is_extraction = false) ∧ (∀ e ∈ post, e.is_extraction = false)) := by
  have hnot : ∀ e : Event, (!e.is_extraction) = true → e.is_extraction = false := by
    intro e h
    simpa using h
  have h0 := World.extends_by_mono _ _ _ _ (Event.in_stage_not_extraction 0 (by decide))
    (CSkeleton.skeleton_update_frame_in_stage t s)
  rcases CSkeleton.skeleton_update_frame_outcome t s with ⟨hg, what, s1, h1⟩ | ⟨hg, s1, h1⟩
  · -- the capture request failed
    rw [h1] at h0
    obtain ⟨evs, ht, hp⟩ := h0
    refine ⟨evs, ?_, fun _ e he => hnot e (hp e he), fun h => absurd hg h⟩
    simp only [CSkeleton.tick, CSkeleton.update, h1, Outcome.andThen]
    exact ht
  · rw [h1] at h0
    have h0b := World.extends_by_mono _ _ _ _ (Event.in_stage_not_extraction 1 (by decide))
      (CSkeleton.skeleton_update_body_tracking_in_stage t s1)
    rcases CSkeleton.skeleton_update_body_tracking_outcome t s1 with
      ⟨hf, what, s2, h2⟩ | ⟨he, hp, s2, h2⟩
    · -- a tracker call failed
      rw [h2] at h0b
      obtain ⟨evs, ht, hp⟩ := World.extends_by_trans _ _ _ _ h0 h0b
      refine ⟨evs, ?_, fun _ e he => hnot e (hp e he), ?_⟩
      · simp only [CSkeleton.tick, CSkeleton.update, h1, h2, Outcome.andThen]
        exact ht
      · intro _ h3 h4
        rcases hf with hf | hf
        · exact absurd hf h3
        · exact absurd hf h4
    · rw [h2] at h0b
      obtain ⟨pre, htpre, hpre⟩ := World.extends_by_trans _ _ _ _ h0 h0b
      obtain ⟨s3, capture, image, h3, ht3, _⟩ := CSkeleton.skeleton_update_inference_calls t s2
      obtain ⟨post, htpost, hpost⟩ := CSkeleton.skeleton_after_inference_no_extraction t s3
      refine ⟨pre ++ [Event.frame_get_capture s2.frame capture,
          Event.capture_get_color_image capture image, Event.capture_release capture] ++ post,
        ?_, ?_, ?_⟩
      · simp only [CSkeleton.tick, CSkeleton.update, h1, h2, h3, Outcome.andThen]
        simp only [Outcome.andThen] at htpost
        rw [htpost, ht3]
        simp only [Outcome.state] at htpre
        rw [htpre]
        simp
      · intro h
        rcases h with h | h | h
        · exact absurd h hg
        · exact absurd h he
        · exact absurd h hp
      · intro _ _ _
        exact ⟨pre, post, s2.frame, capture, image, rfl, fun e he => hnot e (hpre e he),
          fun e he => hnot e (hpost e he)⟩

/-- C11, as the code has it: whatever the replies and however the tick ends,
the calls of a tick of the index-map sample are made in the order Acquire,
Extract, Track, Transform, Present, and the calls of a tick of the skeleton
sample in the order Acquire, Track, Extract, Present.  In the skeleton sample
`update_inference` always returns and makes three calls: it obtains the capture
of the body frame, reads the colour image out of that capture and releases
that capture; a tick in which the acquisition or a tracker call fails makes no
extraction, and every other tick makes exactly this one, between the call that
obtained the capture reference and the call that releases it, after the calls
of the acquisition and the tracker. -/
theorem C11_stage_order :
    (∀ (t : CIndexMap.Tick) (s : CIndexMap.State),
      ∃ evs, (CIndexMap.tick t s).state.w.trace = s.w.trace ++ evs
        ∧ stages_in_order Stage.rank evs = true)
      ∧ (∀ (t : CSkeleton.Tick) (s : CSkeleton.State),
        ∃ evs, (CSkeleton.tick t s).state.w.trace = s.w.trace ++ evs
          ∧ stages_in_order Stage.rank_in_skeleton evs = true
          ∧ ((t.get_capture = K4A_WAIT_RESULT_FAILED
                ∨ t.enqueue_capture = K4A_WAIT_RESULT_FAILED
                ∨ t.pop_result = K4A_WAIT_RESULT_FAILED) →
              ∀ e ∈ evs, e.is_extraction = false)
          ∧ (t.get_capture ≠ K4A_WAIT_RESULT_FAILED →
              t.enqueue_capture ≠ K4A_WAIT_RESULT_FAILED →
              t.pop_result ≠ K4A_WAIT_RESULT_FAILED →
              ∃ pre post frame capture image,
                evs = pre ++ [Event.frame_get_capture frame capture,
                    Event.capture_get_color_image capture image, Event.capture_release capture]
                  ++ post
                ∧ (∀ e ∈ pre, e.is_extraction = false)
                ∧ (∀ e ∈ post, e.is_extraction = false)))
      ∧ ∀ (t : CSkeleton.Tick) (s : CSkeleton.State),
        ∃ s1 capture image, CSkeleton.update_inference t s = .ok s1
          ∧ s1.w.trace = s.w.trace ++ [Event.frame_get_capture s.frame capture,
              Event.capture_get_color_image capture image, Event.capture_release capture] := by
  refine ⟨?_, ?_, ?_⟩
  · intro t s
    obtain ⟨evs, ht, ho, _⟩ := CIndexMap.index_map_tick_in_order t s
    exact ⟨evs, ht, ho⟩
  · intro t s
    obtain ⟨evs, ht, ho, _⟩ := CSkeleton.skeleton_tick_in_order t s
    obtain ⟨evs2, ht2, hfail, hgood⟩ := CSkeleton.skeleton_tick_extraction t s
    have he : evs2 = evs := List.append_cancel_left (ht2.symm.trans ht)
    subst he
    exact ⟨evs2, ht, ho, hfail, hgood⟩
  · intro t s
    obtain ⟨s1, capture, image, h1, h2, _⟩ := CSkeleton.skeleton_update_inference_calls t s
    exact ⟨s1, capture, image, h1, h2⟩

/-- C11, at the first tick of the index-map sample after a start-up in which
everything succeeds: the stages of its calls are in the claimed order; and at
the first tick of the skeleton sample: the colour image 5 is read out of the
capture 4 of the body frame 3, between the calls that obtain and release that
capture. -/
theorem C11_stage_order_witness :
    (∃ evs, (CIndexMap.tick (CIndexMap.tick_ok 0)
          (CIndexMap.constructor 0 CIndexMap.env_ok World.start).state).state.w.trace
        = (CIndexMap.constructor 0 CIndexMap.env_ok World.start).state.w.trace ++ evs
      ∧ stages_in_order Stage.rank evs = true)
    ∧ ∃ s1, CSkeleton.update_inference (CSkeleton.tick_ok 0)
        (CSkeleton.update_body_tracking (CSkeleton.tick_ok 0)
          (CSkeleton.update_frame (CSkeleton.tick_ok 0)
            (CSkeleton.constructor 0 CSkeleton.env_ok World.start).state).state).state = .ok s1
      ∧ s1.w.trace.drop 9 = [Event.frame_get_capture (some 3) (some 4),
          Event.capture_get_color_image (some 4) (some 5), Event.capture_release (some 4)] := by
  refine ⟨C11_stage_order.1 (CIndexMap.tick_ok 0)
    (CIndexMap.constructor 0 CIndexMap.env_ok World.start).state, ?_⟩
  obtain ⟨s1, capture, image, h1, _⟩ := C11_stage_order.2.2 (CSkeleton.tick_ok 0)
    (CSkeleton.update_body_tracking (CSkeleton.tick_ok 0)
      (CSkeleton.update_frame (CSkeleton.tick_ok 0)
        (CSkeleton.constructor 0 CSkeleton.env_ok World.start).state).state).state
  refine ⟨s1, h1, ?_⟩
  have h2 : CSkeleton.update_inference (CSkeleton.tick_ok 0)
      (CSkeleton.update_body_tracking (CSkeleton.tick_ok 0)
        (CSkeleton.update_frame (CSkeleton.tick_ok 0)
          (CSkeleton.constructor 0 CSkeleton.env_ok World.start).state).state).state
      = .ok (CSkeleton.update_inference (CSkeleton.tick_ok 0)
      (CSkeleton.update_body_tracking (CSkeleton.tick_ok 0)
        (CSkeleton.update_frame (CSkeleton.tick_ok 0)
          (CSkeleton.constructor 0 CSkeleton.env_ok World.start).state).state).state).state := by
    decide
  rw [h2] at h1
  cases h1
  decide

theorem skeleton_show_joints_draws (body : CSkeleton.k4abt_body_t) (image : Option Mat)
    (colors : List (Nat × Nat × Nat)) (joints : List CSkeleton.k4abt_joint_t)
    (hj : ∀ joint ∈ joints, joint.projection.first = K4A_RESULT_SUCCEEDED) :
    ∀ s : CSkeleton.State, s.color = image → s.colors = colors →
      ∃ s' evs, CSkeleton.show_joints body.id joints s = .ok s'
        ∧ s'.w.trace = s.w.trace ++ evs
        ∧ evs.filter Event.is_circle
            = markers_of_body image colors { body with joints := joints }
        ∧ s'.color = s.color ∧ s'.colors = s.colors ∧ s'.device_index = s.device_index := by
  induction joints with
  | nil =>
    intro s _ _
    exact ⟨s, [], rfl, by simp, by simp [markers_of_body], rfl, rfl, rfl⟩
  | cons j rest ih =>
    intro s hi hc
    have hjs := hj j (List.mem_cons_self _ _)
    have hrest := ih (fun joint h => hj joint (List.mem_cons_of_mem _ h))
    unfold CSkeleton.show_joints
    simp only [K4A_RESULT_CHECK, hjs, K4A_FAILED, bne_self_eq_false, Bool.false_eq_true,
      if_false]
    cases hv : j.valid
    · simp only [Bool.not_false, if_true]
      obtain ⟨s', evs, hs', ht, hm, h1, h2, h3⟩ := hrest
        { s with w := s.w.emit (.calibration_3d_to_2d K4A_RESULT_SUCCEEDED false) } hi hc
      refine ⟨s', Event.calibration_3d_to_2d K4A_RESULT_SUCCEEDED false :: evs, hs', ?_, ?_,
        h1, h2, h3⟩
      · rw [ht]
        simp [World.emit]
      · simp only [List.filter_cons, Event.is_circle, Bool.false_eq_true, if_false, hm]
        simp [markers_of_body, hv]
    · simp only [Bool.not_true, Bool.false_eq_true, if_false]
      obtain ⟨s', evs, hs', ht, hm, h1, h2, h3⟩ := hrest
        { s with w := (s.w.emit (.calibration_3d_to_2d K4A_RESULT_SUCCEEDED true)).emit
                        (.circle s.color j.x j.y 5
                          ((CSkeleton.marker_color s.colors body.id).getD (0, 0, 0))
                          (CSkeleton.marker_thickness j)) } hi hc
      refine ⟨s', Event.calibration_3d_to_2d K4A_RESULT_SUCCEEDED true
        :: Event.circle s.color j.x j.y 5
            ((CSkeleton.marker_color s.colors body.id).getD (0, 0, 0))
            (CSkeleton.marker_thickness j) :: evs, hs', ?_, ?_, h1, h2, h3⟩
      · rw [ht]
        simp [World.emit]
      · simp only [List.filter_cons, Event.is_circle, Bool.false_eq_true, if_false, if_true, hm]
        simp [markers_of_body, hv, hi, hc]

theorem skeleton_show_bodies_draws (image : Option Mat) (colors : List (Nat × Nat × Nat))
    (bodies : List CSkeleton.k4abt_body_t) (hb : projections_succeed bodies) :
    ∀ s : CSkeleton.State, s.color = image → s.colors = colors →
      ∃ s' evs, CSkeleton.show_bodies bodies s = .ok s'
        ∧ s'.w.trace = s.w.trace ++ evs
        ∧ evs.filter Event.is_circle = (bodies.map (markers_of_body image colors)).flatten
        ∧ s'.color = s.color ∧ s'.colors = s.colors ∧ s'.device_index = s.device_index := by
  induction bodies with
  | nil =>
    intro s _ _
    exact ⟨s, [], rfl, by simp, by simp, rfl, rfl, rfl⟩
  | cons b rest ih =>
    intro s hi hc
    obtain ⟨s1, e1, hs1, ht1, hm1, h11, h12, h13⟩ := skeleton_show_joints_draws b image colors
      b.joints (hb b (List.mem_cons_self _ _)) s hi hc
    obtain ⟨s2, e2, hs2, ht2, hm2, h21, h22, h23⟩ :=
      ih (fun body h => hb body (List.mem_cons_of_mem _ h)) s1 (h11.trans hi) (h12.trans hc)
    refine ⟨s2, e1 ++ e2, ?_, ?_, ?_, h21.trans h11, h22.trans h12, h23.trans h13⟩
    · rw [CSkeleton.show_bodies, hs1]
      exact hs2
    · rw [ht2, ht1, List.append_assoc]
    · rw [List.filter_append, hm1, hm2]
      simp

theorem markers_of_body_length (image : Option Mat) (colors : List (Nat × Nat × Nat))
    (bodies : List CSkeleton.k4abt_body_t) :
    ((bodies.map (markers_of_body image colors)).flatten).length = valid_joints bodies := by
  induction bodies with
  | nil => rfl
  | cons b rest ih =>
    simp only [List.map_cons, List.flatten_cons, List.length_append, ih, valid_joints,
      List.sum_cons]
    simp [markers_of_body, List.countP_eq_length_filter]

theorem cpp_skeleton_show_joints_draws (body : CSkeleton.k4abt_body_t) (image : Option Mat)
    (colors : List (Nat × Nat × Nat)) (joints : List CSkeleton.k4abt_joint_t)
    (hj : ∀ joint ∈ joints, joint.projection.first = K4A_RESULT_SUCCEEDED) :
    ∀ s : CppSkeleton.State, s.color = image → s.colors = colors →
      ∃ s' evs, CppSkeleton.show_joints body.id joints s = .ok s'
        ∧ s'.w.trace = s.w.trace ++ evs
        ∧ evs.filter Event.is_circle
            = markers_of_body image colors { body with joints := joints }
        ∧ s'.color = s.color ∧ s'.colors = s.colors ∧ s'.device_index = s.device_index := by
  induction joints with
  | nil =>
    intro s _ _
    exact ⟨s, [], rfl, by simp, by simp [markers_of_body], rfl, rfl, rfl⟩
  | cons j rest ih =>
    intro s hi hc
    have hjs := hj j (List.mem_cons_self _ _)
    have hrest := ih (fun joint h => hj joint (List.mem_cons_of_mem _ h))
    unfold CppSkeleton.show_joints
    simp only [hjs, K4A_FAILED, bne_self_eq_false, Bool.false_eq_true, if_false]
    cases hv : j.valid
    · simp only [Bool.not_false, if_true]
      obtain ⟨s', evs, hs', ht, hm, h1, h2, h3⟩ := hrest
        { s with w := s.w.emit (.calibration_3d_to_2d K4A_RESULT_SUCCEEDED false) } hi hc
      refine ⟨s', Event.calibration_3d_to_2d K4A_RESULT_SUCCEEDED false :: evs, hs', ?_, ?_,
        h1, h2, h3⟩
      · rw [ht]
        simp [World.emit]
      · simp only [List.filter_cons, Event.is_circle, Bool.false_eq_true, if_false, hm]
        simp [markers_of_body, hv]
    · simp only [Bool.not_true, Bool.false_eq_true, if_false]
      obtain ⟨s', evs, hs', ht, hm, h1, h2, h3⟩ := hrest
        { s with w := (s.w.emit (.calibration_3d_to_2d K4A_RESULT_SUCCEEDED true)).emit
                        (.circle s.color j.x j.y 5
                          ((CSkeleton.marker_color s.colors body.id).getD (0, 0, 0))
                          (CSkeleton.marker_thickness j)) } hi hc
      refine ⟨s', Event.calibration_3d_to_2d K4A_RESULT_SUCCEEDED true
        :: Event.circle s.color j.x j.y 5
            ((CSkeleton.marker_color s.colors body.id).getD (0, 0, 0))
            (CSkeleton.marker_thickness j) :: evs, hs', ?_, ?_, h1, h2, h3⟩
      · rw [ht]
        simp [World.emit]
      · simp only [List.filter_cons, Event.is_circle, Bool.false_eq_true, if_false, if_true, hm]
        simp [markers_of_body, hv, hi, hc]

theorem cpp_skeleton_show_bodies_draws (image : Option Mat) (colors : List (Nat × Nat × Nat))
    (bodies : List CSkeleton.k4abt_body_t) (hb : projections_succeed bodies) :
    ∀ s : CppSkeleton.State, s.color = image → s.colors = colors →
      ∃ s' evs, CppSkeleton.show_bodies bodies s = .ok s'
        ∧ s'.w.trace = s.w.trace ++ evs
        ∧ evs.filter Event.is_circle = (bodies.map (markers_of_body image colors)).flatten
        ∧ s'.color = s.color ∧ s'.colors = s.colors ∧ s'.device_index = s.device_index := by
  induction bodies with
  | nil =>
    intro s _ _
    exact ⟨s, [], rfl, by simp, by simp, rfl, rfl, rfl⟩
  | cons b rest ih =>
    intro s hi hc
    obtain ⟨s1, e1, hs1, ht1, hm1, h11, h12, h13⟩ := cpp_skeleton_show_joints_draws b image
      colors b.joints (hb b (List.mem_cons_self _ _)) s hi hc
    obtain ⟨s2, e2, hs2, ht2, hm2, h21, h22, h23⟩ :=
      ih (fun body h => hb body (List.mem_cons_of_mem _ h)) s1 (h11.trans hi) (h12.trans hc)
    refine ⟨s2, e1 ++ e2, ?_, ?_, ?_, h21.trans h11, h22.trans h12, h23.trans h13⟩
    · rw [CppSkeleton.show_bodies, hs1]
      exact hs2
    · rw [ht2, ht1, List.append_assoc]
    · rw [List.filter_append, hm1, hm2]
      simp

/-- C21: in the C and in the C++ skeleton sample, for every list of bodies for
which the projection calls succeed, `show_skeleton` returns, and the circles it
draws are exactly, body after body and joint after joint, one marker for each
joint whose projection is reported valid and none for the other joints; their
number is the number of joints with a valid projection, and the picture is
shown after them. -/
theorem C21_one_marker_per_valid_joint :
    (∀ s : CSkeleton.State, projections_succeed s.bodies →
      ∃ s' evs, CSkeleton.show_skeleton s = .ok s'
        ∧ s'.w.trace = s.w.trace ++ evs
          ++ [Event.imshow ("skeleton (kinect " ++ format_d s.device_index ++ ")") s.color]
        ∧ evs.filter Event.is_circle = (s.bodies.map (markers_of_body s.color s.colors)).flatten
        ∧ (evs.filter Event.is_circle).length = valid_joints s.bodies)
      ∧ ∀ s : CppSkeleton.State, projections_succeed s.bodies →
        ∃ s' evs, CppSkeleton.show_skeleton s = .ok s'
          ∧ s'.w.trace = s.w.trace ++ evs
            ++ [Event.imshow ("skeleton (kinect " ++ format_d s.device_index ++ ")") s.color]
          ∧ evs.filter Event.is_circle
              = (s.bodies.map (markers_of_body s.color s.colors)).flatten
          ∧ (evs.filter Event.is_circle).length = valid_joints s.bodies := by
  constructor
  · intro s hb
    obtain ⟨s1, evs, hs1, ht1, hm1, h1, _, h3⟩ :=
      skeleton_show_bodies_draws s.color s.colors s.bodies hb s rfl rfl
    refine ⟨{ s1 with w := s1.w.emit (.imshow
        ("skeleton (kinect " ++ format_d s1.device_index ++ ")") s1.color) },
      evs, ?_, ?_, hm1, by rw [hm1, markers_of_body_length]⟩
    · rw [CSkeleton.show_skeleton, hs1]
      rfl
    · simp [World.emit, ht1, h1, h3]
  · intro s hb
    obtain ⟨s1, evs, hs1, ht1, hm1, h1, _, h3⟩ :=
      cpp_skeleton_show_bodies_draws s.color s.colors s.bodies hb s rfl rfl
    refine ⟨{ s1 with w := s1.w.emit (.imshow
        ("skeleton (kinect " ++ format_d s1.device_index ++ ")") s1.color) },
      evs, ?_, ?_, hm1, by rw [hm1, markers_of_body_length]⟩
    · rw [CppSkeleton.show_skeleton, hs1]
      rfl
    · simp [World.emit, ht1, h1, h3]

/-- C21, at the state after the first update of a run in which everything
succeeds: one body with one valid joint, one marker. -/
theorem C21_one_marker_witness :
    ∃ s' evs, CSkeleton.show_skeleton
          (CSkeleton.update (CSkeleton.tick_ok 0)
            (CSkeleton.constructor 0 CSkeleton.env_ok World.start).state).state = .ok s'
      ∧ s'.w.trace = (CSkeleton.update (CSkeleton.tick_ok 0)
            (CSkeleton.constructor 0 CSkeleton.env_ok World.start).state).state.w.trace ++ evs
          ++ [Event.imshow ("skeleton (kinect " ++ format_d 0 ++ ")") none]
      ∧ (evs.filter Event.is_circle).length = 1 := by
  obtain ⟨s', evs, h1, h2, _, h4⟩ := C21_one_marker_per_valid_joint.1
    (CSkeleton.update (CSkeleton.tick_ok 0)
      (CSkeleton.constructor 0 CSkeleton.env_ok World.start).state).state
    (by unfold projections_succeed; decide)
  exact ⟨s', evs, h1, h2, h4⟩

/-- C22 fails in the index-map sample: `update_transformation` tests the depth
image and the body index map only, and sizes its two output images by the
colour image.  In a tick whose capture has no colour image the width and the
height are asked of a null handle, both output images are created and the
transformation is called.  The same holds for every state with a null colour
image and the two other images present, while the transformation sample does
nothing when its colour image or its depth image is null, and the point cloud
sample nothing when the image its wrapper call reads is null. -/
theorem C22_output_sized_by_absent_colour_image :
    (events_since (CIndexMap.constructor 0 CIndexMap.env_ok World.start).state.w.trace
        (CIndexMap.update (CIndexMap.tick_no_color 0)
          (CIndexMap.constructor 0 CIndexMap.env_ok World.start).state).state.w.trace
      = [.device_get_capture (some 0) K4A_WAIT_RESULT_SUCCEEDED (some 2),
         .capture_get_color_image (some 2) none,
         .capture_get_depth_image (some 2) (some 3),
         .tracker_enqueue_capture (some 1) (some 2) K4A_WAIT_RESULT_SUCCEEDED,
         .tracker_pop_result (some 1) K4A_WAIT_RESULT_SUCCEEDED (some 4),
         .frame_get_body_index_map (some 4) (some 5),
         .image_get_width_pixels none,
         .image_get_height_pixels none,
         .image_create K4A_RESULT_SUCCEEDED (some 6),
         .image_create K4A_RESULT_SUCCEEDED (some 7),
         .transformation_depth_image_to_color_camera_custom (some 3) (some 5) (some 6) (some 7)
           K4A_RESULT_SUCCEEDED,
         .capture_release (some 2),
         .frame_release (some 4)])
      ∧ (∀ (t : CIndexMap.Tick) (s : CIndexMap.State), s.color_image = none →
          s.depth_image.isSome = true → s.body_index_map_image.isSome = true →
          ∃ image evs, (CIndexMap.update_transformation t s).state.w.trace
            = s.w.trace ++ Event.image_get_width_pixels none
                :: Event.image_get_height_pixels none
                :: Event.image_create t.create_transformed_depth.first image :: evs)
      ∧ (∀ (t : CTransformation.Tick) (s : CTransformation.State),
          s.color_image = none ∨ s.depth_image = none →
          CTransformation.update_transformation t s = .ok s)
      ∧ (∀ (t : CppPointCloud.Tick) (s : CppPointCloud.State),
          (s.depth_image = none → CppPointCloud.update_transformation t s = .ok s)
          ∧ (s.transformed_depth_image = none → CppPointCloud.update_point_cloud t s = .ok s)) := by
  refine ⟨by decide, ?_, ?_, ?_⟩
  · intro t s hc hd hb
    have hnd : s.depth_image.isNone = false := by
      cases h : s.depth_image <;> simp_all
    have hnb : s.body_index_map_image.isNone = false := by
      cases h : s.body_index_map_image <;> simp_all
    obtain ⟨image, hw⟩ : ∃ image,
        (CIndexMap.update_transformation t s).state.w.extends_by (fun _ => true)
          (((s.w.emit (.image_get_width_pixels none)).emit (.image_get_height_pixels none)).emit
            (.image_create t.create_transformed_depth.first image)) := by
      refine ⟨match t.create_transformed_depth.first with
        | K4A_RESULT_SUCCEEDED => some s.w.next
        | K4A_RESULT_FAILED => s.transformed_depth_image, ?_⟩
      unfold CIndexMap.update_transformation
      simp only [hnd, hnb, Bool.or_false, Bool.false_eq_true, if_false, hc]
      refine Outcome.andThen_extends_by CIndexMap.State.w _ _ _ _ ?_ ?_
      · unfold K4A_RESULT_CHECK
        rcases t.create_transformed_depth with ⟨f, a⟩
        cases f <;> cases a <;>
          simp [K4A_FAILED, Outcome.state, CIndexMap.create_transformed_depth_image,
            World.extends_by, World.emit, World.fresh]
      · intro s1
        refine Outcome.andThen_extends_by CIndexMap.State.w _ _ _ _ ?_ ?_
        · apply K4A_RESULT_CHECK_extends_by CIndexMap.State.w
          intro r s2
          unfold CIndexMap.create_transformed_body_index_map_image
          split <;> simp [World.extends_by, World.emit, World.fresh]
        · intro s2
          apply K4A_RESULT_CHECK_extends_by CIndexMap.State.w
          intro r s3
          simp [CIndexMap.k4a_transformation_depth_image_to_color_camera_custom,
            World.extends_by, World.emit]
    obtain ⟨evs, ht, _⟩ := hw
    exact ⟨image, evs, by rw [ht]; simp [World.emit]⟩
  · intro t s h
    unfold CTransformation.update_transformation
    rcases h with h | h <;> simp [h]
  · intro t s
    constructor
    · intro h
      simp [CppPointCloud.update_transformation, h]
    · intro h
      simp [CppPointCloud.update_point_cloud, h]

theorem wrap_int32_of_mem (v : Int) (h0 : -2 ^ 31 ≤ v) (h1 : v < 2 ^ 31) : wrap_int32 v = v := by
  unfold wrap_int32
  rw [Int.emod_eq_of_lt (by omega) (by omega)]
  omega

/-- C23: in the transformation sample, when both images are present and the
strides are representable, `update_transformation` creates first the output of
the colour-to-depth transformation, as BGRA32 with the width and the height of
the depth image and a stride of 4 times its width, and then the output of the
depth-to-colour transformation, as DEPTH16 with the width and the height of the
colour image and a stride of 2 times its width; when an image is missing it
creates nothing; and when the checked calls succeed these two are the calls of
`k4a_image_create` the trace shows. -/
theorem C23_output_geometry (color depth : image_size)
    (hd0 : 0 ≤ depth.width_pixels) (hd1 : depth.width_pixels * 4 < 2 ^ 31)
    (hc0 : 0 ≤ color.width_pixels) (hc1 : color.width_pixels * 2 < 2 ^ 31) :
    CTransformation.image_create_calls (some color) (some depth)
        = [{ format := .K4A_IMAGE_FORMAT_COLOR_BGRA32, width_pixels := depth.width_pixels,
             height_pixels := depth.height_pixels, stride_bytes := 4 * depth.width_pixels },
           { format := .K4A_IMAGE_FORMAT_DEPTH16, width_pixels := color.width_pixels,
             height_pixels := color.height_pixels, stride_bytes := 2 * color.width_pixels }]
      ∧ CTransformation.image_create_calls none (some depth) = []
      ∧ CTransformation.image_create_calls (some color) none = []
      ∧ ∀ (t : CTransformation.Tick) (s : CTransformation.State),
          s.color_image.isSome = true → s.depth_image.isSome = true →
          t.create_transformed_color.first = K4A_RESULT_SUCCEEDED →
          t.color_image_to_depth_camera.first = K4A_RESULT_SUCCEEDED →
          t.create_transformed_depth.first = K4A_RESULT_SUCCEEDED →
          t.depth_image_to_color_camera.first = K4A_RESULT_SUCCEEDED →
          CTransformation.update_transformation t s
              = .ok (CTransformation.update_transformation t s).state
            ∧ (events_since s.w.trace
                (CTransformation.update_transformation t s).state.w.trace).countP
                  Event.is_image_create
              = (CTransformation.image_create_calls (some color) (some depth)).length := by
  refine ⟨?_, rfl, rfl, ?_⟩
  · have h1 : wrap_int32 (depth.width_pixels * 4) = depth.width_pixels * 4 :=
      wrap_int32_of_mem _ (by omega) hd1
    have h2 : wrap_int32 (depth.width_pixels * 4 * 1) = depth.width_pixels * 4 :=
      by rw [Int.mul_one]; exact h1
    have h3 : wrap_int32 (color.width_pixels * 2) = color.width_pixels * 2 :=
      wrap_int32_of_mem _ (by omega) hc1
    simp only [CTransformation.image_create_calls, h1, h2, h3]
    rw [Int.mul_comm depth.width_pixels, Int.mul_comm color.width_pixels]
  · intro t s hc hd h1 h2 h3 h4
    rcases s with ⟨w, device, capture, device_index, color_image, color', depth_image, depth',
      transformed_color_image, transformed_depth_image, transformed_color, transformed_depth⟩
    cases color_image with
    | none => cases hc
    | some c =>
      cases depth_image with
      | none => cases hd
      | some d =>
        constructor
        · simp [CTransformation.update_transformation, K4A_RESULT_CHECK, K4A_FAILED, h1, h2, h3,
            h4, Outcome.andThen, Outcome.state]
        · simp [CTransformation.update_transformation, K4A_RESULT_CHECK, K4A_FAILED, h1, h2, h3,
            h4, Outcome.andThen, Outcome.state,
            events_since, CTransformation.create_transformed_color_image,
            CTransformation.create_transformed_depth_image,
            CTransformation.k4a_transformation_color_image_to_depth_camera,
            CTransformation.k4a_transformation_depth_image_to_color_camera,
            World.emit, World.fresh, CTransformation.image_create_calls, Event.is_image_create,
            List.countP_cons]

/-- C23, for a depth image of 640 by 576 and a colour image of 1280 by 720. -/
theorem C23_output_geometry_witness :
    CTransformation.image_create_calls
        (some { width_pixels := 1280, height_pixels := 720 })
        (some { width_pixels := 640, height_pixels := 576 })
      = [{ format := .K4A_IMAGE_FORMAT_COLOR_BGRA32, width_pixels := 640,
           height_pixels := 576, stride_bytes := 2560 },
         { format := .K4A_IMAGE_FORMAT_DEPTH16, width_pixels := 1280,
           height_pixels := 720, stride_bytes := 2560 }] :=
  (C23_output_geometry { width_pixels := 1280, height_pixels := 720 }
    { width_pixels := 640, height_pixels := 576 } (by decide) (by decide) (by decide)
    (by decide)).1

set_option maxRecDepth 100000 in
theorem put_setw2_two_digits : ∀ n < 100, put_setw2 (n : Nat) = two_digits n := by
  decide

theorem toDigitsCore_succ (fuel n : Nat) (ds : List Char) :
    Nat.toDigitsCore 10 (fuel + 1) n ds
      = if n / 10 = 0 then Nat.digitChar (n % 10) :: ds
        else Nat.toDigitsCore 10 fuel (n / 10) (Nat.digitChar (n % 10) :: ds) := by
  simp [Nat.toDigitsCore]

theorem toString_four_digits (n : Nat) (h0 : 1000 ≤ n) (h1 : n ≤ 9999) :
    toString (n : Int) = four_digits n := by
  obtain ⟨k, rfl⟩ : ∃ k, n = k + 3 := ⟨n - 3, by omega⟩
  show (Nat.toDigitsCore 10 (k + 1 + 1 + 1 + 1) (k + 3) []).asString = _
  rw [toDigitsCore_succ, if_neg (by omega), toDigitsCore_succ, if_neg (by omega),
    toDigitsCore_succ, if_neg (by omega), toDigitsCore_succ, if_pos (by omega)]
  have e1 : (k + 3) / 10 / 10 / 10 % 10 = (k + 3) / 1000 % 10 := by omega
  have e2 : (k + 3) / 10 / 10 % 10 = (k + 3) / 100 % 10 := by omega
  rw [e1, e2]
  rfl

theorem two_digits_length (v : Nat) : (two_digits v).length = 2 := rfl

theorem four_digits_length (v : Nat) : (four_digits v).length = 4 := rfl

/-- C24: for every local time whose year has four digits and whose other fields
are in their calendar ranges, the file name built by `initialize_record` of the
C and of the C++ record sample is `./YYYY_MM_DD_hhmmss.mkv`: the year in four
digits, the month (`tm_mon + 1`), the day, the hour, the minute and the second in
two digits each, filled with '0'; it has 23 characters, and it is the path given
to `k4a_record_create` when the constructor returns. -/
theorem C24_record_file_name (t : tm) (year month day hour minute second : Nat)
    (hyear : t.tm_year + 1900 = year) (hy0 : 1000 ≤ year) (hy1 : year ≤ 9999)
    (hmonth : t.tm_mon + 1 = month) (hm1 : month ≤ 12)
    (hday : t.tm_mday = day) (hd1 : day ≤ 31)
    (hhour : t.tm_hour = hour) (hh1 : hour ≤ 23)
    (hminute : t.tm_min = minute) (hmin1 : minute ≤ 59)
    (hsecond : t.tm_sec = second) (hs1 : second ≤ 60) :
    "./" ++ CRecord.oss t ++ ".mkv" = dated_file_name year month day hour minute second
      ∧ "./" ++ CppRecord.oss t ++ ".mkv" = dated_file_name year month day hour minute second
      ∧ (dated_file_name year month day hour minute second).length = 23
      ∧ (∀ (index : Nat) (env : CRecord.Env) (w : World) (s : CRecord.State),
          env.local_time = t → CRecord.constructor index env w = .ok s →
          Event.record_create (dated_file_name year month day hour minute second)
            (some w.next) K4A_RESULT_SUCCEEDED (some (w.next + 1)) ∈ s.w.trace)
      ∧ ∀ (index : Nat) (env : CppRecord.Env) (w : World) (s : CppRecord.State),
          env.local_time = t → CppRecord.constructor index env w = .ok s →
          Event.record_create (dated_file_name year month day hour minute second)
            (some w.next) K4A_RESULT_SUCCEEDED (some (w.next + 1)) ∈ s.w.trace := by
  have e1 : "./" ++ CRecord.oss t ++ ".mkv"
      = dated_file_name year month day hour minute second := by
    simp only [CRecord.oss, dated_file_name, hyear, hmonth, hday, hhour, hminute, hsecond,
      toString_four_digits year hy0 hy1, put_setw2_two_digits month (by omega),
      put_setw2_two_digits day (by omega), put_setw2_two_digits hour (by omega),
      put_setw2_two_digits minute (by omega), put_setw2_two_digits second (by omega),
      String.append_assoc]
  have e2 : "./" ++ CppRecord.oss t ++ ".mkv"
      = dated_file_name year month day hour minute second := e1
  refine ⟨e1, e2, ?_, ?_, ?_⟩
  · simp only [dated_file_name, String.length_append, two_digits_length, four_digits_length]
    rfl
  · intro index env w s henv h
    obtain ⟨_, htr⟩ := CRecord.record_constructor_calls index env w s h
    rw [htr, henv, e1]
    simp
  · intro index env w s henv h
    obtain ⟨_, _, htr⟩ := CppRecord.cpp_record_constructor_calls index env w s h
    rw [htr, henv, e2]
    simp

/-- C24, at 09:05:07 on 30 October 2026. -/
theorem C24_record_file_name_witness :
    "./" ++ CRecord.oss tm_ok ++ ".mkv" = "./2026_10_30_090507.mkv"
      ∧ ("./2026_10_30_090507.mkv").length = 23 :=
  have h := C24_record_file_name tm_ok 2026 10 30 9 5 7 (by decide) (by decide) (by decide)
    (by decide) (by decide) (by decide) (by decide) (by decide) (by decide) (by decide)
    (by decide) (by decide) (by decide)
  ⟨h.1.trans (by decide), by decide⟩

/-! ### The colour table through the ticks -/

theorem Outcome.andThen_keeps {σ α : Type} (f : σ → α) (o : Outcome σ) (k : σ → Outcome σ)
    (a : α) (ho : f o.state = a) (hk : ∀ s, f s = a → f (k s).state = a) :
    f (o.andThen k).state = a := by
  cases o with
  | ok s => exact hk s ho
  | thrown what s => exact ho
  | exited status s => exact ho
  | running s => exact ho
  | terminated s => exact ho

theorem K4A_RESULT_CHECK_keeps {σ α : Type} (f : σ → α) (text : String) (c : Checked)
    (call : k4a_result_t → σ → σ) (s : σ) (hcall : ∀ r s, f (call r s) = f s) :
    f (K4A_RESULT_CHECK text c call s).state = f s := by
  unfold K4A_RESULT_CHECK
  simp only
  split
  · simp only [Outcome.state]
    rw [hcall, hcall]
  · simp only [Outcome.state]
    rw [hcall]

theorem CIndexMap.index_map_update_keeps_colors (t : CIndexMap.Tick) (s : CIndexMap.State)
    (h1 : t.get_capture ≠ K4A_WAIT_RESULT_TIMEOUT)
    (h2 : t.enqueue_capture ≠ K4A_WAIT_RESULT_TIMEOUT)
    (h3 : t.pop_result ≠ K4A_WAIT_RESULT_TIMEOUT) :
    (CIndexMap.update t s).state.colors = s.colors := by
  unfold CIndexMap.update
  refine Outcome.andThen_keeps _ _ _ _ ?_ fun s1 e1 => ?_
  · unfold CIndexMap.update_frame CIndexMap.k4a_device_get_capture
    cases hg : t.get_capture <;> simp [hg, Outcome.state] at h1 ⊢
  refine Outcome.andThen_keeps _ _ _ _ ?_ fun s2 e2 => ?_
  · unfold CIndexMap.update_color CIndexMap.k4a_capture_get_color_image
    rw [← e1]
    split <;> [rfl; (split <;> rfl)]
  refine Outcome.andThen_keeps _ _ _ _ ?_ fun s3 e3 => ?_
  · unfold CIndexMap.update_depth CIndexMap.k4a_capture_get_depth_image
    rw [← e2]
    split <;> [rfl; (split <;> rfl)]
  refine Outcome.andThen_keeps _ _ _ _ ?_ fun s4 e4 => ?_
  · unfold CIndexMap.update_body_tracking CIndexMap.k4abt_tracker_enqueue_capture
      CIndexMap.k4abt_tracker_pop_result
    rw [← e3]
    cases hg : t.enqueue_capture <;> cases hp : t.pop_result <;>
      simp [hg, hp, Outcome.state, Outcome.andThen] at h2 h3 ⊢
  refine Outcome.andThen_keeps _ _ _ _ ?_ fun s5 e5 => ?_
  · unfold CIndexMap.update_body_index_map
    rw [← e4]
    split <;> rfl
  refine Outcome.andThen_keeps _ _ _ _ ?_ fun s6 e6 => ?_
  · unfold CIndexMap.update_transformation
    rw [← e5]
    split
    · rfl
    · refine Outcome.andThen_keeps _ _ _ _ ?_ fun sa ea => ?_
      · refine (K4A_RESULT_CHECK_keeps (fun s : CIndexMap.State => s.colors) _ _ _ _ ?_).trans rfl
        intro r s
        unfold CIndexMap.create_transformed_depth_image
        cases r <;> rfl
      refine Outcome.andThen_keeps _ _ _ _ ?_ fun sb eb => ?_
      · refine (K4A_RESULT_CHECK_keeps (fun s : CIndexMap.State => s.colors) _ _ _ _ ?_).trans ea
        intro r s
        unfold CIndexMap.create_transformed_body_index_map_image
        cases r <;> rfl
      · refine (K4A_RESULT_CHECK_keeps (fun s : CIndexMap.State => s.colors) _ _ _ _ ?_).trans eb
        intro r s
        rfl
  · rw [← e6]
    rfl

theorem CIndexMap.index_map_tick_keeps_colors (t : CIndexMap.Tick) (s : CIndexMap.State)
    (h1 : t.get_capture ≠ K4A_WAIT_RESULT_TIMEOUT)
    (h2 : t.enqueue_capture ≠ K4A_WAIT_RESULT_TIMEOUT)
    (h3 : t.pop_result ≠ K4A_WAIT_RESULT_TIMEOUT) :
    (CIndexMap.tick t s).state.colors = s.colors := by
  unfold CIndexMap.tick
  refine Outcome.andThen_keeps _ _ _ _ (CIndexMap.index_map_update_keeps_colors t s h1 h2 h3)
    fun s1 e1 => ?_
  refine Outcome.andThen_keeps _ _ _ _ ?_ fun s2 e2 => ?_
  · unfold CIndexMap.draw
    refine Outcome.andThen_keeps _ _ _ _ ?_ fun sa ea => ?_
    · unfold CIndexMap.draw_color
      rw [← e1]
      split <;> rfl
    refine Outcome.andThen_keeps _ _ _ _ ?_ fun sb eb => ?_
    · unfold CIndexMap.draw_body_index_map
      rw [← ea]
      split <;> rfl
    · unfold CIndexMap.draw_transformation
      rw [← eb]
      split <;> rfl
  · unfold CIndexMap.show_
    refine Outcome.andThen_keeps _ _ _ _ ?_ fun sa ea => ?_
    · unfold CIndexMap.show_body_index_map
      rw [← e2]
      split <;> rfl
    · unfold CIndexMap.show_transformation
      rw [← ea]
      split <;> rfl

theorem CSkeleton.skeleton_update_skeleton_loop_keeps_colors (replies : List CSkeleton.BodyReply) :
    ∀ (i : Nat) (s : CSkeleton.State),
      (CSkeleton.update_skeleton_loop replies i s).state.colors = s.colors := by
  induction replies with
  | nil => intro i s; rfl
  | cons b rest ih =>
    intro i s
    unfold CSkeleton.update_skeleton_loop
    rcases hb : b.skeleton with ⟨f, a⟩
    cases f
    · simp only [K4A_RESULT_CHECK, K4A_FAILED, bne_self_eq_false, Bool.false_eq_true, if_false]
      rw [ih]
      rfl
    · simp [K4A_RESULT_CHECK, K4A_FAILED, Outcome.state, CSkeleton.k4abt_frame_get_body_skeleton]

theorem CSkeleton.skeleton_show_bodies_keeps_colors (bodies : List CSkeleton.k4abt_body_t) :
    ∀ s : CSkeleton.State, (CSkeleton.show_bodies bodies s).state.colors = s.colors := by
  induction bodies with
  | nil => intro s; rfl
  | cons body rest ih =>
    intro s
    have hj := (skeleton_show_joints_markers body.id body.joints s).1
    unfold CSkeleton.show_bodies
    cases ho : CSkeleton.show_joints body.id body.joints s with
    | ok s1 =>
      rw [ho] at hj
      simp only
      rw [ih]
      exact hj
    | thrown what s1 => rw [ho] at hj; exact hj
    | exited status s1 => rw [ho] at hj; exact hj
    | running s1 => rw [ho] at hj; exact hj
    | terminated s1 => rw [ho] at hj; exact hj

theorem CSkeleton.skeleton_tick_keeps_colors (t : CSkeleton.Tick) (s : CSkeleton.State)
    (h1 : t.get_capture ≠ K4A_WAIT_RESULT_TIMEOUT)
    (h2 : t.enqueue_capture ≠ K4A_WAIT_RESULT_TIMEOUT)
    (h3 : t.pop_result ≠ K4A_WAIT_RESULT_TIMEOUT) :
    (CSkeleton.tick t s).state.colors = s.colors := by
  unfold CSkeleton.tick
  refine Outcome.andThen_keeps _ _ _ _ ?_ fun s1 e1 => ?_
  · unfold CSkeleton.update
    refine Outcome.andThen_keeps _ _ _ _ ?_ fun s1 e1 => ?_
    · unfold CSkeleton.update_frame CSkeleton.k4a_device_get_capture
      cases hg : t.get_capture <;> simp [hg, Outcome.state] at h1 ⊢
    refine Outcome.andThen_keeps _ _ _ _ ?_ fun s2 e2 => ?_
    · unfold CSkeleton.update_body_tracking CSkeleton.k4abt_tracker_enqueue_capture
        CSkeleton.k4abt_tracker_pop_result
      rw [← e1]
      cases hg : t.enqueue_capture <;> cases hp : t.pop_result <;>
        simp [hg, hp, Outcome.state, Outcome.andThen] at h2 h3 ⊢
    refine Outcome.andThen_keeps _ _ _ _ ?_ fun s3 e3 => ?_
    · unfold CSkeleton.update_inference
      rw [← e2]
      cases t.frame_capture <;> cases t.color_image <;> rfl
    refine Outcome.andThen_keeps _ _ _ _ ?_ fun s4 e4 => ?_
    · unfold CSkeleton.update_skeleton
      simp only
      rw [CSkeleton.skeleton_update_skeleton_loop_keeps_colors]
      exact e3
    · rw [← e4]
      rfl
  refine Outcome.andThen_keeps _ _ _ _ ?_ fun s2 e2 => ?_
  · unfold CSkeleton.draw CSkeleton.draw_color
    rw [← e1]
    split <;> rfl
  · unfold CSkeleton.show_ CSkeleton.show_skeleton
    refine Outcome.andThen_keeps _ _ _ _ ?_ fun sa ea => ?_
    · rw [CSkeleton.skeleton_show_bodies_keeps_colors]
      exact e2
    · rw [← ea]
      rfl

theorem CIndexMap.index_map_run_loop_keeps_colors (ticks : List CIndexMap.Tick) :
    ∀ s : CIndexMap.State,
      (∀ t ∈ ticks, t.get_capture ≠ K4A_WAIT_RESULT_TIMEOUT
        ∧ t.enqueue_capture ≠ K4A_WAIT_RESULT_TIMEOUT ∧ t.pop_result ≠ K4A_WAIT_RESULT_TIMEOUT) →
      (CIndexMap.run_loop ticks s).state.colors = s.colors := by
  induction ticks with
  | nil => intro s _; rfl
  | cons t rest ih =>
    intro s h
    obtain ⟨h1, h2, h3⟩ := h t (List.mem_cons_self _ _)
    have ht := CIndexMap.index_map_tick_keeps_colors t s h1 h2 h3
    unfold CIndexMap.run_loop
    cases ho : CIndexMap.tick t s with
    | ok s1 =>
      rw [ho] at ht
      simp only
      split
      · exact ht
      · rw [ih _ fun t ht => h t (List.mem_cons_of_mem _ ht)]
        exact ht
    | thrown what s1 => rw [ho] at ht; exact ht
    | exited status s1 => rw [ho] at ht; exact ht
    | running s1 => rw [ho] at ht; exact ht
    | terminated s1 => rw [ho] at ht; exact ht

theorem CSkeleton.skeleton_run_loop_keeps_colors (ticks : List CSkeleton.Tick) :
    ∀ s : CSkeleton.State,
      (∀ t ∈ ticks, t.get_capture ≠ K4A_WAIT_RESULT_TIMEOUT
        ∧ t.enqueue_capture ≠ K4A_WAIT_RESULT_TIMEOUT ∧ t.pop_result ≠ K4A_WAIT_RESULT_TIMEOUT) →
      (CSkeleton.run_loop ticks s).state.colors = s.colors := by
  induction ticks with
  | nil => intro s _; rfl
  | cons t rest ih =>
    intro s h
    obtain ⟨h1, h2, h3⟩ := h t (List.mem_cons_self _ _)
    have ht := CSkeleton.skeleton_tick_keeps_colors t s h1 h2 h3
    unfold CSkeleton.run_loop
    cases ho : CSkeleton.tick t s with
    | ok s1 =>
      rw [ho] at ht
      simp only
      split
      · exact ht
      · rw [ih _ fun t ht => h t (List.mem_cons_of_mem _ ht)]
        exact ht
    | thrown what s1 => rw [ho] at ht; exact ht
    | exited status s1 => rw [ho] at ht; exact ht
    | running s1 => rw [ho] at ht; exact ht
    | terminated s1 => rw [ho] at ht; exact ht

/-- C25: once the constructor of the index-map sample, respectively of the
skeleton sample, has returned, the colour table has 12 entries; for every
8-bit label the index `label % colors.size()` is inside the table and the
colourised element has a value; for every 32-bit body identifier the index
`( id - 1 ) % colors.size()`, the subtraction done in `uint32_t`, is inside the
table and the marker colour has a value; for the identifier 0 the subtraction
wraps to 2^32 - 1 and the index is 3; and the table is the same after every run
of the main loop in which no call reports a timeout. -/
theorem C25_palette_index_in_bounds (index : Nat) (w : World)
    (env1 : CIndexMap.Env) (s1 : CIndexMap.State) (env2 : CSkeleton.Env) (s2 : CSkeleton.State)
    (h1 : CIndexMap.constructor index env1 w = .ok s1)
    (h2 : CSkeleton.constructor index env2 w = .ok s2) :
    s1.colors.length = 12 ∧ s2.colors.length = 12
      ∧ (∀ label, label < 256 →
          label % s1.colors.length < s1.colors.length
            ∧ ∃ pixel, colorize_pixel s1.colors label = some pixel)
      ∧ (∀ id, id < 2 ^ 32 →
          ((id + 2 ^ 32 - 1) % 2 ^ 32) % s2.colors.length < s2.colors.length
            ∧ ∃ color, CSkeleton.marker_color s2.colors id = some color)
      ∧ ((0 + 2 ^ 32 - 1) % 2 ^ 32 = 2 ^ 32 - 1
          ∧ (2 ^ 32 - 1) % s2.colors.length = 3
          ∧ CSkeleton.marker_color s2.colors 0 = s2.colors[3]?)
      ∧ (∀ ticks : List CIndexMap.Tick,
          (∀ t ∈ ticks, t.get_capture ≠ K4A_WAIT_RESULT_TIMEOUT
            ∧ t.enqueue_capture ≠ K4A_WAIT_RESULT_TIMEOUT
            ∧ t.pop_result ≠ K4A_WAIT_RESULT_TIMEOUT) →
          (CIndexMap.run ticks s1).state.colors = s1.colors)
      ∧ (∀ ticks : List CSkeleton.Tick,
          (∀ t ∈ ticks, t.get_capture ≠ K4A_WAIT_RESULT_TIMEOUT
            ∧ t.enqueue_capture ≠ K4A_WAIT_RESULT_TIMEOUT
            ∧ t.pop_result ≠ K4A_WAIT_RESULT_TIMEOUT) →
          (CSkeleton.run ticks s2).state.colors = s2.colors) := by
  have hc1 := index_map_constructor_colors index env1 w s1 h1
  have hc2 := skeleton_constructor_colors index env2 w s2 h2
  have hl1 : s1.colors.length = 12 := by rw [hc1]; rfl
  have hl2 : s2.colors.length = 12 := by rw [hc2]; rfl
  refine ⟨hl1, hl2, ?_, ?_, ⟨by norm_num, by rw [hl2]; norm_num, ?_⟩, ?_, ?_⟩
  · intro label _
    have hlt : label % s1.colors.length < s1.colors.length :=
      Nat.mod_lt _ (by rw [hl1]; decide)
    refine ⟨hlt, ?_⟩
    unfold colorize_pixel
    simp only
    split
    · rw [if_neg (by rw [hl1]; decide)]
      exact ⟨_, List.getElem?_eq_getElem hlt⟩
    · exact ⟨_, rfl⟩
  · intro id _
    have hlt : ((id + 2 ^ 32 - 1) % 2 ^ 32) % s2.colors.length < s2.colors.length :=
      Nat.mod_lt _ (by rw [hl2]; decide)
    refine ⟨hlt, ?_⟩
    unfold CSkeleton.marker_color
    rw [if_neg (by rw [hl2]; decide)]
    exact ⟨_, List.getElem?_eq_getElem hlt⟩
  · unfold CSkeleton.marker_color
    rw [if_neg (by rw [hl2]; decide), hl2]
    norm_num
  · intro ticks h
    unfold CIndexMap.run
    exact CIndexMap.index_map_run_loop_keeps_colors ticks _ h
  · intro ticks h
    unfold CSkeleton.run
    exact CSkeleton.skeleton_run_loop_keeps_colors ticks _ h

/-- C25, after a start-up in which everything succeeds: the body identifier 0
gets the fourth colour of the table. -/
theorem C25_palette_index_witness :
    CSkeleton.marker_color
        (CSkeleton.constructor 0 CSkeleton.env_ok World.start).state.colors 0
      = some (255, 255, 0) :=
  (C25_palette_index_in_bounds 0 World.start CIndexMap.env_ok
    (CIndexMap.constructor 0 CIndexMap.env_ok World.start).state CSkeleton.env_ok
    (CSkeleton.constructor 0 CSkeleton.env_ok World.start).state
    (by decide) (by decide)).2.2.2.2.1.2.2.trans (by decide)

theorem cvRound_mono (x y : ℚ) (h : x ≤ y) : cvRound x ≤ cvRound y := by
  have hx1 := Int.floor_le x
  have hx2 := Int.lt_floor_add_one x
  have hy1 := Int.floor_le y
  have hy2 := Int.lt_floor_add_one y
  have hf : ⌊x⌋ ≤ ⌊y⌋ := Int.floor_mono h
  rcases hf.lt_or_eq with hlt | heq
  · have hx : cvRound x ≤ ⌊x⌋ + 1 := by
      unfold cvRound
      split_ifs <;> omega
    have hy : ⌊y⌋ ≤ cvRound y := by
      unfold cvRound
      split_ifs <;> omega
    omega
  · unfold cvRound
    rw [heq] at hx1 hx2 ⊢
    split_ifs with a1 a2 a3 b1 b2 b3 b1 b2 b3 b1 b2 b3 <;>
      first
        | omega
        | (exfalso; linarith)

theorem saturate_cast_uchar_mono (u v : Int) (h : u ≤ v) :
    saturate_cast_uchar u ≤ saturate_cast_uchar v := by
  unfold saturate_cast_uchar
  split_ifs <;> omega

/-- C26: whatever the floating-point deviation of each working value is, as
long as it stays within 1/200, the value shown by `show_depth` for a depth
sample never increases when the sample increases, it is 255 exactly for the
samples up to 9, and it is 0 exactly for the samples from 4991 on. -/
theorem C26_depth_map_monotone (err : Nat → ℚ) (herr : ∀ d, |err d| ≤ 1 / 200) :
    (∀ d1 d2, d1 ≤ d2 → d2 ≤ 65535 →
        show_depth_pixel (err d2) d2 ≤ show_depth_pixel (err d1) d1)
      ∧ (∀ d, d ≤ 65535 → (show_depth_pixel (err d) d = 255 ↔ d ≤ 9))
      ∧ ∀ d, d ≤ 65535 → (show_depth_pixel (err d) d = 0 ↔ 4991 ≤ d) := by
  refine ⟨?_, ?_, ?_⟩
  · intro d1 d2 hd _
    rcases hd.lt_or_eq with hlt | rfl
    · have h1 := abs_le.mp (herr d1)
      have h2 := abs_le.mp (herr d2)
      have hc : (d1 : ℚ) + 1 ≤ d2 := by exact_mod_cast hlt
      unfold show_depth_pixel convertTo_8U
      apply saturate_cast_uchar_mono
      apply cvRound_mono
      linarith
    · exact le_refl _
  · intro d _
    have h1 := abs_le.mp (herr d)
    have hl := le_cvRound ((d : ℚ) * (-255 / 5000) + 255 + err d)
    have hu := cvRound_le ((d : ℚ) * (-255 / 5000) + 255 + err d)
    unfold show_depth_pixel convertTo_8U
    constructor
    · intro h
      by_contra hn
      have hd : (10 : ℚ) ≤ d := by exact_mod_cast (by omega : 10 ≤ d)
      have hq : (cvRound ((d : ℚ) * (-255 / 5000) + 255 + err d) : ℚ) < 255 := by linarith
      have hz : cvRound ((d : ℚ) * (-255 / 5000) + 255 + err d) < 255 := by exact_mod_cast hq
      unfold saturate_cast_uchar at h
      split_ifs at h <;> omega
    · intro h
      have hd : (d : ℚ) ≤ 9 := by exact_mod_cast h
      have hq : (254 : ℚ) < cvRound ((d : ℚ) * (-255 / 5000) + 255 + err d) := by linarith
      have hz : 254 < cvRound ((d : ℚ) * (-255 / 5000) + 255 + err d) := by exact_mod_cast hq
      exact saturate_cast_uchar_of_ge _ (by omega)
  · intro d _
    have h1 := abs_le.mp (herr d)
    have hl := le_cvRound ((d : ℚ) * (-255 / 5000) + 255 + err d)
    have hu := cvRound_le ((d : ℚ) * (-255 / 5000) + 255 + err d)
    unfold show_depth_pixel convertTo_8U
    constructor
    · intro h
      by_contra hn
      have hd : (d : ℚ) ≤ 4990 := by exact_mod_cast (by omega : d ≤ 4990)
      have hq : (0 : ℚ) < cvRound ((d : ℚ) * (-255 / 5000) + 255 + err d) := by linarith
      have hz : 0 < cvRound ((d : ℚ) * (-255 / 5000) + 255 + err d) := by exact_mod_cast hq
      unfold saturate_cast_uchar at h
      split_ifs at h <;> omega
    · intro h
      have hd : (4991 : ℚ) ≤ d := by exact_mod_cast h
      have hq : (cvRound ((d : ℚ) * (-255 / 5000) + 255 + err d) : ℚ) < 1 := by linarith
      have hz : cvRound ((d : ℚ) * (-255 / 5000) + 255 + err d) < 1 := by exact_mod_cast hq
      exact saturate_cast_uchar_of_le_zero _ (by omega)

/-- C26, for the exact working values: the samples 9 and 10 and the samples
4990 and 4991. -/
theorem C26_depth_map_witness :
    show_depth_pixel 0 9 = 255 ∧ show_depth_pixel 0 10 ≠ 255
      ∧ show_depth_pixel 0 4990 ≠ 0 ∧ show_depth_pixel 0 4991 = 0
      ∧ show_depth_pixel 0 4991 ≤ show_depth_pixel 0 9 :=
  have h := C26_depth_map_monotone (fun _ => 0) (fun _ => by norm_num)
  ⟨(h.2.1 9 (by decide)).mpr (by decide),
   fun e => absurd ((h.2.1 10 (by decide)).mp e) (by decide),
   fun e => absurd ((h.2.2 4990 (by decide)).mp e) (by decide),
   (h.2.2 4991 (by decide)).mpr (by decide),
   h.1 9 4991 (by decide) (by decide)⟩

/-- C27: once the constructor of the index-map sample has returned, an element
of the colourised body index map is black exactly when its label is the
background value 255, and no entry of the colour table is black; the same
function colours the element in `show_body_index_map` and, before the blend,
in `show_transformation`. -/
theorem C27_black_iff_background (index : Nat) (env : CIndexMap.Env) (w : World)
    (s : CIndexMap.State) (h : CIndexMap.constructor index env w = .ok s) :
    (∀ label, label < 256 → (colorize_pixel s.colors label = some (0, 0, 0) ↔ label = 255))
      ∧ (0, 0, 0) ∉ s.colors
      ∧ ∀ (body_index_map : List (List Nat)), ∀ row ∈ colorize s.colors body_index_map,
          ∀ pixel ∈ row, pixel = some (0, 0, 0) ∨ ∃ color ∈ s.colors, pixel = some color := by
  have hc := index_map_constructor_colors index env w s h
  have hblack : (0, 0, 0) ∉ CIndexMap.color_table := by decide
  have hlen : CIndexMap.color_table.length = 12 := rfl
  rw [hc]
  refine ⟨?_, hblack, ?_⟩
  · intro label _
    constructor
    · intro hp
      by_contra hne
      have e : colorize_pixel CIndexMap.color_table label
          = CIndexMap.color_table[label % 12]? := by
        simp [colorize_pixel, K4ABT_BODY_INDEX_MAP_BACKGROUND, hne, CIndexMap.color_table]
      rw [e] at hp
      exact hblack (List.getElem?_mem hp)
    · intro hl
      subst hl
      rfl
  · intro body_index_map row hrow pixel hpixel
    unfold colorize at hrow
    obtain ⟨labels, _, rfl⟩ := List.mem_map.mp hrow
    obtain ⟨label, _, rfl⟩ := List.mem_map.mp hpixel
    by_cases hl : label = 255
    · left
      subst hl
      rfl
    · right
      have e : colorize_pixel CIndexMap.color_table label
          = CIndexMap.color_table[label % 12]? := by
        simp [colorize_pixel, K4ABT_BODY_INDEX_MAP_BACKGROUND, hl, CIndexMap.color_table]
      have hlt : label % 12 < CIndexMap.color_table.length := by
        rw [hlen]
        exact Nat.mod_lt _ (by decide)
      refine ⟨CIndexMap.color_table[label % 12], List.getElem_mem _, ?_⟩
      rw [e]
      exact List.getElem?_eq_getElem hlt

/-- C27, after a start-up in which everything succeeds: the label 255 is shown
black and the label 12, which shares its colour with the label 0, is not. -/
theorem C27_black_iff_background_witness :
    colorize_pixel (CIndexMap.constructor 0 CIndexMap.env_ok World.start).state.colors 255
        = some (0, 0, 0)
      ∧ colorize_pixel (CIndexMap.constructor 0 CIndexMap.env_ok World.start).state.colors 12
        ≠ some (0, 0, 0) :=
  ⟨((C27_black_iff_background 0 CIndexMap.env_ok World.start
      (CIndexMap.constructor 0 CIndexMap.env_ok World.start).state (by decide)).1 255
        (by decide)).mpr rfl,
   fun hp => absurd
    (((C27_black_iff_background 0 CIndexMap.env_ok World.start
      (CIndexMap.constructor 0 CIndexMap.env_ok World.start).state (by decide)).1 12
        (by decide)).mp hp) (by decide)⟩

theorem cvRound_eq (x : ℚ) (n : ℤ) (h1 : (n : ℚ) - 1 / 2 < x) (h2 : x < (n : ℚ) + 1 / 2) :
    cvRound x = n := by
  have ha := cvRound_le x
  have hb := le_cvRound x
  have hlt : (cvRound x : ℚ) < ((n + 1 : ℤ) : ℚ) := by push_cast; linarith
  have hgt : ((n - 1 : ℤ) : ℚ) < (cvRound x : ℚ) := by push_cast; linarith
  have hlt2 : cvRound x < n + 1 := by exact_mod_cast hlt
  have hgt2 : n - 1 < cvRound x := by exact_mod_cast hgt
  omega

/-- C28 does not hold of the playback sample: `show_depth` converts whatever
non-empty picture `depth` holds, and `draw_depth` leaves `depth` as it is when
the capture has no depth image.  In a playback of two ticks, the second without
a depth image, the depth window is shown the picture of the first tick
converted a second time; a depth sample of 1000 is shown as 204 in the first
tick and as 245 in the second, and every element of the second picture is at
least 242 whatever the first picture was. -/
theorem C28_stale_depth_converted_again :
    shown_in "depth (kinect 0)"
        (CppPlayback.main 0 CppPlayback.env_file
          [CppPlayback.tick_ok 0, CppPlayback.tick_no_depth 113]).trace
      = [some { source := 3, conversions := 1 }, some { source := 3, conversions := 2 }]
      ∧ (∀ s : CppPlayback.State, s.depth_image = none → CppPlayback.draw_depth s = .ok s)
      ∧ (∀ (s : CppPlayback.State) (m : Mat), s.depth = some m →
          ∃ s', CppPlayback.show_depth s = .ok s'
            ∧ s'.w.trace = s.w.trace ++ [Event.imshow
                ("depth (kinect " ++ format_d s.device_index ++ ")")
                (some { source := m.source, conversions := m.conversions + 1 })])
      ∧ show_depth_pixel 0 1000 = 204
      ∧ show_depth_pixel 0 (show_depth_pixel 0 1000) = 245
      ∧ ∀ (err : ℚ) (v : Nat), |err| ≤ 1 / 4 → v ≤ 255 → 242 ≤ show_depth_pixel err v := by
  have h204 : show_depth_pixel 0 1000 = 204 := by
    have hx : ((1000 : ℕ) : ℚ) * (-255 / 5000) + 255 + 0 = ((204 : ℤ) : ℚ) := by norm_num
    simp only [show_depth_pixel, convertTo_8U, hx, cvRound_intCast]
    decide
  have h245 : show_depth_pixel 0 204 = 245 := by
    have hx : cvRound (((204 : ℕ) : ℚ) * (-255 / 5000) + 255 + 0) = 245 :=
      cvRound_eq _ 245 (by norm_num) (by norm_num)
    simp only [show_depth_pixel, convertTo_8U, hx]
    decide
  refine ⟨by decide, ?_, ?_, h204, by rw [h204]; exact h245, ?_⟩
  · intro s h
    unfold CppPlayback.draw_depth
    rw [h]
  · intro s m h
    unfold CppPlayback.show_depth
    rw [h]
    exact ⟨_, rfl, rfl⟩
  · intro err v herr hv
    have hv2 : (v : ℚ) ≤ 255 := by exact_mod_cast hv
    have hv0 : (0 : ℚ) ≤ (v : ℚ) := Nat.cast_nonneg v
    obtain ⟨he1, he2⟩ := abs_le.mp herr
    have hlo := le_cvRound ((v : ℚ) * (-255 / 5000) + 255 + err)
    have hhi := cvRound_le ((v : ℚ) * (-255 / 5000) + 255 + err)
    have h1 : ((241 : ℤ) : ℚ) < (cvRound ((v : ℚ) * (-255 / 5000) + 255 + err) : ℚ) := by
      push_cast
      linarith
    have h1z : (241 : ℤ) < cvRound ((v : ℚ) * (-255 / 5000) + 255 + err) := by
      exact_mod_cast h1
    unfold show_depth_pixel convertTo_8U saturate_cast_uchar
    split_ifs <;> omega

/-- C29 does not hold of the C record sample: `finalize()` begins with
`K4A_RESULT_CHECK( k4a_record_flush( record ) )`, and when the flush fails the
macro throws after calling the flush a second time; nothing of what follows in
`finalize()` is executed.  Whatever the state, a failed flush leaves
`finalize()` by the exception with no recording closed, no camera stopped and
no device closed; only a flush that succeeds is followed by the three calls.
In the program with one tick, the key 'q' and a failing flush the destructor
run by `main` ends in `std::terminate`, with the recording and the device left
open. -/
theorem C29_failed_flush_skips_the_close_calls :
    (∀ (again : k4a_result_t) (s : CRecord.State),
        ∃ what s', CRecord.finalize { first := K4A_RESULT_FAILED, again := again } s
            = .thrown what s'
          ∧ s'.w.trace = s.w.trace ++ [Event.finalize,
              Event.record_flush s.record K4A_RESULT_FAILED, Event.record_flush s.record again])
      ∧ (∀ (again : k4a_result_t) (s : CRecord.State),
        ∃ s', CRecord.finalize { first := K4A_RESULT_SUCCEEDED, again := again } s = .ok s'
          ∧ s'.w.trace = s.w.trace ++ [Event.finalize,
              Event.record_flush s.record K4A_RESULT_SUCCEEDED, Event.record_close s.record,
              Event.device_stop_cameras s.device, Event.device_close s.device,
              Event.destroyAllWindows])
      ∧ (CRecord.main CRecord.env_no_flush [CRecord.tick_ok 113]).status = none
      ∧ (CRecord.main CRecord.env_no_flush [CRecord.tick_ok 113]).trace.drop 19
          = [Event.finalize, Event.record_flush (some 1) K4A_RESULT_FAILED,
             Event.record_flush (some 1) K4A_RESULT_FAILED, Event.terminate]
      ∧ open_records (CRecord.main CRecord.env_no_flush [CRecord.tick_ok 113]).trace = [1]
      ∧ open_devices (CRecord.main CRecord.env_no_flush [CRecord.tick_ok 113]).trace = [0]
      ∧ (CRecord.main CRecord.env_no_flush [CRecord.tick_ok 113]).trace.count
          (Event.device_stop_cameras (some 0)) = 0
      ∧ open_records (CRecord.main CRecord.env_ok [CRecord.tick_ok 113]).trace = []
      ∧ open_devices (CRecord.main CRecord.env_ok [CRecord.tick_ok 113]).trace = [] := by
  refine ⟨?_, ?_, by decide, by decide, by decide, by decide, by decide, by decide, by decide⟩
  · intro again s
    refine ⟨_, _, rfl, ?_⟩
    simp [CRecord.k4a_record_flush, World.emit]
  · intro again s
    refine ⟨_, rfl, ?_⟩
    simp [CRecord.k4a_record_flush, World.emit]

theorem CIndexMap.index_map_constructor_closes_nothing (index : Nat) (env : CIndexMap.Env)
    (w : World) :
    (CIndexMap.constructor index env w).state.w.extends_by (fun e => !e.is_device_close) w := by
  unfold CIndexMap.constructor CIndexMap.initialize_kinect
  refine Outcome.andThen_extends_by CIndexMap.State.w _ _ _ _ ?_ ?_
  · unfold CIndexMap.initialize_sensor
    simp only
    split
    · simp [World.extends_by, World.emit, Outcome.state, Event.is_device_close]
    · refine World.extends_by_trans _ _ (w.emit (.device_get_installed_count env.installed_count))
        _ ?_ ?_
      · simp [World.extends_by, World.emit, Event.is_device_close]
      refine Outcome.andThen_extends_by CIndexMap.State.w _ _ _ _ ?_ ?_
      · refine K4A_RESULT_CHECK_extends_by CIndexMap.State.w _ _ _ _ _ ?_
        intro r s
        unfold CIndexMap.k4a_device_open
        cases r <;> simp [World.extends_by, World.emit, World.fresh, Event.is_device_close]
      intro s1
      refine Outcome.andThen_extends_by CIndexMap.State.w _ _ _ _ ?_ ?_
      · refine K4A_RESULT_CHECK_extends_by CIndexMap.State.w _ _ _ _ _ ?_
        intro r s
        simp [CIndexMap.k4a_device_start_cameras, World.extends_by, World.emit,
          Event.is_device_close]
      intro s2
      refine Outcome.andThen_extends_by CIndexMap.State.w _ _ _ _ ?_ ?_
      · refine K4A_RESULT_CHECK_extends_by CIndexMap.State.w _ _ _ _ _ ?_
        intro r s
        simp [CIndexMap.k4a_device_get_calibration, World.extends_by, World.emit,
          Event.is_device_close]
      intro s3
      simp [World.extends_by, World.emit, Outcome.state, Event.is_device_close]
  · intro s
    unfold CIndexMap.initialize_body_tracking
    refine Outcome.andThen_extends_by CIndexMap.State.w _ _ _ _ ?_ ?_
    · refine K4A_RESULT_CHECK_extends_by CIndexMap.State.w _ _ _ _ _ ?_
      intro r s
      unfold CIndexMap.k4abt_tracker_create
      cases r <;> simp [World.extends_by, World.emit, World.fresh, Event.is_device_close]
    · intro s1
      simp [World.extends_by, World.emit, Outcome.state, Event.is_device_close]

/-- C30 does not hold of the C samples: the constructor calls `initialize()`
in its body, and an exception that leaves a constructor is not followed by the
destructor, the only caller of `finalize()`.  Whatever the replies, the
constructor of the index-map sample makes no call of `k4a_device_close`; when
the start of the cameras, the reading of the calibration or the creation of the
tracker fails, the exception reaches `main` with the device 0 open, and the
program ends with it open whatever the ticks would have been.  The C++ depth
sample, whose device is a member with a destructor of its own, closes the
device on the same failure, and a run of the index-map sample that is
constructed and quit closes it too. -/
theorem C30_failed_construction_leaves_device_open :
    (∀ (index : Nat) (env : CIndexMap.Env) (w : World),
        (CIndexMap.constructor index env w).state.w.extends_by
          (fun e => !e.is_device_close) w)
      ∧ (∀ env ∈ [CIndexMap.env_no_cameras, CIndexMap.env_no_calibration,
            CIndexMap.env_no_tracker],
          ∃ what s, CIndexMap.constructor 0 env World.start = .thrown what s
            ∧ s.device = some 0 ∧ open_devices s.w.trace = [0])
      ∧ (∀ ticks : List CIndexMap.Tick,
          open_devices (CIndexMap.main CIndexMap.env_no_cameras ticks).trace = [0]
            ∧ open_devices (CIndexMap.main CIndexMap.env_no_calibration ticks).trace = [0]
            ∧ open_devices (CIndexMap.main CIndexMap.env_no_tracker ticks).trace = [0]
            ∧ (CIndexMap.main CIndexMap.env_no_tracker ticks).trace
              = [Event.device_get_installed_count 1,
                 Event.device_open 0 K4A_RESULT_SUCCEEDED (some 0),
                 Event.device_start_cameras (some 0) K4A_RESULT_SUCCEEDED,
                 Event.device_get_calibration (some 0) K4A_RESULT_SUCCEEDED,
                 Event.transformation_create,
                 Event.tracker_create K4A_RESULT_FAILED none,
                 Event.tracker_create K4A_RESULT_FAILED none,
                 Event.cout ("Failed to k4abt_tracker_create( &calibration, "
                   ++ "tracker_configuration, &tracker ) 1!\n\n")])
      ∧ open_devices (CppDepth.main CppDepth.env_no_cameras []).trace = []
      ∧ open_devices (CIndexMap.main CIndexMap.env_ok [CIndexMap.tick_ok 113]).trace = [] := by
  refine ⟨CIndexMap.index_map_constructor_closes_nothing, ?_, ?_, by decide, by decide⟩
  · intro env henv
    simp only [List.mem_cons, List.mem_singleton, List.not_mem_nil, or_false] at henv
    rcases henv with rfl | rfl | rfl
    · exact ⟨_, _, rfl, rfl, rfl⟩
    · exact ⟨_, _, rfl, rfl, rfl⟩
    · exact ⟨_, _, rfl, rfl, rfl⟩
  · intro ticks
    have e1 : CIndexMap.main CIndexMap.env_no_cameras ticks
        = CIndexMap.main CIndexMap.env_no_cameras [] := rfl
    have e2 : CIndexMap.main CIndexMap.env_no_calibration ticks
        = CIndexMap.main CIndexMap.env_no_calibration [] := rfl
    have e3 : CIndexMap.main CIndexMap.env_no_tracker ticks
        = CIndexMap.main CIndexMap.env_no_tracker [] := rfl
    rw [e1, e2, e3]
    exact ⟨by decide, by decide, by decide, by decide⟩

/-- C16: in the C and in the C++ skeleton sample, for every body whose
identifier is at least 1 every marker drawn for the body, whatever its joints
and whether or not the loop is ended by a failed projection, has the colour
`colors[( id - 1 ) % colors.size()]`; and when the projection calls of the body
succeed the loop returns and the markers it draws are, in the order of the
joints, one circle of radius 5 in that colour at the pixel of each joint whose
projection is valid. -/
theorem C16_marker_color (id : Nat) (joints : List CSkeleton.k4abt_joint_t)
    (s : CSkeleton.State) (s' : CppSkeleton.State) (hid : 1 ≤ id) (hid32 : id < 2 ^ 32)
    (h : s.colors ≠ []) (h' : s'.colors ≠ []) :
    (∃ evs, (CSkeleton.show_joints id joints s).state.w.trace = s.w.trace ++ evs
        ∧ ∀ image x y radius color thickness,
            Event.circle image x y radius color thickness ∈ evs →
            color = s.colors.get ⟨(id - 1) % s.colors.length,
              Nat.mod_lt _ (List.length_pos.mpr h)⟩)
      ∧ (∃ evs, (CppSkeleton.show_joints id joints s').state.w.trace = s'.w.trace ++ evs
        ∧ ∀ image x y radius color thickness,
            Event.circle image x y radius color thickness ∈ evs →
            color = s'.colors.get ⟨(id - 1) % s'.colors.length,
              Nat.mod_lt _ (List.length_pos.mpr h')⟩)
      ∧ ((∀ joint ∈ joints, joint.projection.first = K4A_RESULT_SUCCEEDED) →
        (∃ s1 evs, CSkeleton.show_joints id joints s = .ok s1
          ∧ s1.w.trace = s.w.trace ++ evs
          ∧ evs.filter Event.is_circle
            = (joints.filter fun joint => joint.valid).map fun joint =>
                Event.circle s.color joint.x joint.y 5
                  (s.colors.get ⟨(id - 1) % s.colors.length,
                    Nat.mod_lt _ (List.length_pos.mpr h)⟩)
                  (CSkeleton.marker_thickness joint))
        ∧ ∃ s1 evs, CppSkeleton.show_joints id joints s' = .ok s1
          ∧ s1.w.trace = s'.w.trace ++ evs
          ∧ evs.filter Event.is_circle
            = (joints.filter fun joint => joint.valid).map fun joint =>
                Event.circle s'.color joint.x joint.y 5
                  (s'.colors.get ⟨(id - 1) % s'.colors.length,
                    Nat.mod_lt _ (List.length_pos.mpr h')⟩)
                  (CSkeleton.marker_thickness joint)) := by
  refine ⟨?_, ?_, ?_⟩
  · obtain ⟨_, _, evs, ht, hevs⟩ := skeleton_show_joints_markers id joints s
    refine ⟨evs, ht, ?_⟩
    intro image x y radius color thickness he
    obtain ⟨j, _, _, hj⟩ := hevs _ he rfl
    rw [marker_color_of_pos s.colors id hid hid32 h] at hj
    simp only [Event.circle.injEq, Option.getD_some] at hj
    exact hj.2.2.2.2.1
  · obtain ⟨_, _, evs, ht, hevs⟩ := cpp_skeleton_show_joints_markers id joints s'
    refine ⟨evs, ht, ?_⟩
    intro image x y radius color thickness he
    obtain ⟨j, _, _, hj⟩ := hevs _ he rfl
    rw [marker_color_of_pos s'.colors id hid hid32 h'] at hj
    simp only [Event.circle.injEq, Option.getD_some] at hj
    exact hj.2.2.2.2.1
  · intro hj
    constructor
    · obtain ⟨s1, evs, hs1, ht, hm, _⟩ := skeleton_show_joints_draws
        { id := id, joints := joints } s.color s.colors joints hj s rfl rfl
      refine ⟨s1, evs, hs1, ht, ?_⟩
      rw [hm]
      simp only [markers_of_body, marker_color_of_pos s.colors id hid hid32 h,
        Option.getD_some]
    · obtain ⟨s1, evs, hs1, ht, hm, _⟩ := cpp_skeleton_show_joints_draws
        { id := id, joints := joints } s'.color s'.colors joints hj s' rfl rfl
      refine ⟨s1, evs, hs1, ht, ?_⟩
      rw [hm]
      simp only [markers_of_body, marker_color_of_pos s'.colors id hid hid32 h',
        Option.getD_some]

/-- C16, for the body 1 with one joint in the first tick of a run in which
everything succeeds: one marker is drawn into the picture of the tick, at the
pixel of the joint, in the first colour of the table. -/
theorem C16_marker_color_witness :
    ∃ s1 evs, CSkeleton.show_joints 1 [CSkeleton.joint_ok] CSkeleton.state_drawn = .ok s1
      ∧ s1.w.trace = CSkeleton.state_drawn.w.trace ++ evs
      ∧ evs.filter Event.is_circle
        = [Event.circle (some { source := 5, conversions := 0 }) 10 20 5 (255, 0, 0) (-1)] := by
  obtain ⟨s1, evs, hs1, ht, hm⟩ := ((C16_marker_color 1 [CSkeleton.joint_ok]
    CSkeleton.state_drawn CppSkeleton.state_ok (by decide) (by decide) (by decide)
    (by decide)).2.2 (by decide)).1
  exact ⟨s1, evs, hs1, ht, hm.trans (by decide)⟩

/-- C20: a joint gets the thickness -1 (filled) exactly when its confidence
level is medium (2) or high (3) and the thickness 1 (outline) exactly when it
is none (0) or low (1); in the C and in the C++ skeleton sample every marker
drawn for a body is drawn at the pixel of a joint of the body whose projection
is valid, with the thickness so chosen for that joint; and when the projection
calls of the body succeed a marker is drawn for each joint whose projection is
valid, filled when the confidence level of the joint is at least medium and as
an outline otherwise. -/
theorem C20_marker_thickness (id : Nat) (joints : List CSkeleton.k4abt_joint_t)
    (s : CSkeleton.State) (s' : CppSkeleton.State) :
    (∀ j : CSkeleton.k4abt_joint_t, j.confidence_level ≤ 3 →
        (CSkeleton.marker_thickness j = -1 ↔ j.confidence_level = 2 ∨ j.confidence_level = 3)
        ∧ (CSkeleton.marker_thickness j = 1 ↔ j.confidence_level = 0 ∨ j.confidence_level = 1))
      ∧ (∃ evs, (CSkeleton.show_joints id joints s).state.w.trace = s.w.trace ++ evs
        ∧ ∀ image x y radius color thickness,
            Event.circle image x y radius color thickness ∈ evs →
            ∃ j ∈ joints, j.valid = true ∧ x = j.x ∧ y = j.y
              ∧ thickness = CSkeleton.marker_thickness j)
      ∧ (∃ evs, (CppSkeleton.show_joints id joints s').state.w.trace = s'.w.trace ++ evs
        ∧ ∀ image x y radius color thickness,
            Event.circle image x y radius color thickness ∈ evs →
            ∃ j ∈ joints, j.valid = true ∧ x = j.x ∧ y = j.y
              ∧ thickness = CSkeleton.marker_thickness j)
      ∧ ((∀ joint ∈ joints, joint.projection.first = K4A_RESULT_SUCCEEDED) →
        (∃ s1 evs, CSkeleton.show_joints id joints s = .ok s1
          ∧ s1.w.trace = s.w.trace ++ evs
          ∧ (∃ color, evs.filter Event.is_circle
              = (joints.filter fun joint => joint.valid).map fun joint =>
                  Event.circle s.color joint.x joint.y 5 color
                    (if joint.confidence_level ≥ 2 then -1 else 1))
          ∧ ∀ joint ∈ joints, joint.valid = true →
              ∃ color, Event.circle s.color joint.x joint.y 5 color
                (if joint.confidence_level ≥ 2 then -1 else 1) ∈ s1.w.trace)
        ∧ ∃ s1 evs, CppSkeleton.show_joints id joints s' = .ok s1
          ∧ s1.w.trace = s'.w.trace ++ evs
          ∧ (∃ color, evs.filter Event.is_circle
              = (joints.filter fun joint => joint.valid).map fun joint =>
                  Event.circle s'.color joint.x joint.y 5 color
                    (if joint.confidence_level ≥ 2 then -1 else 1))
          ∧ ∀ joint ∈ joints, joint.valid = true →
              ∃ color, Event.circle s'.color joint.x joint.y 5 color
                (if joint.confidence_level ≥ 2 then -1 else 1) ∈ s1.w.trace) := by
  refine ⟨?_, ?_, ?_, ?_⟩
  · intro j hj
    unfold CSkeleton.marker_thickness
    constructor
    · split_ifs with h
      · simp only [true_iff]; omega
      · simp only [show ¬((1 : Int) = -1) by decide, false_iff]; omega
    · split_ifs with h
      · simp only [show ¬((-1 : Int) = 1) by decide, false_iff]; omega
      · simp only [true_iff]; omega
  · obtain ⟨_, _, evs, ht, hevs⟩ := skeleton_show_joints_markers id joints s
    refine ⟨evs, ht, ?_⟩
    intro image x y radius color thickness he
    obtain ⟨j, hj, hv, heq⟩ := hevs _ he rfl
    simp only [Event.circle.injEq] at heq
    exact ⟨j, hj, hv, heq.2.1, heq.2.2.1, heq.2.2.2.2.2⟩
  · obtain ⟨_, _, evs, ht, hevs⟩ := cpp_skeleton_show_joints_markers id joints s'
    refine ⟨evs, ht, ?_⟩
    intro image x y radius color thickness he
    obtain ⟨j, hj, hv, heq⟩ := hevs _ he rfl
    simp only [Event.circle.injEq] at heq
    exact ⟨j, hj, hv, heq.2.1, heq.2.2.1, heq.2.2.2.2.2⟩
  · intro hj
    constructor
    · obtain ⟨s1, evs, hs1, ht, hm, _⟩ := skeleton_show_joints_draws
        { id := id, joints := joints } s.color s.colors joints hj s rfl rfl
      have hm2 : evs.filter Event.is_circle
          = (joints.filter fun joint => joint.valid).map fun joint =>
              Event.circle s.color joint.x joint.y 5
                ((CSkeleton.marker_color s.colors id).getD (0, 0, 0))
                (if joint.confidence_level ≥ 2 then -1 else 1) := by
        rw [hm]
        rfl
      refine ⟨s1, evs, hs1, ht, ⟨_, hm2⟩, ?_⟩
      intro joint hjoint hvalid
      refine ⟨(CSkeleton.marker_color s.colors id).getD (0, 0, 0), ?_⟩
      have hmem : Event.circle s.color joint.x joint.y 5
          ((CSkeleton.marker_color s.colors id).getD (0, 0, 0))
          (if joint.confidence_level ≥ 2 then -1 else 1) ∈ evs.filter Event.is_circle := by
        rw [hm2]
        exact List.mem_map.mpr ⟨joint, List.mem_filter.mpr ⟨hjoint, hvalid⟩, rfl⟩
      rw [ht]
      exact List.mem_append_right _ (List.mem_filter.mp hmem).1
    · obtain ⟨s1, evs, hs1, ht, hm, _⟩ := cpp_skeleton_show_joints_draws
        { id := id, joints := joints } s'.color s'.colors joints hj s' rfl rfl
      have hm2 : evs.filter Event.is_circle
          = (joints.filter fun joint => joint.valid).map fun joint =>
              Event.circle s'.color joint.x joint.y 5
                ((CSkeleton.marker_color s'.colors id).getD (0, 0, 0))
                (if joint.confidence_level ≥ 2 then -1 else 1) := by
        rw [hm]
        rfl
      refine ⟨s1, evs, hs1, ht, ⟨_, hm2⟩, ?_⟩
      intro joint hjoint hvalid
      refine ⟨(CSkeleton.marker_color s'.colors id).getD (0, 0, 0), ?_⟩
      have hmem : Event.circle s'.color joint.x joint.y 5
          ((CSkeleton.marker_color s'.colors id).getD (0, 0, 0))
          (if joint.confidence_level ≥ 2 then -1 else 1) ∈ evs.filter Event.is_circle := by
        rw [hm2]
        exact List.mem_map.mpr ⟨joint, List.mem_filter.mpr ⟨hjoint, hvalid⟩, rfl⟩
      rw [ht]
      exact List.mem_append_right _ (List.mem_filter.mp hmem).1

/-- C20, at the joint of medium confidence seen in the first tick of a run in
which everything succeeds: its marker is drawn into the picture of the tick,
filled. -/
theorem C20_marker_thickness_witness :
    CSkeleton.marker_thickness CSkeleton.joint_ok = -1
      ∧ ∃ color, Event.circle (some { source := 5, conversions := 0 }) 10 20 5 color (-1)
          ∈ (CSkeleton.show_joints 1 [CSkeleton.joint_ok] CSkeleton.state_drawn).state.w.trace := by
  have h := C20_marker_thickness 1 [CSkeleton.joint_ok] CSkeleton.state_drawn
    CppSkeleton.state_ok
  refine ⟨(h.1 CSkeleton.joint_ok (by decide)).1.mpr (Or.inl rfl), ?_⟩
  obtain ⟨s1, evs, hs1, _, _, hall⟩ := (h.2.2.2 (by decide)).1
  obtain ⟨color, hc⟩ := hall CSkeleton.joint_ok (List.mem_singleton.mpr rfl) rfl
  rw [hs1]
  exact ⟨color, hc⟩

end AzureKinect
